import Mathlib

/-!
# Terra path tracer: geometry and acceleration structures

A shallow embedding of the intersection routines and acceleration structures of
`Terra.h`.  C `float` values are modelled by exact rationals, so the general statements
are about the real-number meaning of the formulas (no rounding, no overflow to
infinity).  The section on binary32 arithmetic models `float` itself, bit for bit in
value, and the routines `terra_ray_aabb_intersection`,
`terra_ray_triangle_intersection` and `terra_aabb_fit_triangle` over it (namespace
`Binary32`), for the concrete runs in which rounding or underflow decides the result.
Library routines the source calls (`sqrtf`, `qsort`) are taken as parameters.
-/

namespace Terra

/-! ## Math / basic types (`Terra.h` 16-50, 2433-2599) -/

/-- The constant `terra_Epsilon = 0.0001f`. -/
def terra_Epsilon : ℚ := 1 / 10000

/-- The constant `FLT_MAX` of `float.h`, `2^128 - 2^104`. -/
def FLT_MAX : ℚ := 340282346638528859811704183484516925440

/-- The struct `TerraFloat2`. -/
structure TerraFloat2 where
  x : ℚ
  y : ℚ
  deriving DecidableEq

/-- The struct `TerraFloat3`. -/
structure TerraFloat3 where
  x : ℚ
  y : ℚ
  z : ℚ
  deriving DecidableEq

/-- The struct `TerraRay`. -/
structure TerraRay where
  origin : TerraFloat3
  direction : TerraFloat3
  inv_direction : TerraFloat3
  deriving DecidableEq

/-- The struct `TerraTriangle`. -/
structure TerraTriangle where
  a : TerraFloat3
  b : TerraFloat3
  c : TerraFloat3
  deriving DecidableEq

/-- The struct `TerraTriangleProperties`. -/
structure TerraTriangleProperties where
  normal_a : TerraFloat3
  normal_b : TerraFloat3
  normal_c : TerraFloat3
  texcoord_a : TerraFloat2
  texcoord_b : TerraFloat2
  texcoord_c : TerraFloat2
  deriving DecidableEq

/-- The struct `TerraAABB`. -/
structure TerraAABB where
  min : TerraFloat3
  max : TerraFloat3
  deriving DecidableEq

def terra_f2_set (x y : ℚ) : TerraFloat2 := ⟨x, y⟩

def terra_f3_set (x y z : ℚ) : TerraFloat3 := ⟨x, y, z⟩

def terra_f3_set1 (xyz : ℚ) : TerraFloat3 := ⟨xyz, xyz, xyz⟩

def terra_addf3 (l r : TerraFloat3) : TerraFloat3 :=
  terra_f3_set (l.x + r.x) (l.y + r.y) (l.z + r.z)

def terra_addf2 (l r : TerraFloat2) : TerraFloat2 :=
  terra_f2_set (l.x + r.x) (l.y + r.y)

def terra_subf3 (l r : TerraFloat3) : TerraFloat3 :=
  terra_f3_set (l.x - r.x) (l.y - r.y) (l.z - r.z)

def terra_mulf2 (l : TerraFloat2) (scale : ℚ) : TerraFloat2 :=
  terra_f2_set (l.x * scale) (l.y * scale)

def terra_mulf3 (v : TerraFloat3) (scale : ℚ) : TerraFloat3 :=
  terra_f3_set (v.x * scale) (v.y * scale) (v.z * scale)

def terra_divf3 (v : TerraFloat3) (val : ℚ) : TerraFloat3 :=
  terra_f3_set (v.x / val) (v.y / val) (v.z / val)

def terra_dotf3 (a b : TerraFloat3) : ℚ :=
  a.x * b.x + a.y * b.y + a.z * b.z

def terra_crossf3 (a b : TerraFloat3) : TerraFloat3 :=
  terra_f3_set (a.y * b.z - a.z * b.y) (a.z * b.x - a.x * b.z) (a.x * b.y - a.y * b.x)

def terra_negf3 (v : TerraFloat3) : TerraFloat3 :=
  terra_f3_set (-v.x) (-v.y) (-v.z)

/-- The routine `terra_lenf3`; `sqrtf` is the C library square root. -/
def terra_lenf3 (sqrtf : ℚ → ℚ) (v : TerraFloat3) : ℚ :=
  sqrtf (v.x * v.x + v.y * v.y + v.z * v.z)

/-- The routine `terra_normf3`. -/
def terra_normf3 (sqrtf : ℚ → ℚ) (v : TerraFloat3) : TerraFloat3 :=
  let len := terra_lenf3 sqrtf v
  terra_f3_set (v.x / len) (v.y / len) (v.z / len)

def terra_maxf (a b : ℚ) : ℚ := if a > b then a else b

def terra_minf (a b : ℚ) : ℚ := if a < b then a else b

/-- Component `axis` of a vector: the C expression `terra__comp(float3, axis)`. -/
def terra__comp (v : TerraFloat3) (axis : Nat) : ℚ :=
  match axis with
  | 0 => v.x
  | 1 => v.y
  | _ => v.z

/-- Assignment through `terra__comp(float3, axis) = val`. -/
def terra__comp_set (v : TerraFloat3) (axis : Nat) (val : ℚ) : TerraFloat3 :=
  match axis with
  | 0 => { v with x := val }
  | 1 => { v with y := val }
  | _ => { v with z := val }

/-! ## Ray / triangle (`Terra.h` 1333-1369, the non-SSE branch) -/

/-- Local `a` of `terra_ray_triangle_intersection`: `e1 . (D x e2)`. -/
def rti_a (ray : TerraRay) (tri : TerraTriangle) : ℚ :=
  let e1 := terra_subf3 tri.b tri.a
  let e2 := terra_subf3 tri.c tri.a
  let h := terra_crossf3 ray.direction e2
  terra_dotf3 e1 h

/-- Local `u` of `terra_ray_triangle_intersection`. -/
def rti_u (ray : TerraRay) (tri : TerraTriangle) : ℚ :=
  let e2 := terra_subf3 tri.c tri.a
  let h := terra_crossf3 ray.direction e2
  let f := 1 / rti_a ray tri
  let s := terra_subf3 ray.origin tri.a
  f * terra_dotf3 s h

/-- Local `v` of `terra_ray_triangle_intersection`. -/
def rti_v (ray : TerraRay) (tri : TerraTriangle) : ℚ :=
  let e1 := terra_subf3 tri.b tri.a
  let f := 1 / rti_a ray tri
  let s := terra_subf3 ray.origin tri.a
  let q := terra_crossf3 s e1
  f * terra_dotf3 ray.direction q

/-- Local `t` of `terra_ray_triangle_intersection`. -/
def rti_t (ray : TerraRay) (tri : TerraTriangle) : ℚ :=
  let e1 := terra_subf3 tri.b tri.a
  let e2 := terra_subf3 tri.c tri.a
  let f := 1 / rti_a ray tri
  let s := terra_subf3 ray.origin tri.a
  let q := terra_crossf3 s e1
  f * terra_dotf3 e2 q

/-- The routine `terra_ray_triangle_intersection`: `none` is `return false`,
`some (point_out, t_out)` is `return true`. -/
def terra_ray_triangle_intersection (ray : TerraRay) (tri : TerraTriangle) :
    Option (TerraFloat3 × ℚ) :=
  let a := rti_a ray tri
  if a > -terra_Epsilon ∧ a < terra_Epsilon then none
  else
    let u := rti_u ray tri
    if u < 0 ∨ u > 1 then none
    else
      let v := rti_v ray tri
      if v < 0 ∨ u + v > 1 then none
      else
        let t := rti_t ray tri
        if t > 1 / 100000 then
          let offset := terra_mulf3 ray.direction t
          some (terra_addf3 offset ray.origin, t)
        else none

/-! ## Ray / AABB (`Terra.h` 1413-1440) -/

/-- The routine `terra_ray_aabb_intersection`: `none` is `return false`,
`some (tmin, tmax)` is `return true` with the two out values. -/
def terra_ray_aabb_intersection (ray : TerraRay) (aabb : TerraAABB) : Option (ℚ × ℚ) :=
  let t1 := (aabb.min.x - ray.origin.x) * ray.inv_direction.x
  let t2 := (aabb.max.x - ray.origin.x) * ray.inv_direction.x
  let tmin := terra_minf t1 t2
  let tmax := terra_maxf t1 t2
  let t1 := (aabb.min.y - ray.origin.y) * ray.inv_direction.y
  let t2 := (aabb.max.y - ray.origin.y) * ray.inv_direction.y
  let tmin := terra_maxf tmin (terra_minf t1 t2)
  let tmax := terra_minf tmax (terra_maxf t1 t2)
  let t1 := (aabb.min.z - ray.origin.z) * ray.inv_direction.z
  let t2 := (aabb.max.z - ray.origin.z) * ray.inv_direction.z
  let tmin := terra_maxf tmin (terra_minf t1 t2)
  let tmax := terra_minf tmax (terra_maxf t1 t2)
  if tmax > terra_maxf tmin 0 then some (tmin, tmax) else none

/-! ## Shading context (`Terra.h` 1442-1475) -/

/-- The struct `TerraFloat4`. -/
structure TerraFloat4 where
  x : ℚ
  y : ℚ
  z : ℚ
  w : ℚ
  deriving DecidableEq

/-- The struct `TerraFloat4x4`: the four rows. -/
structure TerraFloat4x4 where
  row0 : TerraFloat4
  row1 : TerraFloat4
  row2 : TerraFloat4
  row3 : TerraFloat4
  deriving DecidableEq

/-- The routine `terra_f4`. -/
def terra_f4 (x y z w : ℚ) : TerraFloat4 := ⟨x, y, z, w⟩

/-- The struct `TerraShadingContext`.  `terra_triangle_init_shading` writes `texcoord`
and `normal`; `view` and `rot` are written afterwards by `terra_trace` and are not read
before that (they stand at zero until then). -/
structure TerraShadingContext where
  texcoord : TerraFloat2
  normal : TerraFloat3
  view : TerraFloat3 := ⟨0, 0, 0⟩
  rot : TerraFloat4x4 := ⟨⟨0, 0, 0, 0⟩, ⟨0, 0, 0, 0⟩, ⟨0, 0, 0, 0⟩, ⟨0, 0, 0, 0⟩⟩
  deriving DecidableEq

/-- The routine `terra_triangle_init_shading`. -/
def terra_triangle_init_shading (sqrtf : ℚ → ℚ) (triangle : TerraTriangle)
    (properties : TerraTriangleProperties) (point : TerraFloat3) : TerraShadingContext :=
  let e0 := terra_subf3 triangle.b triangle.a
  let e1 := terra_subf3 triangle.c triangle.a
  let p := terra_subf3 point triangle.a
  let d00 := terra_dotf3 e0 e0
  let d11 := terra_dotf3 e1 e1
  let d01 := terra_dotf3 e0 e1
  let dp0 := terra_dotf3 p e0
  let dp1 := terra_dotf3 p e1
  let div := d00 * d11 - d01 * d01
  let uvx := (d11 * dp0 - d01 * dp1) / div
  let uvy := (d00 * dp1 - d01 * dp0) / div
  let na := terra_mulf3 properties.normal_c uvy
  let nb := terra_mulf3 properties.normal_b uvx
  let nc := terra_mulf3 properties.normal_a (1 - uvx - uvy)
  let normal := terra_addf3 na nb
  let normal := terra_addf3 normal nc
  let normal := terra_normf3 sqrtf normal
  let ta := terra_mulf2 properties.texcoord_c uvy
  let tb := terra_mulf2 properties.texcoord_b uvx
  let tc := terra_mulf2 properties.texcoord_a (1 - uvx - uvy)
  let texcoord := terra_addf2 ta tb
  let texcoord := terra_addf2 texcoord tc
  { texcoord := texcoord, normal := normal }

/-! ## AABB fitting (`Terra.h` 1480-1546, 1690-1699) -/

/-- The routine `terra_aabb_surface_area`. -/
def terra_aabb_surface_area (aabb : TerraAABB) : ℚ :=
  let w := aabb.max.x - aabb.min.x
  let h := aabb.max.y - aabb.min.y
  let d := aabb.max.z - aabb.min.z
  2 * (w * d + w * h + d * h)

/-- The routine `terra_aabb_center`. -/
def terra_aabb_center (aabb : TerraAABB) : TerraFloat3 :=
  terra_divf3 (terra_addf3 aabb.min aabb.max) 2

/-- The routine `terra_aabb_fit_triangle`. -/
def terra_aabb_fit_triangle (aabb : TerraAABB) (triangle : TerraTriangle) : TerraAABB :=
  let minx := terra_minf (terra_minf (terra_minf aabb.min.x triangle.a.x) triangle.b.x) triangle.c.x
  let miny := terra_minf (terra_minf (terra_minf aabb.min.y triangle.a.y) triangle.b.y) triangle.c.y
  let minz := terra_minf (terra_minf (terra_minf aabb.min.z triangle.a.z) triangle.b.z) triangle.c.z
  let maxx := terra_maxf (terra_maxf (terra_maxf aabb.max.x triangle.a.x) triangle.b.x) triangle.c.x
  let maxy := terra_maxf (terra_maxf (terra_maxf aabb.max.y triangle.a.y) triangle.b.y) triangle.c.y
  let maxz := terra_maxf (terra_maxf (terra_maxf aabb.max.z triangle.a.z) triangle.b.z) triangle.c.z
  { min := ⟨minx - terra_Epsilon, miny - terra_Epsilon, minz - terra_Epsilon⟩,
    max := ⟨maxx + terra_Epsilon, maxy + terra_Epsilon, maxz + terra_Epsilon⟩ }

/-- The routine `terra_aabb_fit_aabb`. -/
def terra_aabb_fit_aabb (aabb other : TerraAABB) : TerraAABB :=
  { min := ⟨terra_minf aabb.min.x other.min.x, terra_minf aabb.min.y other.min.y,
            terra_minf aabb.min.z other.min.z⟩,
    max := ⟨terra_maxf aabb.max.x other.max.x + terra_Epsilon,
            terra_maxf aabb.max.y other.max.y + terra_Epsilon,
            terra_maxf aabb.max.z other.max.z + terra_Epsilon⟩ }

/-- The box `min = +FLT_MAX`, `max = -FLT_MAX` every fit starts from. -/
def empty_aabb : TerraAABB :=
  { min := terra_f3_set1 FLT_MAX, max := terra_f3_set1 (-FLT_MAX) }

/-- Strict containment of a point in a box, on every axis. -/
def strictly_inside (v : TerraFloat3) (box : TerraAABB) : Prop :=
  box.min.x < v.x ∧ v.x < box.max.x ∧ box.min.y < v.y ∧ v.y < box.max.y ∧
  box.min.z < v.z ∧ v.z < box.max.z

/-! ## Scene and BVH types (`Terra.h` 181-187, 226-251, 320-333) -/

/-- The struct `TerraObject`, reduced to its triangle array (`triangles_count` is the
length of the list). -/
structure TerraObject where
  triangles : List TerraTriangle
  deriving DecidableEq

/-- The struct `TerraScene`, reduced to its object array. -/
structure TerraScene where
  objects : List TerraObject
  deriving DecidableEq

/-- The struct `TerraBVHVolume`; `index` is the 32-bit pattern of the packed reference. -/
structure TerraBVHVolume where
  aabb : TerraAABB
  index : Nat
  type : Int
  deriving DecidableEq

/-- The struct `TerraBVHNode`, the two slots of `aabb[2]`, `index[2]`, `type[2]`
written out. -/
structure TerraBVHNode where
  aabb0 : TerraAABB
  aabb1 : TerraAABB
  index0 : Nat
  index1 : Nat
  type0 : Int
  type1 : Int
  deriving DecidableEq

/-- The struct `TerraBVH`: the node array (capacity `2 * volumes_count`) and the number
of nodes allocated so far. -/
structure TerraBVH where
  nodes : List TerraBVHNode
  nodes_count : Nat
  deriving DecidableEq

/-- Contents of a node slot that was allocated but not written. -/
def blank_node : TerraBVHNode :=
  ⟨⟨⟨0, 0, 0⟩, ⟨0, 0, 0⟩⟩, ⟨⟨0, 0, 0⟩, ⟨0, 0, 0⟩⟩, 0, 0, 0, 0⟩

/-- Contents of a volume slot read outside the array. -/
def blank_volume : TerraBVHVolume := ⟨⟨⟨0, 0, 0⟩, ⟨0, 0, 0⟩⟩, 0, 0⟩

/-- The comparator `terra_bvh_volume_compare_x`: it returns `true` (1) or `false` (0). -/
def terra_bvh_volume_compare_x (left right : TerraBVHVolume) : Int :=
  if (terra_aabb_center left.aabb).x < (terra_aabb_center right.aabb).x then 1 else 0

/-- The packed reference `j | (i << 8)` stored as `unsigned int`. -/
def pack_index (j i : Nat) : Nat := (j ||| (i <<< 8)) % 2 ^ 32

/-- The volumes of object `j`, from triangle `i` on (inner loop of lines 1776-1782). -/
def object_volumes (j : Nat) : Nat → List TerraTriangle → List TerraBVHVolume
  | _, [] => []
  | i, t :: ts =>
    ⟨terra_aabb_fit_triangle empty_aabb t, pack_index j i, 1⟩ :: object_volumes j (i + 1) ts

/-- The volumes of the objects from object `j` on (outer loop of lines 1774-1783). -/
def scene_volumes_from : Nat → List TerraObject → List TerraBVHVolume
  | _, [] => []
  | j, o :: os => object_volumes j 0 o.triangles ++ scene_volumes_from (j + 1) os

/-- The array `volumes` after the loops of lines 1766-1783. -/
def scene_volumes (scene : TerraScene) : List TerraBVHVolume :=
  scene_volumes_from 0 scene.objects

/-- All triangles of the scene in object order. -/
def scene_triangles (scene : TerraScene) : List TerraTriangle :=
  scene.objects.flatMap (fun o => o.triangles)

/-- The box `scene_aabb` after the loops of lines 1774-1783. -/
def scene_aabb (scene : TerraScene) : TerraAABB :=
  (scene_triangles scene).foldl terra_aabb_fit_triangle empty_aabb

/-- The union box computed by the loops `terra_aabb_fit_aabb(&aabb, &volumes[i].aabb)`. -/
def fit_volumes (aabb : TerraAABB) (volumes : List TerraBVHVolume) : TerraAABB :=
  volumes.foldl (fun b v => terra_aabb_fit_aabb b v.aabb) aabb

/-- The running areas written by the two sweeps of `terra_bvh_sah_split_volumes`. -/
def area_sweep : TerraAABB → List TerraBVHVolume → List ℚ
  | _, [] => []
  | aabb, v :: vs =>
    terra_aabb_surface_area (terra_aabb_fit_aabb aabb v.aabb) ::
      area_sweep (terra_aabb_fit_aabb aabb v.aabb) vs

/-- The cost loop of `terra_bvh_sah_split_volumes` (lines 1733-1744), from index `i` on,
over the remaining entries of `left_area` and `right_area`; the accumulator is
`(min_cost, min_cost_idx)`. -/
def sah_cost_loop (volumes_count : Nat) (container_area : ℚ) :
    Nat → List ℚ → List ℚ → ℚ × Int → ℚ × Int
  | i, la :: las, ra :: ras, acc =>
    let left_count : Nat := i + 1
    let right_count : Int := (volumes_count : Int) - left_count
    let cost : ℚ := left_count * la / container_area + right_count * ra / container_area
    if cost < acc.1 then sah_cost_loop volumes_count container_area (i + 1) las ras (cost, i)
    else sah_cost_loop volumes_count container_area (i + 1) las ras acc
  | _, _, _, acc => acc

/-- The routine `terra_bvh_sah_split_volumes`: the sub-array after the in-place `qsort`
and the returned `min_cost_idx`.  `qsort` is the C library routine. -/
def terra_bvh_sah_split_volumes
    (qsort : (TerraBVHVolume → TerraBVHVolume → Int) → List TerraBVHVolume → List TerraBVHVolume)
    (volumes : List TerraBVHVolume) (container : Option TerraAABB) :
    List TerraBVHVolume × Int :=
  let volumes_count := volumes.length
  let container_area := match container with
    | some c => terra_aabb_surface_area c
    | none => FLT_MAX
  let volumes := qsort terra_bvh_volume_compare_x volumes
  let left_area := area_sweep empty_aabb (volumes.take (volumes_count - 1))
  let right_area := (area_sweep empty_aabb (volumes.reverse.take (volumes_count - 1))).reverse
  (volumes, (sah_cost_loop volumes_count container_area 0 left_area right_area (FLT_MAX, -1)).2)

/-- The local struct `StackTask` of `terra_bvh_create`; `aabb` holds the box the
pointer refers to. -/
structure StackTask where
  volumes_start : Nat
  volumes_end : Nat
  node_idx : Nat
  aabb : TerraAABB
  deriving DecidableEq

/-- The mutable state of the build loop of `terra_bvh_create`; the head of `stack` is
`stack[stack_idx - 1]`. -/
structure BVHBuild where
  volumes : List TerraBVHVolume
  nodes : List TerraBVHNode
  nodes_count : Nat
  stack : List StackTask
  deriving DecidableEq

/-- One iteration of `while (stack_idx > 0)` in `terra_bvh_create` (lines 1808-1876);
with an empty stack the state is final and stays. -/
def bvh_step
    (qsort : (TerraBVHVolume → TerraBVHVolume → Int) → List TerraBVHVolume → List TerraBVHVolume)
    (s : BVHBuild) : BVHBuild :=
  match s.stack with
  | [] => s
  | t :: rest =>
    let sub := (s.volumes.drop t.volumes_start).take (t.volumes_end - t.volumes_start)
    let r := terra_bvh_sah_split_volumes qsort sub (some t.aabb)
    let volumes := s.volumes.take t.volumes_start ++ r.1 ++ s.volumes.drop t.volumes_end
    let split_idx : Int := r.2 + t.volumes_start
    let split_end : Nat := (split_idx + 1).toNat
    -- left child
    let leftLeaf : Bool := split_idx == (t.volumes_start : Int)
    let aabb0 := if leftLeaf then (volumes.getD t.volumes_start blank_volume).aabb
      else fit_volumes empty_aabb ((volumes.drop t.volumes_start).take (split_end - t.volumes_start))
    let type0 : Int := if leftLeaf then (volumes.getD t.volumes_start blank_volume).type else -1
    let index0 := if leftLeaf then (volumes.getD t.volumes_start blank_volume).index
      else s.nodes_count
    let stack1 := if leftLeaf then rest
      else ⟨t.volumes_start, split_end, s.nodes_count, aabb0⟩ :: rest
    let count1 := if leftLeaf then s.nodes_count else s.nodes_count + 1
    -- right child
    let rightLeaf : Bool := split_idx == (t.volumes_end : Int) - 2
    let aabb1 := if rightLeaf then (volumes.getD (t.volumes_end - 1) blank_volume).aabb
      else fit_volumes empty_aabb ((volumes.drop split_end).take (t.volumes_end - split_end))
    let type1 : Int := if rightLeaf then (volumes.getD (t.volumes_end - 1) blank_volume).type
      else -1
    let index1 := if rightLeaf then (volumes.getD (t.volumes_end - 1) blank_volume).index
      else count1
    let stack2 := if rightLeaf then stack1
      else ⟨split_end, t.volumes_end, count1, aabb1⟩ :: stack1
    let count2 := if rightLeaf then count1 else count1 + 1
    { volumes := volumes,
      nodes := s.nodes.set t.node_idx ⟨aabb0, aabb1, index0, index1, type0, type1⟩,
      nodes_count := count2,
      stack := stack2 }

/-- The state of `terra_bvh_create` on entry to the build loop (lines 1786-1806). -/
def bvh_init (scene : TerraScene) : BVHBuild :=
  let volumes := scene_volumes scene
  { volumes := volumes,
    nodes := List.replicate (volumes.length * 2) blank_node,
    nodes_count := 1,
    stack := [⟨0, volumes.length, 0, scene_aabb scene⟩] }

/-- The build loop run for at most `fuel` iterations. -/
def bvh_run
    (qsort : (TerraBVHVolume → TerraBVHVolume → Int) → List TerraBVHVolume → List TerraBVHVolume) :
    Nat → BVHBuild → BVHBuild
  | 0, s => s
  | fuel + 1, s => bvh_run qsort fuel (bvh_step qsort s)

/-- The routine `terra_bvh_create`: the BVH once the work stack has drained, `none` when
it has not drained within `fuel` iterations. -/
def terra_bvh_create
    (qsort : (TerraBVHVolume → TerraBVHVolume → Int) → List TerraBVHVolume → List TerraBVHVolume)
    (scene : TerraScene) (fuel : Nat) : Option TerraBVH :=
  let s := bvh_run qsort fuel (bvh_init scene)
  if s.stack = [] then some ⟨s.nodes, s.nodes_count⟩ else none

/-! ## Specification-level predicates -/

/-- Box `outer` contains box `inner` on every axis. -/
def box_contains (outer inner : TerraAABB) : Prop :=
  ∀ k : Nat, terra__comp outer.min k ≤ terra__comp inner.min k ∧
    terra__comp inner.max k ≤ terra__comp outer.max k

/-- A volume as `terra_bvh_create` makes them from finite floats: tagged as a primitive,
at least `2 ε` wide on every axis, and within the `float` range. -/
def vol_ok (v : TerraBVHVolume) : Prop :=
  v.type = 1 ∧ ∀ k : Nat, terra__comp v.aabb.min k + 2 * terra_Epsilon ≤ terra__comp v.aabb.max k ∧
    terra__comp v.aabb.min k ≤ FLT_MAX ∧ -FLT_MAX ≤ terra__comp v.aabb.max k

/-- `SlotTree nodes type index aabb us l`: the child slot `(type, index, aabb)` is the
root of a finished subtree of `nodes`; `us` lists the node indices the subtree uses and
`l` its leaf slots from left to right.  A leaf slot (type 1) holds the fields of one
volume; an internal slot (type -1) refers to node `index`, whose two slots are
subtrees, and its box contains the boxes of all leaves below. -/
inductive SlotTree (nodes : List TerraBVHNode) :
    Int → Nat → TerraAABB → List Nat → List TerraBVHVolume → Prop
  | leaf (index : Nat) (aabb : TerraAABB) : SlotTree nodes 1 index aabb [] [⟨aabb, index, 1⟩]
  | inner (index : Nat) (aabb : TerraAABB) (nd : TerraBVHNode) (us0 us1 : List Nat)
      (l0 l1 : List TerraBVHVolume) :
      nodes[index]? = some nd →
      SlotTree nodes nd.type0 nd.index0 nd.aabb0 us0 l0 →
      SlotTree nodes nd.type1 nd.index1 nd.aabb1 us1 l1 →
      (∀ v ∈ l0 ++ l1, box_contains aabb v.aabb) →
      SlotTree nodes (-1) index aabb (index :: (us0 ++ us1)) (l0 ++ l1)

/-- A child slot `(ty, ix, bb)` over the range `sub` is completed between the states `s`
and `s'`: the stack is down to `rest`, `sub.length - 2` nodes were allocated (none for a
single volume), only the range was permuted, only the slot's node and the new nodes
were written, and the slot roots a finished subtree whose leaves are the volumes of
the range. -/
def ChildDone (s s' : BVHBuild) (rest : List StackTask) (A sub B : List TerraBVHVolume)
    (ty : Int) (ix : Nat) (bb : TerraAABB) : Prop :=
  ∃ (p : List TerraBVHVolume) (us : List Nat) (l : List TerraBVHVolume),
    s'.stack = rest ∧
    s'.nodes_count = s.nodes_count + (sub.length - 2) ∧
    s'.nodes.length = s.nodes.length ∧
    (∀ j, (sub.length ≠ 1 → j ≠ ix) →
      (j < s.nodes_count ∨ s.nodes_count + (sub.length - 2) ≤ j) → s'.nodes[j]? = s.nodes[j]?) ∧
    s'.volumes = A ++ p ++ B ∧ p.Perm sub ∧
    SlotTree s'.nodes ty ix bb us l ∧ l.Perm p ∧
    (∀ j ∈ us, (j = ix ∧ sub.length ≠ 1) ∨
      (s.nodes_count ≤ j ∧ j < s.nodes_count + (sub.length - 2))) ∧
    us.length = sub.length - 1

/-- The statement that the build loop completes every task over `k` volumes: from a
state whose top task `t` covers the range `sub` (`k ≥ 2` well-formed volumes inside the
task's box), `k - 1` iterations complete the internal slot `(-1, t.node_idx, t.aabb)`. -/
def TaskCompletes
    (qsort : (TerraBVHVolume → TerraBVHVolume → Int) → List TerraBVHVolume → List TerraBVHVolume)
    (k : Nat) : Prop :=
  ∀ (s : BVHBuild) (t : StackTask) (rest : List StackTask) (A sub B : List TerraBVHVolume),
    sub.length = k → 2 ≤ k → sub.length ≤ 2 ^ 32 →
    s.stack = t :: rest → s.volumes = A ++ sub ++ B →
    t.volumes_start = A.length → t.volumes_end = A.length + sub.length →
    (∀ v ∈ sub, vol_ok v) → (∀ v ∈ sub, box_contains t.aabb v.aabb) →
    t.node_idx < s.nodes_count → s.nodes_count + (k - 2) ≤ s.nodes.length →
    ChildDone s (bvh_run qsort (k - 1) s) rest A sub B (-1) t.node_idx t.aabb

/-- The `(object, triangle)` pairs of the objects from object `j` on. -/
def scene_pairs_from : Nat → List TerraObject → List (Nat × Nat)
  | _, [] => []
  | j, o :: os =>
    (List.range' 0 o.triangles.length).map (fun i => (j, i)) ++ scene_pairs_from (j + 1) os

/-- The `(object, triangle)` pairs of the scene, each once. -/
def scene_pairs (scene : TerraScene) : List (Nat × Nat) :=
  scene_pairs_from 0 scene.objects

/-- The reference held by a leaf slot, read as `TerraPrimitiveRef`: `object_idx` in the
low 8 bits and `triangle_idx` in the upper 24 (lines 1915-1916). -/
def slot_ref (v : TerraBVHVolume) : Nat × Nat := (v.index &&& 0xff, v.index >>> 8)

/-- The leaf slots reachable from the child slot `(type, index, aabb)`, left to right:
a slot of type 1 is a leaf slot, a slot of type -1 refers to node `index`, which must
lie below `nodes_count`; any other tag, a child index outside the nodes, or running
out of `fuel` (a path longer than `fuel` nodes) gives `none`. -/
def bvh_leaf_slots (bvh : TerraBVH) : Nat → Int → Nat → TerraAABB → Option (List TerraBVHVolume)
  | 0, ty, ix, bb => if ty = 1 then some [⟨bb, ix, 1⟩] else none
  | fuel + 1, ty, ix, bb =>
    if ty = 1 then some [⟨bb, ix, 1⟩]
    else if ty = -1 ∧ ix < bvh.nodes_count then
      match bvh.nodes[ix]? with
      | none => none
      | some nd =>
        match bvh_leaf_slots bvh fuel nd.type0 nd.index0 nd.aabb0,
            bvh_leaf_slots bvh fuel nd.type1 nd.index1 nd.aabb1 with
        | some l0, some l1 => some (l0 ++ l1)
        | _, _ => none
    else none

/-- The primitive references in the leaf slots reachable from node 0. -/
def bvh_leaf_refs (bvh : TerraBVH) : Option (List (Nat × Nat)) :=
  (bvh_leaf_slots bvh bvh.nodes_count (-1) 0 ⟨⟨0, 0, 0⟩, ⟨0, 0, 0⟩⟩).map (List.map slot_ref)

/-! ## Textures (`Terra.h` 99-140, 1548-1640) -/

/-- The enum `TerraFilter`. -/
inductive TerraFilter where
  | kTerraFilterPoint
  | kTerraFilterBilinear
  deriving DecidableEq

/-- The enum `TerraTextureAddressMode`. -/
inductive TerraTextureAddressMode where
  | kTerraTextureAddressWrap
  | kTerraTextureAddressMirror
  | kTerraTextureAddressClamp
  deriving DecidableEq

/-- The struct `TerraTexture`; `pixels` is `none` for a `NULL` pointer, else the bytes. -/
structure TerraTexture where
  pixels : Option (List Nat)
  width : Nat
  height : Nat
  comps : Nat
  offset : Nat
  filter : TerraFilter
  address_mode : TerraTextureAddressMode
  srgb : Bool
  deriving DecidableEq

/-- The C conversion `(int)q` of a float: truncation toward zero. -/
def c_int (q : ℚ) : Int := Int.tdiv q.num q.den

/-- The C macro `min(a, b)` on `int`. -/
def c_min (a b : Int) : Int := if a < b then a else b

/-- The coordinates `(x, y)` after the `switch (texture->address_mode)` of
`terra_read_texture` (lines 1550-1574); `/` and `%` are the C operators on `int`. -/
def terra_read_texture_coords (texture : TerraTexture) (x y : Int) : Int × Int :=
  match texture.address_mode with
  | .kTerraTextureAddressClamp =>
    (c_int (terra_minf (x : ℚ) (((texture.width : Int) - 1 : Int) : ℚ)),
     c_int (terra_minf (y : ℚ) (((texture.height : Int) - 1 : Int) : ℚ)))
  | .kTerraTextureAddressWrap =>
    (Int.tmod x texture.width, Int.tmod y texture.height)
  | .kTerraTextureAddressMirror =>
    if Int.tmod (Int.tdiv x texture.width) 2 = 0 then
      (Int.tmod x texture.width, Int.tmod y texture.height)
    else
      ((texture.width : Int) - Int.tmod x texture.width,
       (texture.height : Int) - Int.tmod y texture.height)

/-- The index `(y * width + x) * comps + offset` of the first byte fetched. -/
def texel_index (texture : TerraTexture) (x y : Int) : Int :=
  (y * texture.width + x) * texture.comps + texture.offset

/-- The three bytes `pixel[0..2]` at a byte index, `none` when the index is negative or
the bytes lie outside the pixel array (or the array is `NULL`). -/
def fetch_rgb (pixels : Option (List Nat)) (idx : Int) : Option TerraFloat3 :=
  match pixels with
  | none => none
  | some px =>
    if idx < 0 then none
    else
      match px[idx.toNat]?, px[idx.toNat + 1]?, px[idx.toNat + 2]? with
      | some r, some g, some b => some (terra_f3_set ((r : ℚ) / 255) ((g : ℚ) / 255) ((b : ℚ) / 255))
      | _, _, _ => none

/-- The routine `terra_read_texture`; `none` is a read outside the pixel array. -/
def terra_read_texture (texture : TerraTexture) (x y : Int) : Option TerraFloat3 :=
  let c := terra_read_texture_coords texture x y
  fetch_rgb texture.pixels (texel_index texture c.1 c.2)

/-- The routine `terra_sample_texture`; `none` is a read outside the pixel array. -/
def terra_sample_texture (texture : TerraTexture) (uv : TerraFloat2) : Option TerraFloat3 :=
  let mapped_uv := terra_f2_set (uv.x * texture.width - 1 / 2) (uv.y * texture.height - 1 / 2)
  let ix := c_int mapped_uv.x
  let iy := c_int mapped_uv.y
  match texture.filter with
  | .kTerraFilterPoint => terra_read_texture texture ix iy
  | .kTerraFilterBilinear =>
    let x1 := ix
    let y1 := iy
    let x2 := c_min (ix + 1) ((texture.width : Int) - 1)
    let y2 := iy
    let x3 := ix
    let y3 := c_min (iy + 1) ((texture.height : Int) - 1)
    let x4 := c_min (ix + 1) ((texture.width : Int) - 1)
    let y4 := c_min (iy + 1) ((texture.height : Int) - 1)
    match terra_read_texture texture x1 y1, terra_read_texture texture x2 y2,
        terra_read_texture texture x3 y3, terra_read_texture texture x4 y4 with
    | some n1, some n2, some n3, some n4 =>
      let w_u := mapped_uv.x - ix
      let w_v := mapped_uv.y - iy
      let w_ou := 1 - w_u
      let w_ov := 1 - w_v
      some ⟨(n1.x * w_ou + n2.x * w_u) * w_ov + (n3.x * w_ou + n4.x * w_u) * w_v,
            (n1.y * w_ou + n2.y * w_u) * w_ov + (n3.y * w_ou + n4.y * w_u) * w_v,
            (n1.z * w_ou + n2.z * w_u) * w_ov + (n3.z * w_ou + n4.z * w_u) * w_v⟩
    | _, _, _, _ => none

/-! ## Framebuffer and render loop (`Terra.h` 189-218, 342-372, 542-560, 886-1008) -/

/-- The enum `TerraTonemappingOperator`. -/
inductive TerraTonemappingOperator where
  | kTerraTonemappingOperatorNone
  | kTerraTonemappingOperatorLinear
  | kTerraTonemappingOperatorReinhard
  | kTerraTonemappingOperatorFilmic
  | kTerraTonemappingOperatorUncharted2
  deriving DecidableEq

/-- The enum `TerraAccelerator`. -/
inductive TerraAccelerator where
  | kTerraAcceleratorBVH
  | kTerraAcceleratorKDTree
  deriving DecidableEq

/-- The struct `TerraHDRTexture`; `pixels` is `none` for `NULL`, else the floats. -/
structure TerraHDRTexture where
  pixels : Option (List ℚ)
  width : Nat
  height : Nat
  deriving DecidableEq

/-- The struct `TerraSceneOptions`. -/
structure TerraSceneOptions where
  environment_map : TerraHDRTexture
  tonemapping_operator : TerraTonemappingOperator
  accelerator : TerraAccelerator
  enable_direct_light_sampling : Bool
  subpixel_jitter : ℚ
  samples_per_pixel : Int
  bounces : Int
  manual_exposure : ℚ
  gamma : ℚ
  deriving DecidableEq

/-- The struct `TerraRawIntegrationResult`. -/
structure TerraRawIntegrationResult where
  acc : TerraFloat3
  samples : Int
  deriving DecidableEq

/-- The struct `TerraFramebuffer`. -/
structure TerraFramebuffer where
  pixels : List TerraFloat3
  results : List TerraRawIntegrationResult
  width : Int
  height : Int
  deriving DecidableEq

/-- The macro `terra_f3_zero`. -/
def terra_f3_zero : TerraFloat3 := terra_f3_set1 0

/-- The macro `terra_f3_one`. -/
def terra_f3_one : TerraFloat3 := terra_f3_set1 1

/-- The routine `terra_powf3`; `powf` is the C library routine. -/
def terra_powf3 (powf : ℚ → ℚ → ℚ) (v : TerraFloat3) (exp : ℚ) : TerraFloat3 :=
  terra_f3_set (powf v.x exp) (powf v.y exp) (powf v.z exp)

/-- The routine `terra_pointf3`. -/
def terra_pointf3 (a b : TerraFloat3) : TerraFloat3 :=
  terra_f3_set (a.x * b.x) (a.y * b.y) (a.z * b.z)

/-- The routine `terra_framebuffer_create`: the returned flag and the framebuffer
afterwards. -/
def terra_framebuffer_create (framebuffer : TerraFramebuffer) (width height : Int) :
    Bool × TerraFramebuffer :=
  if width = 0 ∨ height = 0 then (false, framebuffer)
  else
    (true,
      { width := width, height := height,
        pixels := List.replicate (width * height).toNat terra_f3_zero,
        results := List.replicate (width * height).toNat ⟨terra_f3_zero, 0⟩ })

/-- The routine `terra_tonemapping_uncharted2`. -/
def terra_tonemapping_uncharted2 (x : TerraFloat3) : TerraFloat3 :=
  let A : ℚ := 15 / 100
  let B : ℚ := 1 / 2
  let C : ℚ := 1 / 10
  let D : ℚ := 2 / 10
  let E : ℚ := 2 / 100
  let F : ℚ := 3 / 10
  ⟨((x.x * (A * x.x + C * B) + D * E) / (x.x * (A * x.x + B) + D * F)) - E / F,
   ((x.y * (A * x.y + C * B) + D * E) / (x.y * (A * x.y + B) + D * F)) - E / F,
   ((x.z * (A * x.z + C * B) + D * E) / (x.z * (A * x.z + B) + D * F)) - E / F⟩

/-- The `switch (scene->opts.tonemapping_operator)` of `terra_render` (lines 942-998)
applied to the exposed colour. -/
def terra_tonemap (powf : ℚ → ℚ → ℚ) (opts : TerraSceneOptions) (color : TerraFloat3) :
    TerraFloat3 :=
  match opts.tonemapping_operator with
  | .kTerraTonemappingOperatorNone => color
  | .kTerraTonemappingOperatorLinear => terra_powf3 powf color (1 / opts.gamma)
  | .kTerraTonemappingOperatorReinhard =>
    terra_powf3 powf
      ⟨color.x / (1 + color.x), color.y / (1 + color.y), color.z / (1 + color.z)⟩
      (1 / opts.gamma)
  | .kTerraTonemappingOperatorFilmic =>
    let x : TerraFloat3 :=
      ⟨terra_maxf 0 (color.x - 4 / 1000), terra_maxf 0 (color.y - 4 / 1000),
       terra_maxf 0 (color.z - 4 / 1000)⟩
    -- `color.x` is assigned twice; `color.z` keeps the exposed value
    ⟨(x.z * (62 / 10 * x.z + 1 / 2)) / (x.z * (62 / 10 * x.z + 17 / 10) + 6 / 100),
     (x.y * (62 / 10 * x.y + 1 / 2)) / (x.y * (62 / 10 * x.y + 17 / 10) + 6 / 100),
     color.z⟩
  | .kTerraTonemappingOperatorUncharted2 =>
    let linear_white := terra_f3_set1 (112 / 10)
    let ws := terra_tonemapping_uncharted2 linear_white
    let white_scale : TerraFloat3 := ⟨1 / ws.x, 1 / ws.y, 1 / ws.z⟩
    let exposure_bias : ℚ := 2
    let t := terra_tonemapping_uncharted2 (terra_mulf3 color exposure_bias)
    terra_powf3 powf (terra_pointf3 t white_scale) (1 / opts.gamma)

/-- The sample loop of `terra_render` (lines 914-930) for pixel `(j, i)`: `n` iterations
from accumulator `acc` and random-stream state `rng`.  `sample rng j i` stands for
`terra_trace(scene, terra_camera_ray(camera, framebuffer, j, i, jitter, &rot))` run on
the stream state `rng`: the radiance and the stream state afterwards. -/
def sample_loop {σ : Type} (sample : σ → Nat → Nat → TerraFloat3 × σ) (j i : Nat) :
    Nat → TerraFloat3 → σ → TerraFloat3 × σ
  | 0, acc, rng => (acc, rng)
  | n + 1, acc, rng =>
    sample_loop sample j i n (terra_addf3 acc (sample rng j i).1) (sample rng j i).2

/-- Lines 932-1000 of `terra_render`: the accumulator `acc` of the new samples is added
to the stored result at `idx`, and the output pixel is recomputed. -/
def accumulate_pixel (powf : ℚ → ℚ → ℚ) (opts : TerraSceneOptions) (fb : TerraFramebuffer)
    (idx : Nat) (acc : TerraFloat3) : TerraFramebuffer :=
  let old := fb.results.getD idx ⟨terra_f3_zero, 0⟩
  let part : TerraRawIntegrationResult :=
    ⟨terra_addf3 acc old.acc, old.samples + opts.samples_per_pixel⟩
  let color := terra_divf3 part.acc (part.samples : ℚ)
  let color := terra_mulf3 color opts.manual_exposure
  let color := terra_tonemap powf opts color
  { fb with results := fb.results.set idx part, pixels := fb.pixels.set idx color }

/-- The index `i * framebuffer->width + j` of pixel `(j, i)`. -/
def pixel_index (fb : TerraFramebuffer) (p : Nat × Nat) : Nat :=
  ((p.2 : Int) * fb.width + (p.1 : Int)).toNat

/-- The body of the two pixel loops of `terra_render` for pixel `p = (j, i)`. -/
def render_pixel {σ : Type} (powf : ℚ → ℚ → ℚ) (sample : σ → Nat → Nat → TerraFloat3 × σ)
    (opts : TerraSceneOptions) (st : TerraFramebuffer × σ) (p : Nat × Nat) :
    TerraFramebuffer × σ :=
  let r := sample_loop sample p.1 p.2 opts.samples_per_pixel.toNat terra_f3_zero st.2
  (accumulate_pixel powf opts st.1 (pixel_index st.1 p) r.1, r.2)

/-- The pixels `(j, i)` of the tile `[x, x+width) × [y, y+height)` in loop order. -/
def tile_pixels (x y width height : Nat) : List (Nat × Nat) :=
  (List.range' y height).flatMap (fun i => (List.range' x width).map (fun j => (j, i)))

/-- The pixel loops run over a list of pixels. -/
def render_pixels {σ : Type} (powf : ℚ → ℚ → ℚ) (sample : σ → Nat → Nat → TerraFloat3 × σ)
    (opts : TerraSceneOptions) (l : List (Nat × Nat)) (st : TerraFramebuffer × σ) :
    TerraFramebuffer × σ :=
  l.foldl (render_pixel powf sample opts) st

/-- The routine `terra_render` on the tile `(x, y, width, height)`: the framebuffer and
the random-stream state afterwards (the timing statistics are not modelled). -/
def terra_render {σ : Type} (powf : ℚ → ℚ → ℚ) (sample : σ → Nat → Nat → TerraFloat3 × σ)
    (opts : TerraSceneOptions) (fb : TerraFramebuffer) (rng : σ) (x y width height : Nat) :
    TerraFramebuffer × σ :=
  render_pixels powf sample opts (tile_pixels x y width height) (fb, rng)

/-- A sample routine whose radiance is the position in the random stream: on stream
state `k` the radiance is `(k, 0, 0)` and the state afterwards is `k + 1`. -/
def counter_sample (rng : Nat) (_j _i : Nat) : TerraFloat3 × Nat :=
  (⟨(rng : ℚ), 0, 0⟩, rng + 1)

/-- A sample routine whose radiance ignores the random stream: pixel `(j, i)` always
gets `(j, i, 1)`. -/
def fixed_sample (rng : Nat) (j i : Nat) : TerraFloat3 × Nat :=
  (⟨(j : ℚ), (i : ℚ), 1⟩, rng + 1)

/-- Scene options with the given tone-mapping operator and `samples_per_pixel`,
exposure `1` and gamma `1`. -/
def options_with (op : TerraTonemappingOperator) (spp : Int) : TerraSceneOptions :=
  { environment_map := ⟨none, 0, 0⟩, tonemapping_operator := op,
    accelerator := .kTerraAcceleratorBVH, enable_direct_light_sampling := false,
    subpixel_jitter := 0, samples_per_pixel := spp, bounces := 1, manual_exposure := 1,
    gamma := 1 }

/-- The framebuffer `terra_framebuffer_create` makes for the given size. -/
def fresh_framebuffer (width height : Int) : TerraFramebuffer :=
  (terra_framebuffer_create ⟨[], [], 0, 0⟩ width height).2

/-- Successive calls of `terra_render`, one per tile `(x, y, width, height)` of the list,
on the same framebuffer and the same process-wide random stream. -/
def render_tiles {σ : Type} (powf : ℚ → ℚ → ℚ) (sample : σ → Nat → Nat → TerraFloat3 × σ)
    (opts : TerraSceneOptions) (tiles : List (Nat × Nat × Nat × Nat))
    (st : TerraFramebuffer × σ) : TerraFramebuffer × σ :=
  tiles.foldl (fun s t => terra_render powf sample opts s.1 s.2 t.1 t.2.1 t.2.2.1 t.2.2.2) st

/-! ## Path tracing (`Terra.h` 596-631, 692-866, 1044-1065, 1683-1688, 2589-2594) -/

/-- The constant `terra_PI` (`3.1416926535f`). -/
def terra_PI : ℚ := 31416926535 / 10000000000

/-- The routine `terra_transformf3`: the first three rows against the vector. -/
def terra_transformf3 (transform : TerraFloat4x4) (vec : TerraFloat3) : TerraFloat3 :=
  terra_f3_set
    (terra_dotf3 ⟨transform.row0.x, transform.row0.y, transform.row0.z⟩ vec)
    (terra_dotf3 ⟨transform.row1.x, transform.row1.y, transform.row1.z⟩ vec)
    (terra_dotf3 ⟨transform.row2.x, transform.row2.y, transform.row2.z⟩ vec)

/-- The struct `TerraShadingState`. -/
structure TerraShadingState where
  half_vector : TerraFloat3
  albedo : TerraFloat3
  roughness : ℚ
  metalness : ℚ
  emissive : ℚ
  fresnel : ℚ
  deriving DecidableEq

/-- The struct `TerraAttribute`. -/
structure TerraAttribute where
  value : TerraFloat3
  map : TerraTexture
  deriving DecidableEq

/-- The data members of `TerraMaterial`. -/
structure TerraMaterialAttributes where
  albedo : TerraAttribute
  roughness : TerraAttribute
  metalness : TerraAttribute
  emissive : TerraAttribute
  ior : ℚ
  deriving DecidableEq

/-- The enum `TerraBSDFType`. -/
inductive TerraBSDFType where
  | kTerraBSDFDiffuse
  | kTerraBSDFRoughDielectric
  | kTerraBSDFGlass
  deriving DecidableEq

/-- The struct `TerraBSDF`: the three routine pointers and the type.  The routines
receive the data members of the material they are called with; `sample` also returns the
shading state it leaves behind; `none` is a texture read outside its buffer. -/
structure TerraBSDF where
  sample : TerraMaterialAttributes → TerraShadingState → TerraShadingContext → ℚ → ℚ → ℚ →
    Option (TerraFloat3 × TerraShadingState)
  weight : TerraMaterialAttributes → TerraShadingState → TerraFloat3 → TerraShadingContext →
    Option ℚ
  shade : TerraMaterialAttributes → TerraShadingState → TerraFloat3 → TerraShadingContext →
    Option TerraFloat3
  type : TerraBSDFType

/-- The struct `TerraMaterial`. -/
structure TerraMaterial where
  bsdf : TerraBSDF
  attributes : TerraMaterialAttributes

/-- The struct `TerraLight`. -/
structure TerraLight where
  center : TerraFloat3
  radius : ℚ
  aabb : TerraAABB
  emissive : ℚ
  deriving DecidableEq

/-- The routine `terra_eval_attribute`. -/
def terra_eval_attribute (attr : TerraAttribute) (uv : TerraFloat2) : Option TerraFloat3 :=
  if attr.map.pixels ≠ none then terra_sample_texture attr.map uv
  else some attr.value

/-- The routine `terra_build_rotation_around_normal`. -/
def terra_build_rotation_around_normal (sqrtf : ℚ → ℚ) (ctx : TerraShadingContext) :
    TerraShadingContext :=
  let normal := ctx.normal
  let normalt : TerraFloat3 :=
    if |normal.x| > |normal.y| then
      terra_mulf3 (terra_f3_set normal.z 0 (-normal.x))
        (sqrtf (normal.x * normal.x + normal.z * normal.z))
    else
      terra_mulf3 (terra_f3_set 0 (-normal.z) normal.y)
        (sqrtf (normal.y * normal.y + normal.z * normal.z))
  let normalbt := terra_crossf3 normal normalt
  { ctx with
    rot := ⟨terra_f4 normalt.x ctx.normal.x normalbt.x 0,
            terra_f4 normalt.y ctx.normal.y normalbt.y 0,
            terra_f4 normalt.z ctx.normal.z normalbt.z 0,
            terra_f4 0 0 0 1⟩ }

/-- The routine `terra_ray_create`. -/
def terra_ray_create (point direction normal : TerraFloat3) (sign : ℚ) : TerraRay :=
  let offset := terra_mulf3 normal (1 / 10000 * sign)
  { origin := terra_addf3 point offset, direction := direction,
    inv_direction := ⟨1 / direction.x, 1 / direction.y, 1 / direction.z⟩ }

/-- The second loop of `terra_light_pick_power_proportional`: the picked light and the
recomputed `e1`; `none` is the failing `assert(light_idx >= 0)`. -/
def light_pick_loop (total_light_power : ℚ) : List TerraLight → ℚ → Option (TerraLight × ℚ)
  | [], _ => none
  | light :: rest, alpha_acc =>
    let alpha := light.emissive / total_light_power
    let alpha_acc := alpha_acc - alpha
    if alpha_acc ≤ 0 then some (light, (alpha_acc + alpha) / alpha)
    else light_pick_loop total_light_power rest alpha_acc

/-- The routine `terra_light_pick_power_proportional`. -/
def terra_light_pick_power_proportional (lights : List TerraLight) (e1 : ℚ) :
    Option (TerraLight × ℚ) :=
  let total_light_power := lights.foldl (fun acc light => acc + light.emissive) 0
  light_pick_loop total_light_power lights e1

/-- The routine `terra_lookatf4x4`. -/
def terra_lookatf4x4 (sqrtf : ℚ → ℚ) (normal : TerraFloat3) : TerraFloat4x4 :=
  let normalt : TerraFloat3 :=
    if |normal.x| > |normal.y| then
      terra_mulf3 (terra_f3_set normal.z 0 (-normal.x))
        (sqrtf (normal.x * normal.x + normal.z * normal.z))
    else
      terra_mulf3 (terra_f3_set 0 (-normal.z) normal.y)
        (sqrtf (normal.y * normal.y + normal.z * normal.z))
  let normalbt := terra_crossf3 normal normalt
  ⟨terra_f4 normalt.x normal.x normalbt.x 0, terra_f4 normalt.y normal.y normalbt.y 0,
   terra_f4 normalt.z normal.z normalbt.z 0, terra_f4 0 0 0 1⟩

/-- The routine `terra_light_sample_disk`; `sqrtf`, `cosf`, `sinf` are the C library
routines. -/
def terra_light_sample_disk (sqrtf cosf sinf : ℚ → ℚ) (light : TerraLight)
    (surface_point : TerraFloat3) (e1 e2 : ℚ) : TerraFloat3 :=
  let disk_offset : TerraFloat3 :=
    ⟨light.radius * sqrtf e1 * cosf (2 * terra_PI * e2), 0,
     light.radius * sqrtf e1 * sinf (2 * terra_PI * e2)⟩
  let light_dir := terra_subf3 light.center surface_point
  let light_dir := terra_normf3 sqrtf light_dir
  let sample_rotation := terra_lookatf4x4 sqrtf light_dir
  let disk_offset := terra_transformf3 sample_rotation disk_offset
  terra_addf3 light.center disk_offset

/-- The routine `terra_bsdf_diffuse_sample`. -/
def terra_bsdf_diffuse_sample (sqrtf cosf sinf : ℚ → ℚ) (_material : TerraMaterialAttributes)
    (state : TerraShadingState) (ctx : TerraShadingContext) (e1 e2 _e3 : ℚ) :
    Option (TerraFloat3 × TerraShadingState) :=
  let r := sqrtf e1
  let theta := 2 * terra_PI * e2
  let x := r * cosf theta
  let z := r * sinf theta
  let light := terra_f3_set x (sqrtf (terra_maxf 0 (1 - e1))) z
  some (terra_transformf3 ctx.rot light, state)

/-- The routine `terra_bsdf_diffuse_weight`. -/
def terra_bsdf_diffuse_weight (_material : TerraMaterialAttributes) (_state : TerraShadingState)
    (light : TerraFloat3) (ctx : TerraShadingContext) : Option ℚ :=
  some (terra_dotf3 ctx.normal light / terra_PI)

/-- The routine `terra_bsdf_diffuse_shade`. -/
def terra_bsdf_diffuse_shade (material : TerraMaterialAttributes) (_state : TerraShadingState)
    (light : TerraFloat3) (ctx : TerraShadingContext) : Option TerraFloat3 :=
  match terra_eval_attribute material.albedo ctx.texcoord with
  | none => none
  | some albedo =>
    let NoL := terra_maxf 0 (terra_dotf3 ctx.normal light)
    some (terra_mulf3 albedo (NoL / terra_PI))

/-- The routine `terra_bsdf_init_diffuse`: the three routine pointers are set, `type` is
left as it was. -/
def terra_bsdf_init_diffuse (sqrtf cosf sinf : ℚ → ℚ) (bsdf : TerraBSDF) : TerraBSDF :=
  { bsdf with
    sample := terra_bsdf_diffuse_sample sqrtf cosf sinf,
    weight := terra_bsdf_diffuse_weight,
    shade := terra_bsdf_diffuse_shade }

/-- The local state of the bounce loop of `terra_trace`, with the random-stream state. -/
structure TraceState (σ : Type) where
  Lo : TerraFloat3
  throughput : TerraFloat3
  ray : TerraRay
  rng : σ

/-- The block `if (scene->opts.enable_direct_light_sampling)` of `terra_trace` (lines
814-842): the radiance `Lo`, `light_pdf` and the random-stream state afterwards.  `none`
is a failed assertion or a texture read outside its buffer. -/
def trace_direct_light {σ : Type} (sqrtf cosf sinf : ℚ → ℚ) (rand : σ → Nat × σ)
    (RAND_MAX : Nat)
    (find_closest : TerraRay → Option (TerraMaterial × TerraShadingContext × TerraFloat3))
    (lights : List TerraLight) (material : TerraMaterial) (state : TerraShadingState)
    (ctx : TerraShadingContext) (intersection_point : TerraFloat3) (bsdf_pdf : ℚ)
    (Lo throughput : TerraFloat3) (rng : σ) : Option (TerraFloat3 × ℚ × σ) :=
  let l1 := ((rand rng).1 : ℚ) / (RAND_MAX : ℚ)
  let rng := (rand rng).2
  let l2 := ((rand rng).1 : ℚ) / (RAND_MAX : ℚ)
  let rng := (rand rng).2
  match terra_light_pick_power_proportional lights l1 with
  | none => none
  | some (light, l1) =>
    let light_sample_point :=
      terra_light_sample_disk sqrtf cosf sinf light intersection_point l1 l2
    let light_sample := terra_subf3 light_sample_point intersection_point
    let light_sample := terra_normf3 sqrtf light_sample
    -- `light_pdf = (terra_light_pdf(light, sample_dist), terra_Epsilon);`: comma operator
    let light_pdf := terra_Epsilon
    let light_weight := light_pdf * light_pdf / (light_pdf * light_pdf + bsdf_pdf * bsdf_pdf)
    match material.bsdf.shade material.attributes state light_sample ctx with
    | none => none
    | some light_radiance =>
      let light_contribution := terra_mulf3 light_radiance (light_weight / light_pdf)
      let ray := terra_ray_create intersection_point light_sample ctx.normal 1
      match find_closest ray with
      | none => some (Lo, light_pdf, rng)
      | some (light_material, light_ctx, _) =>
        match terra_eval_attribute light_material.attributes.emissive light_ctx.texcoord with
        | none => none
        | some light_emissive =>
          let light_emissive := terra_mulf3 throughput light_emissive.x
          let light_emissive := terra_pointf3 light_emissive light_contribution
          some (terra_addf3 Lo light_emissive, light_pdf, rng)

/-- One iteration of the bounce loop of `terra_trace` (lines 778-863).  The flag is
`true` when the loop is left by `break`.  `find_closest` stands for `terra_find_closest`
on the committed scene, `env` for `terra_sample_hdr_cubemap` on the environment map,
`rand` for the C library `rand()`.  `none` is a failed assertion or a texture read
outside its buffer. -/
def trace_bounce {σ : Type} (sqrtf cosf sinf : ℚ → ℚ) (rand : σ → Nat × σ) (RAND_MAX : Nat)
    (find_closest : TerraRay → Option (TerraMaterial × TerraShadingContext × TerraFloat3))
    (env : TerraFloat3 → TerraFloat3) (lights : List TerraLight) (opts : TerraSceneOptions)
    (s : TraceState σ) : Option (Bool × TraceState σ) :=
  match find_closest s.ray with
  | none =>
    let env_color := env s.ray.direction
    let throughput := terra_pointf3 s.throughput env_color
    some (true, { s with throughput := throughput, Lo := terra_addf3 s.Lo throughput })
  | some (material, ctx, intersection_point) =>
    let ctx := terra_build_rotation_around_normal sqrtf ctx
    let ctx := { ctx with view := terra_negf3 s.ray.direction }
    match terra_eval_attribute material.attributes.emissive ctx.texcoord,
      terra_eval_attribute material.attributes.albedo ctx.texcoord with
    | some mat_emissive, some mat_albedo =>
      let emissive := terra_mulf3 s.throughput mat_emissive.x
      let emissive := terra_pointf3 emissive mat_albedo
      let Lo := terra_addf3 s.Lo emissive
      let e0 := ((rand s.rng).1 : ℚ) / (RAND_MAX : ℚ)
      let rng := (rand s.rng).2
      let e1 := ((rand rng).1 : ℚ) / (RAND_MAX : ℚ)
      let rng := (rand rng).2
      let e2 := ((rand rng).1 : ℚ) / (RAND_MAX : ℚ)
      let rng := (rand rng).2
      let state : TerraShadingState := ⟨⟨0, 0, 0⟩, ⟨0, 0, 0⟩, 0, 0, 0, 0⟩
      match material.bsdf.sample material.attributes state ctx e0 e1 e2 with
      | none => none
      | some (bsdf_sample, state) =>
        match material.bsdf.weight material.attributes state bsdf_sample ctx with
        | none => none
        | some weight =>
          let bsdf_pdf := terra_maxf weight terra_Epsilon
          let direct : Option (TerraFloat3 × ℚ × σ) :=
            if opts.enable_direct_light_sampling then
              trace_direct_light sqrtf cosf sinf rand RAND_MAX find_closest lights material
                state ctx intersection_point bsdf_pdf Lo s.throughput rng
            else some (Lo, 0, rng)
          match direct with
          | none => none
          | some (Lo, light_pdf, rng) =>
            match material.bsdf.shade material.attributes state bsdf_sample ctx with
            | none => none
            | some bsdf_radiance =>
              let bsdf_weight :=
                bsdf_pdf * bsdf_pdf / (light_pdf * light_pdf + bsdf_pdf * bsdf_pdf)
              let bsdf_contribution := terra_mulf3 bsdf_radiance (bsdf_weight / bsdf_pdf)
              let throughput := terra_pointf3 s.throughput bsdf_contribution
              let sNoL := terra_dotf3 ctx.normal bsdf_sample
              let ray := terra_ray_create intersection_point bsdf_sample ctx.normal
                (if sNoL < 0 then -1 else 1)
              some (false, { Lo := Lo, throughput := throughput, ray := ray, rng := rng })
    | _, _ => none

/-- The bounce loop of `terra_trace` with `n` iterations left. -/
def trace_loop {σ : Type} (sqrtf cosf sinf : ℚ → ℚ) (rand : σ → Nat × σ) (RAND_MAX : Nat)
    (find_closest : TerraRay → Option (TerraMaterial × TerraShadingContext × TerraFloat3))
    (env : TerraFloat3 → TerraFloat3) (lights : List TerraLight) (opts : TerraSceneOptions) :
    Nat → TraceState σ → Option (TerraFloat3 × σ)
  | 0, s => some (s.Lo, s.rng)
  | n + 1, s =>
    match trace_bounce sqrtf cosf sinf rand RAND_MAX find_closest env lights opts s with
    | none => none
    | some (true, s) => some (s.Lo, s.rng)
    | some (false, s) =>
      trace_loop sqrtf cosf sinf rand RAND_MAX find_closest env lights opts n s

/-- The routine `terra_trace`: the radiance `Lo` and the random-stream state afterwards. -/
def terra_trace {σ : Type} (sqrtf cosf sinf : ℚ → ℚ) (rand : σ → Nat × σ) (RAND_MAX : Nat)
    (find_closest : TerraRay → Option (TerraMaterial × TerraShadingContext × TerraFloat3))
    (env : TerraFloat3 → TerraFloat3) (lights : List TerraLight) (opts : TerraSceneOptions)
    (primary_ray : TerraRay) (rng : σ) : Option (TerraFloat3 × σ) :=
  trace_loop sqrtf cosf sinf rand RAND_MAX find_closest env lights opts opts.bounces.toNat
    { Lo := terra_f3_zero, throughput := terra_f3_one, ray := primary_ray, rng := rng }

/-- A texture without pixels (`pixels == NULL`). -/
def no_texture : TerraTexture :=
  ⟨none, 0, 0, 0, 0, .kTerraFilterPoint, .kTerraTextureAddressWrap, false⟩

/-- A diffuse material with constant albedo and emission, set up by
`terra_bsdf_init_diffuse`. -/
def diffuse_material (sqrtf cosf sinf : ℚ → ℚ) (albedo emissive : TerraFloat3) :
    TerraMaterial :=
  { bsdf := terra_bsdf_init_diffuse sqrtf cosf sinf
      ⟨fun _ _ _ _ _ _ => none, fun _ _ _ _ => none, fun _ _ _ _ => none, .kTerraBSDFDiffuse⟩,
    attributes :=
      { albedo := ⟨albedo, no_texture⟩, roughness := ⟨⟨0, 0, 0⟩, no_texture⟩,
        metalness := ⟨⟨0, 0, 0⟩, no_texture⟩, emissive := ⟨emissive, no_texture⟩, ior := 1 } }

/-- The result of `terra_find_closest` on a scene whose only triangle is `tri`, for an
accelerator that tests the ray against that triangle: the material, the shading context
of `terra_triangle_init_shading` and the hit point. -/
def single_triangle_closest (sqrtf : ℚ → ℚ) (tri : TerraTriangle)
    (props : TerraTriangleProperties) (material : TerraMaterial) (ray : TerraRay) :
    Option (TerraMaterial × TerraShadingContext × TerraFloat3) :=
  match terra_ray_triangle_intersection ray tri with
  | none => none
  | some (point, _) => some (material, terra_triangle_init_shading sqrtf tri props point, point)

/-! ## BVH traversal (`Terra.h` 1884-1941) -/

/-- The locals `min_d`, `min_p`, `found` of `terra_bvh_traverse` and the out-parameter
`primitive_out` as `(object_idx, triangle_idx)`. -/
structure BVHClosest where
  min_d : ℚ
  min_p : TerraFloat3
  primitive : Nat × Nat
  found : Bool
  deriving DecidableEq

/-- One `case` of the `switch` of `terra_bvh_traverse` for the child slot
`(type, index, aabb)` of the current node: the queue (top first) and the closest hit
afterwards.  `none` is the failing `assert(false)`, a push beyond `queue[64]`, or a
triangle reference outside the scene. -/
def bvh_visit_slot (sqrtf : ℚ → ℚ) (scene : TerraScene) (ray : TerraRay) (type : Int)
    (index : Nat) (aabb : TerraAABB) (st : List Nat × BVHClosest) :
    Option (List Nat × BVHClosest) :=
  if type = -1 then
    match terra_ray_aabb_intersection ray aabb with
    | some _ => if st.1.length < 64 then some (index :: st.1, st.2) else none
    | none => some st
  else if type = 1 then
    let model_idx := index &&& 0xff
    let tri_idx := index >>> 8
    match scene.objects[model_idx]? with
    | none => none
    | some object =>
      match object.triangles[tri_idx]? with
      | none => none
      | some triangle =>
        match terra_ray_triangle_intersection ray triangle with
        | none => some st
        | some (p, _) =>
          let po := terra_subf3 p ray.origin
          let d := terra_lenf3 sqrtf po
          if d < st.2.min_d then
            some (st.1, { min_d := d, min_p := p, primitive := (model_idx, tri_idx),
                          found := true })
          else some st
  else none

/-- The `while (queue_count > 0)` loop of `terra_bvh_traverse` with `fuel` iterations
left; the queue is kept top first.  `none` is a failure of `bvh_visit_slot`, a node
index outside the node array, or running out of `fuel`. -/
def bvh_traverse_loop (sqrtf : ℚ → ℚ) (bvh : TerraBVH) (scene : TerraScene) (ray : TerraRay) :
    Nat → List Nat → BVHClosest → Option BVHClosest
  | _, [], c => some c
  | 0, _ :: _, _ => none
  | fuel + 1, node :: queue, c =>
    match bvh.nodes[node]? with
    | none => none
    | some nd =>
      match bvh_visit_slot sqrtf scene ray nd.type0 nd.index0 nd.aabb0 (queue, c) with
      | none => none
      | some st =>
        match bvh_visit_slot sqrtf scene ray nd.type1 nd.index1 nd.aabb1 st with
        | none => none
        | some st => bvh_traverse_loop sqrtf bvh scene ray fuel st.1 st.2

/-- The routine `terra_bvh_traverse`: the returned flag, `*point_out` and
`*primitive_out` (which starts as `primitive`, the caller's value). -/
def terra_bvh_traverse (sqrtf : ℚ → ℚ) (bvh : TerraBVH) (ray : TerraRay) (scene : TerraScene)
    (primitive : Nat × Nat) (fuel : Nat) : Option (Bool × TerraFloat3 × (Nat × Nat)) :=
  (bvh_traverse_loop sqrtf bvh scene ray fuel [0]
    { min_d := FLT_MAX, min_p := terra_f3_set1 FLT_MAX, primitive := primitive,
      found := false }).map (fun c => (c.found, c.min_p, c.primitive))

/-- The brute-force search the traversal is compared with: every scene triangle that
`terra_ray_triangle_intersection` reports as hit, as `((object, triangle), point)`. -/
def brute_force_hits (scene : TerraScene) (ray : TerraRay) :
    List ((Nat × Nat) × TerraFloat3) :=
  (scene_pairs scene).filterMap (fun r =>
    match scene.objects[r.1]? with
    | none => none
    | some object =>
      match object.triangles[r.2]? with
      | none => none
      | some triangle =>
        match terra_ray_triangle_intersection ray triangle with
        | none => none
        | some (p, _) => some (r, p))

/-- A ray whose direction components are non-zero and whose `inv_direction` holds their
reciprocals, as `terra_ray_create` and `terra_camera_ray` fill it. -/
def ray_well_formed (ray : TerraRay) : Prop :=
  ray.direction.x ≠ 0 ∧ ray.direction.y ≠ 0 ∧ ray.direction.z ≠ 0 ∧
  ray.inv_direction = ⟨1 / ray.direction.x, 1 / ray.direction.y, 1 / ray.direction.z⟩

/-- The hit point `terra_ray_triangle_intersection` reports for the triangle a leaf slot
refers to, if the reference is inside the scene and the triangle is hit. -/
def vol_hit (scene : TerraScene) (ray : TerraRay) (v : TerraBVHVolume) : Option TerraFloat3 :=
  match scene.objects[v.index &&& 0xff]? with
  | none => none
  | some object =>
    match object.triangles[v.index >>> 8]? with
    | none => none
    | some triangle => (terra_ray_triangle_intersection ray triangle).map Prod.fst

/-- A leaf slot that refers to a triangle of the scene and holds the box fitted to it. -/
def good_leaf (scene : TerraScene) (v : TerraBVHVolume) : Prop :=
  ∃ object triangle, scene.objects[v.index &&& 0xff]? = some object ∧
    object.triangles[v.index >>> 8]? = some triangle ∧
    v.aabb = terra_aabb_fit_triangle empty_aabb triangle

/-- The closest-hit record `c` is right for the leaf slots `S` tested so far: without a
hit below `FLT_MAX` it is still the initial record; `min_d` is a lower bound of the
distances of all hits among `S`; and a found hit is the hit of a slot of `S`, at
distance `min_d < FLT_MAX`. -/
def closest_inv (sqrtf : ℚ → ℚ) (scene : TerraScene) (ray : TerraRay) (c : BVHClosest)
    (S : List TerraBVHVolume) : Prop :=
  (c.found = false → c.min_d = FLT_MAX) ∧ c.min_d ≤ FLT_MAX ∧
  (∀ v ∈ S, ∀ p, vol_hit scene ray v = some p →
    c.min_d ≤ terra_lenf3 sqrtf (terra_subf3 p ray.origin)) ∧
  (c.found = true → ∃ v ∈ S, vol_hit scene ray v = some c.min_p ∧
    c.min_d = terra_lenf3 sqrtf (terra_subf3 c.min_p ray.origin) ∧ c.min_d < FLT_MAX ∧
    c.primitive = slot_ref v)

/-- A scene of two triangles in one object: a large triangle around the point
`(-2^126, -2^127, -2^127)` and a small one near the origin. -/
def far_scene : TerraScene :=
  ⟨[⟨[⟨⟨-2 ^ 126 - 2 ^ 120, -2 ^ 127 - 2 ^ 120, -2 ^ 127⟩,
        ⟨-2 ^ 126 + 2 ^ 121, -2 ^ 127 - 2 ^ 120, -2 ^ 127⟩,
        ⟨-2 ^ 126 - 2 ^ 120, -2 ^ 127 + 2 ^ 121, -2 ^ 127⟩⟩,
       ⟨⟨5, 0, 0⟩, ⟨6, 0, 0⟩, ⟨5, 1, 0⟩⟩]⟩]⟩

/-- The ray from `(2^126, 2^127, 2^127)` with direction `(-1, -2, -2)`; it reaches
`(-2^126, -2^127, -2^127)` at distance `3 · 2^127`. -/
def far_ray : TerraRay :=
  ⟨⟨2 ^ 126, 2 ^ 127, 2 ^ 127⟩, ⟨-1, -2, -2⟩, ⟨1 / (-1), 1 / (-2), 1 / (-2)⟩⟩

/-- A stand-in for `sqrtf` that is exact at `9 · 2^254`, the squared length met on
`far_ray`. -/
def far_sqrtf (x : ℚ) : ℚ := if x = 9 * 2 ^ 254 then 3 * 2 ^ 127 else 0

/-! ## KD-tree build (`Terra.h` 258-309, 1945-2260) -/

/-- The struct `TerraKDObjectRef`: a copy of the triangle and its
`(object_idx, triangle_idx)`. -/
structure TerraKDObjectRef where
  triangle : TerraTriangle
  primitive : Nat × Nat
  deriving DecidableEq

/-- The struct `TerraKDNode` with the members of the union `TerraKDNodeData` written
out: `is_leaf`, `axis`, `children` of `internal` and `objects` of `leaf`. -/
structure TerraKDNode where
  split : ℚ
  is_leaf : Bool
  axis : Nat
  children : Nat
  objects : Nat
  deriving DecidableEq

/-- The struct `TerraKDTree`: the nodes, the object buffers (a destroyed buffer is
empty) and the scene box. -/
structure TerraKDTree where
  nodes : List TerraKDNode
  object_buffers : List (List TerraKDObjectRef)
  scene_aabb : TerraAABB
  deriving DecidableEq

/-- The struct `TerraKDSplit`. -/
structure TerraKDSplit where
  offset : ℚ
  left_count : Int
  right_count : Int
  type : Nat
  t0c : Nat
  t1c : Nat
  deriving DecidableEq

/-- The routine `terra_kdtree_add_splitbuffer` on the first `*counter` entries of the
split buffer: an entry with the same offset has one of its counters incremented and
keeps its type; otherwise a new entry is appended with both counters at 1. -/
def terra_kdtree_add_splitbuffer : List TerraKDSplit → ℚ → Nat → List TerraKDSplit
  | [], val, type => [⟨val, 0, 0, type, 1, 1⟩]
  | s :: rest, val, type =>
    if val = s.offset then
      (if type = 0 then { s with t0c := s.t0c + 1 } else { s with t1c := s.t1c + 1 }) :: rest
    else s :: terra_kdtree_add_splitbuffer rest val type

/-- The counting loop of `terra_kdtree_create_rec` (lines 2100-2113). -/
def kd_count_splits : List TerraKDSplit → Int → Int → List TerraKDSplit
  | [], _, _ => []
  | split :: rest, right_counter, left_counter =>
    let left_counter := if split.type = 0 then left_counter + split.t0c else left_counter
    let split2 := { split with right_count := right_counter, left_count := left_counter }
    let right_counter := if split.type = 1 then right_counter - split.t1c else right_counter
    split2 :: kd_count_splits rest right_counter left_counter

/-- The locals `lowest_cost`, `best_split`, `left_count`, `right_count` of
`terra_kdtree_create_rec`. -/
structure KDBest where
  lowest_cost : ℚ
  best_split : ℚ
  left_count : Int
  right_count : Int
  deriving DecidableEq

/-- The cost loop of `terra_kdtree_create_rec` (lines 2120-2151). -/
def kd_cost_loop (aabb : TerraAABB) (axis : Nat) (SAV : ℚ) : List TerraKDSplit → KDBest → KDBest
  | [], best => best
  | split :: rest, best =>
    let left : TerraAABB := { aabb with max := terra__comp_set aabb.max axis split.offset }
    let right : TerraAABB := { aabb with min := terra__comp_set aabb.min axis split.offset }
    let le : TerraFloat3 :=
      ⟨left.max.x - left.min.x, left.max.y - left.min.y, left.max.z - left.min.z⟩
    let re : TerraFloat3 :=
      ⟨right.max.x - right.min.x, right.max.y - right.min.y, right.max.z - right.min.z⟩
    let SA_left := 2 * (le.x * le.z + le.x * le.y + le.z * le.y)
    let SA_right := 2 * (re.x * re.z + re.x * re.y + re.z * re.y)
    let split_cost := 32 / 100 +
      (SA_left * SAV * (split.left_count : ℚ) + SA_right * SAV * (split.right_count : ℚ))
    if split_cost < best.lowest_cost then
      kd_cost_loop aabb axis SAV rest
        ⟨split_cost, split.offset, split.left_count, split.right_count⟩
    else kd_cost_loop aabb axis SAV rest best

/-- The comparator `terra_splitlist_ascending_cmpfun`. -/
def terra_splitlist_ascending_cmpfun (a b : TerraKDSplit) : Int :=
  if a.offset = b.offset then 0 else if a.offset < b.offset then -1 else 1

/-- The triangle `scene->objects[object_idx].triangles[triangle_idx]` a reference names,
`none` outside the scene. -/
def scene_triangle (scene : TerraScene) (primitive : Nat × Nat) : Option TerraTriangle :=
  match scene.objects[primitive.1]? with
  | none => none
  | some object => object.triangles[primitive.2]?

/-- The boxes `terra_kdtree_aabb_cache[i]` of the buffered triangles; `none` is a
reference outside the scene. -/
def kd_aabb_cache (scene : TerraScene) : List TerraKDObjectRef → Option (List TerraAABB)
  | [] => some []
  | ref :: rest =>
    match scene_triangle scene ref.primitive, kd_aabb_cache scene rest with
    | some triangle, some boxes => some (terra_aabb_fit_triangle empty_aabb triangle :: boxes)
    | _, _ => none

/-- The loop of `terra_kdtree_create_rec` that fills the split buffer (lines 2080-2096),
from the cached boxes. -/
def kd_collect_splits (axis : Nat) : List TerraAABB → List TerraKDSplit → List TerraKDSplit
  | [], buf => buf
  | triangle_aabb :: rest, buf =>
    let buf := terra_kdtree_add_splitbuffer buf (terra__comp triangle_aabb.min axis) 0
    let buf := terra_kdtree_add_splitbuffer buf (terra__comp triangle_aabb.max axis) 1
    kd_collect_splits axis rest buf

/-- The partition loop of `terra_kdtree_create_rec` (lines 2186-2199): the references
written to the left and to the right buffer, in order. -/
def kd_partition (axis : Nat) (left_min left_max right_min right_max : ℚ) :
    List TerraKDObjectRef → List TerraAABB →
    List TerraKDObjectRef × List TerraKDObjectRef
  | ref :: refs, triangle_aabb :: boxes =>
    let triangle_min := terra__comp triangle_aabb.min axis
    let triangle_max := terra__comp triangle_aabb.max axis
    let r := kd_partition axis left_min left_max right_min right_max refs boxes
    (if triangle_min ≤ left_max ∧ triangle_max ≥ left_min then ref :: r.1 else r.1,
     if triangle_min ≤ right_max ∧ triangle_max ≥ right_min then ref :: r.2 else r.2)
  | _, _ => ([], [])

/-- The routine `terra_kdtree_create_rec` with `depth` levels left.  `qsort` is the C
library routine.  `none` is a failed `assert` (the number of references written to a
child buffer differs from the size the buffer was allocated with) or a reference
outside the arrays. -/
def terra_kdtree_create_rec
    (qsort : (TerraKDSplit → TerraKDSplit → Int) → List TerraKDSplit → List TerraKDSplit)
    (scene : TerraScene) :
    Nat → TerraKDTree → Nat → TerraAABB → Option TerraKDTree
  | 0, tree, _, _ => some tree
  | depth + 1, tree, node_idx, aabb =>
    match tree.nodes[node_idx]? with
    | none => none
    | some node =>
      match tree.object_buffers[node.objects]? with
      | none => none
      | some buffer =>
        let extents : TerraFloat3 :=
          ⟨aabb.max.x - aabb.min.x, aabb.max.y - aabb.min.y, aabb.max.z - aabb.min.z⟩
        let axis : Nat :=
          if extents.x ≥ extents.y ∧ extents.x ≥ extents.z then 0
          else if extents.y ≥ extents.x ∧ extents.y ≥ extents.z then 1
          else 2
        match kd_aabb_cache scene buffer with
        | none => none
        | some cache =>
          let splits := kd_collect_splits axis cache []
          let splits := qsort terra_splitlist_ascending_cmpfun splits
          let splits := kd_count_splits splits buffer.length 0
          let SAV := (1 / 2) /
            (extents.x * extents.z + extents.x * extents.y + extents.z * extents.y)
          let leaf_cost : ℚ := buffer.length
          let best := kd_cost_loop aabb axis SAV splits ⟨FLT_MAX, 0, 0, 0⟩
          if best.lowest_cost > leaf_cost then some tree
          else
            let old_buffer := node.objects
            let children := tree.nodes.length
            let left_objects := tree.object_buffers.length
            let right_objects := tree.object_buffers.length + 1
            let left_aabb : TerraAABB :=
              { aabb with max := terra__comp_set aabb.max axis best.best_split }
            let right_aabb : TerraAABB :=
              { aabb with min := terra__comp_set aabb.min axis best.best_split }
            let parts := kd_partition axis (terra__comp left_aabb.min axis) best.best_split
              best.best_split (terra__comp right_aabb.max axis) buffer cache
            if (parts.1.length : Int) = best.left_count ∧
                (parts.2.length : Int) = best.right_count then
              let nodes := (tree.nodes.set node_idx
                { node with children := children, is_leaf := false, axis := axis,
                            split := best.best_split }) ++
                [⟨0, true, 0, 0, left_objects⟩, ⟨0, true, 0, 0, right_objects⟩]
              let buffers := (tree.object_buffers.set old_buffer []) ++ [parts.1, parts.2]
              let tree : TerraKDTree := { tree with nodes := nodes, object_buffers := buffers }
              let tree : Option TerraKDTree :=
                if best.left_count > 3 then
                  terra_kdtree_create_rec qsort scene depth tree children left_aabb
                else some tree
              match tree with
              | none => none
              | some tree =>
                if best.right_count > 3 then
                  terra_kdtree_create_rec qsort scene depth tree (children + 1) right_aabb
                else some tree
            else none

/-- The references `terra_kdtree_create` writes to the root buffer for the objects from
object `j` on, triangles from `i` on. -/
def kd_object_refs (j : Nat) : Nat → List TerraTriangle → List TerraKDObjectRef
  | _, [] => []
  | i, t :: ts => ⟨t, (j, i)⟩ :: kd_object_refs j (i + 1) ts

/-- The root buffer of `terra_kdtree_create`. -/
def kd_scene_refs : Nat → List TerraObject → List TerraKDObjectRef
  | _, [] => []
  | j, o :: os => kd_object_refs j 0 o.triangles ++ kd_scene_refs (j + 1) os

/-- The routine `terra_kdtree_create`. -/
def terra_kdtree_create
    (qsort : (TerraKDSplit → TerraKDSplit → Int) → List TerraKDSplit → List TerraKDSplit)
    (scene : TerraScene) : Option TerraKDTree :=
  terra_kdtree_create_rec qsort scene 20
    { nodes := [⟨0, true, 0, 0, 0⟩], object_buffers := [kd_scene_refs 0 scene.objects],
      scene_aabb := scene_aabb scene }
    0 (scene_aabb scene)

/-! ## KD-tree traversal (`Terra.h` 2271-2396) -/

/-- The local struct `StackEntry` of `terra_kdtree_traverse`; `node` is `none` for
`NULL`, else the index of the node. -/
structure StackEntry where
  node : Option Nat
  t : ℚ
  pb : TerraFloat3
  prev : Nat
  deriving DecidableEq

/-- The locals `cur_node`, `enpt`, `expt` and `stack` of `terra_kdtree_traverse`. -/
structure KDTraversal where
  cur_node : Nat
  enpt : Nat
  expt : Nat
  stack : List StackEntry
  deriving DecidableEq

/-- The inner loop `while (!cur_node->data.internal.is_leaf)` of
`terra_kdtree_traverse` with `fuel` iterations left: the state on reaching a leaf.
`none` is a node or stack index outside its array, or running out of `fuel`. -/
def kd_descend (kdtree : TerraKDTree) (ray : TerraRay) : Nat → KDTraversal → Option KDTraversal
  | 0, _ => none
  | fuel + 1, s =>
    match kdtree.nodes[s.cur_node]?, s.stack[s.enpt]?, s.stack[s.expt]? with
    | some cur_node, some entry, some exit =>
      if cur_node.is_leaf then some s
      else
        let splitval := cur_node.split
        let axis := cur_node.axis
        let next_axis := [1, 2, 0].getD axis 0
        let prev_axis := [2, 0, 1].getD axis 0
        let left_node := cur_node.children
        let right_node := cur_node.children + 1
        let push (far_child cur : Nat) : Option KDTraversal :=
          let t := (splitval - terra__comp ray.origin axis) / terra__comp ray.direction axis
          let tmp := s.expt
          let expt := s.expt + 1
          let expt := if expt = s.enpt then expt + 1 else expt
          if expt < 64 then
            let pb : TerraFloat3 := (s.stack.getD expt ⟨none, 0, ⟨0, 0, 0⟩, 0⟩).pb
            let pb := terra__comp_set pb axis splitval
            let pb := terra__comp_set pb next_axis
              (terra__comp ray.origin next_axis + t * terra__comp ray.direction next_axis)
            let pb := terra__comp_set pb prev_axis
              (terra__comp ray.origin prev_axis + t * terra__comp ray.direction prev_axis)
            kd_descend kdtree ray fuel
              { cur_node := cur, enpt := s.enpt, expt := expt,
                stack := s.stack.set expt ⟨some far_child, t, pb, tmp⟩ }
          else none
        if terra__comp entry.pb axis ≤ splitval then
          if terra__comp exit.pb axis ≤ splitval then
            kd_descend kdtree ray fuel { s with cur_node := left_node }
          else if terra__comp exit.pb axis = splitval then
            kd_descend kdtree ray fuel { s with cur_node := right_node }
          else push right_node left_node
        else
          if splitval < terra__comp exit.pb axis then
            kd_descend kdtree ray fuel { s with cur_node := right_node }
          else push left_node right_node
    | _, _, _ => none

/-- The locals `closest_t`, `hit` of the leaf loop with the two out-parameters. -/
structure KDLeafHit where
  closest_t : ℚ
  hit : Bool
  point : TerraFloat3
  primitive : Nat × Nat
  deriving DecidableEq

/-- The loop over the object buffer of a leaf (lines 2363-2381). -/
def kd_leaf_loop (ray : TerraRay) (entry_t exit_t : ℚ) : List TerraKDObjectRef → KDLeafHit →
    KDLeafHit
  | [], h => h
  | ref :: rest, h =>
    match terra_ray_triangle_intersection ray ref.triangle with
    | some (point, t) =>
      if t ≥ entry_t ∧ t ≤ exit_t ∧ t < h.closest_t then
        kd_leaf_loop ray entry_t exit_t rest
          { closest_t := t, hit := true, point := point, primitive := ref.primitive }
      else kd_leaf_loop ray entry_t exit_t rest h
    | none => kd_leaf_loop ray entry_t exit_t rest h

/-- The outer loop `while (cur_node != NULL)` of `terra_kdtree_traverse` with `fuel`
iterations left: `some none` is `return false`, `some (some (point, primitive))` is
`return true` with the two out values; `none` is an index outside an array or running
out of `fuel`. -/
def kd_traverse_loop (kdtree : TerraKDTree) (ray : TerraRay) (point : TerraFloat3)
    (primitive : Nat × Nat) :
    Nat → KDTraversal → Option (Option (TerraFloat3 × (Nat × Nat)))
  | 0, _ => none
  | fuel + 1, s =>
    match kd_descend kdtree ray (kdtree.nodes.length + 1) s with
    | none => none
    | some s =>
      match kdtree.nodes[s.cur_node]?, s.stack[s.enpt]?, s.stack[s.expt]? with
      | some cur_node, some entry, some exit =>
        match kdtree.object_buffers[cur_node.objects]? with
        | none => none
        | some buffer =>
          let h := kd_leaf_loop ray entry.t exit.t buffer ⟨FLT_MAX, false, point, primitive⟩
          if h.hit then some (some (h.point, h.primitive))
          else
            match exit.node with
            | none => some none
            | some next =>
              kd_traverse_loop kdtree ray point primitive fuel
                { cur_node := next, enpt := s.expt, expt := exit.prev, stack := s.stack }
      | _, _, _ => none

/-- The routine `terra_kdtree_traverse`; `point` and `primitive` are the caller's values
of the out-parameters. -/
def terra_kdtree_traverse (kdtree : TerraKDTree) (ray : TerraRay) (point : TerraFloat3)
    (primitive : Nat × Nat) (fuel : Nat) : Option (Option (TerraFloat3 × (Nat × Nat))) :=
  match terra_ray_aabb_intersection ray kdtree.scene_aabb with
  | none => some none
  | some (a, b) =>
    let blank : StackEntry := ⟨none, 0, ⟨0, 0, 0⟩, 0⟩
    let entry : StackEntry :=
      { blank with t := a,
                   pb := if a ≥ 0 then terra_addf3 ray.origin (terra_mulf3 ray.direction a)
                         else ray.origin }
    let exit : StackEntry :=
      { blank with t := b, pb := terra_addf3 ray.origin (terra_mulf3 ray.direction b),
                   node := none }
    kd_traverse_loop kdtree ray point primitive fuel
      { cur_node := 0, enpt := 0, expt := 1,
        stack := entry :: exit :: List.replicate 62 blank }

/-- Two triangles in one object whose fitted boxes touch on the x axis: the box of the
first ends at `1 + ε`, where the box of the second begins. -/
def touching_scene : TerraScene :=
  ⟨[⟨[⟨⟨0, 0, 0⟩, ⟨1, 0, 0⟩, ⟨0, 1, 0⟩⟩,
       ⟨⟨1 + 2 / 10000, 0, 0⟩, ⟨2 + 2 / 10000, 0, 0⟩, ⟨1 + 2 / 10000, 1, 0⟩⟩]⟩]⟩

/-- The curve `f(v) = v (6.2 v + 0.5) / (v (6.2 v + 1.7) + 0.06)` of the Filmic
operator. -/
def filmic_curve (v : ℚ) : ℚ :=
  v * (62 / 10 * v + 1 / 2) / (v * (62 / 10 * v + 17 / 10) + 6 / 100)

/-- A light with the given emissive value, unit radius, at the origin. -/
def unit_light (emissive : ℚ) : TerraLight :=
  ⟨⟨0, 0, 0⟩, 1, ⟨⟨-1, -1, -1⟩, ⟨1, 1, 1⟩⟩, emissive⟩

/-- The factor `shade(L) · w_B / p_B` of lines 811 and 845-847 of `terra_trace` for the
diffuse BSDF with albedo `albedo`, as a function of `n · L`, when direct light sampling
is disabled (`light_pdf = 0`). -/
def lambert_multiplier (albedo : TerraFloat3) (NoL : ℚ) : TerraFloat3 :=
  let bsdf_pdf := terra_maxf (NoL / terra_PI) terra_Epsilon
  let bsdf_radiance := terra_mulf3 albedo (terra_maxf 0 NoL / terra_PI)
  let bsdf_weight := bsdf_pdf * bsdf_pdf / (0 * 0 + bsdf_pdf * bsdf_pdf)
  terra_mulf3 bsdf_radiance (bsdf_weight / bsdf_pdf)

/-- The state of the bounce loop of `terra_trace` at its start, for the ray from
`(1/4, 1/4, 1)` straight down and the random-stream state 0. -/
def first_bounce_state : TraceState Nat :=
  { Lo := terra_f3_zero, throughput := terra_f3_one,
    ray := ⟨⟨1 / 4, 1 / 4, 1⟩, ⟨0, 0, -1⟩, ⟨0, 0, -1⟩⟩, rng := 0 }

/-! ## Glass BSDF (`Terra.h` 52, 1205-1274) -/

/-- The constant `terra_ior_air`. -/
def terra_ior_air : ℚ := 1

/-- Local `cos_i` of `terra_bsdf_glass_sample` as first computed: `normal . incident`. -/
def glass_cos_i0 (ctx : TerraShadingContext) : ℚ :=
  terra_dotf3 ctx.normal (terra_negf3 ctx.view)

/-- Local `n1` of `terra_bsdf_glass_sample`. -/
def glass_n1 (material : TerraMaterialAttributes) (ctx : TerraShadingContext) : ℚ :=
  if glass_cos_i0 ctx > 0 then material.ior else terra_ior_air

/-- Local `n2` of `terra_bsdf_glass_sample`. -/
def glass_n2 (material : TerraMaterialAttributes) (ctx : TerraShadingContext) : ℚ :=
  if glass_cos_i0 ctx > 0 then terra_ior_air else material.ior

/-- Local `cos_i` of `terra_bsdf_glass_sample` after the `if`. -/
def glass_cos_i (ctx : TerraShadingContext) : ℚ :=
  if glass_cos_i0 ctx > 0 then glass_cos_i0 ctx else -glass_cos_i0 ctx

/-- Local `normal` of `terra_bsdf_glass_sample` after the `if`. -/
def glass_normal (ctx : TerraShadingContext) : TerraFloat3 :=
  if glass_cos_i0 ctx > 0 then terra_negf3 ctx.normal else ctx.normal

/-- Local `cos_t` of `terra_bsdf_glass_sample` before the square root. -/
def glass_cos_t2 (material : TerraMaterialAttributes) (ctx : TerraShadingContext) : ℚ :=
  let nni := glass_n1 material ctx / glass_n2 material ctx
  1 - nni * nni * (1 - glass_cos_i ctx * glass_cos_i ctx)

/-- Local `R0` of `terra_bsdf_glass_sample` after `R0 *= R0`. -/
def glass_R0 (material : TerraMaterialAttributes) (ctx : TerraShadingContext) : ℚ :=
  let R0 := (glass_n1 material ctx - glass_n2 material ctx) /
    (glass_n1 material ctx + glass_n2 material ctx)
  R0 * R0

/-- Local `R` of `terra_bsdf_glass_sample`. -/
def glass_R (sqrtf : ℚ → ℚ) (material : TerraMaterialAttributes) (ctx : TerraShadingContext) :
    ℚ :=
  let cos_t := sqrtf (glass_cos_t2 material ctx)
  let t := 1 - (if glass_n1 material ctx ≤ glass_n2 material ctx then glass_cos_i ctx
    else cos_t)
  glass_R0 material ctx + (1 - glass_R0 material ctx) * (t * t * t * t * t)

/-- The routine `terra_bsdf_glass_sample`: the returned direction and the shading state
with `fresnel` written. -/
def terra_bsdf_glass_sample (sqrtf : ℚ → ℚ) (material : TerraMaterialAttributes)
    (state : TerraShadingState) (ctx : TerraShadingContext) (_e1 _e2 e3 : ℚ) :
    Option (TerraFloat3 × TerraShadingState) :=
  let normal := glass_normal ctx
  let incident := terra_negf3 ctx.view
  let n1 := glass_n1 material ctx
  let n2 := glass_n2 material ctx
  let cos_i := glass_cos_i ctx
  let refl := terra_mulf3 normal (2 * terra_dotf3 normal incident)
  let refl := terra_subf3 incident refl
  let cos_t := glass_cos_t2 material ctx
  if cos_t < 0 then some (refl, { state with fresnel := 1 })
  else
    let cos_t := sqrtf cos_t
    let R := glass_R sqrtf material ctx
    if e3 < R then some (refl, { state with fresnel := R })
    else
      let trans_v := terra_mulf3 normal ((n1 / n2) * cos_i - cos_t)
      let trans_n := terra_mulf3 incident (n1 / n2)
      let trans := terra_addf3 trans_v trans_n
      let trans := terra_normf3 sqrtf trans
      some (trans, { state with fresnel := 1 - R })

/-- The routine `terra_bsdf_glass_weight`. -/
def terra_bsdf_glass_weight (_material : TerraMaterialAttributes) (state : TerraShadingState)
    (_light : TerraFloat3) (_ctx : TerraShadingContext) : Option ℚ :=
  some state.fresnel

/-- The routine `terra_bsdf_glass_shade`. -/
def terra_bsdf_glass_shade (material : TerraMaterialAttributes) (state : TerraShadingState)
    (_light : TerraFloat3) (ctx : TerraShadingContext) : Option TerraFloat3 :=
  match terra_eval_attribute material.albedo ctx.texcoord with
  | none => none
  | some albedo => some (terra_mulf3 albedo state.fresnel)

/-- The data members of a material with constant white albedo and index of refraction
3/2. -/
def glass_example : TerraMaterialAttributes :=
  { albedo := ⟨⟨1, 1, 1⟩, no_texture⟩, roughness := ⟨⟨0, 0, 0⟩, no_texture⟩,
    metalness := ⟨⟨0, 0, 0⟩, no_texture⟩, emissive := ⟨⟨0, 0, 0⟩, no_texture⟩, ior := 3 / 2 }

/-! ## Rough-dielectric BSDF (`Terra.h` 1078-1148) -/

/-- The routine `terra_brdf_ctggx_chi`. -/
def terra_brdf_ctggx_chi (val : ℚ) : ℚ := if val ≤ 0 then 0 else 1

/-- The routine `terra_brdf_ctggx_D`. -/
def terra_brdf_ctggx_D (NoH alpha2 : ℚ) : ℚ :=
  let NoH2 := NoH * NoH
  let den := NoH2 * alpha2 + (1 - NoH2)
  (terra_brdf_ctggx_chi NoH * alpha2) / (terra_PI * den * den)

/-- The routine `terra_bsdf_rough_dielectric_sample`; `sqrtf`, `cosf`, `sinf`, `atanf`
are the C library routines.  The returned state has `roughness`, `metalness` and
`half_vector` written. -/
def terra_bsdf_rough_dielectric_sample (sqrtf cosf sinf atanf : ℚ → ℚ)
    (material : TerraMaterialAttributes) (state : TerraShadingState)
    (ctx : TerraShadingContext) (e1 e2 e3 : ℚ) : Option (TerraFloat3 × TerraShadingState) :=
  match terra_eval_attribute material.roughness ctx.texcoord,
    terra_eval_attribute material.metalness ctx.texcoord with
  | some roughness, some metalness =>
    let state := { state with roughness := roughness.x, metalness := metalness.x }
    let pd := 1 - state.metalness
    if e3 ≤ pd then
      match terra_bsdf_diffuse_sample sqrtf cosf sinf material state ctx e1 e2 0 with
      | none => none
      | some (light, _) =>
        let half_vector := terra_addf3 light ctx.view
        let half_vector := terra_normf3 sqrtf half_vector
        some (light, { state with half_vector := half_vector })
    else
      let alpha := state.roughness
      let theta := atanf ((alpha * sqrtf e1) / sqrtf (1 - e1))
      let phi := 2 * terra_PI * e2
      let sin_theta := sinf theta
      let half_vector :=
        terra_f3_set (sin_theta * cosf phi) (cosf theta) (sin_theta * sinf phi)
      let half_vector := terra_transformf3 ctx.rot half_vector
      let half_vector := terra_normf3 sqrtf half_vector
      let HoV := terra_maxf 0 (terra_dotf3 half_vector ctx.view)
      let r := terra_mulf3 half_vector (2 * HoV)
      some (terra_subf3 r ctx.view, { state with half_vector := half_vector })
  | _, _ => none

/-- The routine `terra_bsdf_rough_dielectric_weight`. -/
def terra_bsdf_rough_dielectric_weight (material : TerraMaterialAttributes)
    (state : TerraShadingState) (light : TerraFloat3) (ctx : TerraShadingContext) :
    Option ℚ :=
  let alpha := state.roughness
  let alpha2 := alpha * alpha
  let NoH := terra_dotf3 ctx.normal state.half_vector
  let weight_specular := terra_brdf_ctggx_D NoH alpha2 * NoH
  match terra_bsdf_diffuse_weight material state light ctx with
  | none => none
  | some weight_diffuse =>
    let pd := 1 - state.metalness
    let ps := 1 - pd
    some (weight_diffuse * pd + weight_specular * ps)

/-- The data members of a material with constant roughness 1 and metalness 1/2. -/
def rough_example : TerraMaterialAttributes :=
  { albedo := ⟨⟨1, 1, 1⟩, no_texture⟩, roughness := ⟨⟨1, 1, 1⟩, no_texture⟩,
    metalness := ⟨⟨1 / 2, 1 / 2, 1 / 2⟩, no_texture⟩, emissive := ⟨⟨0, 0, 0⟩, no_texture⟩,
    ior := 3 / 2 }

/-- A stand-in for `sqrtf`, exact at the arguments `16/25`, `9/25`, `0` and `1`. -/
def rough_sqrtf (x : ℚ) : ℚ := if x = 16 / 25 then 4 / 5 else if x = 9 / 25 then 3 / 5 else x

/-- A stand-in for `atanf`: `atan(4/3) = 0.9273` to four places. -/
def rough_atanf (_x : ℚ) : ℚ := 9273 / 10000

/-- A stand-in for `sinf`: `sin(0.9273) = 4/5` to four places, and `sin(0) = 0`. -/
def rough_sinf (x : ℚ) : ℚ := if x = 9273 / 10000 then 4 / 5 else 0

/-- A stand-in for `cosf`: `cos(0.9273) = 3/5` to four places, and `cos(0) = 1`. -/
def rough_cosf (x : ℚ) : ℚ := if x = 9273 / 10000 then 3 / 5 else 1

/-! ## HDR environment map (`Terra.h` 1579-1584, 1642-1681) -/

/-- The routine `terra_read_hdr_texture`: the three floats at
`(y * width + x) * 3`; `none` is a read through a `NULL` pointer or outside the array. -/
def terra_read_hdr_texture (texture : TerraHDRTexture) (x y : Int) : Option TerraFloat3 :=
  match texture.pixels with
  | none => none
  | some pixels =>
    let idx := (y * texture.width + x) * 3
    if 0 ≤ idx then
      match pixels[idx.toNat]?, pixels[idx.toNat + 1]?, pixels[idx.toNat + 2]? with
      | some r, some g, some b => some ⟨r, g, b⟩
      | _, _, _ => none
    else none

/-- The routine `terra_sample_hdr_cubemap`; `sqrtf`, `acosf`, `atan2f` are the C library
routines.  `none` is a failed read of `terra_read_hdr_texture`. -/
def terra_sample_hdr_cubemap (sqrtf acosf : ℚ → ℚ) (atan2f : ℚ → ℚ → ℚ)
    (texture : TerraHDRTexture) (dir : TerraFloat3) : Option TerraFloat3 :=
  let v := terra_normf3 sqrtf dir
  let theta := acosf v.y
  let phi := atan2f v.z v.x + terra_PI
  let mapped_uv : TerraFloat2 :=
    ⟨(phi / (2 * terra_PI)) * texture.width, (theta / terra_PI) * texture.height⟩
  let ix := c_int mapped_uv.x
  let iy := c_int mapped_uv.y
  let x1 := ix
  let y1 := iy
  let x2 := c_min (ix + 1) ((texture.width : Int) - 1)
  let y2 := iy
  let x3 := ix
  let y3 := c_min (iy + 1) ((texture.height : Int) - 1)
  let x4 := c_min (ix + 1) ((texture.width : Int) - 1)
  let y4 := c_min (iy + 1) ((texture.height : Int) - 1)
  match terra_read_hdr_texture texture x1 y1, terra_read_hdr_texture texture x2 y2,
    terra_read_hdr_texture texture x3 y3, terra_read_hdr_texture texture x4 y4 with
  | some n1, some n2, some n3, some n4 =>
    let w_u := mapped_uv.x - ix
    let w_v := mapped_uv.y - iy
    let w_ou := 1 - w_u
    let w_ov := 1 - w_v
    some ⟨(n1.x * w_ou + n2.x * w_u) * w_ov + (n3.x * w_ou + n4.x * w_u) * w_v,
          (n1.y * w_ou + n2.y * w_u) * w_ov + (n3.y * w_ou + n4.y * w_u) * w_v,
          (n1.z * w_ou + n2.z * w_u) * w_ov + (n3.z * w_ou + n4.z * w_u) * w_v⟩
  | _, _, _, _ => none

/-! ## Scene set-up (`Terra.h` 181-187, 320-333, 483-533) -/

/-- The struct `TerraObject` with all its members (`TerraObject` above keeps the
triangle array only); `triangles_count` is the length of `triangles`. -/
structure TerraSceneObject where
  triangles : List TerraTriangle
  properties : List TerraTriangleProperties
  material : TerraMaterial

/-- The struct `TerraScene` with all its members (`TerraScene` above keeps the triangle
arrays only).  `objects` holds the `objects_count` objects added so far, `lights` the
`lights_count` lights in use; `bvh` and `kdtree` are `none` until they are built. -/
structure TerraSceneData where
  opts : TerraSceneOptions
  objects : List TerraSceneObject
  lights : List TerraLight
  lights_count : Int
  bvh : Option TerraBVH
  kdtree : Option TerraKDTree

/-- The triangle arrays of the scene, as the accelerator builds read them. -/
def scene_geometry (scene : TerraSceneData) : TerraScene :=
  ⟨scene.objects.map (fun o => ⟨o.triangles⟩)⟩

/-- The routine `terra_scene_begin`: both arrays are allocated and both counts set to 0. -/
def terra_scene_begin (scene : TerraSceneData) (_objects_count _materials_count : Int) :
    TerraSceneData :=
  { scene with objects := [], lights := [], lights_count := 0 }

/-- The routine `terra_scene_add_object` followed by the caller filling in the returned
slot with `object`. -/
def terra_scene_add_object (scene : TerraSceneData) (object : TerraSceneObject) :
    TerraSceneData :=
  { scene with objects := scene.objects ++ [object] }

/-- The conversion `(uint8_t)x` of a float: truncation toward zero, kept to 8 bits. -/
def c_uint8 (x : ℚ) : Nat := (c_int x % 256).toNat

/-- The routine `terra_prepare_texture`; `powf` is the C library routine.  `none` is a
write beyond the pixel array (fewer than `width * height * comps` bytes). -/
def terra_prepare_texture (powf : ℚ → ℚ → ℚ) (texture : TerraTexture) : Option TerraTexture :=
  match texture.pixels with
  | none => some texture
  | some pixels =>
    if texture.srgb then
      let n := texture.width * texture.height * texture.comps
      if n ≤ pixels.length then
        some { texture with
          pixels := some ((pixels.take n).map
            (fun (p : Nat) => c_uint8 (powf ((p : ℚ) / 255) (22 / 10) * 255)) ++ pixels.drop n),
          srgb := false }
      else none
    else some texture

/-- The body of the loop of `terra_scene_end` over the objects (lines 525-531): the four
maps of one material, in the order albedo, emissive, metalness, roughness. -/
def prepare_material (powf : ℚ → ℚ → ℚ) (object : TerraSceneObject) : Option TerraSceneObject :=
  match terra_prepare_texture powf object.material.attributes.albedo.map,
    terra_prepare_texture powf object.material.attributes.emissive.map,
    terra_prepare_texture powf object.material.attributes.metalness.map,
    terra_prepare_texture powf object.material.attributes.roughness.map with
  | some albedo, some emissive, some metalness, some roughness =>
    some { object with material := { object.material with attributes :=
      { object.material.attributes with
        albedo := { object.material.attributes.albedo with map := albedo },
        emissive := { object.material.attributes.emissive with map := emissive },
        metalness := { object.material.attributes.metalness with map := metalness },
        roughness := { object.material.attributes.roughness with map := roughness } } } }
  | _, _, _, _ => none

/-- The loop of `terra_scene_end` over the objects. -/
def prepare_objects (powf : ℚ → ℚ → ℚ) : List TerraSceneObject → Option (List TerraSceneObject)
  | [] => some []
  | o :: os =>
    match prepare_material powf o, prepare_objects powf os with
    | some o2, some os2 => some (o2 :: os2)
    | _, _ => none

/-- The routine `terra_scene_end`: the accelerator named by the options is built, then
the textures are prepared.  `qsort_bvh`, `qsort_kd` and `powf` are the C library
routines; `fuel` bounds the loop of `terra_bvh_create`.  `none` is a build that does not
complete or a failed `terra_prepare_texture`. -/
def terra_scene_end
    (qsort_bvh : (TerraBVHVolume → TerraBVHVolume → Int) → List TerraBVHVolume →
      List TerraBVHVolume)
    (qsort_kd : (TerraKDSplit → TerraKDSplit → Int) → List TerraKDSplit → List TerraKDSplit)
    (powf : ℚ → ℚ → ℚ) (fuel : Nat) (scene : TerraSceneData) : Option TerraSceneData :=
  let built : Option TerraSceneData :=
    match scene.opts.accelerator with
    | .kTerraAcceleratorBVH =>
      (terra_bvh_create qsort_bvh (scene_geometry scene) fuel).map
        (fun bvh => { scene with bvh := some bvh })
    | .kTerraAcceleratorKDTree =>
      (terra_kdtree_create qsort_kd (scene_geometry scene)).map
        (fun kdtree => { scene with kdtree := some kdtree })
  match built with
  | none => none
  | some scene =>
    match prepare_objects powf scene.objects with
    | none => none
    | some objects => some { scene with objects := objects }

/-- The objects whose material has a non-zero emissive value. -/
def emissive_objects (scene : TerraSceneData) : List TerraSceneObject :=
  scene.objects.filter (fun o => decide (o.material.attributes.emissive.value ≠ ⟨0, 0, 0⟩))

/-- An object of one triangle whose diffuse material emits `(5, 5, 5)`; no attribute has
a texture. -/
def lamp_object : TerraSceneObject :=
  ⟨[⟨⟨0, 0, 0⟩, ⟨1, 0, 0⟩, ⟨0, 1, 0⟩⟩],
   [⟨⟨0, 0, 1⟩, ⟨0, 0, 1⟩, ⟨0, 0, 1⟩, ⟨0, 0⟩, ⟨1, 0⟩, ⟨0, 1⟩⟩],
   diffuse_material (fun x => x) (fun x => x) (fun x => x) ⟨1, 1, 1⟩ ⟨5, 5, 5⟩⟩

/-- The scene after `terra_scene_begin(scene, 1, 1)` and one `terra_scene_add_object`
filled with `lamp_object`; the options ask for the KD-tree. -/
def lamp_scene : TerraSceneData :=
  terra_scene_add_object
    (terra_scene_begin
      ⟨{ options_with .kTerraTonemappingOperatorNone 1 with
          accelerator := .kTerraAcceleratorKDTree }, [], [], 0, none, none⟩ 1 1)
    lamp_object

/-- The byte the specification asks for: `⌊powf(p / 255, 2.2) · 255⌋`. -/
def linearized_byte (powf : ℚ → ℚ → ℚ) (p : Nat) : Nat :=
  Nat.floor (powf ((p : ℚ) / 255) (22 / 10) * 255)

/-- The four maps of an object's material that `terra_scene_end` prepares. -/
def material_maps (object : TerraSceneObject) : List TerraTexture :=
  [object.material.attributes.albedo.map, object.material.attributes.emissive.map,
    object.material.attributes.metalness.map, object.material.attributes.roughness.map]

/-- A stand-in for `powf` that squares its first argument. -/
def square_powf (x _y : ℚ) : ℚ := x * x

/-- A 1×1 one-component texture holding the byte `128`, flagged sRGB. -/
def grey_texture : TerraTexture :=
  ⟨some [128], 1, 1, 1, 0, .kTerraFilterPoint, .kTerraTextureAddressWrap, true⟩

/-- A texture without pixels that is flagged sRGB. -/
def flagged_texture : TerraTexture :=
  ⟨none, 0, 0, 0, 0, .kTerraFilterPoint, .kTerraTextureAddressWrap, true⟩

/-- The object `lamp_object` with `map` as its albedo map. -/
def albedo_map_object (map : TerraTexture) : TerraSceneObject :=
  { lamp_object with material := { lamp_object.material with attributes :=
      { lamp_object.material.attributes with albedo := ⟨⟨1, 1, 1⟩, map⟩ } } }

/-- The scene `lamp_scene` with `albedo_map_object map` as its object. -/
def albedo_map_scene (map : TerraTexture) : TerraSceneData :=
  terra_scene_add_object
    (terra_scene_begin
      ⟨{ options_with .kTerraTonemappingOperatorNone 1 with
          accelerator := .kTerraAcceleratorKDTree }, [], [], 0, none, none⟩ 1 1)
    (albedo_map_object map)

/-- The constant `terra_PI2` (`6.283185307f`). -/
def terra_PI2 : ℚ := 6283185307 / 1000000000

/-- A 2×2 three-component texture in Mirror address mode. -/
def mirror_texture : TerraTexture :=
  ⟨some (List.replicate 12 0), 2, 2, 3, 0, .kTerraFilterPoint, .kTerraTextureAddressMirror,
    false⟩

/-- The routine `terra_light_pdf`. -/
def terra_light_pdf (light : TerraLight) (_distance : ℚ) : ℚ :=
  1 / (terra_PI * light.radius * light.radius)

/-- The expression of line 826 of `terra_trace`:
`light_pdf * light_pdf / (light_pdf * light_pdf + bsdf_pdf * bsdf_pdf)`. -/
def mis_light_weight (light_pdf bsdf_pdf : ℚ) : ℚ :=
  light_pdf * light_pdf / (light_pdf * light_pdf + bsdf_pdf * bsdf_pdf)

/-- The expression of line 846 of `terra_trace`:
`bsdf_pdf * bsdf_pdf / (light_pdf * light_pdf + bsdf_pdf * bsdf_pdf)`. -/
def mis_bsdf_weight (light_pdf bsdf_pdf : ℚ) : ℚ :=
  bsdf_pdf * bsdf_pdf / (light_pdf * light_pdf + bsdf_pdf * bsdf_pdf)

/-- A light of unit radius and unit emission centred at `(1/4, 1/4, z)`. -/
def lamp_light (z : ℚ) : TerraLight :=
  ⟨⟨1 / 4, 1 / 4, z⟩, 1, ⟨⟨-3 / 4, -3 / 4, z - 1⟩, ⟨5 / 4, 5 / 4, z + 1⟩⟩, 1⟩

/-- A stand-in for `sqrtf` that is exact at `0`, `1` and `25`. -/
def five_sqrtf (x : ℚ) : ℚ := if x = 25 then 5 else x

/-! ## A deep BVH (`Terra.h` 1884-1911) -/

/-- The box `[-1, 1]³`. -/
def comb_box : TerraAABB := ⟨⟨-1, -1, -1⟩, ⟨1, 1, 1⟩⟩

/-- A ray from the centre of `comb_box` along the diagonal. -/
def comb_ray : TerraRay := ⟨⟨0, 0, 0⟩, ⟨1, 1, 1⟩, ⟨1, 1, 1⟩⟩

/-- The node at index `2k` of the comb: both slots are internal, slot 0 leads to the
side node `2k + 1` and slot 1 to the next node `2k + 2` of the spine. -/
def comb_spine (k : Nat) : TerraBVHNode :=
  ⟨comb_box, comb_box, 2 * k + 1, 2 * k + 2, -1, -1⟩

/-- A node with two triangle slots, for the triangles `2k` and `2k + 1` of object 0. -/
def comb_side (k : Nat) : TerraBVHNode :=
  ⟨comb_box, comb_box, (2 * k) <<< 8, (2 * k + 1) <<< 8, 1, 1⟩

/-- The nodes of the comb from spine position `k` on, with `n` spine nodes left; the
last node has two triangle slots. -/
def comb_nodes : Nat → Nat → List TerraBVHNode
  | k, 0 => [comb_side k]
  | k, n + 1 => comb_spine k :: comb_side k :: comb_nodes (k + 1) n

/-- A binary tree of `2n + 1` nodes rooted at node 0: a spine of `n` internal nodes,
each with a two-triangle side node, ended by a two-triangle node. -/
def comb_bvh (n : Nat) : TerraBVH := ⟨comb_nodes 0 n, 2 * n + 1⟩

/-- The side nodes pending on the queue when the traversal reaches spine node `k`, top
first. -/
def comb_pending : Nat → List Nat
  | 0 => []
  | k + 1 => (2 * k + 1) :: comb_pending k

/-- The indices stored in the internal slots of a node array, in node order. -/
def internal_children (nodes : List TerraBVHNode) : List Nat :=
  nodes.flatMap (fun nd =>
    (if nd.type0 = -1 then [nd.index0] else []) ++ (if nd.type1 = -1 then [nd.index1] else []))

/-! ## Locals of `terra_kdtree_create_rec` (`Terra.h` 2056-2190) -/

/-- The local `axis` of `terra_kdtree_create_rec` (lines 2063-2068). -/
def kd_axis (aabb : TerraAABB) : Nat :=
  if aabb.max.x - aabb.min.x ≥ aabb.max.y - aabb.min.y ∧
      aabb.max.x - aabb.min.x ≥ aabb.max.z - aabb.min.z then 0
  else if aabb.max.y - aabb.min.y ≥ aabb.max.x - aabb.min.x ∧
      aabb.max.y - aabb.min.y ≥ aabb.max.z - aabb.min.z then 1
  else 2

/-- The local `SAV` of `terra_kdtree_create_rec` (line 2116). -/
def kd_SAV (aabb : TerraAABB) : ℚ :=
  (1 / 2) /
    ((aabb.max.x - aabb.min.x) * (aabb.max.z - aabb.min.z) +
      (aabb.max.x - aabb.min.x) * (aabb.max.y - aabb.min.y) +
      (aabb.max.z - aabb.min.z) * (aabb.max.y - aabb.min.y))

/-- The split buffer of `terra_kdtree_create_rec` after the counting loop (line 2113),
for the cached boxes of a buffer of `n` references. -/
def kd_candidates
    (qsort : (TerraKDSplit → TerraKDSplit → Int) → List TerraKDSplit → List TerraKDSplit)
    (axis : Nat) (cache : List TerraAABB) (n : Nat) : List TerraKDSplit :=
  kd_count_splits (qsort terra_splitlist_ascending_cmpfun (kd_collect_splits axis cache [])) n 0

/-- The local `split_cost` of the cost loop (lines 2126-2142) for one split. -/
def kd_split_cost (aabb : TerraAABB) (axis : Nat) (SAV : ℚ) (split : TerraKDSplit) : ℚ :=
  let left : TerraAABB := { aabb with max := terra__comp_set aabb.max axis split.offset }
  let right : TerraAABB := { aabb with min := terra__comp_set aabb.min axis split.offset }
  let le : TerraFloat3 :=
    ⟨left.max.x - left.min.x, left.max.y - left.min.y, left.max.z - left.min.z⟩
  let re : TerraFloat3 :=
    ⟨right.max.x - right.min.x, right.max.y - right.min.y, right.max.z - right.min.z⟩
  let SA_left := 2 * (le.x * le.z + le.x * le.y + le.z * le.y)
  let SA_right := 2 * (re.x * re.z + re.x * re.y + re.z * re.y)
  32 / 100 + (SA_left * SAV * (split.left_count : ℚ) + SA_right * SAV * (split.right_count : ℚ))

/-- The locals `lowest_cost`, `best_split`, `left_count`, `right_count` after the cost
loop (line 2151). -/
def kd_best
    (qsort : (TerraKDSplit → TerraKDSplit → Int) → List TerraKDSplit → List TerraKDSplit)
    (aabb : TerraAABB) (cache : List TerraAABB) (n : Nat) : KDBest :=
  kd_cost_loop aabb (kd_axis aabb) (kd_SAV aabb)
    (kd_candidates qsort (kd_axis aabb) cache n) ⟨FLT_MAX, 0, 0, 0⟩

/-- The tree after lines 2160-2177 of `terra_kdtree_create_rec`: node `node_idx` made
internal, two leaf nodes and their buffers appended, the old buffer destroyed. -/
def kd_split_tree (tree : TerraKDTree) (node_idx : Nat) (node : TerraKDNode) (axis : Nat)
    (best_split : ℚ) (parts : List TerraKDObjectRef × List TerraKDObjectRef) : TerraKDTree :=
  { tree with
    nodes := (tree.nodes.set node_idx
      { node with children := tree.nodes.length, is_leaf := false, axis := axis,
                  split := best_split }) ++
      [⟨0, true, 0, 0, tree.object_buffers.length⟩,
       ⟨0, true, 0, 0, tree.object_buffers.length + 1⟩],
    object_buffers := (tree.object_buffers.set node.objects []) ++ [parts.1, parts.2] }

/-- The two child buffers written by the partition loop (lines 2186-2199) for the chosen
split. -/
def kd_parts (aabb : TerraAABB) (best_split : ℚ) (buffer : List TerraKDObjectRef)
    (cache : List TerraAABB) : List TerraKDObjectRef × List TerraKDObjectRef :=
  kd_partition (kd_axis aabb) (terra__comp aabb.min (kd_axis aabb)) best_split best_split
    (terra__comp aabb.max (kd_axis aabb)) buffer cache

/-- The box `left_aabb` of line 2180. -/
def kd_left_aabb (aabb : TerraAABB) (axis : Nat) (best_split : ℚ) : TerraAABB :=
  { aabb with max := terra__comp_set aabb.max axis best_split }

/-- The box `right_aabb` of line 2180. -/
def kd_right_aabb (aabb : TerraAABB) (axis : Nat) (best_split : ℚ) : TerraAABB :=
  { aabb with min := terra__comp_set aabb.min axis best_split }

/-- Tree `t2` extends tree `t1`, having rewritten at most node `idx` and buffer `b` of
it: the other nodes and buffers of `t1` are kept, and the scene box is the same. -/
def kd_frame (t1 t2 : TerraKDTree) (idx b : Nat) : Prop :=
  t1.nodes.length ≤ t2.nodes.length ∧
  (∀ i : Nat, i < t1.nodes.length → i ≠ idx → t2.nodes[i]? = t1.nodes[i]?) ∧
  t1.object_buffers.length ≤ t2.object_buffers.length ∧
  (∀ j : Nat, j < t1.object_buffers.length → j ≠ b →
    t2.object_buffers[j]? = t1.object_buffers[j]?) ∧
  t2.scene_aabb = t1.scene_aabb

/-- Box `box` has a positive extent on every axis. -/
def box_positive (box : TerraAABB) : Prop :=
  ∀ k : Nat, terra__comp box.min k < terra__comp box.max k

/-- Boxes `c` and `box` overlap (weakly) on every axis. -/
def box_overlaps (c box : TerraAABB) : Prop :=
  ∀ k : Nat, terra__comp c.min k ≤ terra__comp box.max k ∧
    terra__comp box.min k ≤ terra__comp c.max k

/-- The box `terra_kdtree_aabb_cache[i]` computed for a reference, `none` outside the
scene. -/
def ref_box (scene : TerraScene) (ref : TerraKDObjectRef) : Option TerraAABB :=
  (scene_triangle scene ref.primitive).map (terra_aabb_fit_triangle empty_aabb)

/-- The subtree of the node array rooted at node `idx` with box `box`: every internal
node has its split position inside its box along its split axis, and both child boxes
have a positive extent on every axis.  The list holds the indices of the subtree's
nodes. -/
inductive KDInside (nodes : List TerraKDNode) : Nat → TerraAABB → List Nat → Prop
  | leaf (idx : Nat) (box : TerraAABB) (nd : TerraKDNode) (h : nodes[idx]? = some nd)
      (hl : nd.is_leaf = true) : KDInside nodes idx box [idx]
  | inner (idx : Nat) (box : TerraAABB) (nd : TerraKDNode) (us0 us1 : List Nat)
      (h : nodes[idx]? = some nd) (hl : nd.is_leaf = false)
      (hlo : terra__comp box.min nd.axis ≤ nd.split)
      (hhi : nd.split ≤ terra__comp box.max nd.axis)
      (p0 : box_positive (kd_left_aabb box nd.axis nd.split))
      (p1 : box_positive (kd_right_aabb box nd.axis nd.split))
      (T0 : KDInside nodes nd.children (kd_left_aabb box nd.axis nd.split) us0)
      (T1 : KDInside nodes (nd.children + 1) (kd_right_aabb box nd.axis nd.split) us1) :
      KDInside nodes idx box (idx :: (us0 ++ us1))

/-- What the build keeps true of a leaf's buffer and box: at most `N` references, every
referenced triangle's box overlaps the node's box, and the node's box has positive
extents unless the buffer is empty. -/
def kd_buffer_inv (scene : TerraScene) (N : Nat) (buffer : List TerraKDObjectRef)
    (box : TerraAABB) : Prop :=
  buffer.length ≤ N ∧
  (∀ ref ∈ buffer, ∀ c, ref_box scene ref = some c → box_overlaps c box) ∧
  (buffer ≠ [] → box_positive box)

/-- Three triangles in a row along the x axis, the third far from the first two. -/
def three_scene : TerraScene :=
  ⟨[⟨[⟨⟨0, 0, 0⟩, ⟨1, 0, 0⟩, ⟨0, 1, 0⟩⟩,
       ⟨⟨2, 0, 0⟩, ⟨3, 0, 0⟩, ⟨2, 1, 0⟩⟩,
       ⟨⟨10, 0, 0⟩, ⟨11, 0, 0⟩, ⟨10, 1, 0⟩⟩]⟩]⟩

/-- The box `scene_aabb` of `three_scene`. -/
def three_box : TerraAABB :=
  ⟨⟨-3 / 10000, -3 / 10000, -3 / 10000⟩, ⟨110001 / 10000, 10003 / 10000, 3 / 10000⟩⟩

/-- The cached boxes of the three triangles of `three_scene`. -/
def three_cache : List TerraAABB :=
  [⟨⟨-1 / 10000, -1 / 10000, -1 / 10000⟩, ⟨10001 / 10000, 10001 / 10000, 1 / 10000⟩⟩,
   ⟨⟨19999 / 10000, -1 / 10000, -1 / 10000⟩, ⟨30001 / 10000, 10001 / 10000, 1 / 10000⟩⟩,
   ⟨⟨99999 / 10000, -1 / 10000, -1 / 10000⟩, ⟨110001 / 10000, 10001 / 10000, 1 / 10000⟩⟩]

/-- The cost of a split as the specification states it, with
`SAV = 0.5 / (surface area of the node's box)`. -/
def claimed_split_cost (aabb : TerraAABB) (axis : Nat) (split : TerraKDSplit) : ℚ :=
  32 / 100 + (1 / 2) / terra_aabb_surface_area aabb *
    (terra_aabb_surface_area (kd_left_aabb aabb axis split.offset) * (split.left_count : ℚ) +
      terra_aabb_surface_area (kd_right_aabb aabb axis split.offset) *
        (split.right_count : ℚ))

/-- The box `scene_aabb` of the one-triangle scene `lamp_scene`. -/
def lamp_box : TerraAABB :=
  ⟨⟨-1 / 10000, -1 / 10000, -1 / 10000⟩, ⟨1 + 1 / 10000, 1 + 1 / 10000, 1 / 10000⟩⟩

/-- Specification side of the sample loop: the radiance values of `n` successive samples
drawn for pixel `(j, i)` from the stream state `rng`, in drawing order. -/
def drawn_samples {σ : Type} (sample : σ → Nat → Nat → TerraFloat3 × σ) (j i : Nat) :
    Nat → σ → List TerraFloat3
  | 0, _ => []
  | n + 1, rng => (sample rng j i).1 :: drawn_samples sample j i n (sample rng j i).2

/-- The state of the random stream after `n` samples drawn for pixel `(j, i)`. -/
def stream_after_samples {σ : Type} (sample : σ → Nat → Nat → TerraFloat3 × σ) (j i : Nat) :
    Nat → σ → σ
  | 0, rng => rng
  | n + 1, rng => stream_after_samples sample j i n (sample rng j i).2

/-- The state of the random stream after `n` samples drawn for each pixel of the list,
in list order. -/
def stream_after_pixels {σ : Type} (sample : σ → Nat → Nat → TerraFloat3 × σ) (n : Nat) :
    List (Nat × Nat) → σ → σ
  | [], rng => rng
  | p :: ps, rng => stream_after_pixels sample n ps (stream_after_samples sample p.1 p.2 n rng)

/-- The sum of a list of radiance values, added up from zero in list order. -/
def radiance_sum (l : List TerraFloat3) : TerraFloat3 :=
  l.foldl terra_addf3 terra_f3_zero

/-! ## IEEE 754 binary32 arithmetic

The definitions above read `float` as the exact rational it denotes.  This section
models the C type `float` itself, as an x86-64 compiler without fused multiply-add
evaluates it: every operation rounds its exact result to binary32, to nearest with ties
to even, with subnormals, signed zeros, infinities and NaN.  It is used for concrete
runs in which rounding, underflow or overflow decides what the routine returns. -/

/-- The power `2^e` for an integer exponent. -/
def two_pow (e : Int) : ℚ :=
  if 0 ≤ e then ((2 ^ e.toNat : Nat) : ℚ) else 1 / ((2 ^ (-e).toNat : Nat) : ℚ)

/-- Binary search for the exponent of `a`: the largest `e` in `[lo, lo + 2^k)` with
`2^e ≤ a`, and `lo` when there is none. -/
def fl_exponent (a : ℚ) : Nat → Int → Int
  | 0, lo => lo
  | k + 1, lo =>
    if two_pow (lo + 2 ^ k) ≤ a then fl_exponent a k (lo + 2 ^ k) else fl_exponent a k lo

/-- The nearest integer to `n ≥ 0`, ties going to the even one. -/
def round_half_even (n : ℚ) : Nat :=
  let fl := n.num.toNat / n.den
  let rem := n.num.toNat % n.den
  if 2 * rem < n.den then fl
  else if n.den < 2 * rem then fl + 1
  else if fl % 2 = 0 then fl else fl + 1

/-- Rounding of a magnitude `a ≥ 0` to the binary format with `prec` significand bits and
exponents `emin .. emax` (`2^bits` bounds the exponent range for the search): the nearest
multiple of the quantum `2^(e - prec + 1)`, where `e` is the exponent of `a`, not below
`emin` (subnormal range) and not above `emax`; `none` is overflow to infinity. -/
def fl_round (prec : Nat) (emin emax : Int) (bits : Nat) (a : ℚ) : Option ℚ :=
  let e := min (fl_exponent a bits emin) emax
  let quantum := two_pow (e - prec + 1)
  let r := round_half_even (a / quantum)
  if e = emax ∧ 2 ^ prec ≤ r then none else some ((r : ℚ) * quantum)

/-- A value of the C type `float` (binary32): a finite value with its sign and magnitude
(so that the two zeros are told apart), an infinity, or a NaN. -/
inductive F32 where
  | fin (neg : Bool) (mag : ℚ)
  | inf (neg : Bool)
  | nan
  deriving DecidableEq

namespace F32

/-- Rounding of the real `±a` (`a ≥ 0`) to binary32. -/
def round (neg : Bool) (a : ℚ) : F32 :=
  match fl_round 24 (-126) 127 8 a with
  | some m => fin neg m
  | none => inf neg

/-- The binary32 value nearest to the rational `q` (a decimal constant with suffix `f`,
or an exactly representable value). -/
def ofRat (q : ℚ) : F32 := round (decide (q < 0)) |q|

/-- The real value of a finite binary32. -/
def val (neg : Bool) (mag : ℚ) : ℚ := if neg then -mag else mag

def neg : F32 → F32
  | fin s a => fin (!s) a
  | inf s => inf (!s)
  | nan => nan

/-- Binary32 addition.  An exact zero sum is `-0` when both operands are negative
(zeros included) and `+0` otherwise. -/
def add : F32 → F32 → F32
  | fin s a, fin t b =>
    let r := val s a + val t b
    if r = 0 then fin (s && t) 0 else round (decide (r < 0)) |r|
  | fin _ _, inf t => inf t
  | inf s, fin _ _ => inf s
  | inf s, inf t => if s = t then inf s else nan
  | nan, _ => nan
  | _, nan => nan

def sub (x y : F32) : F32 := add x (neg y)

def mul : F32 → F32 → F32
  | fin s a, fin t b => round (xor s t) (a * b)
  | fin s a, inf t => if a = 0 then nan else inf (xor s t)
  | inf s, fin t b => if b = 0 then nan else inf (xor s t)
  | inf s, inf t => inf (xor s t)
  | nan, _ => nan
  | _, nan => nan

def div : F32 → F32 → F32
  | fin s a, fin t b =>
    if b = 0 then (if a = 0 then nan else inf (xor s t)) else round (xor s t) (a / b)
  | fin s _, inf t => fin (xor s t) 0
  | inf s, fin t _ => inf (xor s t)
  | inf _, inf _ => nan
  | nan, _ => nan
  | _, nan => nan

/-- The comparison `x < y`; false whenever an operand is a NaN. -/
def lt : F32 → F32 → Bool
  | fin s a, fin t b => decide (val s a < val t b)
  | fin _ _, inf t => !t
  | inf s, fin _ _ => s
  | inf s, inf t => s && !t
  | nan, _ => false
  | _, nan => false

/-- The comparison `x > y`. -/
def gt (x y : F32) : Bool := lt y x

/-- The comparison `(double)x < c` with a binary64 value `c`: the conversion of `x` to
`double` is exact. -/
def lt_real : F32 → ℚ → Bool
  | fin s a, c => decide (val s a < c)
  | inf s, _ => s
  | nan, _ => false

/-- The comparison `(double)x > c` with a binary64 value `c`. -/
def gt_real : F32 → ℚ → Bool
  | fin s a, c => decide (c < val s a)
  | inf s, _ => !s
  | nan, _ => false

end F32

/-- The binary64 value of a positive decimal constant without suffix, such as `0.00001`. -/
def double_const (q : ℚ) : ℚ := (fl_round 53 (-1022) 1023 11 q).getD 0

namespace Binary32

/-- The constant `terra_Epsilon = 0.0001f`. -/
def terra_Epsilon : F32 := F32.ofRat (1 / 10000)

/-- The struct `TerraFloat3`. -/
structure TerraFloat3 where
  x : F32
  y : F32
  z : F32
  deriving DecidableEq

/-- The struct `TerraRay`. -/
structure TerraRay where
  origin : TerraFloat3
  direction : TerraFloat3
  inv_direction : TerraFloat3
  deriving DecidableEq

/-- The struct `TerraTriangle`. -/
structure TerraTriangle where
  a : TerraFloat3
  b : TerraFloat3
  c : TerraFloat3
  deriving DecidableEq

/-- The struct `TerraAABB`. -/
structure TerraAABB where
  min : TerraFloat3
  max : TerraFloat3
  deriving DecidableEq

def terra_f3_set (x y z : F32) : TerraFloat3 := ⟨x, y, z⟩

def terra_addf3 (l r : TerraFloat3) : TerraFloat3 :=
  terra_f3_set (F32.add l.x r.x) (F32.add l.y r.y) (F32.add l.z r.z)

def terra_subf3 (l r : TerraFloat3) : TerraFloat3 :=
  terra_f3_set (F32.sub l.x r.x) (F32.sub l.y r.y) (F32.sub l.z r.z)

def terra_mulf3 (v : TerraFloat3) (scale : F32) : TerraFloat3 :=
  terra_f3_set (F32.mul v.x scale) (F32.mul v.y scale) (F32.mul v.z scale)

def terra_dotf3 (a b : TerraFloat3) : F32 :=
  F32.add (F32.add (F32.mul a.x b.x) (F32.mul a.y b.y)) (F32.mul a.z b.z)

def terra_crossf3 (a b : TerraFloat3) : TerraFloat3 :=
  terra_f3_set (F32.sub (F32.mul a.y b.z) (F32.mul a.z b.y))
    (F32.sub (F32.mul a.z b.x) (F32.mul a.x b.z))
    (F32.sub (F32.mul a.x b.y) (F32.mul a.y b.x))

def terra_maxf (a b : F32) : F32 := if F32.gt a b then a else b

def terra_minf (a b : F32) : F32 := if F32.lt a b then a else b

/-- The routine `terra_ray_triangle_intersection` (non-SSE branch): `none` is
`return false`, `some (point_out, t_out)` is `return true`. -/
def terra_ray_triangle_intersection (ray : TerraRay) (tri : TerraTriangle) :
    Option (TerraFloat3 × F32) :=
  let e1 := terra_subf3 tri.b tri.a
  let e2 := terra_subf3 tri.c tri.a
  let h := terra_crossf3 ray.direction e2
  let a := terra_dotf3 e1 h
  if F32.gt a (F32.neg terra_Epsilon) && F32.lt a terra_Epsilon then none
  else
    let f := F32.div (F32.ofRat 1) a
    let s := terra_subf3 ray.origin tri.a
    let u := F32.mul f (terra_dotf3 s h)
    if F32.lt_real u 0 || F32.gt_real u 1 then none
    else
      let q := terra_crossf3 s e1
      let v := F32.mul f (terra_dotf3 ray.direction q)
      if F32.lt_real v 0 || F32.gt_real (F32.add u v) 1 then none
      else
        let t := F32.mul f (terra_dotf3 e2 q)
        if F32.gt_real t (double_const (1 / 100000)) then
          let offset := terra_mulf3 ray.direction t
          some (terra_addf3 offset ray.origin, t)
        else none

/-- The routine `terra_ray_aabb_intersection`: `none` is `return false`,
`some (tmin, tmax)` is `return true` with the two out values. -/
def terra_ray_aabb_intersection (ray : TerraRay) (aabb : TerraAABB) : Option (F32 × F32) :=
  let t1 := F32.mul (F32.sub aabb.min.x ray.origin.x) ray.inv_direction.x
  let t2 := F32.mul (F32.sub aabb.max.x ray.origin.x) ray.inv_direction.x
  let tmin := terra_minf t1 t2
  let tmax := terra_maxf t1 t2
  let t1 := F32.mul (F32.sub aabb.min.y ray.origin.y) ray.inv_direction.y
  let t2 := F32.mul (F32.sub aabb.max.y ray.origin.y) ray.inv_direction.y
  let tmin := terra_maxf tmin (terra_minf t1 t2)
  let tmax := terra_minf tmax (terra_maxf t1 t2)
  let t1 := F32.mul (F32.sub aabb.min.z ray.origin.z) ray.inv_direction.z
  let t2 := F32.mul (F32.sub aabb.max.z ray.origin.z) ray.inv_direction.z
  let tmin := terra_maxf tmin (terra_minf t1 t2)
  let tmax := terra_minf tmax (terra_maxf t1 t2)
  if F32.gt tmax (terra_maxf tmin (F32.ofRat 0)) then some (tmin, tmax) else none

/-- The routine `terra_aabb_fit_triangle`. -/
def terra_aabb_fit_triangle (aabb : TerraAABB) (triangle : TerraTriangle) : TerraAABB :=
  let minx := terra_minf (terra_minf (terra_minf aabb.min.x triangle.a.x) triangle.b.x) triangle.c.x
  let miny := terra_minf (terra_minf (terra_minf aabb.min.y triangle.a.y) triangle.b.y) triangle.c.y
  let minz := terra_minf (terra_minf (terra_minf aabb.min.z triangle.a.z) triangle.b.z) triangle.c.z
  let maxx := terra_maxf (terra_maxf (terra_maxf aabb.max.x triangle.a.x) triangle.b.x) triangle.c.x
  let maxy := terra_maxf (terra_maxf (terra_maxf aabb.max.y triangle.a.y) triangle.b.y) triangle.c.y
  let maxz := terra_maxf (terra_maxf (terra_maxf aabb.max.z triangle.a.z) triangle.b.z) triangle.c.z
  { min := ⟨F32.sub minx terra_Epsilon, F32.sub miny terra_Epsilon, F32.sub minz terra_Epsilon⟩,
    max := ⟨F32.add maxx terra_Epsilon, F32.add maxy terra_Epsilon, F32.add maxz terra_Epsilon⟩ }

/-- The box `min = +FLT_MAX`, `max = -FLT_MAX` every fit starts from. -/
def empty_aabb : TerraAABB :=
  { min := ⟨F32.ofRat FLT_MAX, F32.ofRat FLT_MAX, F32.ofRat FLT_MAX⟩,
    max := ⟨F32.ofRat (-FLT_MAX), F32.ofRat (-FLT_MAX), F32.ofRat (-FLT_MAX)⟩ }

/-- The vector of the binary32 values nearest to three rationals. -/
def f3 (x y z : ℚ) : TerraFloat3 := ⟨F32.ofRat x, F32.ofRat y, F32.ofRat z⟩

/-- The ray from the origin with direction `(2^127, 1, 1)` and the reciprocals
`(2^-127, 1, 1)` as `inv_direction`. -/
def underflow_ray : TerraRay := ⟨f3 0 0 0, f3 (2 ^ 127) 1 1, f3 (1 / 2 ^ 127) 1 1⟩

/-- The box `[-2^-30, 2^-30] × [-1, 1] × [-1, 1]` around the origin. -/
def underflow_box : TerraAABB := ⟨f3 (-(1 / 2 ^ 30)) (-1) (-1), f3 (1 / 2 ^ 30) 1 1⟩

/-- The triangle `(4096, 0, 0) (4097, 0, 0) (4096, 1, 0)`. -/
def far_flat_triangle : TerraTriangle := ⟨f3 4096 0 0, f3 4097 0 0, f3 4096 1 0⟩

/-- The collinear triangle `A = 0`, `B = (1234567, 2345678, 3456789)`, `C = 2 B`. -/
def collinear_triangle : TerraTriangle :=
  ⟨f3 0 0 0, f3 1234567 2345678 3456789, f3 2469134 4691356 6913578⟩

/-- The ray from `(-2, -1, 0)` with direction `(3, 3, 3)`. -/
def collinear_ray : TerraRay := ⟨f3 (-2) (-1) 0, f3 3 3 3, f3 (1 / 3) (1 / 3) (1 / 3)⟩

end Binary32

/-- A scene of 257 objects and three triangles: object 0 holds the triangle
`(5,0,0) (6,0,0) (5,1,0)` and the lower half `(0,0,0) (1,0,0) (0,1,0)` of the unit
square, objects 1 to 255 hold no triangle, and object 256 holds the upper half
`(1,1,0) (1,0,0) (0,1,0)` of the square, whose fitted box is that of the lower half. -/
def packed_scene : TerraScene :=
  ⟨⟨[⟨⟨5, 0, 0⟩, ⟨6, 0, 0⟩, ⟨5, 1, 0⟩⟩, ⟨⟨0, 0, 0⟩, ⟨1, 0, 0⟩, ⟨0, 1, 0⟩⟩]⟩ ::
    (List.replicate 255 ⟨[]⟩ ++ [⟨[⟨⟨1, 1, 0⟩, ⟨1, 0, 0⟩, ⟨0, 1, 0⟩⟩]⟩])⟩

/-- The ray from `(1, 1, 1)` with direction `(-1/4, -1/4, -1)`; it crosses the plane
`z = 0` at `(3/4, 3/4, 0)`, in the upper half of the unit square. -/
def packed_ray : TerraRay :=
  ⟨⟨1, 1, 1⟩, ⟨-1 / 4, -1 / 4, -1⟩, ⟨1 / (-1 / 4), 1 / (-1 / 4), 1 / (-1)⟩⟩

/-- The ray from `(0, -1/4, 1/2)` with direction `(1/4, 1/2, -1/2)`; it reaches the point
`(1/4, 1/4, 0)` of the first triangle of `touching_scene` at parameter 1 and distance
`3/4`. -/
def touching_ray : TerraRay :=
  ⟨⟨0, -1 / 4, 1 / 2⟩, ⟨1 / 4, 1 / 2, -1 / 2⟩, ⟨1 / (1 / 4), 1 / (1 / 2), 1 / (-1 / 2)⟩⟩

/-- A stand-in for `sqrtf` that is exact at `9/16`, the squared length met on
`touching_ray`. -/
def touching_sqrtf (x : ℚ) : ℚ := if x = 9 / 16 then 3 / 4 else 0

/-! ## Theorems -/

theorem terra_minf_eq (a b : ℚ) : terra_minf a b = min a b := by
  unfold terra_minf
  split_ifs with h
  · exact (min_eq_left h.le).symm
  · exact (min_eq_right (not_lt.mp h)).symm

theorem terra_maxf_eq (a b : ℚ) : terra_maxf a b = max a b := by
  unfold terra_maxf
  split_ifs with h
  · exact (max_eq_left (le_of_lt h)).symm
  · exact (max_eq_right (not_lt.mp h)).symm

/-- One slab of the box test: when the origin coordinate is strictly between the two
planes and the reciprocal direction is non-zero, the slab interval straddles zero. -/
theorem slab_straddles (lo hi o k : ℚ) (h1 : lo < o) (h2 : o < hi) (hk : k ≠ 0) :
    min ((lo - o) * k) ((hi - o) * k) < 0 ∧ 0 < max ((lo - o) * k) ((hi - o) * k) := by
  have ha : lo - o < 0 := by linarith
  have hb : 0 < hi - o := by linarith
  rcases lt_or_gt_of_ne hk with hneg | hpos
  · refine ⟨min_lt_of_right_lt (mul_neg_of_pos_of_neg hb hneg), ?_⟩
    exact lt_max_of_lt_left (mul_pos_of_neg_of_neg ha hneg)
  · refine ⟨min_lt_of_left_lt (mul_neg_of_neg_of_pos ha hpos), ?_⟩
    exact lt_max_of_lt_right (mul_pos hb hpos)

/-- C1 (amended): in exact arithmetic, a ray whose origin is strictly inside the box,
with non-zero direction components and `inv_direction` their reciprocals, is reported
as intersecting, and the reported `tmin`, `tmax` satisfy `tmin ≤ 0 ≤ tmax`. -/
theorem ray_aabb_origin_inside (ray : TerraRay) (aabb : TerraAABB)
    (hx : aabb.min.x < ray.origin.x ∧ ray.origin.x < aabb.max.x)
    (hy : aabb.min.y < ray.origin.y ∧ ray.origin.y < aabb.max.y)
    (hz : aabb.min.z < ray.origin.z ∧ ray.origin.z < aabb.max.z)
    (hd : ray.direction.x ≠ 0 ∧ ray.direction.y ≠ 0 ∧ ray.direction.z ≠ 0)
    (hinv : ray.inv_direction =
      ⟨1 / ray.direction.x, 1 / ray.direction.y, 1 / ray.direction.z⟩) :
    ∃ tmin tmax, terra_ray_aabb_intersection ray aabb = some (tmin, tmax) ∧
      tmin ≤ 0 ∧ 0 ≤ tmax := by
  have kx : ray.inv_direction.x ≠ 0 := by rw [hinv]; exact one_div_ne_zero hd.1
  have ky : ray.inv_direction.y ≠ 0 := by rw [hinv]; exact one_div_ne_zero hd.2.1
  have kz : ray.inv_direction.z ≠ 0 := by rw [hinv]; exact one_div_ne_zero hd.2.2
  obtain ⟨ax, bx⟩ := slab_straddles _ _ _ _ hx.1 hx.2 kx
  obtain ⟨ay, byy⟩ := slab_straddles _ _ _ _ hy.1 hy.2 ky
  obtain ⟨az, bz⟩ := slab_straddles _ _ _ _ hz.1 hz.2 kz
  simp only [terra_ray_aabb_intersection, terra_minf_eq, terra_maxf_eq]
  have hmin := max_lt (max_lt ax ay) az
  have hmax := lt_min (lt_min bx byy) bz
  have hgo : max (max (max (min ((aabb.min.x - ray.origin.x) * ray.inv_direction.x)
      ((aabb.max.x - ray.origin.x) * ray.inv_direction.x))
      (min ((aabb.min.y - ray.origin.y) * ray.inv_direction.y)
      ((aabb.max.y - ray.origin.y) * ray.inv_direction.y)))
      (min ((aabb.min.z - ray.origin.z) * ray.inv_direction.z)
      ((aabb.max.z - ray.origin.z) * ray.inv_direction.z))) 0 = 0 :=
    max_eq_right hmin.le
  rw [hgo, if_pos hmax]
  exact ⟨_, _, rfl, hmin.le, hmax.le⟩

/-- The unit-cube box and a ray from its centre along `(1, 2, -4)`. -/
theorem ray_aabb_origin_inside_witness :
    ∃ tmin tmax, terra_ray_aabb_intersection
        ⟨⟨1/2, 1/2, 1/2⟩, ⟨1, 2, -4⟩, ⟨1 / 1, 1 / 2, 1 / (-4)⟩⟩ ⟨⟨0, 0, 0⟩, ⟨1, 1, 1⟩⟩
        = some (tmin, tmax) ∧ tmin ≤ 0 ∧ 0 ≤ tmax :=
  ray_aabb_origin_inside ⟨⟨1/2, 1/2, 1/2⟩, ⟨1, 2, -4⟩, ⟨1 / 1, 1 / 2, 1 / (-4)⟩⟩
    ⟨⟨0, 0, 0⟩, ⟨1, 1, 1⟩⟩ (by norm_num) (by norm_num) (by norm_num) (by norm_num) rfl

/-- Two vectors with equal components are equal. -/
theorem TerraFloat3.ext_iff3 (p q : TerraFloat3) :
    p = q ↔ p.x = q.x ∧ p.y = q.y ∧ p.z = q.z := by
  cases p; cases q; simp

/-- The Moeller-Trumbore solution: when the determinant `a` is non-zero, the
point `O + t D` is `A + u (B - A) + v (C - A)` for the routine's `t`, `u`, `v`. -/
theorem rti_point_identity (ray : TerraRay) (tri : TerraTriangle) (ha : rti_a ray tri ≠ 0) :
    terra_addf3 (terra_mulf3 ray.direction (rti_t ray tri)) ray.origin =
      terra_addf3 (terra_addf3 tri.a (terra_mulf3 (terra_subf3 tri.b tri.a) (rti_u ray tri)))
        (terra_mulf3 (terra_subf3 tri.c tri.a) (rti_v ray tri)) := by
  have ha' := ha
  simp only [rti_a, terra_dotf3, terra_crossf3, terra_subf3, terra_f3_set] at ha'
  simp only [rti_t, rti_u, rti_v, rti_a, terra_addf3, terra_mulf3, terra_subf3, terra_dotf3,
    terra_crossf3, terra_f3_set, TerraFloat3.mk.injEq]
  refine ⟨?_, ?_, ?_⟩ <;> field_simp <;> ring

/-- What a reported hit looks like: the routine's guards all passed. -/
theorem rti_some_iff (ray : TerraRay) (tri : TerraTriangle) (P : TerraFloat3) (t : ℚ) :
    terra_ray_triangle_intersection ray tri = some (P, t) ↔
      ¬ (rti_a ray tri > -terra_Epsilon ∧ rti_a ray tri < terra_Epsilon) ∧
      0 ≤ rti_u ray tri ∧ rti_u ray tri ≤ 1 ∧ 0 ≤ rti_v ray tri ∧
      rti_u ray tri + rti_v ray tri ≤ 1 ∧ rti_t ray tri > 1 / 100000 ∧
      t = rti_t ray tri ∧ P = terra_addf3 (terra_mulf3 ray.direction (rti_t ray tri)) ray.origin := by
  unfold terra_ray_triangle_intersection
  simp only []
  constructor
  · intro h
    split_ifs at h with h1 h2 h3 h4
    simp only [Option.some.injEq, Prod.mk.injEq] at h
    push_neg at h2 h3
    exact ⟨h1, h2.1, h2.2, h3.1, h3.2, h4, h.2.symm, h.1.symm⟩
  · rintro ⟨h1, h2, h3, h4, h5, h6, rfl, rfl⟩
    rw [if_neg h1, if_neg (by push_neg; exact ⟨h2, h3⟩), if_neg (by push_neg; exact ⟨h4, h5⟩),
      if_pos h6]

/-- The determinant guard excludes a zero determinant. -/
theorem rti_a_ne_zero_of_guard (a : ℚ) (h : ¬ (a > -terra_Epsilon ∧ a < terra_Epsilon)) :
    a ≠ 0 := by
  intro h0
  apply h
  rw [h0]
  norm_num [terra_Epsilon]

/-- C2: a reported hit has `t > 10⁻⁵`, the point is `O + t D`, and it is the point
`A + u (B - A) + v (C - A)` of the triangle for the routine's `u`, `v`, which satisfy
`u ≥ 0`, `v ≥ 0`, `u + v ≤ 1`. -/
theorem ray_triangle_hit_in_triangle (ray : TerraRay) (tri : TerraTriangle)
    (P : TerraFloat3) (t : ℚ)
    (h : terra_ray_triangle_intersection ray tri = some (P, t)) :
    t > 1 / 100000 ∧
    P = terra_addf3 ray.origin (terra_mulf3 ray.direction t) ∧
    P = terra_addf3 (terra_addf3 tri.a (terra_mulf3 (terra_subf3 tri.b tri.a) (rti_u ray tri)))
          (terra_mulf3 (terra_subf3 tri.c tri.a) (rti_v ray tri)) ∧
    0 ≤ rti_u ray tri ∧ 0 ≤ rti_v ray tri ∧ rti_u ray tri + rti_v ray tri ≤ 1 := by
  obtain ⟨h1, h2, _, h4, h5, h6, ht, hP⟩ := (rti_some_iff ray tri P t).mp h
  refine ⟨ht ▸ h6, ?_, ?_, h2, h4, h5⟩
  · rw [hP, ht]
    simp only [terra_addf3, terra_mulf3, terra_f3_set, TerraFloat3.mk.injEq]
    exact ⟨add_comm _ _, add_comm _ _, add_comm _ _⟩
  · rw [hP]
    exact rti_point_identity ray tri (rti_a_ne_zero_of_guard _ h1)

/-- A ray down the z axis onto the triangle `(0,0,0) (1,0,0) (0,1,0)`. -/
theorem ray_triangle_hit_in_triangle_witness :
    (1 : ℚ) > 1 / 100000 ∧
    (⟨1/4, 1/4, 0⟩ : TerraFloat3) = terra_addf3 ⟨1/4, 1/4, 1⟩ (terra_mulf3 ⟨0, 0, -1⟩ 1) ∧
    (⟨1/4, 1/4, 0⟩ : TerraFloat3) =
      terra_addf3 (terra_addf3 ⟨0, 0, 0⟩ (terra_mulf3 (terra_subf3 ⟨1, 0, 0⟩ ⟨0, 0, 0⟩)
        (rti_u ⟨⟨1/4, 1/4, 1⟩, ⟨0, 0, -1⟩, ⟨0, 0, -1⟩⟩ ⟨⟨0, 0, 0⟩, ⟨1, 0, 0⟩, ⟨0, 1, 0⟩⟩)))
        (terra_mulf3 (terra_subf3 ⟨0, 1, 0⟩ ⟨0, 0, 0⟩)
        (rti_v ⟨⟨1/4, 1/4, 1⟩, ⟨0, 0, -1⟩, ⟨0, 0, -1⟩⟩ ⟨⟨0, 0, 0⟩, ⟨1, 0, 0⟩, ⟨0, 1, 0⟩⟩)) ∧
    0 ≤ rti_u ⟨⟨1/4, 1/4, 1⟩, ⟨0, 0, -1⟩, ⟨0, 0, -1⟩⟩ ⟨⟨0, 0, 0⟩, ⟨1, 0, 0⟩, ⟨0, 1, 0⟩⟩ ∧
    0 ≤ rti_v ⟨⟨1/4, 1/4, 1⟩, ⟨0, 0, -1⟩, ⟨0, 0, -1⟩⟩ ⟨⟨0, 0, 0⟩, ⟨1, 0, 0⟩, ⟨0, 1, 0⟩⟩ ∧
    rti_u ⟨⟨1/4, 1/4, 1⟩, ⟨0, 0, -1⟩, ⟨0, 0, -1⟩⟩ ⟨⟨0, 0, 0⟩, ⟨1, 0, 0⟩, ⟨0, 1, 0⟩⟩ +
      rti_v ⟨⟨1/4, 1/4, 1⟩, ⟨0, 0, -1⟩, ⟨0, 0, -1⟩⟩ ⟨⟨0, 0, 0⟩, ⟨1, 0, 0⟩, ⟨0, 1, 0⟩⟩ ≤ 1 :=
  ray_triangle_hit_in_triangle ⟨⟨1/4, 1/4, 1⟩, ⟨0, 0, -1⟩, ⟨0, 0, -1⟩⟩
    ⟨⟨0, 0, 0⟩, ⟨1, 0, 0⟩, ⟨0, 1, 0⟩⟩ ⟨1/4, 1/4, 0⟩ 1
    (by norm_num [terra_ray_triangle_intersection, rti_a, rti_u, rti_v, rti_t, terra_dotf3,
      terra_crossf3, terra_subf3, terra_addf3, terra_mulf3, terra_f3_set, terra_Epsilon])

/-- C3 (as stated) fails: the triangle `(0,0,0) (1/1000,0,0) (0,1/1000,0)` has unit
normal `(0,0,1)` and `P = (1/4000, 1/4000, 0)` lies inside it, yet the ray from
`P + ε n` along `-n` is reported as a miss (the determinant is `10⁻⁶ < ε`). -/
theorem ray_triangle_roundtrip_small_triangle_misses :
    terra_dotf3 ⟨0, 0, 1⟩ ⟨0, 0, 1⟩ = 1 ∧
    terra_dotf3 ⟨0, 0, 1⟩ (terra_subf3 ⟨1/1000, 0, 0⟩ ⟨0, 0, 0⟩) = 0 ∧
    terra_dotf3 ⟨0, 0, 1⟩ (terra_subf3 ⟨0, 1/1000, 0⟩ ⟨0, 0, 0⟩) = 0 ∧
    (⟨1/4000, 1/4000, 0⟩ : TerraFloat3) =
      terra_addf3 (terra_addf3 ⟨0, 0, 0⟩ (terra_mulf3 (terra_subf3 ⟨1/1000, 0, 0⟩ ⟨0, 0, 0⟩) (1/4)))
        (terra_mulf3 (terra_subf3 ⟨0, 1/1000, 0⟩ ⟨0, 0, 0⟩) (1/4)) ∧
    terra_ray_triangle_intersection
      ⟨terra_addf3 ⟨1/4000, 1/4000, 0⟩ (terra_mulf3 ⟨0, 0, 1⟩ terra_Epsilon),
        terra_negf3 ⟨0, 0, 1⟩, ⟨0, 0, -1⟩⟩
      ⟨⟨0, 0, 0⟩, ⟨1/1000, 0, 0⟩, ⟨0, 1/1000, 0⟩⟩ = none := by
  norm_num [terra_ray_triangle_intersection, rti_a, rti_u, rti_v, rti_t, terra_dotf3,
    terra_crossf3, terra_subf3, terra_addf3, terra_mulf3, terra_negf3, terra_f3_set,
    terra_Epsilon]

/-- C3 (amended): for a triangle with unit normal `n` whose determinant
`n . ((B - A) x (C - A))` (twice the area, signed) is not inside `(-ε, ε)`, and a point
`P = A + u (B - A) + v (C - A)` with `u, v ≥ 0`, `u + v ≤ 1`, the ray from `P + ε n`
along `-n` hits with `t = ε` at `P`, and the routine's barycentrics are `u`, `v`. -/
theorem ray_triangle_roundtrip (tri : TerraTriangle) (n P inv : TerraFloat3) (u v : ℚ)
    (hn : terra_dotf3 n n = 1)
    (hn1 : terra_dotf3 n (terra_subf3 tri.b tri.a) = 0)
    (hn2 : terra_dotf3 n (terra_subf3 tri.c tri.a) = 0)
    (hu : 0 ≤ u) (hv : 0 ≤ v) (huv : u + v ≤ 1)
    (hP : P = terra_addf3 (terra_addf3 tri.a (terra_mulf3 (terra_subf3 tri.b tri.a) u))
            (terra_mulf3 (terra_subf3 tri.c tri.a) v))
    (harea : ¬ (terra_dotf3 n (terra_crossf3 (terra_subf3 tri.b tri.a) (terra_subf3 tri.c tri.a))
                  > -terra_Epsilon ∧
                terra_dotf3 n (terra_crossf3 (terra_subf3 tri.b tri.a) (terra_subf3 tri.c tri.a))
                  < terra_Epsilon)) :
    terra_ray_triangle_intersection
        ⟨terra_addf3 P (terra_mulf3 n terra_Epsilon), terra_negf3 n, inv⟩ tri
      = some (P, terra_Epsilon) ∧
    rti_u ⟨terra_addf3 P (terra_mulf3 n terra_Epsilon), terra_negf3 n, inv⟩ tri = u ∧
    rti_v ⟨terra_addf3 P (terra_mulf3 n terra_Epsilon), terra_negf3 n, inv⟩ tri = v := by
  have _ := hn
  have _ := hn1
  have _ := hn2
  set ray : TerraRay := ⟨terra_addf3 P (terra_mulf3 n terra_Epsilon), terra_negf3 n, inv⟩
    with hray
  have hA : rti_a ray tri =
      terra_dotf3 n (terra_crossf3 (terra_subf3 tri.b tri.a) (terra_subf3 tri.c tri.a)) := by
    simp only [hray, rti_a, terra_dotf3, terra_crossf3, terra_subf3, terra_negf3, terra_f3_set]
    ring
  have hguard : ¬ (rti_a ray tri > -terra_Epsilon ∧ rti_a ray tri < terra_Epsilon) := by
    rw [hA]; exact harea
  have ha0 : rti_a ray tri ≠ 0 := rti_a_ne_zero_of_guard _ hguard
  have hU : rti_u ray tri = u := by
    have key : terra_dotf3 (terra_subf3 ray.origin tri.a)
        (terra_crossf3 ray.direction (terra_subf3 tri.c tri.a)) = u * rti_a ray tri := by
      simp only [hray, hP, rti_a, terra_dotf3, terra_crossf3, terra_subf3, terra_negf3,
        terra_addf3, terra_mulf3, terra_f3_set]
      ring
    unfold rti_u
    simp only [key]
    field_simp
  have hV : rti_v ray tri = v := by
    have key : terra_dotf3 ray.direction
        (terra_crossf3 (terra_subf3 ray.origin tri.a) (terra_subf3 tri.b tri.a))
        = v * rti_a ray tri := by
      simp only [hray, hP, rti_a, terra_dotf3, terra_crossf3, terra_subf3, terra_negf3,
        terra_addf3, terra_mulf3, terra_f3_set]
      ring
    unfold rti_v
    simp only [key]
    field_simp
  have hT : rti_t ray tri = terra_Epsilon := by
    have key : terra_dotf3 (terra_subf3 tri.c tri.a)
        (terra_crossf3 (terra_subf3 ray.origin tri.a) (terra_subf3 tri.b tri.a))
        = terra_Epsilon * rti_a ray tri := by
      simp only [hray, hP, rti_a, terra_dotf3, terra_crossf3, terra_subf3, terra_negf3,
        terra_addf3, terra_mulf3, terra_f3_set]
      ring
    unfold rti_t
    simp only [key]
    field_simp
  refine ⟨?_, hU, hV⟩
  rw [rti_some_iff]
  refine ⟨hguard, by rw [hU]; exact hu, by rw [hU]; linarith, by rw [hV]; exact hv,
    by rw [hU, hV]; exact huv, by rw [hT]; norm_num [terra_Epsilon], hT.symm, ?_⟩
  rw [hT]
  simp only [hray, terra_addf3, terra_mulf3, terra_negf3, terra_f3_set, TerraFloat3.ext_iff3]
  refine ⟨?_, ?_, ?_⟩ <;> ring

/-- The triangle `(0,0,0) (1,0,0) (0,1,0)` with normal `(0,0,1)` and `u = v = 1/4`. -/
theorem ray_triangle_roundtrip_witness :
    terra_ray_triangle_intersection
        ⟨terra_addf3 ⟨1/4, 1/4, 0⟩ (terra_mulf3 ⟨0, 0, 1⟩ terra_Epsilon),
          terra_negf3 ⟨0, 0, 1⟩, ⟨0, 0, -1⟩⟩ ⟨⟨0, 0, 0⟩, ⟨1, 0, 0⟩, ⟨0, 1, 0⟩⟩
      = some (⟨1/4, 1/4, 0⟩, terra_Epsilon) ∧
    rti_u ⟨terra_addf3 ⟨1/4, 1/4, 0⟩ (terra_mulf3 ⟨0, 0, 1⟩ terra_Epsilon),
          terra_negf3 ⟨0, 0, 1⟩, ⟨0, 0, -1⟩⟩ ⟨⟨0, 0, 0⟩, ⟨1, 0, 0⟩, ⟨0, 1, 0⟩⟩ = 1/4 ∧
    rti_v ⟨terra_addf3 ⟨1/4, 1/4, 0⟩ (terra_mulf3 ⟨0, 0, 1⟩ terra_Epsilon),
          terra_negf3 ⟨0, 0, 1⟩, ⟨0, 0, -1⟩⟩ ⟨⟨0, 0, 0⟩, ⟨1, 0, 0⟩, ⟨0, 1, 0⟩⟩ = 1/4 :=
  ray_triangle_roundtrip ⟨⟨0, 0, 0⟩, ⟨1, 0, 0⟩, ⟨0, 1, 0⟩⟩ ⟨0, 0, 1⟩ ⟨1/4, 1/4, 0⟩ ⟨0, 0, -1⟩
    (1/4) (1/4)
    (by norm_num [terra_dotf3]) (by norm_num [terra_dotf3, terra_subf3, terra_f3_set])
    (by norm_num [terra_dotf3, terra_subf3, terra_f3_set]) (by norm_num) (by norm_num)
    (by norm_num)
    (by norm_num [terra_addf3, terra_mulf3, terra_subf3, terra_f3_set])
    (by norm_num [terra_dotf3, terra_crossf3, terra_subf3, terra_f3_set, terra_Epsilon])

/-- The determinant of the routine is the triple product `D . ((C - A) x (B - A))`. -/
theorem rti_a_triple (ray : TerraRay) (tri : TerraTriangle) :
    rti_a ray tri = - terra_dotf3 ray.direction
      (terra_crossf3 (terra_subf3 tri.b tri.a) (terra_subf3 tri.c tri.a)) := by
  simp only [rti_a, terra_dotf3, terra_crossf3, terra_subf3, terra_f3_set]
  ring

/-- C5 (amended): in exact arithmetic, for every ray, a triangle of zero area
(`(B - A) x (C - A) = 0`) and a ray direction parallel to the triangle's plane
(`D . ((B - A) x (C - A)) = 0`) both give determinant `a = 0`, and the routine returns
a miss. -/
theorem ray_triangle_degenerate_miss (ray : TerraRay) (tri : TerraTriangle)
    (h : terra_crossf3 (terra_subf3 tri.b tri.a) (terra_subf3 tri.c tri.a) = ⟨0, 0, 0⟩ ∨
         terra_dotf3 ray.direction
           (terra_crossf3 (terra_subf3 tri.b tri.a) (terra_subf3 tri.c tri.a)) = 0) :
    rti_a ray tri = 0 ∧ terra_ray_triangle_intersection ray tri = none := by
  have h0 : terra_dotf3 ray.direction
      (terra_crossf3 (terra_subf3 tri.b tri.a) (terra_subf3 tri.c tri.a)) = 0 := by
    rcases h with h | h
    · rw [h]; simp [terra_dotf3]
    · exact h
  have ha : rti_a ray tri = 0 := by rw [rti_a_triple, h0, neg_zero]
  refine ⟨ha, ?_⟩
  unfold terra_ray_triangle_intersection
  simp only [ha]
  rw [if_pos (by norm_num [terra_Epsilon])]

/-- A collinear triangle `(0,0,0) (1,1,1) (2,2,2)` and an arbitrary ray. -/
theorem ray_triangle_degenerate_miss_witness :
    rti_a ⟨⟨0, 0, 5⟩, ⟨1, 2, 3⟩, ⟨1, 1/2, 1/3⟩⟩ ⟨⟨0, 0, 0⟩, ⟨1, 1, 1⟩, ⟨2, 2, 2⟩⟩ = 0 ∧
    terra_ray_triangle_intersection ⟨⟨0, 0, 5⟩, ⟨1, 2, 3⟩, ⟨1, 1/2, 1/3⟩⟩
      ⟨⟨0, 0, 0⟩, ⟨1, 1, 1⟩, ⟨2, 2, 2⟩⟩ = none :=
  ray_triangle_degenerate_miss ⟨⟨0, 0, 5⟩, ⟨1, 2, 3⟩, ⟨1, 1/2, 1/3⟩⟩
    ⟨⟨0, 0, 0⟩, ⟨1, 1, 1⟩, ⟨2, 2, 2⟩⟩
    (Or.inl (by norm_num [terra_crossf3, terra_subf3, terra_f3_set]))

/-- Lagrange's identity: the Gram determinant the shading routine divides by is the
squared length of the cross product of the two edges. -/
theorem gram_eq_cross_sq (e0 e1 : TerraFloat3) :
    terra_dotf3 e0 e0 * terra_dotf3 e1 e1 - terra_dotf3 e0 e1 * terra_dotf3 e0 e1 =
      terra_dotf3 (terra_crossf3 e0 e1) (terra_crossf3 e0 e1) := by
  simp only [terra_dotf3, terra_crossf3, terra_f3_set]
  ring

/-- A vector of zero squared length is the zero vector. -/
theorem dot_self_eq_zero (w : TerraFloat3) (h : terra_dotf3 w w = 0) : w = ⟨0, 0, 0⟩ := by
  simp only [terra_dotf3] at h
  have hx : w.x = 0 := by nlinarith [mul_self_nonneg w.x, mul_self_nonneg w.y, mul_self_nonneg w.z]
  have hy : w.y = 0 := by nlinarith [mul_self_nonneg w.x, mul_self_nonneg w.y, mul_self_nonneg w.z]
  have hz : w.z = 0 := by nlinarith [mul_self_nonneg w.x, mul_self_nonneg w.y, mul_self_nonneg w.z]
  rw [TerraFloat3.ext_iff3]
  exact ⟨hx, hy, hz⟩

/-- The weights solved by `terra_triangle_init_shading` for a point
`α A + β B + γ C` of a non-degenerate triangle are `β` and `γ`. -/
theorem init_shading_weights (tri : TerraTriangle) (P : TerraFloat3) (α β γ : ℚ)
    (hnd : terra_crossf3 (terra_subf3 tri.b tri.a) (terra_subf3 tri.c tri.a) ≠ ⟨0, 0, 0⟩)
    (hsum : α + β + γ = 1)
    (hP : P = terra_addf3 (terra_addf3 (terra_mulf3 tri.a α) (terra_mulf3 tri.b β))
            (terra_mulf3 tri.c γ)) :
    (terra_dotf3 (terra_subf3 tri.c tri.a) (terra_subf3 tri.c tri.a) *
        terra_dotf3 (terra_subf3 P tri.a) (terra_subf3 tri.b tri.a) -
      terra_dotf3 (terra_subf3 tri.b tri.a) (terra_subf3 tri.c tri.a) *
        terra_dotf3 (terra_subf3 P tri.a) (terra_subf3 tri.c tri.a)) /
      (terra_dotf3 (terra_subf3 tri.b tri.a) (terra_subf3 tri.b tri.a) *
        terra_dotf3 (terra_subf3 tri.c tri.a) (terra_subf3 tri.c tri.a) -
       terra_dotf3 (terra_subf3 tri.b tri.a) (terra_subf3 tri.c tri.a) *
        terra_dotf3 (terra_subf3 tri.b tri.a) (terra_subf3 tri.c tri.a)) = β ∧
    (terra_dotf3 (terra_subf3 tri.b tri.a) (terra_subf3 tri.b tri.a) *
        terra_dotf3 (terra_subf3 P tri.a) (terra_subf3 tri.c tri.a) -
      terra_dotf3 (terra_subf3 tri.b tri.a) (terra_subf3 tri.c tri.a) *
        terra_dotf3 (terra_subf3 P tri.a) (terra_subf3 tri.b tri.a)) /
      (terra_dotf3 (terra_subf3 tri.b tri.a) (terra_subf3 tri.b tri.a) *
        terra_dotf3 (terra_subf3 tri.c tri.a) (terra_subf3 tri.c tri.a) -
       terra_dotf3 (terra_subf3 tri.b tri.a) (terra_subf3 tri.c tri.a) *
        terra_dotf3 (terra_subf3 tri.b tri.a) (terra_subf3 tri.c tri.a)) = γ := by
  have hdiv : terra_dotf3 (terra_subf3 tri.b tri.a) (terra_subf3 tri.b tri.a) *
        terra_dotf3 (terra_subf3 tri.c tri.a) (terra_subf3 tri.c tri.a) -
       terra_dotf3 (terra_subf3 tri.b tri.a) (terra_subf3 tri.c tri.a) *
        terra_dotf3 (terra_subf3 tri.b tri.a) (terra_subf3 tri.c tri.a) ≠ 0 := by
    rw [gram_eq_cross_sq]
    exact fun h0 => hnd (dot_self_eq_zero _ h0)
  have hα : α = 1 - β - γ := by linarith
  constructor
  · rw [div_eq_iff hdiv]
    simp only [hP, hα, terra_dotf3, terra_subf3, terra_addf3, terra_mulf3, terra_f3_set]
    ring
  · rw [div_eq_iff hdiv]
    simp only [hP, hα, terra_dotf3, terra_subf3, terra_addf3, terra_mulf3, terra_f3_set]
    ring

/-- C4: for a non-degenerate triangle and a point `P = α A + β B + γ C` with
`α + β + γ = 1`, `terra_triangle_init_shading` sets the texcoord to
`α texcoord_a + β texcoord_b + γ texcoord_c` and the normal to the normalisation of
`α normal_a + β normal_b + γ normal_c`. -/
theorem init_shading_interpolates (sqrtf : ℚ → ℚ) (tri : TerraTriangle)
    (props : TerraTriangleProperties) (P : TerraFloat3) (α β γ : ℚ)
    (hnd : terra_crossf3 (terra_subf3 tri.b tri.a) (terra_subf3 tri.c tri.a) ≠ ⟨0, 0, 0⟩)
    (hsum : α + β + γ = 1)
    (hP : P = terra_addf3 (terra_addf3 (terra_mulf3 tri.a α) (terra_mulf3 tri.b β))
            (terra_mulf3 tri.c γ)) :
    terra_triangle_init_shading sqrtf tri props P =
      { texcoord := terra_addf2 (terra_addf2 (terra_mulf2 props.texcoord_a α)
            (terra_mulf2 props.texcoord_b β)) (terra_mulf2 props.texcoord_c γ),
        normal := terra_normf3 sqrtf (terra_addf3 (terra_addf3 (terra_mulf3 props.normal_a α)
            (terra_mulf3 props.normal_b β)) (terra_mulf3 props.normal_c γ)) } := by
  obtain ⟨hx, hy⟩ := init_shading_weights tri P α β γ hnd hsum hP
  have hα : 1 - β - γ = α := by linarith
  unfold terra_triangle_init_shading
  simp only [hx, hy, hα]
  have hn : terra_addf3 (terra_addf3 (terra_mulf3 props.normal_c γ)
        (terra_mulf3 props.normal_b β)) (terra_mulf3 props.normal_a α) =
      terra_addf3 (terra_addf3 (terra_mulf3 props.normal_a α)
        (terra_mulf3 props.normal_b β)) (terra_mulf3 props.normal_c γ) := by
    simp only [terra_addf3, terra_mulf3, terra_f3_set, TerraFloat3.mk.injEq]
    refine ⟨?_, ?_, ?_⟩ <;> ring
  have ht : terra_addf2 (terra_addf2 (terra_mulf2 props.texcoord_c γ)
        (terra_mulf2 props.texcoord_b β)) (terra_mulf2 props.texcoord_a α) =
      terra_addf2 (terra_addf2 (terra_mulf2 props.texcoord_a α)
        (terra_mulf2 props.texcoord_b β)) (terra_mulf2 props.texcoord_c γ) := by
    simp only [terra_addf2, terra_mulf2, terra_f2_set, TerraFloat2.mk.injEq]
    refine ⟨?_, ?_⟩ <;> ring
  rw [hn, ht]

/-- The triangle `(0,0,0) (1,0,0) (0,1,0)` at weights `(1/2, 1/4, 1/4)`. -/
theorem init_shading_interpolates_witness :
    terra_triangle_init_shading (fun q => q) ⟨⟨0, 0, 0⟩, ⟨1, 0, 0⟩, ⟨0, 1, 0⟩⟩
        ⟨⟨0, 0, 1⟩, ⟨0, 1, 0⟩, ⟨1, 0, 0⟩, ⟨0, 0⟩, ⟨1, 0⟩, ⟨0, 1⟩⟩ ⟨1/4, 1/4, 0⟩ =
      { texcoord := terra_addf2 (terra_addf2 (terra_mulf2 ⟨0, 0⟩ (1/2))
            (terra_mulf2 ⟨1, 0⟩ (1/4))) (terra_mulf2 ⟨0, 1⟩ (1/4)),
        normal := terra_normf3 (fun q => q) (terra_addf3 (terra_addf3
            (terra_mulf3 ⟨0, 0, 1⟩ (1/2)) (terra_mulf3 ⟨0, 1, 0⟩ (1/4)))
            (terra_mulf3 ⟨1, 0, 0⟩ (1/4))) } :=
  init_shading_interpolates (fun q => q) ⟨⟨0, 0, 0⟩, ⟨1, 0, 0⟩, ⟨0, 1, 0⟩⟩
    ⟨⟨0, 0, 1⟩, ⟨0, 1, 0⟩, ⟨1, 0, 0⟩, ⟨0, 0⟩, ⟨1, 0⟩, ⟨0, 1⟩⟩ ⟨1/4, 1/4, 0⟩ (1/2) (1/4) (1/4)
    (by norm_num [terra_crossf3, terra_subf3, terra_f3_set]) (by norm_num)
    (by norm_num [terra_addf3, terra_mulf3, terra_f3_set])

/-- The running minimum over the start value and the three vertices is below each. -/
theorem min3_le (m a b c : ℚ) :
    min (min (min m a) b) c ≤ a ∧ min (min (min m a) b) c ≤ b ∧ min (min (min m a) b) c ≤ c :=
  ⟨le_trans (min_le_left _ _) (le_trans (min_le_left _ _) (min_le_right _ _)),
   le_trans (min_le_left _ _) (min_le_right _ _), min_le_right _ _⟩

/-- The running maximum over the start value and the three vertices is above each. -/
theorem le_max3 (m a b c : ℚ) :
    a ≤ max (max (max m a) b) c ∧ b ≤ max (max (max m a) b) c ∧ c ≤ max (max (max m a) b) c :=
  ⟨le_trans (le_max_right _ _) (le_trans (le_max_left _ _) (le_max_left _ _)),
   le_trans (le_max_right _ _) (le_max_left _ _), le_max_right _ _⟩

/-- C6 (amended): in exact arithmetic, whatever the starting box, after
`terra_aabb_fit_triangle` the box strictly contains the three vertices on every axis,
and so `min ≤ max` componentwise. -/
theorem fit_triangle_contains_vertices (aabb : TerraAABB) (tri : TerraTriangle) :
    strictly_inside tri.a (terra_aabb_fit_triangle aabb tri) ∧
    strictly_inside tri.b (terra_aabb_fit_triangle aabb tri) ∧
    strictly_inside tri.c (terra_aabb_fit_triangle aabb tri) ∧
    (terra_aabb_fit_triangle aabb tri).min.x ≤ (terra_aabb_fit_triangle aabb tri).max.x ∧
    (terra_aabb_fit_triangle aabb tri).min.y ≤ (terra_aabb_fit_triangle aabb tri).max.y ∧
    (terra_aabb_fit_triangle aabb tri).min.z ≤ (terra_aabb_fit_triangle aabb tri).max.z := by
  have he : (0 : ℚ) < terra_Epsilon := by norm_num [terra_Epsilon]
  obtain ⟨x1, x2, x3⟩ := min3_le aabb.min.x tri.a.x tri.b.x tri.c.x
  obtain ⟨y1, y2, y3⟩ := min3_le aabb.min.y tri.a.y tri.b.y tri.c.y
  obtain ⟨z1, z2, z3⟩ := min3_le aabb.min.z tri.a.z tri.b.z tri.c.z
  obtain ⟨X1, X2, X3⟩ := le_max3 aabb.max.x tri.a.x tri.b.x tri.c.x
  obtain ⟨Y1, Y2, Y3⟩ := le_max3 aabb.max.y tri.a.y tri.b.y tri.c.y
  obtain ⟨Z1, Z2, Z3⟩ := le_max3 aabb.max.z tri.a.z tri.b.z tri.c.z
  simp only [strictly_inside, terra_aabb_fit_triangle, terra_minf_eq, terra_maxf_eq]
  refine ⟨⟨?_, ?_, ?_, ?_, ?_, ?_⟩, ⟨?_, ?_, ?_, ?_, ?_, ?_⟩, ⟨?_, ?_, ?_, ?_, ?_, ?_⟩,
    ?_, ?_, ?_⟩ <;> linarith

theorem comp_fit_aabb_min (a o : TerraAABB) (k : Nat) :
    terra__comp (terra_aabb_fit_aabb a o).min k =
      min (terra__comp a.min k) (terra__comp o.min k) := by
  rcases k with _ | _ | k <;> simp [terra__comp, terra_aabb_fit_aabb, terra_minf_eq]

theorem comp_fit_aabb_max (a o : TerraAABB) (k : Nat) :
    terra__comp (terra_aabb_fit_aabb a o).max k =
      max (terra__comp a.max k) (terra__comp o.max k) + terra_Epsilon := by
  rcases k with _ | _ | k <;> simp [terra__comp, terra_aabb_fit_aabb, terra_maxf_eq]

theorem eps_pos : (0 : ℚ) < terra_Epsilon := by norm_num [terra_Epsilon]

/-- The union box only grows. -/
theorem fit_volumes_mono (l : List TerraBVHVolume) (acc : TerraAABB) (k : Nat) :
    terra__comp (fit_volumes acc l).min k ≤ terra__comp acc.min k ∧
    terra__comp acc.max k ≤ terra__comp (fit_volumes acc l).max k := by
  induction l generalizing acc with
  | nil => exact ⟨le_refl _, le_refl _⟩
  | cons v vs ih =>
    have h := ih (terra_aabb_fit_aabb acc v.aabb)
    rw [comp_fit_aabb_min, comp_fit_aabb_max] at h
    have e := eps_pos
    simp only [fit_volumes, List.foldl_cons] at h ⊢
    exact ⟨le_trans h.1 (min_le_left _ _),
      le_trans (by linarith [le_max_left (terra__comp acc.max k) (terra__comp v.aabb.max k)]) h.2⟩

/-- The union box contains every member, with `ε` to spare on the max side. -/
theorem fit_volumes_contains (l : List TerraBVHVolume) (acc : TerraAABB) (k : Nat)
    (v : TerraBVHVolume) (hv : v ∈ l) :
    terra__comp (fit_volumes acc l).min k ≤ terra__comp v.aabb.min k ∧
    terra__comp v.aabb.max k + terra_Epsilon ≤ terra__comp (fit_volumes acc l).max k := by
  induction l generalizing acc with
  | nil => cases hv
  | cons w ws ih =>
    rcases List.mem_cons.mp hv with rfl | hmem
    · have h := fit_volumes_mono ws (terra_aabb_fit_aabb acc v.aabb) k
      rw [comp_fit_aabb_min, comp_fit_aabb_max] at h
      simp only [fit_volumes, List.foldl_cons] at h ⊢
      exact ⟨le_trans h.1 (min_le_right _ _),
        le_trans (by linarith [le_max_right (terra__comp acc.max k) (terra__comp v.aabb.max k)]) h.2⟩
    · exact ih (terra_aabb_fit_aabb acc w.aabb) hmem

/-- A lower bound of the members and of the start box bounds the union's min. -/
theorem fit_volumes_min_ge (l : List TerraBVHVolume) (acc : TerraAABB) (k : Nat) (m : ℚ)
    (hl : ∀ v ∈ l, m ≤ terra__comp v.aabb.min k) (hacc : m ≤ terra__comp acc.min k) :
    m ≤ terra__comp (fit_volumes acc l).min k := by
  induction l generalizing acc with
  | nil => exact hacc
  | cons w ws ih =>
    simp only [fit_volumes, List.foldl_cons]
    apply ih (terra_aabb_fit_aabb acc w.aabb) (fun v hv => hl v (List.mem_cons_of_mem _ hv))
    rw [comp_fit_aabb_min]
    exact le_min hacc (hl w (List.mem_cons_self _ _))

/-- Each fit pads the max side by `ε`, so a union of `n` members exceeds their common
upper bound by at most `n ε`. -/
theorem fit_volumes_max_le (l : List TerraBVHVolume) (acc : TerraAABB) (k : Nat) (M j : ℚ)
    (hl : ∀ v ∈ l, terra__comp v.aabb.max k ≤ M)
    (hacc : terra__comp acc.max k ≤ M + j * terra_Epsilon) (hj : 0 ≤ j) :
    terra__comp (fit_volumes acc l).max k ≤ M + (j + l.length) * terra_Epsilon := by
  induction l generalizing acc j with
  | nil => simpa using hacc
  | cons w ws ih =>
    simp only [fit_volumes, List.foldl_cons]
    have e := eps_pos
    have hw := hl w (List.mem_cons_self _ _)
    have h1 : terra__comp (terra_aabb_fit_aabb acc w.aabb).max k ≤ M + (j + 1) * terra_Epsilon := by
      rw [comp_fit_aabb_max]
      have : max (terra__comp acc.max k) (terra__comp w.aabb.max k) ≤ M + j * terra_Epsilon :=
        max_le hacc (by nlinarith)
      linarith
    have h2 := ih (terra_aabb_fit_aabb acc w.aabb) (j + 1)
      (fun v hv => hl v (List.mem_cons_of_mem _ hv)) h1 (by linarith)
    simp only [fit_volumes] at h2
    refine le_trans h2 (le_of_eq ?_)
    simp only [List.length_cons, Nat.cast_add, Nat.cast_one]
    ring

/-- Surface area in terms of the per-axis extents. -/
theorem surface_area_comp (b : TerraAABB) :
    terra_aabb_surface_area b =
      2 * ((terra__comp b.max 0 - terra__comp b.min 0) * (terra__comp b.max 2 - terra__comp b.min 2)
        + (terra__comp b.max 0 - terra__comp b.min 0) * (terra__comp b.max 1 - terra__comp b.min 1)
        + (terra__comp b.max 2 - terra__comp b.min 2) * (terra__comp b.max 1 - terra__comp b.min 1)) :=
  rfl

/-- Scaling every extent by at most `c` scales the area by at most `c²`. -/
theorem surface_area_le_of_extents (F C : TerraAABB) (c : ℚ)
    (hF : ∀ k : Nat, 0 ≤ terra__comp F.max k - terra__comp F.min k ∧
      terra__comp F.max k - terra__comp F.min k ≤
        c * (terra__comp C.max k - terra__comp C.min k)) :
    terra_aabb_surface_area F ≤ c ^ 2 * terra_aabb_surface_area C := by
  rw [surface_area_comp, surface_area_comp]
  obtain ⟨a0, b0⟩ := hF 0
  obtain ⟨a1, b1⟩ := hF 1
  obtain ⟨a2, b2⟩ := hF 2
  have p02 := mul_le_mul b0 b2 a2 (le_trans a0 b0)
  have p01 := mul_le_mul b0 b1 a1 (le_trans a0 b0)
  have p21 := mul_le_mul b2 b1 a1 (le_trans a2 b2)
  nlinarith [p02, p01, p21]

/-- A box that contains a well-formed volume has positive area. -/
theorem surface_area_pos_of_contains (C : TerraAABB) (v : TerraBVHVolume) (hv : vol_ok v)
    (hC : box_contains C v.aabb) : 0 < terra_aabb_surface_area C := by
  rw [surface_area_comp]
  have e := eps_pos
  have w0 : 0 < terra__comp C.max 0 - terra__comp C.min 0 := by
    linarith [(hv.2 0).1, (hC 0).1, (hC 0).2]
  have w1 : 0 < terra__comp C.max 1 - terra__comp C.min 1 := by
    linarith [(hv.2 1).1, (hC 1).1, (hC 1).2]
  have w2 : 0 < terra__comp C.max 2 - terra__comp C.min 2 := by
    linarith [(hv.2 2).1, (hC 2).1, (hC 2).2]
  have := mul_pos w0 w2
  have := mul_pos w0 w1
  have := mul_pos w2 w1
  linarith

/-- The union of at most `n` well-formed volumes lying in a box `C` has area at most
`(1 + n/2)²` times the area of `C`: the union exceeds `C` only by the accumulated
padding. -/
theorem fit_volumes_area_bound (l : List TerraBVHVolume) (C : TerraAABB) (n : Nat)
    (hne : l ≠ []) (hlen : l.length ≤ n) (hok : ∀ v ∈ l, vol_ok v)
    (hC : ∀ v ∈ l, box_contains C v.aabb) :
    terra_aabb_surface_area (fit_volumes empty_aabb l) ≤
      (1 + (n : ℚ) / 2) ^ 2 * terra_aabb_surface_area C := by
  obtain ⟨v0, hv0⟩ := List.exists_mem_of_ne_nil l hne
  have e := eps_pos
  have hn : (l.length : ℚ) ≤ n := by exact_mod_cast hlen
  apply surface_area_le_of_extents _ _ _
  intro k
  have hcont := fit_volumes_contains l empty_aabb k v0 hv0
  have hv := (hok v0 hv0).2 k
  have hCv := hC v0 hv0 k
  have hmin : terra__comp C.min k ≤ terra__comp (fit_volumes empty_aabb l).min k := by
    apply fit_volumes_min_ge l empty_aabb k _ (fun v hv => (hC v hv k).1)
    have : terra__comp empty_aabb.min k = FLT_MAX := by
      rcases k with _ | _ | k <;> rfl
    rw [this]; linarith
  have hmax : terra__comp (fit_volumes empty_aabb l).max k ≤
      terra__comp C.max k + (0 + l.length) * terra_Epsilon := by
    apply fit_volumes_max_le l empty_aabb k _ 0 (fun v hv => (hC v hv k).2) _ (le_refl _)
    have : terra__comp empty_aabb.max k = -FLT_MAX := by
      rcases k with _ | _ | k <;> rfl
    rw [this]; linarith
  constructor
  · linarith
  · have hW : 2 * terra_Epsilon ≤ terra__comp C.max k - terra__comp C.min k := by linarith
    have h1 : (l.length : ℚ) * terra_Epsilon ≤ n * terra_Epsilon :=
      mul_le_mul_of_nonneg_right hn e.le
    have h2 : (n : ℚ) * (2 * terra_Epsilon) ≤
        n * (terra__comp C.max k - terra__comp C.min k) :=
      mul_le_mul_of_nonneg_left hW (by positivity)
    nlinarith

theorem area_sweep_length (l : List TerraBVHVolume) (acc : TerraAABB) :
    (area_sweep acc l).length = l.length := by
  induction l generalizing acc with
  | nil => rfl
  | cons v vs ih => simp [area_sweep, ih]

/-- The last running area of a sweep is the area of the union of the whole list. -/
theorem area_sweep_getLast (l : List TerraBVHVolume) (acc : TerraAABB) (hne : l ≠ []) :
    (area_sweep acc l).getLast? = some (terra_aabb_surface_area (fit_volumes acc l)) := by
  induction l generalizing acc with
  | nil => exact absurd rfl hne
  | cons v vs ih =>
    cases vs with
    | nil => simp [area_sweep, fit_volumes]
    | cons w ws =>
      have h := ih (terra_aabb_fit_aabb acc v.aabb) (by simp)
      rw [area_sweep] at h
      rw [area_sweep, area_sweep, List.getLast?_cons_cons]
      simpa [fit_volumes] using h

/-- The index returned by the cost loop is the incoming one or one of the indices the
loop runs over. -/
theorem sah_cost_loop_idx (n : Nat) (ca : ℚ) (las ras : List ℚ) (i : Nat) (acc : ℚ × Int) :
    (sah_cost_loop n ca i las ras acc).2 = acc.2 ∨
      ((i : Int) ≤ (sah_cost_loop n ca i las ras acc).2 ∧
        (sah_cost_loop n ca i las ras acc).2 < (i : Int) + min las.length ras.length) := by
  induction las generalizing ras i acc with
  | nil => left; simp [sah_cost_loop]
  | cons la las ih =>
    cases ras with
    | nil => left; simp [sah_cost_loop]
    | cons ra ras =>
      simp only [sah_cost_loop]
      split_ifs with hlt
      · rcases ih ras (i + 1) (_, (i : Int)) with h | h
        · right
          rw [h]
          simp only [List.length_cons]
          omega
        · right
          simp only [List.length_cons]
          push_cast at h ⊢
          omega
      · rcases ih ras (i + 1) acc with h | h
        · left; exact h
        · right
          simp only [List.length_cons]
          push_cast at h ⊢
          omega

/-- When the first candidate costs less than `FLT_MAX`, the cost loop returns a valid
index (never the initial `-1`). -/
theorem sah_cost_loop_first (n : Nat) (ca la ra : ℚ) (las ras : List ℚ)
    (h : (((0 + 1 : Nat) : ℚ)) * la / ca + ((((n : Int) - ((0 + 1 : Nat) : Int) : Int)) : ℚ) * ra / ca
          < FLT_MAX) :
    0 ≤ (sah_cost_loop n ca 0 (la :: las) (ra :: ras) (FLT_MAX, -1)).2 ∧
    (sah_cost_loop n ca 0 (la :: las) (ra :: ras) (FLT_MAX, -1)).2 <
      1 + (min las.length ras.length : Nat) := by
  simp only [sah_cost_loop]
  rw [if_pos h]
  rcases sah_cost_loop_idx n ca las ras (0 + 1) (_, ((0 : Nat) : Int)) with h1 | h1
  · rw [h1]; simp only []; omega
  · push_cast at h1 ⊢; omega

/-- The numeric headroom: with at most `2^32` volumes the cost bound stays below
`FLT_MAX`. -/
theorem cost_bound_lt_flt_max (n : Nat) (hn : n ≤ 2 ^ 32) :
    (n : ℚ) * (1 + (n : ℚ) / 2) ^ 2 < FLT_MAX := by
  have h1 : (n : ℚ) ≤ 2 ^ 32 := by exact_mod_cast hn
  have h0 : (0 : ℚ) ≤ n := by positivity
  have h2 : (1 + (n : ℚ) / 2) ^ 2 ≤ (1 + (2 : ℚ) ^ 32 / 2) ^ 2 :=
    pow_le_pow_left₀ (by positivity) (by linarith) 2
  have h3 : (n : ℚ) * (1 + (n : ℚ) / 2) ^ 2 ≤ 2 ^ 32 * (1 + (2 : ℚ) ^ 32 / 2) ^ 2 :=
    mul_le_mul h1 h2 (by positivity) (by positivity)
  refine lt_of_le_of_lt h3 ?_
  norm_num [FLT_MAX]

/-- Behaviour of `terra_bvh_sah_split_volumes` on a range of at least two well-formed
volumes lying in the container: the range is permuted and the returned split index
lies in `[0, volumes_count - 2]`. -/
theorem sah_split_spec
    (qsort : (TerraBVHVolume → TerraBVHVolume → Int) → List TerraBVHVolume → List TerraBVHVolume)
    (hq : ∀ cmp l, (qsort cmp l).Perm l)
    (sub : List TerraBVHVolume) (C : TerraAABB)
    (h2 : 2 ≤ sub.length) (hbig : sub.length ≤ 2 ^ 32)
    (hok : ∀ v ∈ sub, vol_ok v) (hC : ∀ v ∈ sub, box_contains C v.aabb) :
    (terra_bvh_sah_split_volumes qsort sub (some C)).1.Perm sub ∧
    0 ≤ (terra_bvh_sah_split_volumes qsort sub (some C)).2 ∧
    (terra_bvh_sah_split_volumes qsort sub (some C)).2 ≤ (sub.length : Int) - 2 := by
  set p := qsort terra_bvh_volume_compare_x sub with hp
  have hperm : p.Perm sub := hq _ _
  have hplen : p.length = sub.length := hperm.length_eq
  have hpok : ∀ v ∈ p, vol_ok v := fun v hv => hok v (hperm.mem_iff.mp hv)
  have hpC : ∀ v ∈ p, box_contains C v.aabb := fun v hv => hC v (hperm.mem_iff.mp hv)
  refine ⟨hperm, ?_⟩
  -- the two area arrays
  set L := p.take (sub.length - 1) with hL
  set R := p.reverse.take (sub.length - 1) with hR
  have hLlen : L.length = sub.length - 1 := by simp [hL, hplen]
  have hRlen : R.length = sub.length - 1 := by simp [hR, hplen]
  have hLne : L ≠ [] := by intro h; rw [h] at hLlen; simp at hLlen; omega
  have hRne : R ≠ [] := by intro h; rw [h] at hRlen; simp at hRlen; omega
  have hLmem : ∀ v ∈ L, v ∈ p := fun v hv => List.mem_of_mem_take hv
  have hRmem : ∀ v ∈ R, v ∈ p := fun v hv => List.mem_reverse.mp (List.mem_of_mem_take hv)
  obtain ⟨v0, L', hLcons⟩ := List.exists_cons_of_ne_nil hLne
  have hv0 : v0 ∈ p := hLmem v0 (by rw [hLcons]; exact List.mem_cons_self _ _)
  have hCA : 0 < terra_aabb_surface_area C :=
    surface_area_pos_of_contains C v0 (hpok v0 hv0) (hpC v0 hv0)
  -- head of left_area
  have hla : area_sweep empty_aabb L =
      terra_aabb_surface_area (fit_volumes empty_aabb [v0]) ::
        area_sweep (terra_aabb_fit_aabb empty_aabb v0.aabb) L' := by
    rw [hLcons]; rfl
  -- head of right_area
  have hras : ∃ ras, (area_sweep empty_aabb R).reverse =
      terra_aabb_surface_area (fit_volumes empty_aabb R) :: ras ∧
      ras.length = sub.length - 2 := by
    have hlast := area_sweep_getLast R empty_aabb hRne
    have hlen := area_sweep_length R empty_aabb
    rw [← List.head?_reverse] at hlast
    cases hrev : (area_sweep empty_aabb R).reverse with
    | nil => rw [hrev] at hlast; simp at hlast
    | cons a ras =>
      rw [hrev] at hlast
      simp only [List.head?_cons, Option.some.injEq] at hlast
      refine ⟨ras, by rw [hlast], ?_⟩
      have : ((area_sweep empty_aabb R).reverse).length = sub.length - 1 := by
        rw [List.length_reverse, hlen, hRlen]
      rw [hrev] at this
      simp only [List.length_cons] at this
      omega
  obtain ⟨ras, hra, hraslen⟩ := hras
  have hlaslen : (area_sweep (terra_aabb_fit_aabb empty_aabb v0.aabb) L').length =
      sub.length - 2 := by
    rw [area_sweep_length]
    have : L.length = L'.length + 1 := by rw [hLcons]; rfl
    omega
  -- the bound on the first candidate
  have hc0 : (0 : ℚ) ≤ (1 + (sub.length : ℚ) / 2) ^ 2 := by positivity
  have hb1 : terra_aabb_surface_area (fit_volumes empty_aabb [v0]) ≤
      (1 + (sub.length : ℚ) / 2) ^ 2 * terra_aabb_surface_area C :=
    fit_volumes_area_bound [v0] C sub.length (by simp) (by simp; omega)
      (fun v hv => by rw [List.mem_singleton.mp hv]; exact hpok v0 hv0)
      (fun v hv => by rw [List.mem_singleton.mp hv]; exact hpC v0 hv0)
  have hb2 : terra_aabb_surface_area (fit_volumes empty_aabb R) ≤
      (1 + (sub.length : ℚ) / 2) ^ 2 * terra_aabb_surface_area C :=
    fit_volumes_area_bound R C sub.length hRne (by omega)
      (fun v hv => hpok v (hRmem v hv)) (fun v hv => hpC v (hRmem v hv))
  have hd1 : terra_aabb_surface_area (fit_volumes empty_aabb [v0]) / terra_aabb_surface_area C
      ≤ (1 + (sub.length : ℚ) / 2) ^ 2 := (div_le_iff₀ hCA).mpr hb1
  have hd2 : terra_aabb_surface_area (fit_volumes empty_aabb R) / terra_aabb_surface_area C
      ≤ (1 + (sub.length : ℚ) / 2) ^ 2 := (div_le_iff₀ hCA).mpr hb2
  have hcost : (((0 + 1 : Nat) : ℚ)) * terra_aabb_surface_area (fit_volumes empty_aabb [v0]) /
        terra_aabb_surface_area C +
      ((((sub.length : Int) - ((0 + 1 : Nat) : Int) : Int)) : ℚ) *
        terra_aabb_surface_area (fit_volumes empty_aabb R) / terra_aabb_surface_area C
      < FLT_MAX := by
    have hn1 : (0 : ℚ) ≤ (sub.length : ℚ) - 1 := by
      have : (2 : ℚ) ≤ sub.length := by exact_mod_cast h2
      linarith
    have := cost_bound_lt_flt_max sub.length hbig
    have e1 := mul_le_mul_of_nonneg_left hd2 hn1
    push_cast
    rw [mul_div_assoc, mul_div_assoc]
    nlinarith
  have key := sah_cost_loop_first sub.length (terra_aabb_surface_area C) _ _
    (area_sweep (terra_aabb_fit_aabb empty_aabb v0.aabb) L') ras hcost
  have hres : (terra_bvh_sah_split_volumes qsort sub (some C)).2 =
      (sah_cost_loop sub.length (terra_aabb_surface_area C) 0
        (terra_aabb_surface_area (fit_volumes empty_aabb [v0]) ::
          area_sweep (terra_aabb_fit_aabb empty_aabb v0.aabb) L')
        (terra_aabb_surface_area (fit_volumes empty_aabb R) :: ras) (FLT_MAX, -1)).2 := by
    simp only [terra_bvh_sah_split_volumes]
    rw [← hp, ← hL, ← hR, hla, hra]
  rw [hres]
  rw [hlaslen, hraslen] at key
  constructor
  · exact key.1
  · have := key.2
    simp only [min_self] at this
    omega

/-- A finished subtree only depends on the nodes it uses. -/
theorem SlotTree.frame {nodes nodes' : List TerraBVHNode} {ty : Int} {ix : Nat}
    {bb : TerraAABB} {us : List Nat} {l : List TerraBVHVolume}
    (h : SlotTree nodes ty ix bb us l) (hsame : ∀ j ∈ us, nodes'[j]? = nodes[j]?) :
    SlotTree nodes' ty ix bb us l := by
  induction h with
  | leaf index aabb => exact SlotTree.leaf index aabb
  | inner index aabb nd us0 us1 l0 l1 hnd _ _ hc ih0 ih1 =>
    refine SlotTree.inner index aabb nd us0 us1 l0 l1 ?_ (ih0 ?_) (ih1 ?_) hc
    · rw [hsame index (List.mem_cons_self _ _)]; exact hnd
    · intro j hj
      exact hsame j (List.mem_cons_of_mem _ (List.mem_append_left _ hj))
    · intro j hj
      exact hsame j (List.mem_cons_of_mem _ (List.mem_append_right _ hj))

theorem bvh_run_add
    (qsort : (TerraBVHVolume → TerraBVHVolume → Int) → List TerraBVHVolume → List TerraBVHVolume)
    (n m : Nat) (s : BVHBuild) :
    bvh_run qsort (n + m) s = bvh_run qsort m (bvh_run qsort n s) := by
  induction n generalizing s with
  | zero => simp [bvh_run]
  | succ n ih =>
    rw [Nat.add_right_comm, bvh_run, bvh_run, ih]

/-- Once the stack is empty the build state no longer changes. -/
theorem bvh_run_done
    (qsort : (TerraBVHVolume → TerraBVHVolume → Int) → List TerraBVHVolume → List TerraBVHVolume)
    (n : Nat) (s : BVHBuild) (h : s.stack = []) : bvh_run qsort n s = s := by
  induction n with
  | zero => rfl
  | succ n ih =>
    rw [bvh_run]
    have : bvh_step qsort s = s := by simp [bvh_step, h]
    rw [this, ih]

theorem slice_mid {α : Type} (A S B : List α) :
    ((A ++ S ++ B).drop A.length).take (A.length + S.length - A.length) = S := by
  simp

theorem take_mid {α : Type} (A S B : List α) : (A ++ S ++ B).take A.length = A := by
  simp

theorem drop_mid {α : Type} (A S B : List α) :
    (A ++ S ++ B).drop (A.length + S.length) = B := by
  have : A.length + S.length = (A ++ S).length := by simp
  rw [this, List.drop_left']
  rfl

theorem getD_mid {α : Type} (A P B : List α) (j : Nat) (d : α) (hj : j < P.length) :
    (A ++ P ++ B).getD (A.length + j) d = P.getD j d := by
  simp only [List.getD_eq_getElem?_getD, List.append_assoc]
  rw [List.getElem?_append_right (by omega)]
  simp only [Nat.add_sub_cancel_left]
  rw [List.getElem?_append_left hj]

theorem drop_take_mid {α : Type} (A P B : List α) (j n : Nat) (hj : j + n ≤ P.length) :
    ((A ++ P ++ B).drop (A.length + j)).take n = (P.drop j).take n := by
  rw [List.append_assoc, ← List.drop_drop, List.drop_left, List.drop_append_of_le_length (by omega),
    List.take_append_of_le_length (by simp; omega)]

/-- One build step on a task whose range is `sub` inside `A ++ sub ++ B`, when the split
routine answers `(p0, m)`: the range becomes `p0`, node `t.node_idx` is written, and
each side with more than one volume gets a fresh node index and a new task. -/
theorem bvh_step_spec
    (qsort : (TerraBVHVolume → TerraBVHVolume → Int) → List TerraBVHVolume → List TerraBVHVolume)
    (s : BVHBuild) (t : StackTask) (rest : List StackTask) (A sub B p0 : List TerraBVHVolume)
    (m : Nat)
    (hst : s.stack = t :: rest) (hV : s.volumes = A ++ sub ++ B)
    (ha : t.volumes_start = A.length) (hb : t.volumes_end = A.length + sub.length)
    (hr : terra_bvh_sah_split_volumes qsort sub (some t.aabb) = (p0, (m : Int)))
    (hm : m + 2 ≤ sub.length) (hp0 : p0.length = sub.length) :
    bvh_step qsort s =
      { volumes := A ++ p0 ++ B,
        nodes := s.nodes.set t.node_idx
          ⟨if m = 0 then (p0.getD 0 blank_volume).aabb
             else fit_volumes empty_aabb (p0.take (m + 1)),
           if m + 2 = sub.length then (p0.getD (sub.length - 1) blank_volume).aabb
             else fit_volumes empty_aabb (p0.drop (m + 1)),
           if m = 0 then (p0.getD 0 blank_volume).index else s.nodes_count,
           if m + 2 = sub.length then (p0.getD (sub.length - 1) blank_volume).index
             else (if m = 0 then s.nodes_count else s.nodes_count + 1),
           if m = 0 then (p0.getD 0 blank_volume).type else -1,
           if m + 2 = sub.length then (p0.getD (sub.length - 1) blank_volume).type else -1⟩,
        nodes_count := (if m = 0 then s.nodes_count else s.nodes_count + 1) +
          (if m + 2 = sub.length then 0 else 1),
        stack :=
          (if m + 2 = sub.length then []
            else [⟨A.length + (m + 1), A.length + sub.length,
              if m = 0 then s.nodes_count else s.nodes_count + 1,
              fit_volumes empty_aabb (p0.drop (m + 1))⟩]) ++
          ((if m = 0 then []
            else [⟨A.length, A.length + (m + 1), s.nodes_count,
              fit_volumes empty_aabb (p0.take (m + 1))⟩]) ++ rest) } := by
  have e1 : ((m : Int) + (A.length : Int) + 1).toNat = A.length + (m + 1) := by omega
  have e2 : (((m : Int) + (A.length : Int)) == (A.length : Int)) = decide (m = 0) := by
    by_cases h0 : m = 0
    · subst h0; simp
    · simp only [h0, decide_False]
      rw [beq_eq_false_iff_ne]
      omega
  have e3 : (((m : Int) + (A.length : Int)) == ((A.length + sub.length : Nat) : Int) - 2)
      = decide (m + 2 = sub.length) := by
    by_cases h0 : m + 2 = sub.length
    · simp only [h0, decide_True]
      rw [beq_iff_eq]
      omega
    · simp only [h0, decide_False]
      rw [beq_eq_false_iff_ne]
      omega
  have g0 : (A ++ p0 ++ B).getD A.length blank_volume = p0.getD 0 blank_volume := by
    have := getD_mid A p0 B 0 blank_volume (by omega)
    simpa using this
  have g1 : (A ++ p0 ++ B).getD (A.length + sub.length - 1) blank_volume =
      p0.getD (sub.length - 1) blank_volume := by
    have := getD_mid A p0 B (sub.length - 1) blank_volume (by omega)
    rw [← this]
    congr 1
    omega
  have f0 : ((A ++ p0 ++ B).drop A.length).take (A.length + (m + 1) - A.length) =
      p0.take (m + 1) := by
    have := drop_take_mid A p0 B 0 (m + 1) (by omega)
    simpa using this
  have f1 : ((A ++ p0 ++ B).drop (A.length + (m + 1))).take
      (A.length + sub.length - (A.length + (m + 1))) = p0.drop (m + 1) := by
    have := drop_take_mid A p0 B (m + 1) (sub.length - (m + 1)) (by omega)
    have e : A.length + sub.length - (A.length + (m + 1)) = sub.length - (m + 1) := by omega
    rw [e, this]
    apply List.take_of_length_le
    simp
    omega
  unfold bvh_step
  rw [hst]
  simp only [hV, ha, hb, slice_mid, take_mid, drop_mid, hr, e1, e2, e3, g0, g1, f0, f1,
    decide_eq_true_eq]
  by_cases h0 : m = 0 <;> by_cases h1 : m + 2 = sub.length
  · simp only [if_pos h0, if_pos h1, List.nil_append, Nat.add_zero]
  · simp only [if_pos h0, if_neg h1, List.nil_append, List.cons_append]
  · simp only [if_neg h0, if_pos h1, List.nil_append, List.cons_append, Nat.add_zero]
  · simp only [if_neg h0, if_neg h1, List.nil_append, List.cons_append]

/-- The union box of a list contains the box of every member. -/
theorem fit_volumes_box_contains (l : List TerraBVHVolume) (acc : TerraAABB) :
    ∀ v ∈ l, box_contains (fit_volumes acc l) v.aabb := by
  intro v hv k
  have h := fit_volumes_contains l acc k v hv
  exact ⟨h.1, by linarith [h.2, eps_pos]⟩

/-- Completion of one child slot written by a build step: a single volume is a leaf
slot and needs no further iteration; a longer range is an internal slot whose task is
on top of the stack and completes by the induction hypothesis. -/
theorem bvh_child_done
    (qsort : (TerraBVHVolume → TerraBVHVolume → Int) → List TerraBVHVolume → List TerraBVHVolume)
    (K : Nat) (IH : ∀ k, k < K → TaskCompletes qsort k)
    (s : BVHBuild) (stk0 rest : List StackTask) (A sub B : List TerraBVHVolume)
    (ty : Int) (ix : Nat) (bb : TerraAABB)
    (h1 : 1 ≤ sub.length) (hK : sub.length < K) (hbig : sub.length ≤ 2 ^ 32)
    (hst : s.stack = stk0 ++ rest) (hV : s.volumes = A ++ sub ++ B)
    (hok : ∀ v ∈ sub, vol_ok v)
    (hleaf : sub.length = 1 → stk0 = [] ∧ ty = (sub.getD 0 blank_volume).type ∧
      ix = (sub.getD 0 blank_volume).index ∧ bb = (sub.getD 0 blank_volume).aabb)
    (hinner : sub.length ≠ 1 → stk0 = [⟨A.length, A.length + sub.length, ix, bb⟩] ∧
      ty = -1 ∧ bb = fit_volumes empty_aabb sub ∧ ix < s.nodes_count)
    (hcap : s.nodes_count + (sub.length - 2) ≤ s.nodes.length) :
    ChildDone s (bvh_run qsort (sub.length - 1) s) rest A sub B ty ix bb := by
  by_cases hone : sub.length = 1
  · obtain ⟨hs0, hty, hix, hbb⟩ := hleaf hone
    obtain ⟨v, hv⟩ := List.length_eq_one.mp hone
    have hvok : vol_ok v := hok v (by rw [hv]; exact List.mem_singleton_self v)
    have hrun : bvh_run qsort (sub.length - 1) s = s := by rw [hone]; rfl
    have hvv : (⟨bb, ix, 1⟩ : TerraBVHVolume) = v := by
      rw [hv] at hty hix hbb
      simp only [List.getD_cons_zero] at hty hix hbb
      cases v
      simp only [TerraBVHVolume.mk.injEq]
      exact ⟨hbb, hix, by have := hvok.1; simpa using this.symm⟩
    rw [hrun]
    refine ⟨sub, [], [v], ?_, ?_, rfl, ?_, hV, List.Perm.refl _, ?_, ?_, ?_, ?_⟩
    · rw [hst, hs0]; rfl
    · rw [hone]; rfl
    · intro j _ _; rfl
    · rw [hty, hv]
      simp only [List.getD_cons_zero]
      rw [hvok.1, ← hvv]
      exact SlotTree.leaf ix bb
    · rw [hv]
    · intro j hj; cases hj
    · rw [hone]; rfl
  · obtain ⟨hs0, hty, hbb, hixlt⟩ := hinner hone
    have hk2 : 2 ≤ sub.length := by omega
    have hcont : ∀ v ∈ sub, box_contains bb v.aabb := by
      rw [hbb]; exact fit_volumes_box_contains sub empty_aabb
    obtain ⟨p, us, l, r1, r2, r3, r4, r5, r6, r7, r8, r9, r10⟩ :=
      IH sub.length hK s ⟨A.length, A.length + sub.length, ix, bb⟩ rest A sub B rfl hk2 hbig
        (by rw [hst, hs0]; rfl) hV rfl rfl hok hcont hixlt hcap
    refine ⟨p, us, l, r1, r2, r3, ?_, r5, r6, ?_, r8, ?_, r10⟩
    · intro j hj hrange
      exact r4 j (fun _ => hj hone) hrange
    · rw [hty]; exact r7
    · intro j hj
      rcases r9 j hj with h | h
      · exact Or.inl ⟨h.1, hone⟩
      · exact Or.inr h


/-- The build step in terms of its two children: the permuted range splits into a left
part `pl` of `m + 1` volumes and a right part `pr`; each part of one volume becomes a
leaf slot of the written node, each longer part an internal slot with a fresh node
index and a task on the stack (right task on top). -/
theorem bvh_step_children
    (qsort : (TerraBVHVolume → TerraBVHVolume → Int) → List TerraBVHVolume → List TerraBVHVolume)
    (s : BVHBuild) (t : StackTask) (rest : List StackTask) (A sub B p0 : List TerraBVHVolume)
    (m : Nat)
    (hst : s.stack = t :: rest) (hV : s.volumes = A ++ sub ++ B)
    (ha : t.volumes_start = A.length) (hb : t.volumes_end = A.length + sub.length)
    (hr : terra_bvh_sah_split_volumes qsort sub (some t.aabb) = (p0, (m : Int)))
    (hm : m + 2 ≤ sub.length) (hp0 : p0.length = sub.length) :
    ∃ (pl pr : List TerraBVHVolume) (nd : TerraBVHNode) (stkL stkR : List StackTask)
      (dL dR : Nat),
      pl ++ pr = p0 ∧ pl.length = m + 1 ∧ pr.length = sub.length - (m + 1) ∧
      (bvh_step qsort s).volumes = (A ++ pl) ++ pr ++ B ∧
      (bvh_step qsort s).nodes = s.nodes.set t.node_idx nd ∧
      (bvh_step qsort s).nodes_count = s.nodes_count + dL + dR ∧
      (bvh_step qsort s).stack = stkR ++ (stkL ++ rest) ∧
      (pl.length = 1 → dL = 0 ∧ stkL = [] ∧ nd.type0 = (pl.getD 0 blank_volume).type ∧
        nd.index0 = (pl.getD 0 blank_volume).index ∧
        nd.aabb0 = (pl.getD 0 blank_volume).aabb) ∧
      (pl.length ≠ 1 → dL = 1 ∧
        stkL = [⟨A.length, A.length + pl.length, nd.index0, nd.aabb0⟩] ∧
        nd.type0 = -1 ∧ nd.aabb0 = fit_volumes empty_aabb pl ∧ nd.index0 = s.nodes_count) ∧
      (pr.length = 1 → dR = 0 ∧ stkR = [] ∧ nd.type1 = (pr.getD 0 blank_volume).type ∧
        nd.index1 = (pr.getD 0 blank_volume).index ∧
        nd.aabb1 = (pr.getD 0 blank_volume).aabb) ∧
      (pr.length ≠ 1 → dR = 1 ∧
        stkR = [⟨(A ++ pl).length, (A ++ pl).length + pr.length, nd.index1, nd.aabb1⟩] ∧
        nd.type1 = -1 ∧ nd.aabb1 = fit_volumes empty_aabb pr ∧
        nd.index1 = s.nodes_count + dL) := by
  have hstep := bvh_step_spec qsort s t rest A sub B p0 m hst hV ha hb hr hm hp0
  have hsplit : p0.take (m + 1) ++ p0.drop (m + 1) = p0 := List.take_append_drop _ _
  have hLlen : (p0.take (m + 1)).length = m + 1 := by
    rw [List.length_take]; omega
  have hRlen : (p0.drop (m + 1)).length = sub.length - (m + 1) := by
    rw [List.length_drop, hp0]
  have hgetL : p0.getD 0 blank_volume = (p0.take (m + 1)).getD 0 blank_volume := by
    simp only [List.getD_eq_getElem?_getD]
    rw [List.getElem?_take_of_lt (by omega)]
  have hgetR : m + 2 = sub.length → p0.getD (sub.length - 1) blank_volume =
      (p0.drop (m + 1)).getD 0 blank_volume := by
    intro h
    simp only [List.getD_eq_getElem?_getD, List.getElem?_drop]
    congr 2
    omega
  have hvol : A ++ p0 ++ B = (A ++ p0.take (m + 1)) ++ p0.drop (m + 1) ++ B := by
    simp only [List.append_assoc]
    rw [← List.append_assoc (p0.take (m + 1)), hsplit]
  have hAl : (A ++ p0.take (m + 1)).length = A.length + (m + 1) := by
    rw [List.length_append, hLlen]
  have hL1 : (p0.take (m + 1)).length = 1 ↔ m = 0 := by rw [hLlen]; omega
  have hR1 : (p0.drop (m + 1)).length = 1 ↔ m + 2 = sub.length := by rw [hRlen]; omega
  rw [hstep]
  refine ⟨p0.take (m + 1), p0.drop (m + 1),
    ⟨if m = 0 then (p0.getD 0 blank_volume).aabb
       else fit_volumes empty_aabb (p0.take (m + 1)),
     if m + 2 = sub.length then (p0.getD (sub.length - 1) blank_volume).aabb
       else fit_volumes empty_aabb (p0.drop (m + 1)),
     if m = 0 then (p0.getD 0 blank_volume).index else s.nodes_count,
     if m + 2 = sub.length then (p0.getD (sub.length - 1) blank_volume).index
       else (if m = 0 then s.nodes_count else s.nodes_count + 1),
     if m = 0 then (p0.getD 0 blank_volume).type else -1,
     if m + 2 = sub.length then (p0.getD (sub.length - 1) blank_volume).type else -1⟩,
    (if m = 0 then []
      else [⟨A.length, A.length + (m + 1), s.nodes_count,
        fit_volumes empty_aabb (p0.take (m + 1))⟩]),
    (if m + 2 = sub.length then []
      else [⟨A.length + (m + 1), A.length + sub.length,
        if m = 0 then s.nodes_count else s.nodes_count + 1,
        fit_volumes empty_aabb (p0.drop (m + 1))⟩]),
    (if m = 0 then 0 else 1), (if m + 2 = sub.length then 0 else 1),
    hsplit, hLlen, hRlen, hvol, rfl, ?_, rfl, ?_, ?_, ?_, ?_⟩
  · simp only []
    by_cases h0 : m = 0
    · simp only [if_pos h0, Nat.add_zero]
    · simp only [if_neg h0]
  · intro h
    have h0 := hL1.mp h
    simp only [if_pos h0, hgetL]
    exact ⟨trivial, trivial, trivial, trivial, trivial⟩
  · intro h
    have h0 : m ≠ 0 := fun e => h (hL1.mpr e)
    simp only [if_neg h0, hLlen]
    exact ⟨trivial, trivial, trivial, trivial, trivial⟩
  · intro h
    have h1 := hR1.mp h
    simp only [if_pos h1, hgetR h1]
    exact ⟨trivial, trivial, trivial, trivial, trivial⟩
  · intro h
    have h1 : m + 2 ≠ sub.length := fun e => h (hR1.mpr e)
    simp only [if_neg h1, hAl, hRlen]
    refine ⟨trivial, ?_, trivial, trivial, ?_⟩
    · congr 2
      omega
    · by_cases h0 : m = 0
      · simp only [if_pos h0, Nat.add_zero]
      · simp only [if_neg h0]

/-- Node counting for a task with children of `pl` and `pr` volumes. -/
theorem assemble_arith_count (nc n1 n2 n3 pl pr sub dL dR ti i0 i1 : Nat)
    (hidx : ti < nc)
    (hdL : (pl = 1 ∧ dL = 0) ∨ (2 ≤ pl ∧ dL = 1 ∧ i0 = nc))
    (hdR : (pr = 1 ∧ dR = 0) ∨ (2 ≤ pr ∧ dR = 1 ∧ i1 = nc + dL))
    (hlen : sub = pl + pr)
    (e6 : n1 = nc + dL + dR) (a2 : n2 = n1 + (pr - 2)) (b2 : n3 = n2 + (pl - 2)) :
    n3 = nc + (sub - 2) ∧ sub ≠ 1 ∧ 1 + ((pl - 1) + (pr - 1)) = sub - 1 ∧
    (pl ≠ 1 → ti ≠ i0) ∧ ti < n2 ∧ (pr ≠ 1 → ti ≠ i1) ∧ ti < n1 := by
  refine ⟨by omega, by omega, by omega, fun _ => by omega, by omega, fun _ => by omega,
    by omega⟩

/-- A node index outside the task's nodes is outside both children's nodes. -/
theorem assemble_arith_frame (nc n1 n2 pl pr sub dL dR i0 i1 j : Nat)
    (hdL : (pl = 1 ∧ dL = 0) ∨ (2 ≤ pl ∧ dL = 1 ∧ i0 = nc))
    (hdR : (pr = 1 ∧ dR = 0) ∨ (2 ≤ pr ∧ dR = 1 ∧ i1 = nc + dL))
    (hlen : sub = pl + pr)
    (e6 : n1 = nc + dL + dR) (a2 : n2 = n1 + (pr - 2))
    (hj : j < nc ∨ nc + (sub - 2) ≤ j) :
    (pl ≠ 1 → j ≠ i0) ∧ (j < n2 ∨ n2 + (pl - 2) ≤ j) ∧
    (pr ≠ 1 → j ≠ i1) ∧ (j < n1 ∨ n1 + (pr - 2) ≤ j) := by
  refine ⟨fun _ => by omega, by omega, fun _ => by omega, by omega⟩

/-- A node of the right subtree is not touched while the left subtree is built, and
lies among the task's new nodes. -/
theorem assemble_arith_right (nc n1 n2 pl pr sub dL dR i0 i1 j : Nat)
    (hdL : (pl = 1 ∧ dL = 0) ∨ (2 ≤ pl ∧ dL = 1 ∧ i0 = nc))
    (hdR : (pr = 1 ∧ dR = 0) ∨ (2 ≤ pr ∧ dR = 1 ∧ i1 = nc + dL))
    (hlen : sub = pl + pr)
    (e6 : n1 = nc + dL + dR) (a2 : n2 = n1 + (pr - 2))
    (hj : (j = i1 ∧ pr ≠ 1) ∨ (n1 ≤ j ∧ j < n1 + (pr - 2))) :
    (pl ≠ 1 → j ≠ i0) ∧ j < n2 ∧ nc ≤ j ∧ j < nc + (sub - 2) := by
  refine ⟨fun _ => by omega, by omega, by omega, by omega⟩

/-- A node of the left subtree lies among the task's new nodes. -/
theorem assemble_arith_left (nc n1 n2 pl pr sub dL dR i0 i1 j : Nat)
    (hdL : (pl = 1 ∧ dL = 0) ∨ (2 ≤ pl ∧ dL = 1 ∧ i0 = nc))
    (hdR : (pr = 1 ∧ dR = 0) ∨ (2 ≤ pr ∧ dR = 1 ∧ i1 = nc + dL))
    (hlen : sub = pl + pr)
    (e6 : n1 = nc + dL + dR) (a2 : n2 = n1 + (pr - 2))
    (hj : (j = i0 ∧ pl ≠ 1) ∨ (n2 ≤ j ∧ j < n2 + (pl - 2))) :
    nc ≤ j ∧ j < nc + (sub - 2) := by
  refine ⟨by omega, by omega⟩

/-- Putting a task's node together from its two completed children. -/
theorem bvh_assemble (s s1 s2 s3 : BVHBuild) (t : StackTask) (rest : List StackTask)
    (A sub B pl pr pR : List TerraBVHVolume) (nd : TerraBVHNode) (dL dR : Nat)
    (usR : List Nat) (lR : List TerraBVHVolume)
    (hsub : (pl ++ pr).Perm sub) (hcont : ∀ v ∈ sub, box_contains t.aabb v.aabb)
    (hidx : t.node_idx < s.nodes_count) (hilen : t.node_idx < s.nodes.length)
    (e5 : s1.nodes = s.nodes.set t.node_idx nd)
    (e6 : s1.nodes_count = s.nodes_count + dL + dR)
    (hdL : (pl.length = 1 ∧ dL = 0) ∨ (2 ≤ pl.length ∧ dL = 1 ∧ nd.index0 = s.nodes_count))
    (hdR : (pr.length = 1 ∧ dR = 0) ∨
      (2 ≤ pr.length ∧ dR = 1 ∧ nd.index1 = s.nodes_count + dL))
    (a2 : s2.nodes_count = s1.nodes_count + (pr.length - 2))
    (a3 : s2.nodes.length = s1.nodes.length)
    (a4 : ∀ j, (pr.length ≠ 1 → j ≠ nd.index1) →
      (j < s1.nodes_count ∨ s1.nodes_count + (pr.length - 2) ≤ j) →
      s2.nodes[j]? = s1.nodes[j]?)
    (a6 : pR.Perm pr) (a7 : SlotTree s2.nodes nd.type1 nd.index1 nd.aabb1 usR lR)
    (a8 : lR.Perm pR)
    (a9 : ∀ j ∈ usR, (j = nd.index1 ∧ pr.length ≠ 1) ∨
      (s1.nodes_count ≤ j ∧ j < s1.nodes_count + (pr.length - 2)))
    (a10 : usR.length = pr.length - 1)
    (hL : ChildDone s2 s3 rest A pl (pR ++ B) nd.type0 nd.index0 nd.aabb0) :
    ChildDone s s3 rest A sub B (-1) t.node_idx t.aabb := by
  obtain ⟨pL, usL, lL, b1, b2, b3, b4, b5, b6, b7, b8, b9, b10⟩ := hL
  have hlen : sub.length = pl.length + pr.length := by
    rw [← hsub.length_eq, List.length_append]
  obtain ⟨c1, c2, c3, c4, c5, c6, c7⟩ := assemble_arith_count s.nodes_count s1.nodes_count
    s2.nodes_count s3.nodes_count pl.length pr.length sub.length dL dR t.node_idx nd.index0
    nd.index1 hidx hdL hdR hlen e6 a2 b2
  have hs1len : s1.nodes.length = s.nodes.length := by rw [e5, List.length_set]
  have hs1get : ∀ j, j ≠ t.node_idx → s1.nodes[j]? = s.nodes[j]? := by
    intro j hj
    rw [e5, List.getElem?_set_ne (Ne.symm hj)]
  have hs1node : s1.nodes[t.node_idx]? = some nd := by
    rw [e5, List.getElem?_set_self hilen]
  refine ⟨pL ++ pR, t.node_idx :: (usL ++ usR), lL ++ lR, b1, c1, ?_, ?_, ?_, ?_, ?_,
    List.Perm.append b8 a8, ?_, ?_⟩
  · rw [b3, a3, hs1len]
  · intro j hj hrange
    obtain ⟨f1, f2, f3, f4⟩ := assemble_arith_frame s.nodes_count s1.nodes_count
      s2.nodes_count pl.length pr.length sub.length dL dR nd.index0 nd.index1 j hdL hdR hlen
      e6 a2 hrange
    rw [b4 j f1 f2, a4 j f3 f4, hs1get j (hj c2)]
  · rw [b5]; simp only [List.append_assoc]
  · exact (List.Perm.append b6 a6).trans hsub
  · refine SlotTree.inner t.node_idx t.aabb nd usL usR lL lR ?_ b7 ?_ ?_
    · rw [b4 _ c4 (Or.inl c5), a4 _ c6 (Or.inl c7)]
      exact hs1node
    · apply SlotTree.frame a7
      intro j hj
      obtain ⟨f1, f2, _, _⟩ := assemble_arith_right s.nodes_count s1.nodes_count
        s2.nodes_count pl.length pr.length sub.length dL dR nd.index0 nd.index1 j hdL hdR hlen
        e6 a2 (a9 j hj)
      exact b4 j f1 (Or.inl f2)
    · intro v hv
      apply hcont
      have h1 : v ∈ pL ++ pR := (List.Perm.append b8 a8).mem_iff.mp hv
      have h2 : v ∈ pl ++ pr := (List.Perm.append b6 a6).mem_iff.mp h1
      exact hsub.mem_iff.mp h2
  · intro j hj
    rcases List.mem_cons.mp hj with h | h
    · left; exact ⟨h, c2⟩
    · right
      rcases List.mem_append.mp h with h | h
      · exact assemble_arith_left s.nodes_count s1.nodes_count
          s2.nodes_count pl.length pr.length sub.length dL dR nd.index0 nd.index1 j hdL hdR hlen
          e6 a2 (b9 j h)
      · obtain ⟨_, _, f3, f4⟩ := assemble_arith_right s.nodes_count s1.nodes_count
          s2.nodes_count pl.length pr.length sub.length dL dR nd.index0 nd.index1 j hdL hdR hlen
          e6 a2 (a9 j h)
        exact ⟨f3, f4⟩
  · simp only [List.length_cons, List.length_append, a10, b10]
    rw [← c3]
    ring

/-- The arithmetic of one build step: sizes of the two children, iteration counts and
node capacity. -/
theorem task_arith (k sub pl pr m nc n1 len dL dR X : Nat)
    (hlen : sub = k) (hm2 : m + 2 ≤ sub) (hbig : sub ≤ X)
    (e2 : pl = m + 1) (e3 : pr = sub - (m + 1)) (hcap : nc + (k - 2) ≤ len)
    (e6 : n1 = nc + dL + dR)
    (hdL : (pl = 1 ∧ dL = 0) ∨ (2 ≤ pl ∧ dL = 1))
    (hdR : (pr = 1 ∧ dR = 0) ∨ (2 ≤ pr ∧ dR = 1)) :
    k - 1 = (pr - 1 + (pl - 1)) + 1 ∧ 1 ≤ pr ∧ pr < k ∧ pr ≤ X ∧ 1 ≤ pl ∧ pl < k ∧ pl ≤ X ∧
    n1 + (pr - 2) ≤ len ∧ (dR = 1 → nc + dL < n1) ∧
    n1 + (pr - 2) + (pl - 2) ≤ len ∧ (dL = 1 → nc < n1 + (pr - 2)) := by
  refine ⟨by omega, by omega, by omega, by omega, by omega, by omega, by omega, by omega,
    fun _ => by omega, by omega, fun _ => by omega⟩

/-- Every task completes: strong induction on the number of volumes in its range. -/
theorem bvh_task_completes
    (qsort : (TerraBVHVolume → TerraBVHVolume → Int) → List TerraBVHVolume → List TerraBVHVolume)
    (hq : ∀ cmp l, (qsort cmp l).Perm l) (k : Nat) : TaskCompletes qsort k := by
  induction k using Nat.strong_induction_on with
  | _ k IH =>
  intro s t rest A sub B hlen hk2 hbig hst hV ha hb hok hcont hidx hcap
  obtain ⟨hperm, hge, hle⟩ := sah_split_spec qsort hq sub t.aabb (by omega) hbig hok hcont
  obtain ⟨m, hm⟩ := Int.eq_ofNat_of_zero_le hge
  have hm2 : m + 2 ≤ sub.length := by omega
  have hr : terra_bvh_sah_split_volumes qsort sub (some t.aabb) =
      ((terra_bvh_sah_split_volumes qsort sub (some t.aabb)).1, (m : Int)) :=
    Prod.ext rfl hm
  have hp0ok : ∀ v ∈ (terra_bvh_sah_split_volumes qsort sub (some t.aabb)).1, vol_ok v :=
    fun v hv => hok v (hperm.mem_iff.mp hv)
  obtain ⟨pl, pr, nd, stkL, stkR, dL, dR, e1, e2, e3, e4, e5, e6, e7, e8, e9, e10, e11⟩ :=
    bvh_step_children qsort s t rest A sub B _ m hst hV ha hb hr hm2 hperm.length_eq
  have hplok : ∀ v ∈ pl, vol_ok v :=
    fun v hv => hp0ok v (by rw [← e1]; exact List.mem_append_left _ hv)
  have hprok : ∀ v ∈ pr, vol_ok v :=
    fun v hv => hp0ok v (by rw [← e1]; exact List.mem_append_right _ hv)
  have hdL : (pl.length = 1 ∧ dL = 0) ∨ (2 ≤ pl.length ∧ dL = 1) := by
    by_cases h : pl.length = 1
    · exact Or.inl ⟨h, (e8 h).1⟩
    · exact Or.inr ⟨by rw [e2] at h ⊢; omega, (e9 h).1⟩
  have hdR : (pr.length = 1 ∧ dR = 0) ∨ (2 ≤ pr.length ∧ dR = 1) := by
    by_cases h : pr.length = 1
    · exact Or.inl ⟨h, (e10 h).1⟩
    · exact Or.inr ⟨by rw [e3] at h ⊢; omega, (e11 h).1⟩
  have hilen : t.node_idx < s.nodes.length := by omega
  obtain ⟨r1, r2, r3, r4, r5, r6, r7, r8, r9, r10, r11⟩ :=
    task_arith k sub.length pl.length pr.length m s.nodes_count
      (bvh_step qsort s).nodes_count s.nodes.length dL dR (2 ^ 32) hlen hm2 hbig e2 e3 hcap e6
      hdL hdR
  have hs1len : (bvh_step qsort s).nodes.length = s.nodes.length := by
    rw [e5, List.length_set]
  have hrunk : bvh_run qsort (k - 1) s =
      bvh_run qsort (pl.length - 1) (bvh_run qsort (pr.length - 1) (bvh_step qsort s)) := by
    rw [← bvh_run_add, r1, bvh_run]
  rw [hrunk]
  -- right child
  have hR := bvh_child_done qsort k IH (bvh_step qsort s) stkR (stkL ++ rest) (A ++ pl) pr B
    nd.type1 nd.index1 nd.aabb1 r2 r3 r4 e7 e4 hprok
    (fun h => ⟨(e10 h).2.1, (e10 h).2.2.1, (e10 h).2.2.2.1, (e10 h).2.2.2.2⟩)
    (fun h => ⟨(e11 h).2.1, (e11 h).2.2.1, (e11 h).2.2.2.1, by
      rw [(e11 h).2.2.2.2]; exact r9 (e11 h).1⟩)
    (by rw [hs1len]; exact r8)
  obtain ⟨pR, usR, lR, a1, a2, a3, a4, a5, a6, a7, a8, a9, a10⟩ := hR
  -- left child
  have hL := bvh_child_done qsort k IH (bvh_run qsort (pr.length - 1) (bvh_step qsort s))
    stkL rest A pl (pR ++ B) nd.type0 nd.index0 nd.aabb0 r5 r6 r7 a1
    (by rw [a5]; simp only [List.append_assoc]) hplok
    (fun h => ⟨(e8 h).2.1, (e8 h).2.2.1, (e8 h).2.2.2.1, (e8 h).2.2.2.2⟩)
    (fun h => ⟨(e9 h).2.1, (e9 h).2.2.1, (e9 h).2.2.2.1, by
      rw [(e9 h).2.2.2.2, a2]; exact r11 (e9 h).1⟩)
    (by rw [a2, a3, hs1len]; exact r10)
  refine bvh_assemble s (bvh_step qsort s) _ _ t rest A sub B pl pr pR nd dL dR usR lR
    (by rw [e1]; exact hperm) hcont hidx hilen e5 e6 ?_ ?_ a2 a3 a4 a6 a7 a8 a9 a10 hL
  · by_cases h : pl.length = 1
    · exact Or.inl ⟨h, (e8 h).1⟩
    · exact Or.inr ⟨r5.lt_of_ne' h, (e9 h).1, (e9 h).2.2.2.2⟩
  · by_cases h : pr.length = 1
    · exact Or.inl ⟨h, (e10 h).1⟩
    · exact Or.inr ⟨r2.lt_of_ne' h, (e11 h).1, (e11 h).2.2.2.2⟩

theorem comp_fit_triangle_min (b : TerraAABB) (t : TerraTriangle) (k : Nat) :
    terra__comp (terra_aabb_fit_triangle b t).min k =
      min (min (min (terra__comp b.min k) (terra__comp t.a k)) (terra__comp t.b k))
        (terra__comp t.c k) - terra_Epsilon := by
  rcases k with _ | _ | k <;> simp [terra__comp, terra_aabb_fit_triangle, terra_minf_eq]

theorem comp_fit_triangle_max (b : TerraAABB) (t : TerraTriangle) (k : Nat) :
    terra__comp (terra_aabb_fit_triangle b t).max k =
      max (max (max (terra__comp b.max k) (terra__comp t.a k)) (terra__comp t.b k))
        (terra__comp t.c k) + terra_Epsilon := by
  rcases k with _ | _ | k <;> simp [terra__comp, terra_aabb_fit_triangle, terra_maxf_eq]

theorem comp_empty_min (k : Nat) : terra__comp empty_aabb.min k = FLT_MAX := by
  rcases k with _ | _ | k <;> rfl

theorem comp_empty_max (k : Nat) : terra__comp empty_aabb.max k = -FLT_MAX := by
  rcases k with _ | _ | k <;> rfl

/-- Every volume made by fitting the empty box to a triangle is well formed. -/
theorem vol_ok_fit_triangle (t : TerraTriangle) (ix : Nat) :
    vol_ok ⟨terra_aabb_fit_triangle empty_aabb t, ix, 1⟩ := by
  refine ⟨rfl, fun k => ?_⟩
  simp only [comp_fit_triangle_min, comp_fit_triangle_max, comp_empty_min, comp_empty_max]
  have e := eps_pos
  obtain ⟨h1, _, _⟩ := min3_le FLT_MAX (terra__comp t.a k) (terra__comp t.b k) (terra__comp t.c k)
  obtain ⟨h2, _, _⟩ := le_max3 (-FLT_MAX) (terra__comp t.a k) (terra__comp t.b k)
    (terra__comp t.c k)
  have h3 : min (min (min FLT_MAX (terra__comp t.a k)) (terra__comp t.b k)) (terra__comp t.c k)
      ≤ FLT_MAX :=
    le_trans (min_le_left _ _) (le_trans (min_le_left _ _) (min_le_left _ _))
  have h4 : -FLT_MAX ≤ max (max (max (-FLT_MAX) (terra__comp t.a k)) (terra__comp t.b k))
      (terra__comp t.c k) :=
    le_trans (le_max_left _ _) (le_trans (le_max_left _ _) (le_max_left _ _))
  refine ⟨by linarith, by linarith, by linarith⟩

/-- The scene box only grows while triangles are fitted. -/
theorem foldl_fit_triangle_mono (l : List TerraTriangle) (acc : TerraAABB) (k : Nat) :
    terra__comp (l.foldl terra_aabb_fit_triangle acc).min k ≤ terra__comp acc.min k ∧
    terra__comp acc.max k ≤ terra__comp (l.foldl terra_aabb_fit_triangle acc).max k := by
  induction l generalizing acc with
  | nil => exact ⟨le_refl _, le_refl _⟩
  | cons t ts ih =>
    have h := ih (terra_aabb_fit_triangle acc t)
    rw [comp_fit_triangle_min, comp_fit_triangle_max] at h
    have e := eps_pos
    simp only [List.foldl_cons]
    have h1 : min (min (min (terra__comp acc.min k) (terra__comp t.a k)) (terra__comp t.b k))
        (terra__comp t.c k) ≤ terra__comp acc.min k :=
      le_trans (min_le_left _ _) (le_trans (min_le_left _ _) (min_le_left _ _))
    have h2 : terra__comp acc.max k ≤ max (max (max (terra__comp acc.max k) (terra__comp t.a k))
        (terra__comp t.b k)) (terra__comp t.c k) :=
      le_trans (le_max_left _ _) (le_trans (le_max_left _ _) (le_max_left _ _))
    exact ⟨by linarith [h.1], by linarith [h.2]⟩

/-- The scene box contains the volume box of every triangle fitted into it, provided
the start box is not beyond the empty box. -/
theorem foldl_fit_triangle_contains (l : List TerraTriangle) (acc : TerraAABB)
    (hacc : ∀ k, terra__comp acc.min k ≤ FLT_MAX ∧ -FLT_MAX ≤ terra__comp acc.max k)
    (t : TerraTriangle) (ht : t ∈ l) :
    box_contains (l.foldl terra_aabb_fit_triangle acc) (terra_aabb_fit_triangle empty_aabb t) := by
  induction l generalizing acc with
  | nil => cases ht
  | cons w ws ih =>
    simp only [List.foldl_cons]
    rcases List.mem_cons.mp ht with rfl | hmem
    · intro k
      have h := foldl_fit_triangle_mono ws (terra_aabb_fit_triangle acc t) k
      rw [comp_fit_triangle_min, comp_fit_triangle_max] at h
      rw [comp_fit_triangle_min, comp_fit_triangle_max, comp_empty_min, comp_empty_max]
      have hm : min (min (min (terra__comp acc.min k) (terra__comp t.a k)) (terra__comp t.b k))
          (terra__comp t.c k) ≤
          min (min (min FLT_MAX (terra__comp t.a k)) (terra__comp t.b k)) (terra__comp t.c k) :=
        min_le_min (min_le_min (min_le_min (hacc k).1 (le_refl _)) (le_refl _)) (le_refl _)
      have hM : max (max (max (-FLT_MAX) (terra__comp t.a k)) (terra__comp t.b k))
          (terra__comp t.c k) ≤
          max (max (max (terra__comp acc.max k) (terra__comp t.a k)) (terra__comp t.b k))
            (terra__comp t.c k) :=
        max_le_max (max_le_max (max_le_max (hacc k).2 (le_refl _)) (le_refl _)) (le_refl _)
      exact ⟨by linarith [h.1], by linarith [h.2]⟩
    · apply ih (terra_aabb_fit_triangle acc w) _ hmem
      intro k
      rw [comp_fit_triangle_min, comp_fit_triangle_max]
      have e := eps_pos
      have h1 : min (min (min (terra__comp acc.min k) (terra__comp w.a k)) (terra__comp w.b k))
          (terra__comp w.c k) ≤ terra__comp acc.min k :=
        le_trans (min_le_left _ _) (le_trans (min_le_left _ _) (min_le_left _ _))
      have h2 : terra__comp acc.max k ≤ max (max (max (terra__comp acc.max k) (terra__comp w.a k))
          (terra__comp w.b k)) (terra__comp w.c k) :=
        le_trans (le_max_left _ _) (le_trans (le_max_left _ _) (le_max_left _ _))
      exact ⟨by linarith [(hacc k).1], by linarith [(hacc k).2]⟩

/-- The packed reference of object `j < 2^8`, triangle `i < 2^24` is `j + 256 i`. -/
theorem pack_index_eq (j i : Nat) (hj : j < 256) (hi : i < 2 ^ 24) :
    pack_index j i = 2 ^ 8 * i + j := by
  unfold pack_index
  rw [Nat.shiftLeft_eq, Nat.lor_comm, Nat.mul_comm i, ← Nat.mul_add_lt_is_or (by omega) i]
  apply Nat.mod_eq_of_lt
  omega

/-- Unpacking a packed reference gives back the object and triangle indices. -/
theorem slot_ref_pack (b : TerraAABB) (j i : Nat) (ty : Int) (hj : j < 256) (hi : i < 2 ^ 24) :
    slot_ref ⟨b, pack_index j i, ty⟩ = (j, i) := by
  unfold slot_ref
  simp only [pack_index_eq j i hj hi]
  have h1 : (2 ^ 8 * i + j) &&& 0xff = j := by
    have : (0xff : Nat) = 2 ^ 8 - 1 := by norm_num
    rw [this, Nat.and_pow_two_sub_one_eq_mod]
    omega
  have h2 : (2 ^ 8 * i + j) >>> 8 = i := by
    rw [Nat.shiftRight_eq_div_pow]
    omega
  rw [h1, h2]

theorem object_volumes_length (j i : Nat) (ts : List TerraTriangle) :
    (object_volumes j i ts).length = ts.length := by
  induction ts generalizing i with
  | nil => rfl
  | cons t ts ih => simp [object_volumes, ih]

theorem object_volumes_mem (j i : Nat) (ts : List TerraTriangle) (v : TerraBVHVolume)
    (hv : v ∈ object_volumes j i ts) :
    ∃ t ∈ ts, ∃ ix, v = ⟨terra_aabb_fit_triangle empty_aabb t, ix, 1⟩ := by
  induction ts generalizing i with
  | nil => cases hv
  | cons t ts ih =>
    rcases List.mem_cons.mp hv with h | h
    · exact ⟨t, List.mem_cons_self _ _, _, h⟩
    · obtain ⟨t', ht', ix, hix⟩ := ih (i + 1) h
      exact ⟨t', List.mem_cons_of_mem _ ht', ix, hix⟩

theorem object_volumes_refs (j i : Nat) (ts : List TerraTriangle) (hj : j < 256)
    (hi : i + ts.length ≤ 2 ^ 24) :
    (object_volumes j i ts).map slot_ref = (List.range' i ts.length).map (fun i => (j, i)) := by
  induction ts generalizing i with
  | nil => rfl
  | cons t ts ih =>
    simp only [List.length_cons] at hi
    simp only [object_volumes, List.map_cons, List.length_cons, List.range'_succ]
    rw [slot_ref_pack _ j i _ hj (by omega), ih (i + 1) (by omega)]

theorem scene_volumes_from_length (j : Nat) (os : List TerraObject) :
    (scene_volumes_from j os).length = (os.flatMap (fun o => o.triangles)).length := by
  induction os generalizing j with
  | nil => rfl
  | cons o os ih =>
    simp [scene_volumes_from, object_volumes_length, ih]

theorem scene_volumes_from_mem (j : Nat) (os : List TerraObject) (v : TerraBVHVolume)
    (hv : v ∈ scene_volumes_from j os) :
    ∃ t ∈ os.flatMap (fun o => o.triangles), ∃ ix,
      v = ⟨terra_aabb_fit_triangle empty_aabb t, ix, 1⟩ := by
  induction os generalizing j with
  | nil => cases hv
  | cons o os ih =>
    simp only [scene_volumes_from, List.mem_append] at hv
    rcases hv with h | h
    · obtain ⟨t, ht, ix, hix⟩ := object_volumes_mem j 0 o.triangles v h
      exact ⟨t, by simp [ht], ix, hix⟩
    · obtain ⟨t, ht, ix, hix⟩ := ih (j + 1) h
      refine ⟨t, ?_, ix, hix⟩
      simp only [List.flatMap_cons, List.mem_append]
      exact Or.inr ht

theorem scene_volumes_from_refs (j : Nat) (os : List TerraObject) (hj : j + os.length ≤ 256)
    (htri : ∀ o ∈ os, o.triangles.length < 2 ^ 24) :
    (scene_volumes_from j os).map slot_ref = scene_pairs_from j os := by
  induction os generalizing j with
  | nil => rfl
  | cons o os ih =>
    simp only [List.length_cons] at hj
    simp only [scene_volumes_from, scene_pairs_from, List.map_append]
    rw [object_volumes_refs j 0 o.triangles (by omega)
      (by have := htri o (List.mem_cons_self _ _); omega),
      ih (j + 1) (by omega) (fun o' ho' => htri o' (List.mem_cons_of_mem _ ho'))]

/-- With at most 256 objects of fewer than `2^24` triangles the scene has at most
`2^32` triangles. -/
theorem flatMap_triangles_length_le (os : List TerraObject)
    (htri : ∀ o ∈ os, o.triangles.length < 2 ^ 24) :
    (os.flatMap (fun o => o.triangles)).length ≤ os.length * 2 ^ 24 := by
  induction os with
  | nil => simp
  | cons o os ih =>
    have h1 := htri o (List.mem_cons_self _ _)
    have h2 := ih (fun o' ho' => htri o' (List.mem_cons_of_mem _ ho'))
    simp only [List.flatMap_cons, List.length_append, List.length_cons]
    rw [Nat.add_mul]
    omega

/-- A finished subtree is what the reachable-leaf-slot collector reads, given fuel for
its nodes. -/
theorem SlotTree.leaf_slots {bvh : TerraBVH} {ty : Int} {ix : Nat} {bb : TerraAABB}
    {us : List Nat} {l : List TerraBVHVolume}
    (h : SlotTree bvh.nodes ty ix bb us l) (hus : ∀ j ∈ us, j < bvh.nodes_count) :
    ∀ (fuel : Nat) (bb' : TerraAABB), us.length ≤ fuel → (ty = 1 → bb' = bb) →
      bvh_leaf_slots bvh fuel ty ix bb' = some l := by
  induction h with
  | leaf index aabb =>
    intro fuel bb' _ hbb
    rw [hbb rfl]
    cases fuel <;> simp [bvh_leaf_slots]
  | inner index aabb nd us0 us1 l0 l1 hnd _ _ _ ih0 ih1 =>
    intro fuel bb' hfuel _
    simp only [List.length_cons, List.length_append] at hfuel
    obtain ⟨f, rfl⟩ : ∃ f, fuel = f + 1 := ⟨fuel - 1, by omega⟩
    have h0 := ih0 (fun j hj => hus j (List.mem_cons_of_mem _ (List.mem_append_left _ hj)))
      f nd.aabb0 (by omega) (fun _ => rfl)
    have h1 := ih1 (fun j hj => hus j (List.mem_cons_of_mem _ (List.mem_append_right _ hj)))
      f nd.aabb1 (by omega) (fun _ => rfl)
    have hlt := hus index (List.mem_cons_self _ _)
    simp [bvh_leaf_slots, hlt, hnd, h0, h1]

/-- The structure `terra_bvh_create` builds for a scene of `2 ≤ N ≤ 2^32` triangles,
given `N - 1` iterations: the stack drains, `N - 1` nodes of the `2 N` are in use, and
node 0 roots a finished tree whose leaf slots are the scene's volumes. -/
theorem bvh_create_tree_of_count
    (qsort : (TerraBVHVolume → TerraBVHVolume → Int) → List TerraBVHVolume → List TerraBVHVolume)
    (hq : ∀ cmp l, (qsort cmp l).Perm l) (scene : TerraScene) (fuel : Nat)
    (hN : 2 ≤ (scene_triangles scene).length)
    (hbig : (scene_volumes scene).length ≤ 2 ^ 32)
    (hfuel : (scene_triangles scene).length - 1 ≤ fuel) :
    ∃ (bvh : TerraBVH) (us : List Nat) (l : List TerraBVHVolume),
      terra_bvh_create qsort scene fuel = some bvh ∧
      SlotTree bvh.nodes (-1) 0 (scene_aabb scene) us l ∧
      l.Perm (scene_volumes scene) ∧
      (∀ j ∈ us, j < bvh.nodes_count) ∧
      us.length = (scene_triangles scene).length - 1 ∧
      bvh.nodes_count = (scene_triangles scene).length - 1 ∧
      bvh.nodes.length = (scene_triangles scene).length * 2 := by
  have hlen : (scene_volumes scene).length = (scene_triangles scene).length :=
    scene_volumes_from_length 0 scene.objects
  have hok : ∀ v ∈ scene_volumes scene, vol_ok v := by
    intro v hv
    obtain ⟨t, _, ix, rfl⟩ := scene_volumes_from_mem 0 scene.objects v hv
    exact vol_ok_fit_triangle t ix
  have hcont : ∀ v ∈ scene_volumes scene, box_contains (scene_aabb scene) v.aabb := by
    intro v hv
    obtain ⟨t, ht, ix, rfl⟩ := scene_volumes_from_mem 0 scene.objects v hv
    apply foldl_fit_triangle_contains _ _ _ t ht
    intro k
    rw [comp_empty_min, comp_empty_max]
    exact ⟨le_refl _, le_refl _⟩
  obtain ⟨p, us, l, c1, c2, c3, _, _, c6, c7, c8, c9, c10⟩ :=
    bvh_task_completes qsort hq (scene_volumes scene).length (bvh_init scene)
      ⟨0, (scene_volumes scene).length, 0, scene_aabb scene⟩ [] [] (scene_volumes scene) []
      rfl (by omega) hbig rfl (by simp [bvh_init]) rfl (by simp) hok hcont
      (by simp [bvh_init]) (by simp [bvh_init]; omega)
  have hrun : bvh_run qsort fuel (bvh_init scene) =
      bvh_run qsort ((scene_volumes scene).length - 1) (bvh_init scene) := by
    have : fuel = ((scene_volumes scene).length - 1) +
        (fuel - ((scene_volumes scene).length - 1)) := by omega
    rw [this, bvh_run_add, bvh_run_done _ _ _ c1]
  have hcnt : (bvh_run qsort fuel (bvh_init scene)).nodes_count =
      (scene_triangles scene).length - 1 := by
    rw [hrun, c2, hlen]
    simp only [bvh_init]
    omega
  have hnl : (bvh_run qsort fuel (bvh_init scene)).nodes.length =
      (scene_triangles scene).length * 2 := by
    rw [hrun, c3]
    simp only [bvh_init, List.length_replicate, hlen]
  refine ⟨⟨(bvh_run qsort fuel (bvh_init scene)).nodes,
    (bvh_run qsort fuel (bvh_init scene)).nodes_count⟩, us, l, ?_, ?_, c8.trans c6, ?_, ?_,
    hcnt, hnl⟩
  · unfold terra_bvh_create
    simp only [hrun, c1, if_true]
  · rw [hrun]; exact c7
  · intro j hj
    simp only [hcnt]
    rcases c9 j hj with h | h
    · have h0 : j = 0 := h.1
      omega
    · have h1 := h.2
      simp only [bvh_init, hlen] at h1
      omega
  · rw [c10, hlen]

/-- The structure `terra_bvh_create` builds for a scene of `N ≥ 2` triangles (at most
256 objects, fewer than `2^24` triangles each), given `N - 1` iterations: the stack
drains, `N - 1` nodes of the `2 N` are in use, and node 0 roots a finished tree whose
leaf slots are the scene's volumes. -/
theorem bvh_create_tree
    (qsort : (TerraBVHVolume → TerraBVHVolume → Int) → List TerraBVHVolume → List TerraBVHVolume)
    (hq : ∀ cmp l, (qsort cmp l).Perm l) (scene : TerraScene) (fuel : Nat)
    (hN : 2 ≤ (scene_triangles scene).length) (hobj : scene.objects.length ≤ 256)
    (htri : ∀ o ∈ scene.objects, o.triangles.length < 2 ^ 24)
    (hfuel : (scene_triangles scene).length - 1 ≤ fuel) :
    ∃ (bvh : TerraBVH) (us : List Nat) (l : List TerraBVHVolume),
      terra_bvh_create qsort scene fuel = some bvh ∧
      SlotTree bvh.nodes (-1) 0 (scene_aabb scene) us l ∧
      l.Perm (scene_volumes scene) ∧
      (∀ j ∈ us, j < bvh.nodes_count) ∧
      us.length = (scene_triangles scene).length - 1 ∧
      bvh.nodes_count = (scene_triangles scene).length - 1 ∧
      bvh.nodes.length = (scene_triangles scene).length * 2 := by
  have hlen : (scene_volumes scene).length = (scene_triangles scene).length :=
    scene_volumes_from_length 0 scene.objects
  have hbig : (scene_volumes scene).length ≤ 2 ^ 32 := by
    rw [hlen]
    have := flatMap_triangles_length_le scene.objects htri
    have h2 : scene.objects.length * 2 ^ 24 ≤ 256 * 2 ^ 24 := Nat.mul_le_mul_right _ hobj
    unfold scene_triangles
    omega
  exact bvh_create_tree_of_count qsort hq scene fuel hN hbig hfuel

/-- C7: for a scene with `N ≥ 2` triangles (at most 256 objects, fewer than `2^24`
triangles per object) and at least `N - 1` loop iterations, `terra_bvh_create` returns
a BVH in which the primitive references of the leaf slots reachable from node 0 are
exactly the `(object, triangle)` pairs of the scene, each once, every internal child
index on the way lying below `nodes_count`, itself within the node array. -/
theorem bvh_create_leaves_exact
    (qsort : (TerraBVHVolume → TerraBVHVolume → Int) → List TerraBVHVolume → List TerraBVHVolume)
    (hq : ∀ cmp l, (qsort cmp l).Perm l) (scene : TerraScene) (fuel : Nat)
    (hN : 2 ≤ (scene_triangles scene).length) (hobj : scene.objects.length ≤ 256)
    (htri : ∀ o ∈ scene.objects, o.triangles.length < 2 ^ 24)
    (hfuel : (scene_triangles scene).length - 1 ≤ fuel) :
    ∃ (bvh : TerraBVH) (refs : List (Nat × Nat)),
      terra_bvh_create qsort scene fuel = some bvh ∧
      bvh_leaf_refs bvh = some refs ∧ refs.Perm (scene_pairs scene) ∧
      bvh.nodes_count ≤ bvh.nodes.length := by
  obtain ⟨bvh, us, l, h1, h2, h3, h4, h5, h6, h7⟩ :=
    bvh_create_tree qsort hq scene fuel hN hobj htri hfuel
  refine ⟨bvh, l.map slot_ref, h1, ?_, ?_, by omega⟩
  · unfold bvh_leaf_refs
    rw [SlotTree.leaf_slots h2 h4 bvh.nodes_count _ (by omega) (fun h => absurd h (by decide))]
    rfl
  · have := (h3.map slot_ref)
    rw [show (scene_volumes scene).map slot_ref = scene_pairs scene from
      scene_volumes_from_refs 0 scene.objects (by omega) htri] at this
    exact this

/-- Two triangles in one object, with a `qsort` that leaves the order alone. -/
theorem bvh_create_leaves_exact_witness :
    ∃ (bvh : TerraBVH) (refs : List (Nat × Nat)),
      terra_bvh_create (fun _ l => l)
        ⟨[⟨[⟨⟨0, 0, 0⟩, ⟨1, 0, 0⟩, ⟨0, 1, 0⟩⟩, ⟨⟨5, 0, 0⟩, ⟨6, 0, 0⟩, ⟨5, 1, 0⟩⟩]⟩]⟩ 1 = some bvh ∧
      bvh_leaf_refs bvh = some refs ∧
      refs.Perm (scene_pairs
        ⟨[⟨[⟨⟨0, 0, 0⟩, ⟨1, 0, 0⟩, ⟨0, 1, 0⟩⟩, ⟨⟨5, 0, 0⟩, ⟨6, 0, 0⟩, ⟨5, 1, 0⟩⟩]⟩]⟩) ∧
      bvh.nodes_count ≤ bvh.nodes.length :=
  bvh_create_leaves_exact (fun _ l => l) (fun _ l => List.Perm.refl l)
    ⟨[⟨[⟨⟨0, 0, 0⟩, ⟨1, 0, 0⟩, ⟨0, 1, 0⟩⟩, ⟨⟨5, 0, 0⟩, ⟨6, 0, 0⟩, ⟨5, 1, 0⟩⟩]⟩]⟩ 1
    (by simp [scene_triangles]) (by simp) (by simp) (by simp [scene_triangles])

/-- A task over the empty range `[0, 0)` is replaced by two tasks over the same empty
range: the split routine returns `-1`, and `-1` is neither `volumes_start` nor
`volumes_end - 2`. -/
theorem bvh_step_empty_task (s : BVHBuild) (t : StackTask) (rest : List StackTask)
    (hst : s.stack = t :: rest) (h0 : t.volumes_start = 0) (h1 : t.volumes_end = 0) :
    ∃ t1 t2, (bvh_step (fun _ l => l) s).stack = t1 :: t2 :: rest ∧
      t1.volumes_start = 0 ∧ t1.volumes_end = 0 ∧ t2.volumes_start = 0 ∧ t2.volumes_end = 0 := by
  simp only [bvh_step, hst, h0, h1, terra_bvh_sah_split_volumes, area_sweep, sah_cost_loop,
    List.drop_zero, Nat.sub_self, List.take_zero, List.length_nil, List.reverse_nil]
  exact ⟨_, _, rfl, rfl, rfl, rfl, rfl⟩

/-- Once every pending task has the empty range `[0, 0)`, the stack never drains. -/
theorem bvh_run_empty_tasks (fuel : Nat) (s : BVHBuild) (hne : s.stack ≠ [])
    (hall : ∀ t ∈ s.stack, t.volumes_start = 0 ∧ t.volumes_end = 0) :
    (bvh_run (fun _ l => l) fuel s).stack ≠ [] := by
  induction fuel generalizing s with
  | zero => exact hne
  | succ n ih =>
    rw [bvh_run]
    obtain ⟨t, rest, hst⟩ := List.exists_cons_of_ne_nil hne
    have ht := hall t (by rw [hst]; exact List.mem_cons_self _ _)
    obtain ⟨t1, t2, hs, a1, a2, a3, a4⟩ := bvh_step_empty_task s t rest hst ht.1 ht.2
    apply ih
    · rw [hs]; exact List.cons_ne_nil _ _
    · intro u hu
      rw [hs] at hu
      rcases List.mem_cons.mp hu with h | h
      · rw [h]; exact ⟨a1, a2⟩
      · rcases List.mem_cons.mp h with h | h
        · rw [h]; exact ⟨a3, a4⟩
        · exact hall u (by rw [hst]; exact List.mem_cons_of_mem _ h)

/-- The first iteration on a single-triangle scene: the split routine returns `-1`, the
right slot becomes the leaf and the left side becomes a task over the empty range. -/
theorem bvh_step_single (tri : TerraTriangle) :
    ∃ t1, (bvh_step (fun _ l => l) (bvh_init ⟨[⟨[tri]⟩]⟩)).stack = [t1] ∧
      t1.volumes_start = 0 ∧ t1.volumes_end = 0 := by
  simp [bvh_step, bvh_init, scene_volumes, scene_volumes_from, object_volumes,
    terra_bvh_sah_split_volumes, area_sweep, sah_cost_loop]

/-- C11 (the code at the failing input): on a scene of one triangle the work stack of
`terra_bvh_create` never drains, however many iterations are run (`qsort` leaves a
one-element array as it is). -/
theorem bvh_create_single_triangle_diverges (tri : TerraTriangle) (fuel : Nat) :
    terra_bvh_create (fun _ l => l) ⟨[⟨[tri]⟩]⟩ fuel = none := by
  have hne : (bvh_run (fun _ l => l) fuel (bvh_init ⟨[⟨[tri]⟩]⟩)).stack ≠ [] := by
    cases fuel with
    | zero => simp [bvh_run, bvh_init]
    | succ n =>
      rw [bvh_run]
      obtain ⟨t1, hs, a1, a2⟩ := bvh_step_single tri
      apply bvh_run_empty_tasks
      · rw [hs]; exact List.cons_ne_nil _ _
      · intro u hu
        rw [hs] at hu
        rw [List.mem_singleton.mp hu]
        exact ⟨a1, a2⟩
  unfold terra_bvh_create
  simp only [hne, if_false]

/-- In the single-triangle run the node counter passes the `2 N = 2` allocated nodes
after two iterations. -/
theorem bvh_create_single_triangle_overflows :
    (bvh_run (fun _ l => l) 2
      (bvh_init ⟨[⟨[⟨⟨0, 0, 0⟩, ⟨1, 0, 0⟩, ⟨0, 1, 0⟩⟩]⟩]⟩)).nodes_count = 4 := by
  simp [bvh_run, bvh_step, bvh_init, scene_volumes, scene_volumes_from, object_volumes,
    terra_bvh_sah_split_volumes, area_sweep, sah_cost_loop]

theorem c_int_intCast (n : Int) : c_int (n : ℚ) = n := by
  simp [c_int]

/-- In Clamp mode the routine takes the minimum with `width - 1` and `height - 1`:
there is no clamp from below. -/
theorem clamp_coords_eq (texture : TerraTexture) (x y : Int)
    (h : texture.address_mode = .kTerraTextureAddressClamp) :
    terra_read_texture_coords texture x y =
      (min x ((texture.width : Int) - 1), min y ((texture.height : Int) - 1)) := by
  simp only [terra_read_texture_coords, h, terra_minf_eq]
  rw [← Int.cast_min, ← Int.cast_min, c_int_intCast, c_int_intCast]

/-- For non-negative coordinates the Wrap mode is periodic. -/
theorem wrap_periodic_nonneg (texture : TerraTexture) (x y k : Int)
    (h : texture.address_mode = .kTerraTextureAddressWrap)
    (hx : 0 ≤ x) (hxk : 0 ≤ x + k * texture.width) :
    (terra_read_texture_coords texture (x + k * texture.width) y).1 =
      (terra_read_texture_coords texture x y).1 := by
  simp only [terra_read_texture_coords, h]
  rw [Int.tmod_eq_emod hxk (Int.ofNat_nonneg _), Int.tmod_eq_emod hx (Int.ofNat_nonneg _),
    Int.add_mul_emod_self]

/-- C12 (the code at the failing input): in Wrap mode with `width = 4`, `x = -1`
resolves to `-1` while `x + 1 * 4 = 3` resolves to `3`: C's `%` keeps the sign of `x`,
and the resolved `-1` is not a column of the image. -/
theorem wrap_negative_not_periodic :
    (terra_read_texture_coords
      ⟨some [], 4, 4, 3, 0, .kTerraFilterPoint, .kTerraTextureAddressWrap, false⟩ (-1) 0).1 = -1 ∧
    (terra_read_texture_coords
      ⟨some [], 4, 4, 3, 0, .kTerraFilterPoint, .kTerraTextureAddressWrap, false⟩
      (-1 + 1 * 4) 0).1 = 3 := by
  decide

/-- C13 (the code at the failing input): in Clamp mode on a 2×2 texture `x = -1`
resolves to `-1`, outside `[0, 1]`, and the texel fetch at `(-1, 0)` is before the
start of the pixel array. -/
theorem clamp_negative_not_clamped :
    terra_read_texture_coords
      ⟨some [255, 0, 0, 0, 255, 0, 0, 0, 255, 255, 255, 255], 2, 2, 3, 0,
        .kTerraFilterBilinear, .kTerraTextureAddressClamp, false⟩ (-1) 0 = (-1, 0) ∧
    terra_read_texture
      ⟨some [255, 0, 0, 0, 255, 0, 0, 0, 255, 255, 255, 255], 2, 2, 3, 0,
        .kTerraFilterBilinear, .kTerraTextureAddressClamp, false⟩ (-1) 0 = none := by
  have h := clamp_coords_eq
    ⟨some [255, 0, 0, 0, 255, 0, 0, 0, 255, 255, 255, 255], 2, 2, 3, 0,
      .kTerraFilterBilinear, .kTerraTextureAddressClamp, false⟩ (-1) 0 rfl
  refine ⟨by rw [h]; decide, ?_⟩
  unfold terra_read_texture
  rw [h]
  decide

/-- The conversion `(int)q` of a non-negative float is its floor. -/
theorem c_int_eq_of_nonneg (q : ℚ) (n : Int) (h0 : 0 ≤ q) (h1 : (n : ℚ) ≤ q)
    (h2 : q < n + 1) : c_int q = n := by
  unfold c_int
  rw [Int.tdiv_eq_ediv (Rat.num_nonneg.mpr h0) (Int.ofNat_nonneg _), ← Rat.floor_def,
    Int.floor_eq_iff]
  exact ⟨h1, h2⟩

/-- The conversion `(int)q` of a non-positive float is its ceiling. -/
theorem c_int_eq_of_nonpos (q : ℚ) (n : Int) (h0 : q ≤ 0) (h1 : (n : ℚ) - 1 < q)
    (h2 : q ≤ n) : c_int q = n := by
  have h := c_int_eq_of_nonneg (-q) (-n) (by linarith) (by push_cast; linarith)
    (by push_cast; linarith)
  unfold c_int at h ⊢
  rw [Rat.neg_num, Rat.neg_den, Int.neg_tdiv] at h
  omega

/-- C14 (the code at the failing input): on the 2×2 Clamp/Bilinear texture with texels
`(0,0)` red, `(1,0)` green, `(0,1)` blue, `(1,1)` white, sampling at `uv = (-1, 5/2)`
fetches the texels at `x = -2` and `x = -1` of row 1, which are the bytes of texels
`(0,0)` and `(1,0)`, and returns `3/2 · (0,0) - 1/2 · (1,0) = (3/2, -1/2, 0)`, not the
blue texel `(0,1)`. -/
theorem sample_clamp_bilinear_scenario :
    terra_sample_texture
      ⟨some [255, 0, 0, 0, 255, 0, 0, 0, 255, 255, 255, 255], 2, 2, 3, 0,
        .kTerraFilterBilinear, .kTerraTextureAddressClamp, false⟩ ⟨-1, 5 / 2⟩
      = some ⟨3 / 2, -1 / 2, 0⟩ ∧
    terra_read_texture
      ⟨some [255, 0, 0, 0, 255, 0, 0, 0, 255, 255, 255, 255], 2, 2, 3, 0,
        .kTerraFilterBilinear, .kTerraTextureAddressClamp, false⟩ 0 1 = some ⟨0, 0, 1⟩ := by
  have hx : c_int ((-1 : ℚ) * ((2 : Nat) : ℚ) - 1 / 2) = -2 :=
    c_int_eq_of_nonpos _ _ (by norm_num) (by norm_num) (by norm_num)
  have hy : c_int ((5 / 2 : ℚ) * ((2 : Nat) : ℚ) - 1 / 2) = 4 :=
    c_int_eq_of_nonneg _ _ (by norm_num) (by norm_num) (by norm_num)
  have hc : ∀ x y : Int, terra_read_texture_coords
      ⟨some [255, 0, 0, 0, 255, 0, 0, 0, 255, 255, 255, 255], 2, 2, 3, 0,
        .kTerraFilterBilinear, .kTerraTextureAddressClamp, false⟩ x y = (min x 1, min y 1) :=
    fun x y => clamp_coords_eq _ x y rfl
  constructor
  · simp only [terra_sample_texture, terra_f2_set, hx, hy, terra_read_texture, hc]
    norm_num [c_min, texel_index, fetch_rgb, terra_f3_set, Int.toNat]
  · simp only [terra_read_texture, hc]
    norm_num [texel_index, fetch_rgb, terra_f3_set, Int.toNat]

/-- C19: `terra_framebuffer_create` returns false exactly when `width = 0` or
`height = 0`, and then leaves the framebuffer as it was; otherwise it stores the width
and height and every one of the `width * height` output pixels and accumulators is
`(0,0,0)` with sample count 0. -/
theorem framebuffer_create_spec (fb : TerraFramebuffer) (w h : Int) :
    (terra_framebuffer_create fb w h).1 = decide (¬ (w = 0 ∨ h = 0)) ∧
    (if w = 0 ∨ h = 0 then (terra_framebuffer_create fb w h).2 = fb
      else
        (terra_framebuffer_create fb w h).2.width = w ∧
        (terra_framebuffer_create fb w h).2.height = h ∧
        (terra_framebuffer_create fb w h).2.pixels.length = (w * h).toNat ∧
        (terra_framebuffer_create fb w h).2.results.length = (w * h).toNat ∧
        (∀ p ∈ (terra_framebuffer_create fb w h).2.pixels, p = ⟨0, 0, 0⟩) ∧
        (∀ r ∈ (terra_framebuffer_create fb w h).2.results,
          r.acc = ⟨0, 0, 0⟩ ∧ r.samples = 0)) := by
  by_cases hz : w = 0 ∨ h = 0
  · simp only [terra_framebuffer_create, if_pos hz]
    simp [hz]
  · simp only [terra_framebuffer_create, if_neg hz, List.length_replicate]
    refine ⟨by simp [hz], trivial, trivial, trivial, trivial, ?_, ?_⟩
    · intro p hp
      rw [List.eq_of_mem_replicate hp]; rfl
    · intro r hr
      rw [List.eq_of_mem_replicate hr]; exact ⟨rfl, rfl⟩

theorem mem_tile_pixels (x y w h : Nat) (p : Nat × Nat) :
    p ∈ tile_pixels x y w h ↔ (x ≤ p.1 ∧ p.1 < x + w) ∧ (y ≤ p.2 ∧ p.2 < y + h) := by
  obtain ⟨j, i⟩ := p
  simp only [tile_pixels, List.mem_flatMap, List.mem_map, List.mem_range'_1, Prod.mk.injEq]
  constructor
  · rintro ⟨i', hi', j', hj', rfl, rfl⟩
    exact ⟨hj', hi'⟩
  · rintro ⟨hj, hi⟩
    exact ⟨i, hi, j, hj, rfl, rfl⟩

theorem tile_pixels_nodup (x y w h : Nat) : (tile_pixels x y w h).Nodup := by
  unfold tile_pixels
  rw [List.nodup_flatMap]
  refine ⟨?_, ?_⟩
  · intro i _
    exact (List.nodup_range' x w).map (fun a b hab => by simpa using hab)
  · apply List.Pairwise.imp_of_mem _ (List.nodup_range' y h)
    intro a b _ _ hab
    simp only [Function.onFun, List.disjoint_left, List.mem_map]
    rintro p ⟨j, _, rfl⟩ ⟨j', _, h'⟩
    exact hab (by simpa using (congrArg Prod.snd h').symm)

/-- The pixel index on a framebuffer of width `W`. -/
theorem pixel_index_eq (fb : TerraFramebuffer) (W : Nat) (hW : fb.width = W) (p : Nat × Nat) :
    pixel_index fb p = p.2 * W + p.1 := by
  unfold pixel_index
  rw [hW]
  omega

/-- Row-major indices of pixels inside the rows are distinct. -/
theorem row_major_inj (W : Nat) (j i j' i' : Nat) (hj : j < W) (hj' : j' < W)
    (h : i * W + j = i' * W + j') : j = j' ∧ i = i' := by
  have h1 : (i * W + j) % W = (i' * W + j') % W := by rw [h]
  have h2 : (i * W + j) / W = (i' * W + j') / W := by rw [h]
  have hWpos : 0 < W := by omega
  rw [Nat.mul_comm i, Nat.mul_comm i', Nat.mul_add_mod, Nat.mul_add_mod, Nat.mod_eq_of_lt hj,
    Nat.mod_eq_of_lt hj'] at h1
  rw [Nat.mul_comm i, Nat.mul_comm i', Nat.mul_add_div hWpos, Nat.mul_add_div hWpos,
    Nat.div_eq_of_lt hj, Nat.div_eq_of_lt hj'] at h2
  exact ⟨h1, by omega⟩

/-- A row-major index inside the frame is below `W * H`. -/
theorem row_major_lt (W H j i : Nat) (hj : j < W) (hi : i < H) : i * W + j < W * H := by
  have : (i + 1) * W ≤ H * W := Nat.mul_le_mul_right W hi
  rw [Nat.mul_comm W H]
  rw [Nat.add_mul] at this
  omega

/-- What `accumulate_pixel` leaves alone: the sizes, and every other index. -/
theorem accumulate_pixel_frame (powf : ℚ → ℚ → ℚ) (opts : TerraSceneOptions)
    (fb : TerraFramebuffer) (idx : Nat) (acc : TerraFloat3) :
    (accumulate_pixel powf opts fb idx acc).width = fb.width ∧
    (accumulate_pixel powf opts fb idx acc).height = fb.height ∧
    (accumulate_pixel powf opts fb idx acc).pixels.length = fb.pixels.length ∧
    (accumulate_pixel powf opts fb idx acc).results.length = fb.results.length ∧
    ∀ k, k ≠ idx →
      (accumulate_pixel powf opts fb idx acc).results[k]? = fb.results[k]? ∧
      (accumulate_pixel powf opts fb idx acc).pixels[k]? = fb.pixels[k]? := by
  refine ⟨rfl, rfl, by simp [accumulate_pixel], by simp [accumulate_pixel], ?_⟩
  intro k hk
  simp only [accumulate_pixel]
  exact ⟨List.getElem?_set_ne (Ne.symm hk), List.getElem?_set_ne (Ne.symm hk)⟩

/-- What `accumulate_pixel` writes at the index: the new samples are added to the stored
accumulator, the sample count grows by `samples_per_pixel`, and the output pixel is the
tone-mapped exposed mean. -/
theorem accumulate_pixel_at (powf : ℚ → ℚ → ℚ) (opts : TerraSceneOptions)
    (fb : TerraFramebuffer) (idx : Nat) (acc : TerraFloat3) (old : TerraRawIntegrationResult)
    (hold : fb.results[idx]? = some old) (hpx : idx < fb.pixels.length) :
    (accumulate_pixel powf opts fb idx acc).results[idx]? =
      some ⟨terra_addf3 acc old.acc, old.samples + opts.samples_per_pixel⟩ ∧
    (accumulate_pixel powf opts fb idx acc).pixels[idx]? =
      some (terra_tonemap powf opts (terra_mulf3
        (terra_divf3 (terra_addf3 acc old.acc)
          ((old.samples + opts.samples_per_pixel : Int) : ℚ)) opts.manual_exposure)) := by
  have hlt : idx < fb.results.length := by
    by_contra h
    rw [List.getElem?_eq_none (by omega)] at hold
    cases hold
  have hget : fb.results.getD idx ⟨terra_f3_zero, 0⟩ = old := by
    rw [List.getD_eq_getElem?_getD, hold]; rfl
  simp only [accumulate_pixel, hget]
  exact ⟨List.getElem?_set_self hlt, List.getElem?_set_self hpx⟩

theorem render_pixels_append {σ : Type} (powf : ℚ → ℚ → ℚ)
    (sample : σ → Nat → Nat → TerraFloat3 × σ) (opts : TerraSceneOptions)
    (l1 l2 : List (Nat × Nat)) (st : TerraFramebuffer × σ) :
    render_pixels powf sample opts (l1 ++ l2) st =
      render_pixels powf sample opts l2 (render_pixels powf sample opts l1 st) := by
  simp [render_pixels, List.foldl_append]

/-- Rendering a list of pixels keeps the sizes and every index that is not the index of
one of the pixels. -/
theorem render_pixels_frame {σ : Type} (powf : ℚ → ℚ → ℚ)
    (sample : σ → Nat → Nat → TerraFloat3 × σ) (opts : TerraSceneOptions)
    (l : List (Nat × Nat)) (st : TerraFramebuffer × σ) :
    (render_pixels powf sample opts l st).1.width = st.1.width ∧
    (render_pixels powf sample opts l st).1.height = st.1.height ∧
    (render_pixels powf sample opts l st).1.pixels.length = st.1.pixels.length ∧
    (render_pixels powf sample opts l st).1.results.length = st.1.results.length ∧
    ∀ k, (∀ p ∈ l, pixel_index st.1 p ≠ k) →
      (render_pixels powf sample opts l st).1.results[k]? = st.1.results[k]? ∧
      (render_pixels powf sample opts l st).1.pixels[k]? = st.1.pixels[k]? := by
  induction l generalizing st with
  | nil => exact ⟨rfl, rfl, rfl, rfl, fun _ _ => ⟨rfl, rfl⟩⟩
  | cons p ps ih =>
    obtain ⟨a1, a2, a3, a4, a5⟩ := ih (render_pixel powf sample opts st p)
    obtain ⟨b1, b2, b3, b4, b5⟩ := accumulate_pixel_frame powf opts st.1 (pixel_index st.1 p)
      (sample_loop sample p.1 p.2 opts.samples_per_pixel.toNat terra_f3_zero st.2).1
    have hstep : (render_pixel powf sample opts st p).1 =
        accumulate_pixel powf opts st.1 (pixel_index st.1 p)
          (sample_loop sample p.1 p.2 opts.samples_per_pixel.toNat terra_f3_zero st.2).1 := rfl
    have hrp : render_pixels powf sample opts (p :: ps) st =
        render_pixels powf sample opts ps (render_pixel powf sample opts st p) := rfl
    rw [hrp]
    rw [hstep] at a1 a2 a3 a4 a5
    refine ⟨a1.trans b1, a2.trans b2, a3.trans b3, a4.trans b4, ?_⟩
    intro k hk
    have hidx : ∀ q, pixel_index (accumulate_pixel powf opts st.1 (pixel_index st.1 p)
        (sample_loop sample p.1 p.2 opts.samples_per_pixel.toNat terra_f3_zero st.2).1) q =
        pixel_index st.1 q := fun q => rfl
    obtain ⟨c1, c2⟩ := a5 k (fun q hq => by rw [hidx]; exact hk q (List.mem_cons_of_mem _ hq))
    obtain ⟨d1, d2⟩ := b5 k (Ne.symm (hk p (List.mem_cons_self _ _)))
    exact ⟨c1.trans d1, c2.trans d2⟩

/-- The value written for a pixel `p` of the list, when no other pixel of the list has
its index: the accumulator gains the sum of the `samples_per_pixel` samples drawn when
the loop reaches `p`, the count gains `samples_per_pixel`, and the output pixel is the
tone-mapped exposed mean. -/
theorem render_pixels_at {σ : Type} (powf : ℚ → ℚ → ℚ)
    (sample : σ → Nat → Nat → TerraFloat3 × σ) (opts : TerraSceneOptions)
    (l1 l2 : List (Nat × Nat)) (p : Nat × Nat) (st : TerraFramebuffer × σ)
    (old : TerraRawIntegrationResult)
    (h1 : ∀ q ∈ l1, pixel_index st.1 q ≠ pixel_index st.1 p)
    (h2 : ∀ q ∈ l2, pixel_index st.1 q ≠ pixel_index st.1 p)
    (hold : st.1.results[pixel_index st.1 p]? = some old)
    (hpx : pixel_index st.1 p < st.1.pixels.length) :
    (render_pixels powf sample opts (l1 ++ p :: l2) st).1.results[pixel_index st.1 p]? =
      some ⟨terra_addf3 (sample_loop sample p.1 p.2 opts.samples_per_pixel.toNat terra_f3_zero
          (render_pixels powf sample opts l1 st).2).1 old.acc,
        old.samples + opts.samples_per_pixel⟩ ∧
    (render_pixels powf sample opts (l1 ++ p :: l2) st).1.pixels[pixel_index st.1 p]? =
      some (terra_tonemap powf opts (terra_mulf3
        (terra_divf3 (terra_addf3 (sample_loop sample p.1 p.2 opts.samples_per_pixel.toNat
            terra_f3_zero (render_pixels powf sample opts l1 st).2).1 old.acc)
          ((old.samples + opts.samples_per_pixel : Int) : ℚ)) opts.manual_exposure)) := by
  obtain ⟨a1, _, a3, _, a5⟩ := render_pixels_frame powf sample opts l1 st
  obtain ⟨e1, e2⟩ := a5 (pixel_index st.1 p) h1
  have hidx1 : ∀ q, pixel_index (render_pixels powf sample opts l1 st).1 q = pixel_index st.1 q :=
    fun q => by unfold pixel_index; rw [a1]
  have hrp : render_pixels powf sample opts (l1 ++ p :: l2) st =
      render_pixels powf sample opts l2
        (render_pixel powf sample opts (render_pixels powf sample opts l1 st) p) := by
    rw [render_pixels_append]; rfl
  obtain ⟨f1, f2⟩ := accumulate_pixel_at powf opts (render_pixels powf sample opts l1 st).1
    (pixel_index st.1 p)
    (sample_loop sample p.1 p.2 opts.samples_per_pixel.toNat terra_f3_zero
      (render_pixels powf sample opts l1 st).2).1 old (e1.trans hold) (by rw [a3]; exact hpx)
  have hstep : (render_pixel powf sample opts (render_pixels powf sample opts l1 st) p).1 =
      accumulate_pixel powf opts (render_pixels powf sample opts l1 st).1 (pixel_index st.1 p)
        (sample_loop sample p.1 p.2 opts.samples_per_pixel.toNat terra_f3_zero
          (render_pixels powf sample opts l1 st).2).1 := by
    simp only [render_pixel, hidx1]
  obtain ⟨b1, _, _, _, _⟩ := accumulate_pixel_frame powf opts
    (render_pixels powf sample opts l1 st).1 (pixel_index st.1 p)
    (sample_loop sample p.1 p.2 opts.samples_per_pixel.toNat terra_f3_zero
      (render_pixels powf sample opts l1 st).2).1
  obtain ⟨_, _, _, _, g5⟩ := render_pixels_frame powf sample opts l2
    (render_pixel powf sample opts (render_pixels powf sample opts l1 st) p)
  have hidx2 : ∀ q, pixel_index
      (render_pixel powf sample opts (render_pixels powf sample opts l1 st) p).1 q =
      pixel_index st.1 q := fun q => by
    rw [hstep]; exact (show _ = _ from rfl).trans (hidx1 q)
  obtain ⟨c1, c2⟩ := g5 (pixel_index st.1 p) (fun q hq => by rw [hidx2]; exact h2 q hq)
  rw [hrp, c1, c2, hstep]
  exact ⟨f1, f2⟩

/-- In a list whose images under `f` are distinct, no other element has the image of a
given element. -/
theorem nodup_map_split {α : Type} (f : α → Nat) (l1 l2 : List α) (p : α)
    (h : ((l1 ++ p :: l2).map f).Nodup) :
    (∀ q ∈ l1, f q ≠ f p) ∧ (∀ q ∈ l2, f q ≠ f p) := by
  rw [List.map_append, List.map_cons, List.nodup_append] at h
  obtain ⟨_, h2, h3⟩ := h
  rw [List.nodup_cons] at h2
  constructor
  · intro q hq heq
    exact h3 (List.mem_map_of_mem f hq) (by rw [heq]; exact List.mem_cons_self _ _)
  · intro q hq heq
    exact h2.1 (by rw [← heq]; exact List.mem_map_of_mem f hq)

/-- The pixels of a tile inside the framebuffer have distinct indices below `W * H`. -/
theorem tile_indices (fb : TerraFramebuffer) (W H x y w h : Nat) (hW : fb.width = W)
    (hx : x + w ≤ W) (hy : y + h ≤ H) :
    ((tile_pixels x y w h).map (pixel_index fb)).Nodup ∧
    ∀ p ∈ tile_pixels x y w h, pixel_index fb p < W * H := by
  constructor
  · apply List.Nodup.map_on _ (tile_pixels_nodup x y w h)
    intro p hp q hq heq
    rw [pixel_index_eq fb W hW, pixel_index_eq fb W hW] at heq
    rw [mem_tile_pixels] at hp hq
    obtain ⟨e1, e2⟩ := row_major_inj W p.1 p.2 q.1 q.2 (by omega) (by omega) heq
    exact Prod.ext e1 e2
  · intro p hp
    rw [mem_tile_pixels] at hp
    rw [pixel_index_eq fb W hW]
    exact row_major_lt W H p.1 p.2 (by omega) (by omega)

/-- The sample loop adds the drawn samples to its accumulator in drawing order and leaves
the stream in the state after them. -/
theorem sample_loop_drawn {σ : Type} (sample : σ → Nat → Nat → TerraFloat3 × σ) (j i n : Nat)
    (acc : TerraFloat3) (rng : σ) :
    sample_loop sample j i n acc rng =
      ((drawn_samples sample j i n rng).foldl terra_addf3 acc,
        stream_after_samples sample j i n rng) := by
  induction n generalizing acc rng with
  | zero => rfl
  | succ n ih =>
    rw [sample_loop, ih]
    rfl

/-- The list of drawn samples has one entry per draw. -/
theorem drawn_samples_length {σ : Type} (sample : σ → Nat → Nat → TerraFloat3 × σ)
    (j i n : Nat) (rng : σ) : (drawn_samples sample j i n rng).length = n := by
  induction n generalizing rng with
  | zero => rfl
  | succ n ih => rw [drawn_samples, List.length_cons, ih]

/-- The stream state after the pixel loops have run over a list of pixels. -/
theorem render_pixels_stream {σ : Type} (powf : ℚ → ℚ → ℚ)
    (sample : σ → Nat → Nat → TerraFloat3 × σ) (opts : TerraSceneOptions)
    (l : List (Nat × Nat)) (st : TerraFramebuffer × σ) :
    (render_pixels powf sample opts l st).2 =
      stream_after_pixels sample opts.samples_per_pixel.toNat l st.2 := by
  induction l generalizing st with
  | nil => rfl
  | cons p ps ih =>
    have hrp : render_pixels powf sample opts (p :: ps) st =
        render_pixels powf sample opts ps (render_pixel powf sample opts st p) := rfl
    rw [hrp, ih]
    simp only [render_pixel, sample_loop_drawn, stream_after_pixels]

/-- C17: for a tile lying inside the framebuffer, `terra_render` leaves the accumulator,
sample count and output pixel of every pixel outside the tile unchanged; for every
pixel `p` of the tile, reached after the pixels `l1`, the stored sample count grows by
`samples_per_pixel` and the stored accumulator by the sum of the `samples_per_pixel`
radiance samples drawn for `p`, which are the next ones of the random stream after the
samples of the pixels `l1`; the stream ends after the samples of the whole tile. -/
theorem render_tile_frame_effect {σ : Type} (powf : ℚ → ℚ → ℚ)
    (sample : σ → Nat → Nat → TerraFloat3 × σ) (opts : TerraSceneOptions)
    (fb : TerraFramebuffer) (rng : σ) (W H x y w h : Nat)
    (hW : fb.width = W) (hlenp : fb.pixels.length = W * H)
    (hlenr : fb.results.length = W * H) (hx : x + w ≤ W) (hy : y + h ≤ H) :
    (∀ j i, j < W → i < H → ¬ ((x ≤ j ∧ j < x + w) ∧ (y ≤ i ∧ i < y + h)) →
      (terra_render powf sample opts fb rng x y w h).1.results[pixel_index fb (j, i)]? =
        fb.results[pixel_index fb (j, i)]? ∧
      (terra_render powf sample opts fb rng x y w h).1.pixels[pixel_index fb (j, i)]? =
        fb.pixels[pixel_index fb (j, i)]?) ∧
    (∀ l1 p l2, tile_pixels x y w h = l1 ++ p :: l2 →
      ∃ old, fb.results[pixel_index fb p]? = some old ∧
        (drawn_samples sample p.1 p.2 opts.samples_per_pixel.toNat
          (stream_after_pixels sample opts.samples_per_pixel.toNat l1 rng)).length =
          opts.samples_per_pixel.toNat ∧
        (terra_render powf sample opts fb rng x y w h).1.results[pixel_index fb p]? =
          some ⟨terra_addf3
              (radiance_sum (drawn_samples sample p.1 p.2 opts.samples_per_pixel.toNat
                (stream_after_pixels sample opts.samples_per_pixel.toNat l1 rng))) old.acc,
            old.samples + opts.samples_per_pixel⟩) ∧
    (terra_render powf sample opts fb rng x y w h).2 =
      stream_after_pixels sample opts.samples_per_pixel.toNat (tile_pixels x y w h) rng := by
  obtain ⟨hnd, hlt⟩ := tile_indices fb W H x y w h hW hx hy
  refine ⟨?_, ?_, ?_⟩
  · intro j i hj hi hout
    obtain ⟨_, _, _, _, a5⟩ := render_pixels_frame powf sample opts (tile_pixels x y w h) (fb, rng)
    apply a5
    intro p hp heq
    rw [mem_tile_pixels] at hp
    simp only [] at heq
    rw [pixel_index_eq fb W hW, pixel_index_eq fb W hW] at heq
    obtain ⟨e1, e2⟩ := row_major_inj W p.1 p.2 j i (by omega) hj heq
    apply hout
    rw [← e1, ← e2]
    exact hp
  · intro l1 p l2 hsplit
    have hp : p ∈ tile_pixels x y w h := by rw [hsplit]; simp
    have hidx := hlt p hp
    obtain ⟨old, hsome⟩ : ∃ old, fb.results[pixel_index fb p]? = some old :=
      ⟨_, List.getElem?_eq_getElem (by omega)⟩
    rw [hsplit] at hnd
    obtain ⟨n1, n2⟩ := nodup_map_split (pixel_index fb) l1 l2 p hnd
    refine ⟨_, hsome, drawn_samples_length _ _ _ _ _, ?_⟩
    unfold terra_render
    rw [hsplit]
    have hat := (render_pixels_at powf sample opts l1 l2 p (fb, rng) _ n1 n2 hsome
      (by simp only []; omega)).1
    rw [sample_loop_drawn, render_pixels_stream] at hat
    exact hat
  · exact render_pixels_stream powf sample opts (tile_pixels x y w h) (fb, rng)

/-- The exposed mean as the product `exposure · acc / samples`. -/
theorem exposed_mean_eq (a : TerraFloat3) (n e : ℚ) :
    terra_mulf3 (terra_divf3 a n) e = ⟨e * a.x / n, e * a.y / n, e * a.z / n⟩ := by
  simp only [terra_mulf3, terra_divf3, terra_f3_set, TerraFloat3.mk.injEq]
  refine ⟨?_, ?_, ?_⟩ <;> ring

/-- C18: after `terra_render` on a tile inside the framebuffer, for every pixel `p` of
the tile the output pixel is the tone map of `manual_exposure · acc / samples` of the
stored result of `p`: the colour itself for operator None, `c^(1/γ)` per channel for
Linear, and `(c/(1+c))^(1/γ)` per channel for Reinhard. -/
theorem render_output_is_tonemapped_mean {σ : Type} (powf : ℚ → ℚ → ℚ)
    (sample : σ → Nat → Nat → TerraFloat3 × σ) (opts : TerraSceneOptions)
    (fb : TerraFramebuffer) (rng : σ) (W H x y w h : Nat)
    (hW : fb.width = W) (hlenp : fb.pixels.length = W * H)
    (hlenr : fb.results.length = W * H) (hx : x + w ≤ W) (hy : y + h ≤ H) :
    ∀ p ∈ tile_pixels x y w h, ∃ (r : TerraRawIntegrationResult) (c e : TerraFloat3),
      (terra_render powf sample opts fb rng x y w h).1.results[pixel_index fb p]? = some r ∧
      (terra_render powf sample opts fb rng x y w h).1.pixels[pixel_index fb p]? = some c ∧
      e = ⟨opts.manual_exposure * r.acc.x / (r.samples : ℚ),
           opts.manual_exposure * r.acc.y / (r.samples : ℚ),
           opts.manual_exposure * r.acc.z / (r.samples : ℚ)⟩ ∧
      (opts.tonemapping_operator = .kTerraTonemappingOperatorNone → c = e) ∧
      (opts.tonemapping_operator = .kTerraTonemappingOperatorLinear →
        c = ⟨powf e.x (1 / opts.gamma), powf e.y (1 / opts.gamma),
             powf e.z (1 / opts.gamma)⟩) ∧
      (opts.tonemapping_operator = .kTerraTonemappingOperatorReinhard →
        c = ⟨powf (e.x / (1 + e.x)) (1 / opts.gamma),
             powf (e.y / (1 + e.y)) (1 / opts.gamma),
             powf (e.z / (1 + e.z)) (1 / opts.gamma)⟩) := by
  obtain ⟨hnd, hlt⟩ := tile_indices fb W H x y w h hW hx hy
  intro p hp
  have hidx := hlt p hp
  obtain ⟨l1, l2, hsplit⟩ := List.append_of_mem hp
  obtain ⟨old, hsome⟩ : ∃ old, fb.results[pixel_index fb p]? = some old :=
    ⟨_, List.getElem?_eq_getElem (by omega)⟩
  rw [hsplit] at hnd
  obtain ⟨n1, n2⟩ := nodup_map_split (pixel_index fb) l1 l2 p hnd
  obtain ⟨g1, g2⟩ := render_pixels_at powf sample opts l1 l2 p (fb, rng) _ n1 n2 hsome
      (by simp only []; omega)
  unfold terra_render
  rw [hsplit]
  refine ⟨_, _, _, g1, g2, rfl, ?_, ?_, ?_⟩
  · intro hop
    rw [← exposed_mean_eq]
    simp only [terra_tonemap, hop]
  · intro hop
    rw [← exposed_mean_eq]
    simp only [terra_tonemap, hop, terra_powf3, terra_f3_set]
  · intro hop
    rw [← exposed_mean_eq]
    simp only [terra_tonemap, hop, terra_powf3, terra_f3_set]

/-- One pixel of a fresh 2×2 framebuffer rendered with two samples. -/
theorem render_tile_frame_effect_witness :
    (∀ j i, j < 2 → i < 2 → ¬ ((0 ≤ j ∧ j < 0 + 1) ∧ (0 ≤ i ∧ i < 0 + 1)) →
      (terra_render (fun a _ => a) counter_sample
          (options_with .kTerraTonemappingOperatorNone 2) (fresh_framebuffer 2 2) 0
          0 0 1 1).1.results[pixel_index (fresh_framebuffer 2 2) (j, i)]? =
        (fresh_framebuffer 2 2).results[pixel_index (fresh_framebuffer 2 2) (j, i)]? ∧
      (terra_render (fun a _ => a) counter_sample
          (options_with .kTerraTonemappingOperatorNone 2) (fresh_framebuffer 2 2) 0
          0 0 1 1).1.pixels[pixel_index (fresh_framebuffer 2 2) (j, i)]? =
        (fresh_framebuffer 2 2).pixels[pixel_index (fresh_framebuffer 2 2) (j, i)]?) ∧
    (∀ l1 p l2, tile_pixels 0 0 1 1 = l1 ++ p :: l2 →
      ∃ old, (fresh_framebuffer 2 2).results[pixel_index (fresh_framebuffer 2 2) p]? =
          some old ∧
        (drawn_samples counter_sample p.1 p.2
          (options_with .kTerraTonemappingOperatorNone 2).samples_per_pixel.toNat
          (stream_after_pixels counter_sample
            (options_with .kTerraTonemappingOperatorNone 2).samples_per_pixel.toNat
            l1 0)).length =
          (options_with .kTerraTonemappingOperatorNone 2).samples_per_pixel.toNat ∧
        (terra_render (fun a _ => a) counter_sample
          (options_with .kTerraTonemappingOperatorNone 2) (fresh_framebuffer 2 2) 0
          0 0 1 1).1.results[pixel_index (fresh_framebuffer 2 2) p]? =
          some ⟨terra_addf3
              (radiance_sum (drawn_samples counter_sample p.1 p.2
                (options_with .kTerraTonemappingOperatorNone 2).samples_per_pixel.toNat
                (stream_after_pixels counter_sample
                  (options_with .kTerraTonemappingOperatorNone 2).samples_per_pixel.toNat
                  l1 0))) old.acc,
            old.samples + (options_with .kTerraTonemappingOperatorNone 2).samples_per_pixel⟩) ∧
    (terra_render (fun a _ => a) counter_sample
        (options_with .kTerraTonemappingOperatorNone 2) (fresh_framebuffer 2 2) 0
        0 0 1 1).2 =
      stream_after_pixels counter_sample
        (options_with .kTerraTonemappingOperatorNone 2).samples_per_pixel.toNat
        (tile_pixels 0 0 1 1) 0 :=
  render_tile_frame_effect (fun a _ => a) counter_sample
    (options_with .kTerraTonemappingOperatorNone 2) (fresh_framebuffer 2 2) 0 2 2 0 0 1 1
    rfl rfl rfl (by decide) (by decide)

/-- A fresh 2×1 framebuffer rendered whole with two samples per pixel and the Reinhard
operator, at the pixel `(1, 0)`. -/
theorem render_output_is_tonemapped_mean_witness :
    ∃ (r : TerraRawIntegrationResult) (c e : TerraFloat3),
      (terra_render (fun a _ => a) counter_sample
        (options_with .kTerraTonemappingOperatorReinhard 2) (fresh_framebuffer 2 1) 0
        0 0 2 1).1.results[pixel_index (fresh_framebuffer 2 1) (1, 0)]? = some r ∧
      (terra_render (fun a _ => a) counter_sample
        (options_with .kTerraTonemappingOperatorReinhard 2) (fresh_framebuffer 2 1) 0
        0 0 2 1).1.pixels[pixel_index (fresh_framebuffer 2 1) (1, 0)]? = some c ∧
      e = ⟨(options_with .kTerraTonemappingOperatorReinhard 2).manual_exposure * r.acc.x /
             (r.samples : ℚ),
           (options_with .kTerraTonemappingOperatorReinhard 2).manual_exposure * r.acc.y /
             (r.samples : ℚ),
           (options_with .kTerraTonemappingOperatorReinhard 2).manual_exposure * r.acc.z /
             (r.samples : ℚ)⟩ ∧
      ((options_with .kTerraTonemappingOperatorReinhard 2).tonemapping_operator =
          .kTerraTonemappingOperatorNone → c = e) ∧
      ((options_with .kTerraTonemappingOperatorReinhard 2).tonemapping_operator =
          .kTerraTonemappingOperatorLinear →
        c = ⟨(fun a _ => a) e.x (1 / (options_with .kTerraTonemappingOperatorReinhard 2).gamma),
             (fun a _ => a) e.y (1 / (options_with .kTerraTonemappingOperatorReinhard 2).gamma),
             (fun a _ => a) e.z
               (1 / (options_with .kTerraTonemappingOperatorReinhard 2).gamma)⟩) ∧
      ((options_with .kTerraTonemappingOperatorReinhard 2).tonemapping_operator =
          .kTerraTonemappingOperatorReinhard →
        c = ⟨(fun a _ => a) (e.x / (1 + e.x))
               (1 / (options_with .kTerraTonemappingOperatorReinhard 2).gamma),
             (fun a _ => a) (e.y / (1 + e.y))
               (1 / (options_with .kTerraTonemappingOperatorReinhard 2).gamma),
             (fun a _ => a) (e.z / (1 + e.z))
               (1 / (options_with .kTerraTonemappingOperatorReinhard 2).gamma)⟩) :=
  render_output_is_tonemapped_mean (fun a _ => a) counter_sample
    (options_with .kTerraTonemappingOperatorReinhard 2) (fresh_framebuffer 2 1) 0 2 1 0 0 2 1
    rfl rfl rfl (by decide) (by decide) (1, 0) (by decide)

theorem terra_addf3_assoc (a b c : TerraFloat3) :
    terra_addf3 a (terra_addf3 b c) = terra_addf3 (terra_addf3 a b) c := by
  simp only [terra_addf3, terra_f3_set, TerraFloat3.mk.injEq]
  refine ⟨?_, ?_, ?_⟩ <;> ring

theorem terra_addf3_comm (a b : TerraFloat3) : terra_addf3 a b = terra_addf3 b a := by
  simp only [terra_addf3, terra_f3_set, TerraFloat3.mk.injEq]
  refine ⟨?_, ?_, ?_⟩ <;> ring

theorem terra_addf3_zero (a : TerraFloat3) : terra_addf3 a terra_f3_zero = a := by
  simp only [terra_addf3, terra_f3_set, terra_f3_zero, terra_f3_set1, add_zero]

/-- The sample loop started from `acc` adds `acc` to the loop started from zero. -/
theorem sample_loop_acc {σ : Type} (sample : σ → Nat → Nat → TerraFloat3 × σ) (j i n : Nat)
    (acc : TerraFloat3) (rng : σ) :
    sample_loop sample j i n acc rng =
      (terra_addf3 acc (sample_loop sample j i n terra_f3_zero rng).1,
        (sample_loop sample j i n terra_f3_zero rng).2) := by
  induction n generalizing acc rng with
  | zero => simp only [sample_loop, terra_addf3_zero]
  | succ n ih =>
    rw [sample_loop, sample_loop, ih, ih (terra_addf3 terra_f3_zero _)]
    rw [terra_addf3_comm terra_f3_zero, terra_addf3_zero, terra_addf3_assoc]

/-- The sample loop run for `a + b` iterations is the loop run for `a` and then for `b`. -/
theorem sample_loop_add {σ : Type} (sample : σ → Nat → Nat → TerraFloat3 × σ) (j i a b : Nat)
    (acc : TerraFloat3) (rng : σ) :
    sample_loop sample j i (a + b) acc rng =
      sample_loop sample j i b (sample_loop sample j i a acc rng).1
        (sample_loop sample j i a acc rng).2 := by
  induction a generalizing acc rng with
  | zero => simp only [Nat.zero_add, sample_loop]
  | succ a ih =>
    rw [show a + 1 + b = (a + b) + 1 by omega, sample_loop, ih, sample_loop]

/-- When the radiance does not depend on the stream state, neither does the sum. -/
theorem sample_loop_det {σ : Type} (sample : σ → Nat → Nat → TerraFloat3 × σ)
    (hdet : ∀ rng rng2 j i, (sample rng j i).1 = (sample rng2 j i).1) (j i n : Nat)
    (acc : TerraFloat3) (rng rng2 : σ) :
    (sample_loop sample j i n acc rng).1 = (sample_loop sample j i n acc rng2).1 := by
  induction n generalizing acc rng rng2 with
  | zero => rfl
  | succ n ih =>
    rw [sample_loop, sample_loop, hdet rng rng2 j i]
    exact ih _ _ _

/-- The sum over `2 S` samples from one stream state is the sum of `S` samples and of the
`S` samples that follow them. -/
theorem sample_loop_double {σ : Type} (sample : σ → Nat → Nat → TerraFloat3 × σ) (j i : Nat)
    (S : Int) (rng : σ) :
    (sample_loop sample j i (2 * S).toNat terra_f3_zero rng).1 =
      terra_addf3 (sample_loop sample j i S.toNat terra_f3_zero
          (sample_loop sample j i S.toNat terra_f3_zero rng).2).1
        (sample_loop sample j i S.toNat terra_f3_zero rng).1 := by
  rw [show (2 * S).toNat = S.toNat + S.toNat by omega, sample_loop_add, sample_loop_acc,
    terra_addf3_comm]

theorem framebuffer_eq (a b : TerraFramebuffer) (h1 : a.pixels = b.pixels)
    (h2 : a.results = b.results) (h3 : a.width = b.width) (h4 : a.height = b.height) :
    a = b := by
  cases a; cases b
  simp only [TerraFramebuffer.mk.injEq]
  exact ⟨h1, h2, h3, h4⟩

/-- Two passes with `S` samples against one pass with `2 S` samples over a list of pixels
with distinct indices inside the framebuffer: the framebuffers agree as soon as, for
every pixel, the samples drawn in the two passes add up to those of the single pass. -/
theorem render_twice_eq_double {σ : Type} (powf : ℚ → ℚ → ℚ)
    (sample : σ → Nat → Nat → TerraFloat3 × σ) (opts : TerraSceneOptions)
    (fb : TerraFramebuffer) (rng : σ) (L : List (Nat × Nat)) (n : Nat)
    (hlenp : fb.pixels.length = n) (hlenr : fb.results.length = n)
    (hnd : (L.map (pixel_index fb)).Nodup) (hlt : ∀ p ∈ L, pixel_index fb p < n)
    (hkey : ∀ l1 p l2, L = l1 ++ p :: l2 →
      terra_addf3
        (sample_loop sample p.1 p.2 opts.samples_per_pixel.toNat terra_f3_zero
          (render_pixels powf sample opts l1 (render_pixels powf sample opts L (fb, rng))).2).1
        (sample_loop sample p.1 p.2 opts.samples_per_pixel.toNat terra_f3_zero
          (render_pixels powf sample opts l1 (fb, rng)).2).1 =
      (sample_loop sample p.1 p.2 (2 * opts.samples_per_pixel).toNat terra_f3_zero
        (render_pixels powf sample
          { opts with samples_per_pixel := 2 * opts.samples_per_pixel } l1 (fb, rng)).2).1) :
    (render_pixels powf sample opts L (render_pixels powf sample opts L (fb, rng))).1 =
      (render_pixels powf sample
        { opts with samples_per_pixel := 2 * opts.samples_per_pixel } L (fb, rng)).1 := by
  obtain ⟨w1, h1, lp1, lr1, fr1⟩ := render_pixels_frame powf sample opts L (fb, rng)
  obtain ⟨w2, h2, lp2, lr2, fr2⟩ := render_pixels_frame powf sample opts L
    (render_pixels powf sample opts L (fb, rng))
  obtain ⟨wg, hg, lpg, lrg, frg⟩ := render_pixels_frame powf sample
    { opts with samples_per_pixel := 2 * opts.samples_per_pixel } L (fb, rng)
  have hidx : ∀ q, pixel_index (render_pixels powf sample opts L (fb, rng)).1 q =
      pixel_index fb q := fun q => by unfold pixel_index; rw [w1]
  have hpoint : ∀ k : Nat,
      (render_pixels powf sample opts L
          (render_pixels powf sample opts L (fb, rng))).1.results[k]? =
        (render_pixels powf sample
          { opts with samples_per_pixel := 2 * opts.samples_per_pixel } L
            (fb, rng)).1.results[k]? ∧
      (render_pixels powf sample opts L
          (render_pixels powf sample opts L (fb, rng))).1.pixels[k]? =
        (render_pixels powf sample
          { opts with samples_per_pixel := 2 * opts.samples_per_pixel } L
            (fb, rng)).1.pixels[k]? := by
    intro k
    by_cases hk : ∃ p ∈ L, pixel_index fb p = k
    · obtain ⟨p, hp, rfl⟩ := hk
      obtain ⟨l1, l2, hsplit⟩ := List.append_of_mem hp
      have hpl := hlt p hp
      obtain ⟨old, hsome⟩ : ∃ old, fb.results[pixel_index fb p]? = some old :=
        ⟨_, List.getElem?_eq_getElem (by omega)⟩
      have hkey1 := hkey l1 p l2 hsplit
      have hnd1 := hnd
      rw [hsplit] at hnd1
      obtain ⟨n1, n2⟩ := nodup_map_split (pixel_index fb) l1 l2 p hnd1
      have at1 := render_pixels_at powf sample opts l1 l2 p (fb, rng) old n1 n2 hsome
        (by simp only []; omega)
      rw [← hsplit] at at1
      have at2 := render_pixels_at powf sample opts l1 l2 p
        (render_pixels powf sample opts L (fb, rng)) _
        (fun q hq => by rw [hidx q, hidx p]; exact n1 q hq)
        (fun q hq => by rw [hidx q, hidx p]; exact n2 q hq)
        (by rw [hidx p]; exact at1.1) (by rw [hidx p, lp1]; simp only []; omega)
      rw [← hsplit, hidx p] at at2
      have atg := render_pixels_at powf sample
        { opts with samples_per_pixel := 2 * opts.samples_per_pixel } l1 l2 p (fb, rng) old
        n1 n2 hsome (by simp only []; omega)
      rw [← hsplit] at atg
      simp only [] at at2 atg
      rw [at2.1, at2.2, atg.1, atg.2, ← hkey1, terra_addf3_assoc]
      have hs : old.samples + opts.samples_per_pixel + opts.samples_per_pixel =
          old.samples + 2 * opts.samples_per_pixel := by ring
      rw [hs]
      exact ⟨rfl, rfl⟩
    · have hk2 : ∀ p ∈ L, pixel_index fb p ≠ k := fun p hp heq => hk ⟨p, hp, heq⟩
      obtain ⟨a1, a2⟩ := fr1 k hk2
      obtain ⟨b1, b2⟩ := fr2 k (fun p hp => by rw [hidx p]; exact hk2 p hp)
      obtain ⟨c1, c2⟩ := frg k hk2
      exact ⟨b1.trans (a1.trans c1.symm), b2.trans (a2.trans c2.symm)⟩
  apply framebuffer_eq
  · exact List.ext_getElem? (fun (k : Nat) => (hpoint k).2)
  · exact List.ext_getElem? (fun (k : Nat) => (hpoint k).1)
  · rw [w2, w1, wg]
  · rw [h2, h1, hg]

/-- C15 (amended): for a tile inside the framebuffer that is a single pixel, or for a
radiance that does not depend on the position in the random stream, calling
`terra_render` twice with `samples_per_pixel = S` leaves the same framebuffer
(accumulators, sample counts, output pixels) as calling it once with `2 S` from the same
starting state. -/
theorem render_twice_eq_render_double {σ : Type} (powf : ℚ → ℚ → ℚ)
    (sample : σ → Nat → Nat → TerraFloat3 × σ) (opts : TerraSceneOptions)
    (fb : TerraFramebuffer) (rng : σ) (W H x y w h : Nat)
    (hW : fb.width = W) (hlenp : fb.pixels.length = W * H)
    (hlenr : fb.results.length = W * H) (hx : x + w ≤ W) (hy : y + h ≤ H)
    (hcase : (w = 1 ∧ h = 1) ∨ ∀ rng rng2 j i, (sample rng j i).1 = (sample rng2 j i).1) :
    (terra_render powf sample opts (terra_render powf sample opts fb rng x y w h).1
        (terra_render powf sample opts fb rng x y w h).2 x y w h).1 =
      (terra_render powf sample { opts with samples_per_pixel := 2 * opts.samples_per_pixel }
        fb rng x y w h).1 := by
  obtain ⟨hnd, hlt⟩ := tile_indices fb W H x y w h hW hx hy
  unfold terra_render
  apply render_twice_eq_double powf sample opts fb rng (tile_pixels x y w h) (W * H) hlenp
    hlenr hnd hlt
  intro l1 p l2 hsplit
  rcases hcase with ⟨hw1, hh1⟩ | hdet
  · subst hw1 hh1
    have ht : tile_pixels x y 1 1 = [(x, y)] := by
      simp [tile_pixels]
    rw [ht] at hsplit ⊢
    cases l1 with
    | nil =>
      rw [sample_loop_double]
      simp only [List.nil_append, List.cons.injEq] at hsplit
      obtain ⟨hp, _⟩ := hsplit
      subst hp
      rfl
    | cons a t =>
      simp only [List.cons_append, List.cons.injEq] at hsplit
      exact absurd hsplit.2 (by simp)
  · rw [sample_loop_double]
    exact congrArg₂ terra_addf3 (sample_loop_det sample hdet _ _ _ _ _ _)
      (sample_loop_det sample hdet _ _ _ _ _ _)

/-- C15 (counterexample): with a radiance that depends on the position in the random
stream, two passes of one sample over a two-pixel tile give the pixels the samples
`0, 2` and `1, 3`, a single pass of two samples gives them `0, 1` and `2, 3`. -/
theorem render_twice_differs_from_double :
    (terra_render (fun a _ => a) counter_sample (options_with .kTerraTonemappingOperatorNone 1)
        (terra_render (fun a _ => a) counter_sample
          (options_with .kTerraTonemappingOperatorNone 1) (fresh_framebuffer 2 1) 0 0 0 2 1).1
        (terra_render (fun a _ => a) counter_sample
          (options_with .kTerraTonemappingOperatorNone 1) (fresh_framebuffer 2 1) 0 0 0 2 1).2
        0 0 2 1).1.results = [⟨⟨2, 0, 0⟩, 2⟩, ⟨⟨4, 0, 0⟩, 2⟩] ∧
    (terra_render (fun a _ => a) counter_sample
        { options_with .kTerraTonemappingOperatorNone 1 with samples_per_pixel := 2 * 1 }
        (fresh_framebuffer 2 1) 0 0 0 2 1).1.results = [⟨⟨1, 0, 0⟩, 2⟩, ⟨⟨5, 0, 0⟩, 2⟩] := by
  constructor <;>
  · norm_num [terra_render, tile_pixels, render_pixels, render_pixel, sample_loop,
      counter_sample, accumulate_pixel, pixel_index, fresh_framebuffer,
      terra_framebuffer_create, options_with, terra_addf3, terra_f3_set, terra_f3_zero,
      terra_f3_set1, List.range', Int.toNat]
    rfl

/-- A single pixel of a fresh 2×2 framebuffer, stream-dependent radiance. -/
theorem render_twice_eq_render_double_witness :
    (terra_render (fun a _ => a) counter_sample (options_with .kTerraTonemappingOperatorNone 1)
        (terra_render (fun a _ => a) counter_sample
          (options_with .kTerraTonemappingOperatorNone 1) (fresh_framebuffer 2 2) 0 1 1 1 1).1
        (terra_render (fun a _ => a) counter_sample
          (options_with .kTerraTonemappingOperatorNone 1) (fresh_framebuffer 2 2) 0 1 1 1 1).2
        1 1 1 1).1 =
      (terra_render (fun a _ => a) counter_sample
        { options_with .kTerraTonemappingOperatorNone 1 with
          samples_per_pixel :=
            2 * (options_with .kTerraTonemappingOperatorNone 1).samples_per_pixel }
        (fresh_framebuffer 2 2) 0 1 1 1 1).1 :=
  render_twice_eq_render_double (fun a _ => a) counter_sample
    (options_with .kTerraTonemappingOperatorNone 1) (fresh_framebuffer 2 2) 0 2 2 1 1 1 1
    rfl rfl rfl (by decide) (by decide) (Or.inl ⟨rfl, rfl⟩)

/-- Rendering tile after tile is rendering the concatenation of their pixel lists. -/
theorem render_tiles_eq {σ : Type} (powf : ℚ → ℚ → ℚ)
    (sample : σ → Nat → Nat → TerraFloat3 × σ) (opts : TerraSceneOptions)
    (tiles : List (Nat × Nat × Nat × Nat)) (st : TerraFramebuffer × σ) :
    render_tiles powf sample opts tiles st =
      render_pixels powf sample opts
        (tiles.flatMap (fun t => tile_pixels t.1 t.2.1 t.2.2.1 t.2.2.2)) st := by
  induction tiles generalizing st with
  | nil => rfl
  | cons t ts ih =>
    rw [List.flatMap_cons, render_pixels_append, ← ih]
    rfl

/-- With a radiance that does not depend on the stream state, rendering two lists of
pixels that are permutations of each other, with distinct indices inside the
framebuffer, gives the same framebuffer. -/
theorem render_pixels_perm_det {σ : Type} (powf : ℚ → ℚ → ℚ)
    (sample : σ → Nat → Nat → TerraFloat3 × σ) (opts : TerraSceneOptions)
    (hdet : ∀ rng rng2 j i, (sample rng j i).1 = (sample rng2 j i).1)
    (fb : TerraFramebuffer) (r1 r2 : σ) (L1 L2 : List (Nat × Nat)) (n : Nat)
    (hlenp : fb.pixels.length = n) (hlenr : fb.results.length = n)
    (hperm : L1.Perm L2)
    (hnd : (L2.map (pixel_index fb)).Nodup) (hlt : ∀ p ∈ L2, pixel_index fb p < n) :
    (render_pixels powf sample opts L1 (fb, r1)).1 =
      (render_pixels powf sample opts L2 (fb, r2)).1 := by
  obtain ⟨w1, h1, lp1, lr1, fr1⟩ := render_pixels_frame powf sample opts L1 (fb, r1)
  obtain ⟨w2, h2, lp2, lr2, fr2⟩ := render_pixels_frame powf sample opts L2 (fb, r2)
  have hnd1 : (L1.map (pixel_index fb)).Nodup := (hperm.map _).nodup_iff.mpr hnd
  have hpoint : ∀ k : Nat,
      (render_pixels powf sample opts L1 (fb, r1)).1.results[k]? =
        (render_pixels powf sample opts L2 (fb, r2)).1.results[k]? ∧
      (render_pixels powf sample opts L1 (fb, r1)).1.pixels[k]? =
        (render_pixels powf sample opts L2 (fb, r2)).1.pixels[k]? := by
    intro k
    by_cases hk : ∃ p ∈ L2, pixel_index fb p = k
    · obtain ⟨p, hp, rfl⟩ := hk
      have hpl := hlt p hp
      obtain ⟨old, hsome⟩ : ∃ old, fb.results[pixel_index fb p]? = some old :=
        ⟨_, List.getElem?_eq_getElem (by omega)⟩
      obtain ⟨a1, a2, hs1⟩ := List.append_of_mem (hperm.mem_iff.mpr hp)
      obtain ⟨b1, b2, hs2⟩ := List.append_of_mem hp
      rw [hs1] at hnd1
      rw [hs2] at hnd
      obtain ⟨m1, m2⟩ := nodup_map_split (pixel_index fb) a1 a2 p hnd1
      obtain ⟨n1, n2⟩ := nodup_map_split (pixel_index fb) b1 b2 p hnd
      have at1 := render_pixels_at powf sample opts a1 a2 p (fb, r1) old m1 m2 hsome
        (by simp only []; omega)
      have at2 := render_pixels_at powf sample opts b1 b2 p (fb, r2) old n1 n2 hsome
        (by simp only []; omega)
      rw [← hs1] at at1
      rw [← hs2] at at2
      simp only [] at at1 at2
      rw [at1.1, at1.2, at2.1, at2.2,
        sample_loop_det sample hdet p.1 p.2 _ _ (render_pixels powf sample opts a1 (fb, r1)).2
          (render_pixels powf sample opts b1 (fb, r2)).2]
      exact ⟨rfl, rfl⟩
    · have hk2 : ∀ p ∈ L2, pixel_index fb p ≠ k := fun p hp heq => hk ⟨p, hp, heq⟩
      obtain ⟨c1, c2⟩ := fr1 k (fun p hp => hk2 p (hperm.mem_iff.mp hp))
      obtain ⟨d1, d2⟩ := fr2 k hk2
      exact ⟨c1.trans d1.symm, c2.trans d2.symm⟩
  apply framebuffer_eq
  · exact List.ext_getElem? (fun (k : Nat) => (hpoint k).2)
  · exact List.ext_getElem? (fun (k : Nat) => (hpoint k).1)
  · rw [w1, w2]
  · rw [h1, h2]

/-- C16 (amended): for a framebuffer whose whole frame is partitioned into disjoint tiles
(four, or any other number) and a radiance that does not depend on the position in the
random stream, calling `terra_render` once per tile, in any order of the tiles, yields
the same framebuffer (accumulators, sample counts, output pixels) as one `terra_render`
call over the whole frame. -/
theorem render_tiles_any_order {σ : Type} (powf : ℚ → ℚ → ℚ)
    (sample : σ → Nat → Nat → TerraFloat3 × σ) (opts : TerraSceneOptions)
    (fb : TerraFramebuffer) (rng : σ) (W H : Nat)
    (tiles order : List (Nat × Nat × Nat × Nat))
    (hW : fb.width = W) (hlenp : fb.pixels.length = W * H)
    (hlenr : fb.results.length = W * H)
    (hpart : (tiles.flatMap (fun t => tile_pixels t.1 t.2.1 t.2.2.1 t.2.2.2)).Perm
      (tile_pixels 0 0 W H))
    (hord : order.Perm tiles)
    (hdet : ∀ rng rng2 j i, (sample rng j i).1 = (sample rng2 j i).1) :
    (render_tiles powf sample opts order (fb, rng)).1 =
      (terra_render powf sample opts fb rng 0 0 W H).1 := by
  obtain ⟨hnd, hlt⟩ := tile_indices fb W H 0 0 W H hW (by omega) (by omega)
  rw [render_tiles_eq]
  unfold terra_render
  exact render_pixels_perm_det powf sample opts hdet fb rng rng _ _ (W * H) hlenp hlenr
    ((hord.flatMap_right _).trans hpart) hnd hlt

/-- C16 (counterexample): a 2×2 frame split into its four pixels, radiance equal to the
position in the random stream; rendered tile by tile from the last pixel to the first
the pixels receive the draws `3, 2, 1, 0`, rendered in one call they receive
`0, 1, 2, 3`. -/
theorem render_tiles_order_matters :
    (render_tiles (fun a _ => a) counter_sample (options_with .kTerraTonemappingOperatorNone 1)
        [(1, 1, 1, 1), (0, 1, 1, 1), (1, 0, 1, 1), (0, 0, 1, 1)]
        (fresh_framebuffer 2 2, 0)).1.results =
      [⟨⟨3, 0, 0⟩, 1⟩, ⟨⟨2, 0, 0⟩, 1⟩, ⟨⟨1, 0, 0⟩, 1⟩, ⟨⟨0, 0, 0⟩, 1⟩] ∧
    (terra_render (fun a _ => a) counter_sample (options_with .kTerraTonemappingOperatorNone 1)
        (fresh_framebuffer 2 2) 0 0 0 2 2).1.results =
      [⟨⟨0, 0, 0⟩, 1⟩, ⟨⟨1, 0, 0⟩, 1⟩, ⟨⟨2, 0, 0⟩, 1⟩, ⟨⟨3, 0, 0⟩, 1⟩] := by
  constructor <;>
  · norm_num [render_tiles, terra_render, tile_pixels, render_pixels, render_pixel, sample_loop,
      counter_sample, accumulate_pixel, pixel_index, fresh_framebuffer,
      terra_framebuffer_create, options_with, terra_addf3, terra_f3_set, terra_f3_zero,
      terra_f3_set1, List.range', Int.toNat]
    rfl

/-- A 2×2 frame split into its four pixels, rendered from the last pixel to the first,
with a radiance that ignores the random stream. -/
theorem render_tiles_any_order_witness :
    (render_tiles (fun a _ => a) fixed_sample (options_with .kTerraTonemappingOperatorNone 1)
        [(1, 1, 1, 1), (0, 1, 1, 1), (1, 0, 1, 1), (0, 0, 1, 1)]
        (fresh_framebuffer 2 2, 0)).1 =
      (terra_render (fun a _ => a) fixed_sample (options_with .kTerraTonemappingOperatorNone 1)
        (fresh_framebuffer 2 2) 0 0 0 2 2).1 :=
  render_tiles_any_order (fun a _ => a) fixed_sample
    (options_with .kTerraTonemappingOperatorNone 1) (fresh_framebuffer 2 2) 0 2 2
    [(0, 0, 1, 1), (1, 0, 1, 1), (0, 1, 1, 1), (1, 1, 1, 1)]
    [(1, 1, 1, 1), (0, 1, 1, 1), (1, 0, 1, 1), (0, 0, 1, 1)]
    rfl rfl rfl (by decide) (by decide) (fun _ _ _ _ => rfl)

/-- C20 (amended): when the primary ray hits a diffuse material with constant albedo and
no emission, with direct light sampling disabled and `bounces = 1`, `terra_trace`
returns `(0, 0, 0)`: the environment map is sampled only by a ray that misses, and the
ray leaving the surface is never traced. -/
theorem trace_one_bounce_hit_is_black {σ : Type} (sqrtf cosf sinf : ℚ → ℚ)
    (rand : σ → Nat × σ) (RAND_MAX : Nat)
    (find_closest : TerraRay → Option (TerraMaterial × TerraShadingContext × TerraFloat3))
    (env : TerraFloat3 → TerraFloat3) (lights : List TerraLight) (opts : TerraSceneOptions)
    (primary_ray : TerraRay) (rng : σ) (material : TerraMaterial) (ctx : TerraShadingContext)
    (point : TerraFloat3)
    (hb : opts.bounces = 1) (hd : opts.enable_direct_light_sampling = false)
    (hhit : find_closest primary_ray = some (material, ctx, point))
    (hbsdf : material.bsdf = terra_bsdf_init_diffuse sqrtf cosf sinf material.bsdf)
    (halb : material.attributes.albedo.map.pixels = none)
    (hem : material.attributes.emissive.map.pixels = none)
    (hem0 : material.attributes.emissive.value = ⟨0, 0, 0⟩) :
    ∃ rng2, terra_trace sqrtf cosf sinf rand RAND_MAX find_closest env lights opts
      primary_ray rng = some (⟨0, 0, 0⟩, rng2) := by
  have h1 : material.bsdf.sample = terra_bsdf_diffuse_sample sqrtf cosf sinf := by
    rw [hbsdf]; rfl
  have h2 : material.bsdf.weight = terra_bsdf_diffuse_weight := by rw [hbsdf]; rfl
  have h3 : material.bsdf.shade = terra_bsdf_diffuse_shade := by rw [hbsdf]; rfl
  refine ⟨(rand (rand (rand rng).2).2).2, ?_⟩
  simp [terra_trace, hb, trace_loop, trace_bounce, hhit, terra_eval_attribute, hem, halb, hem0,
    hd, h1, h2, h3, terra_bsdf_diffuse_sample, terra_bsdf_diffuse_weight,
    terra_bsdf_diffuse_shade, terra_build_rotation_around_normal, terra_addf3, terra_mulf3,
    terra_pointf3, terra_f3_set, terra_f3_zero, terra_f3_one, terra_f3_set1]

/-- The ray from `(1/4, 1/4, 1)` straight down hits the triangle `(0,0,0), (1,0,0),
(0,1,0)` at `(1/4, 1/4, 0)`. -/
theorem down_ray_hits_unit_triangle :
    terra_ray_triangle_intersection ⟨⟨1 / 4, 1 / 4, 1⟩, ⟨0, 0, -1⟩, ⟨0, 0, -1⟩⟩
      ⟨⟨0, 0, 0⟩, ⟨1, 0, 0⟩, ⟨0, 1, 0⟩⟩ = some (⟨1 / 4, 1 / 4, 0⟩, 1) := by
  norm_num [terra_ray_triangle_intersection, rti_a, rti_u, rti_v, rti_t, terra_subf3,
    terra_crossf3, terra_dotf3, terra_f3_set, terra_Epsilon, terra_addf3, terra_mulf3]

theorem example_closest_hit :
    single_triangle_closest (fun x => x) ⟨⟨0, 0, 0⟩, ⟨1, 0, 0⟩, ⟨0, 1, 0⟩⟩
        ⟨⟨0, 0, 1⟩, ⟨0, 0, 1⟩, ⟨0, 0, 1⟩, ⟨0, 0⟩, ⟨0, 0⟩, ⟨0, 0⟩⟩
        (diffuse_material (fun x => x) (fun _ => 1) (fun _ => 0) ⟨1, 0, 0⟩ ⟨0, 0, 0⟩)
        ⟨⟨1 / 4, 1 / 4, 1⟩, ⟨0, 0, -1⟩, ⟨0, 0, -1⟩⟩ =
      some (diffuse_material (fun x => x) (fun _ => 1) (fun _ => 0) ⟨1, 0, 0⟩ ⟨0, 0, 0⟩,
        { texcoord := ⟨0, 0⟩, normal := ⟨0, 0, 1⟩ }, ⟨1 / 4, 1 / 4, 0⟩) := by
  simp only [single_triangle_closest, down_ray_hits_unit_triangle]
  norm_num [terra_triangle_init_shading, terra_subf3, terra_dotf3, terra_mulf3, terra_addf3,
    terra_normf3, terra_lenf3, terra_f3_set, terra_mulf2, terra_addf2, terra_f2_set]

theorem example_closest_miss :
    single_triangle_closest (fun x => x) ⟨⟨0, 0, 0⟩, ⟨1, 0, 0⟩, ⟨0, 1, 0⟩⟩
        ⟨⟨0, 0, 1⟩, ⟨0, 0, 1⟩, ⟨0, 0, 1⟩, ⟨0, 0⟩, ⟨0, 0⟩, ⟨0, 0⟩⟩
        (diffuse_material (fun x => x) (fun _ => 1) (fun _ => 0) ⟨1, 0, 0⟩ ⟨0, 0, 0⟩)
        (terra_ray_create ⟨1 / 4, 1 / 4, 0⟩ ⟨0, 0, 1⟩ ⟨0, 0, 1⟩ 1) = none := by
  norm_num [single_triangle_closest, terra_ray_create, terra_ray_triangle_intersection, rti_a,
    rti_u, rti_v, rti_t, terra_subf3, terra_crossf3, terra_dotf3, terra_f3_set, terra_Epsilon,
    terra_addf3, terra_mulf3]

/-- The first bounce of the example: the hit adds no radiance, the throughput becomes the
albedo, and the next ray leaves the surface along the normal. -/
theorem example_first_bounce (opts : TerraSceneOptions)
    (hd : opts.enable_direct_light_sampling = false) :
    trace_bounce (fun x => x) (fun _ => 1) (fun _ => 0) (fun (k : Nat) => (0, k + 1)) 32767
      (single_triangle_closest (fun x => x) ⟨⟨0, 0, 0⟩, ⟨1, 0, 0⟩, ⟨0, 1, 0⟩⟩
        ⟨⟨0, 0, 1⟩, ⟨0, 0, 1⟩, ⟨0, 0, 1⟩, ⟨0, 0⟩, ⟨0, 0⟩, ⟨0, 0⟩⟩
        (diffuse_material (fun x => x) (fun _ => 1) (fun _ => 0) ⟨1, 0, 0⟩ ⟨0, 0, 0⟩))
      (fun _ => ⟨1 / 2, 1 / 2, 1 / 2⟩) [] opts
      { Lo := terra_f3_zero, throughput := terra_f3_one,
        ray := ⟨⟨1 / 4, 1 / 4, 1⟩, ⟨0, 0, -1⟩, ⟨0, 0, -1⟩⟩, rng := 0 } =
    some (false,
      { Lo := ⟨0, 0, 0⟩, throughput := ⟨1, 0, 0⟩,
        ray := terra_ray_create ⟨1 / 4, 1 / 4, 0⟩ ⟨0, 0, 1⟩ ⟨0, 0, 1⟩ 1, rng := 3 }) := by
  simp only [trace_bounce]
  rw [example_closest_hit]
  norm_num [hd, diffuse_material, terra_bsdf_init_diffuse, terra_eval_attribute, no_texture,
    terra_bsdf_diffuse_sample, terra_bsdf_diffuse_weight, terra_bsdf_diffuse_shade,
    terra_build_rotation_around_normal, terra_addf3, terra_mulf3, terra_pointf3, terra_f3_set,
    terra_f3_zero, terra_f3_one, terra_f3_set1, terra_transformf3, terra_crossf3, terra_dotf3,
    terra_f4, terra_maxf, terra_PI, terra_Epsilon, terra_ray_create, terra_negf3]

/-- The second bounce of the example: the ray leaving the surface misses, and the
environment colour is added with the throughput. -/
theorem example_second_bounce (opts : TerraSceneOptions) :
    trace_bounce (fun x => x) (fun _ => 1) (fun _ => 0) (fun (k : Nat) => (0, k + 1)) 32767
      (single_triangle_closest (fun x => x) ⟨⟨0, 0, 0⟩, ⟨1, 0, 0⟩, ⟨0, 1, 0⟩⟩
        ⟨⟨0, 0, 1⟩, ⟨0, 0, 1⟩, ⟨0, 0, 1⟩, ⟨0, 0⟩, ⟨0, 0⟩, ⟨0, 0⟩⟩
        (diffuse_material (fun x => x) (fun _ => 1) (fun _ => 0) ⟨1, 0, 0⟩ ⟨0, 0, 0⟩))
      (fun _ => ⟨1 / 2, 1 / 2, 1 / 2⟩) [] opts
      { Lo := ⟨0, 0, 0⟩, throughput := ⟨1, 0, 0⟩,
        ray := terra_ray_create ⟨1 / 4, 1 / 4, 0⟩ ⟨0, 0, 1⟩ ⟨0, 0, 1⟩ 1, rng := 3 } =
    some (true,
      { Lo := ⟨1 / 2, 0, 0⟩, throughput := ⟨1 / 2, 0, 0⟩,
        ray := terra_ray_create ⟨1 / 4, 1 / 4, 0⟩ ⟨0, 0, 1⟩ ⟨0, 0, 1⟩ 1, rng := 3 }) := by
  simp only [trace_bounce]
  rw [example_closest_miss]
  norm_num [terra_addf3, terra_pointf3, terra_f3_set]

/-- C20 (counterexample): one diffuse triangle with albedo `(1, 0, 0)` and no emission
under a constant environment of `(1/2, 1/2, 1/2)`, seen along its normal with direct
light sampling disabled: with `bounces = 1` the routine returns `(0, 0, 0)`, not
`(0.5 · 1/π, 0, 0)`; with `bounces = 2` (the sampled direction is the normal) it returns
`(1/2, 0, 0)`.  The stand-ins for `sqrtf`, `cosf`, `sinf` are exact at the arguments
`0` and `1` that occur. -/
theorem trace_single_red_triangle_is_black :
    terra_trace (fun x => x) (fun _ => 1) (fun _ => 0) (fun (k : Nat) => (0, k + 1)) 32767
      (single_triangle_closest (fun x => x) ⟨⟨0, 0, 0⟩, ⟨1, 0, 0⟩, ⟨0, 1, 0⟩⟩
        ⟨⟨0, 0, 1⟩, ⟨0, 0, 1⟩, ⟨0, 0, 1⟩, ⟨0, 0⟩, ⟨0, 0⟩, ⟨0, 0⟩⟩
        (diffuse_material (fun x => x) (fun _ => 1) (fun _ => 0) ⟨1, 0, 0⟩ ⟨0, 0, 0⟩))
      (fun _ => ⟨1 / 2, 1 / 2, 1 / 2⟩) [] (options_with .kTerraTonemappingOperatorNone 1)
      ⟨⟨1 / 4, 1 / 4, 1⟩, ⟨0, 0, -1⟩, ⟨0, 0, -1⟩⟩ 0 = some (⟨0, 0, 0⟩, 3) ∧
    (1 / 2 * (1 / terra_PI) : ℚ) ≠ 0 ∧
    terra_trace (fun x => x) (fun _ => 1) (fun _ => 0) (fun (k : Nat) => (0, k + 1)) 32767
      (single_triangle_closest (fun x => x) ⟨⟨0, 0, 0⟩, ⟨1, 0, 0⟩, ⟨0, 1, 0⟩⟩
        ⟨⟨0, 0, 1⟩, ⟨0, 0, 1⟩, ⟨0, 0, 1⟩, ⟨0, 0⟩, ⟨0, 0⟩, ⟨0, 0⟩⟩
        (diffuse_material (fun x => x) (fun _ => 1) (fun _ => 0) ⟨1, 0, 0⟩ ⟨0, 0, 0⟩))
      (fun _ => ⟨1 / 2, 1 / 2, 1 / 2⟩) []
      { options_with .kTerraTonemappingOperatorNone 1 with bounces := 2 }
      ⟨⟨1 / 4, 1 / 4, 1⟩, ⟨0, 0, -1⟩, ⟨0, 0, -1⟩⟩ 0 = some (⟨1 / 2, 0, 0⟩, 3) := by
  refine ⟨?_, ?_, ?_⟩
  · unfold terra_trace
    rw [show (options_with .kTerraTonemappingOperatorNone 1).bounces.toNat = 1 from rfl,
      trace_loop, example_first_bounce _ rfl]
    rfl
  · norm_num [terra_PI]
  · unfold terra_trace
    rw [show ({ options_with .kTerraTonemappingOperatorNone 1 with
        bounces := 2 } : TerraSceneOptions).bounces.toNat = 2 from rfl,
      trace_loop, example_first_bounce _ rfl]
    simp only []
    rw [trace_loop, example_second_bounce]

/-- The single red triangle of the example, seen along its normal. -/
theorem trace_one_bounce_hit_is_black_witness :
    ∃ rng2, terra_trace (fun x => x) (fun _ => 1) (fun _ => 0)
      (fun (k : Nat) => (0, k + 1)) 32767
      (single_triangle_closest (fun x => x) ⟨⟨0, 0, 0⟩, ⟨1, 0, 0⟩, ⟨0, 1, 0⟩⟩
        ⟨⟨0, 0, 1⟩, ⟨0, 0, 1⟩, ⟨0, 0, 1⟩, ⟨0, 0⟩, ⟨0, 0⟩, ⟨0, 0⟩⟩
        (diffuse_material (fun x => x) (fun _ => 1) (fun _ => 0) ⟨1, 0, 0⟩ ⟨0, 0, 0⟩))
      (fun _ => ⟨1 / 2, 1 / 2, 1 / 2⟩) [] (options_with .kTerraTonemappingOperatorNone 1)
      ⟨⟨1 / 4, 1 / 4, 1⟩, ⟨0, 0, -1⟩, ⟨0, 0, -1⟩⟩ 0 = some (⟨0, 0, 0⟩, rng2) :=
  trace_one_bounce_hit_is_black (fun x => x) (fun _ => 1) (fun _ => 0)
    (fun (k : Nat) => (0, k + 1)) 32767 _ (fun _ => ⟨1 / 2, 1 / 2, 1 / 2⟩) []
    (options_with .kTerraTonemappingOperatorNone 1) ⟨⟨1 / 4, 1 / 4, 1⟩, ⟨0, 0, -1⟩, ⟨0, 0, -1⟩⟩ 0
    _ _ _ rfl rfl example_closest_hit rfl rfl rfl rfl

/-- A convex combination of three numbers lies between any lower and upper bound of
them. -/
theorem convex3_bounds (a b c u v lo hi : ℚ) (hu : 0 ≤ u) (hv : 0 ≤ v) (huv : u + v ≤ 1)
    (la : lo ≤ a) (lb : lo ≤ b) (lc : lo ≤ c) (ha : a ≤ hi) (hb : b ≤ hi) (hc : c ≤ hi) :
    lo ≤ a + (b - a) * u + (c - a) * v ∧ a + (b - a) * u + (c - a) * v ≤ hi := by
  have h1 : 0 ≤ 1 - u - v := by linarith
  constructor
  · nlinarith [mul_nonneg hu (sub_nonneg.mpr lb), mul_nonneg hv (sub_nonneg.mpr lc),
      mul_nonneg h1 (sub_nonneg.mpr la)]
  · nlinarith [mul_nonneg hu (sub_nonneg.mpr hb), mul_nonneg hv (sub_nonneg.mpr hc),
      mul_nonneg h1 (sub_nonneg.mpr ha)]

/-- A reported hit point lies strictly inside the box fitted around the triangle. -/
theorem hit_point_in_fit_box (ray : TerraRay) (tri : TerraTriangle) (b : TerraAABB)
    (p : TerraFloat3) (t : ℚ) (h : terra_ray_triangle_intersection ray tri = some (p, t)) :
    strictly_inside p (terra_aabb_fit_triangle b tri) := by
  obtain ⟨h1, h2, _, h4, h5, _, _, h8⟩ := (rti_some_iff ray tri p t).mp h
  have ha := rti_a_ne_zero_of_guard _ h1
  rw [rti_point_identity ray tri ha] at h8
  have he : (0 : ℚ) < terra_Epsilon := by norm_num [terra_Epsilon]
  obtain ⟨x1, x2, x3⟩ := min3_le b.min.x tri.a.x tri.b.x tri.c.x
  obtain ⟨y1, y2, y3⟩ := min3_le b.min.y tri.a.y tri.b.y tri.c.y
  obtain ⟨z1, z2, z3⟩ := min3_le b.min.z tri.a.z tri.b.z tri.c.z
  obtain ⟨X1, X2, X3⟩ := le_max3 b.max.x tri.a.x tri.b.x tri.c.x
  obtain ⟨Y1, Y2, Y3⟩ := le_max3 b.max.y tri.a.y tri.b.y tri.c.y
  obtain ⟨Z1, Z2, Z3⟩ := le_max3 b.max.z tri.a.z tri.b.z tri.c.z
  obtain ⟨cx1, cx2⟩ := convex3_bounds tri.a.x tri.b.x tri.c.x _ _ _ _ h2 h4 h5 x1 x2 x3 X1 X2 X3
  obtain ⟨cy1, cy2⟩ := convex3_bounds tri.a.y tri.b.y tri.c.y _ _ _ _ h2 h4 h5 y1 y2 y3 Y1 Y2 Y3
  obtain ⟨cz1, cz2⟩ := convex3_bounds tri.a.z tri.b.z tri.c.z _ _ _ _ h2 h4 h5 z1 z2 z3 Z1 Z2 Z3
  subst h8
  simp only [strictly_inside, terra_aabb_fit_triangle, terra_minf_eq, terra_maxf_eq,
    terra_addf3, terra_mulf3, terra_subf3, terra_f3_set]
  refine ⟨?_, ?_, ?_, ?_, ?_, ?_⟩ <;> linarith

/-- One slab: a ray parameter `t` whose point lies strictly between the two planes lies
strictly between the two plane parameters. -/
theorem slab_contains (lo hi o d t : ℚ) (hd : d ≠ 0) (h1 : lo < d * t + o) (h2 : d * t + o < hi) :
    min ((lo - o) * (1 / d)) ((hi - o) * (1 / d)) < t ∧
      t < max ((lo - o) * (1 / d)) ((hi - o) * (1 / d)) := by
  rcases lt_or_gt_of_ne hd with hneg | hpos
  · have e1 : t < (lo - o) * (1 / d) := by
      rw [mul_one_div, lt_div_iff_of_neg hneg]; linarith
    have e2 : (hi - o) * (1 / d) < t := by
      rw [mul_one_div, div_lt_iff_of_neg hneg]; linarith
    exact ⟨min_lt_of_right_lt e2, lt_max_of_lt_left e1⟩
  · have e1 : (lo - o) * (1 / d) < t := by
      rw [mul_one_div, div_lt_iff₀ hpos]; linarith
    have e2 : t < (hi - o) * (1 / d) := by
      rw [mul_one_div, lt_div_iff₀ hpos]; linarith
    exact ⟨min_lt_of_left_lt e1, lt_max_of_lt_right e2⟩

/-- The box test succeeds for a ray that reaches, at a positive parameter, a point
strictly inside the box (direction components non-zero, `inv_direction` their
reciprocals). -/
theorem aabb_hit_of_point_inside (ray : TerraRay) (box : TerraAABB) (t : ℚ)
    (hx : ray.direction.x ≠ 0) (hy : ray.direction.y ≠ 0) (hz : ray.direction.z ≠ 0)
    (hinv : ray.inv_direction =
      ⟨1 / ray.direction.x, 1 / ray.direction.y, 1 / ray.direction.z⟩)
    (ht : 0 < t)
    (hp : strictly_inside (terra_addf3 (terra_mulf3 ray.direction t) ray.origin) box) :
    terra_ray_aabb_intersection ray box ≠ none := by
  simp only [strictly_inside, terra_addf3, terra_mulf3, terra_f3_set] at hp
  obtain ⟨p1, p2, p3, p4, p5, p6⟩ := hp
  obtain ⟨a1, a2⟩ := slab_contains _ _ _ _ t hx p1 p2
  obtain ⟨b1, b2⟩ := slab_contains _ _ _ _ t hy p3 p4
  obtain ⟨c1, c2⟩ := slab_contains _ _ _ _ t hz p5 p6
  simp only [terra_ray_aabb_intersection, terra_minf_eq, terra_maxf_eq, hinv]
  rw [if_pos]
  · simp
  · have hmin : max (max (max (min ((box.min.x - ray.origin.x) * (1 / ray.direction.x))
        ((box.max.x - ray.origin.x) * (1 / ray.direction.x)))
        (min ((box.min.y - ray.origin.y) * (1 / ray.direction.y))
          ((box.max.y - ray.origin.y) * (1 / ray.direction.y))))
        (min ((box.min.z - ray.origin.z) * (1 / ray.direction.z))
          ((box.max.z - ray.origin.z) * (1 / ray.direction.z)))) 0 < t :=
      max_lt (max_lt (max_lt a1 b1) c1) ht
    exact lt_of_lt_of_le hmin (le_min (le_min a2.le b2.le) c2.le)

theorem closest_inv_congr (sqrtf : ℚ → ℚ) (scene : TerraScene) (ray : TerraRay)
    (c : BVHClosest) (S S2 : List TerraBVHVolume) (h : closest_inv sqrtf scene ray c S)
    (hmem : ∀ v, v ∈ S2 ↔ v ∈ S) : closest_inv sqrtf scene ray c S2 := by
  obtain ⟨h1, h2, h3, h4⟩ := h
  refine ⟨h1, h2, fun v hv => h3 v ((hmem v).mp hv), fun hf => ?_⟩
  obtain ⟨v, hv, r⟩ := h4 hf
  exact ⟨v, (hmem v).mpr hv, r⟩

theorem closest_inv_skip (sqrtf : ℚ → ℚ) (scene : TerraScene) (ray : TerraRay)
    (c : BVHClosest) (l S : List TerraBVHVolume) (h : closest_inv sqrtf scene ray c S)
    (hl : ∀ v ∈ l, vol_hit scene ray v = none) : closest_inv sqrtf scene ray c (l ++ S) := by
  obtain ⟨h1, h2, h3, h4⟩ := h
  refine ⟨h1, h2, fun v hv p hp => ?_, fun hf => ?_⟩
  · rcases List.mem_append.mp hv with hv | hv
    · rw [hl v hv] at hp; exact absurd hp (by simp)
    · exact h3 v hv p hp
  · obtain ⟨v, hv, r⟩ := h4 hf
    exact ⟨v, List.mem_append_right _ hv, r⟩

/-- A leaf below a box the ray misses is not hit. -/
theorem no_hit_of_box_miss (scene : TerraScene) (ray : TerraRay) (hray : ray_well_formed ray)
    (v : TerraBVHVolume) (bb : TerraAABB) (hg : good_leaf scene v)
    (hb : box_contains bb v.aabb) (hmiss : terra_ray_aabb_intersection ray bb = none) :
    vol_hit scene ray v = none := by
  obtain ⟨o, tri, ho, ht, hbox⟩ := hg
  obtain ⟨dx, dy, dz, hinv⟩ := hray
  simp only [vol_hit, ho, ht]
  cases hi : terra_ray_triangle_intersection ray tri with
  | none => rfl
  | some pt =>
    exfalso
    obtain ⟨p, t⟩ := pt
    have hin := hit_point_in_fit_box ray tri empty_aabb p t hi
    rw [← hbox] at hin
    obtain ⟨_, _, _, _, _, h6, _, h8⟩ := (rti_some_iff ray tri p t).mp hi
    have b0 := hb 0
    have b1 := hb 1
    have b2 := hb 2
    simp only [terra__comp] at b0 b1 b2
    simp only [strictly_inside] at hin
    obtain ⟨i1, i2, i3, i4, i5, i6⟩ := hin
    refine aabb_hit_of_point_inside ray bb (rti_t ray tri) dx dy dz hinv
      (by linarith) ?_ hmiss
    rw [← h8]
    exact ⟨by linarith [b0.1], by linarith [b0.2], by linarith [b1.1], by linarith [b1.2],
      by linarith [b2.1], by linarith [b2.2]⟩

/-- Testing a leaf slot keeps the queue and extends the invariant by the slot. -/
theorem visit_leaf (sqrtf : ℚ → ℚ) (scene : TerraScene) (ray : TerraRay) (v : TerraBVHVolume)
    (hg : good_leaf scene v) (q : List Nat) (c : BVHClosest) (S : List TerraBVHVolume)
    (h : closest_inv sqrtf scene ray c S) :
    ∃ c2, bvh_visit_slot sqrtf scene ray 1 v.index v.aabb (q, c) = some (q, c2) ∧
      closest_inv sqrtf scene ray c2 (v :: S) := by
  obtain ⟨o, tri, ho, ht, _⟩ := hg
  obtain ⟨h1, h2, h3, h4⟩ := h
  have hvh : vol_hit scene ray v = (terra_ray_triangle_intersection ray tri).map Prod.fst := by
    simp only [vol_hit, ho, ht]
  simp only [bvh_visit_slot, ho, ht, show ¬ ((1 : Int) = -1) by decide, if_false, if_true]
  cases hi : terra_ray_triangle_intersection ray tri with
  | none =>
    rw [hi] at hvh
    refine ⟨c, rfl, h1, h2, fun w hw p hp => ?_, fun hf => ?_⟩
    · rcases List.mem_cons.mp hw with rfl | hw
      · rw [hvh] at hp; exact absurd hp (by simp)
      · exact h3 w hw p hp
    · obtain ⟨w, hw, r⟩ := h4 hf
      exact ⟨w, List.mem_cons_of_mem _ hw, r⟩
  | some pt =>
    obtain ⟨p, t⟩ := pt
    rw [hi] at hvh
    simp only [Option.map_some'] at hvh
    simp only []
    by_cases hd : terra_lenf3 sqrtf (terra_subf3 p ray.origin) < c.min_d
    · rw [if_pos hd]
      refine ⟨_, rfl, fun hf => absurd hf (by simp), le_of_lt (lt_of_lt_of_le hd h2),
        fun w hw p2 hp2 => ?_, fun _ => ⟨v, List.mem_cons_self _ _, hvh, rfl,
          lt_of_lt_of_le hd h2, rfl⟩⟩
      rcases List.mem_cons.mp hw with rfl | hw
      · rw [hvh] at hp2
        simp only [Option.some.injEq] at hp2
        rw [hp2]
      · exact le_trans (le_of_lt hd) (h3 w hw p2 hp2)
    · rw [if_neg hd]
      refine ⟨c, rfl, h1, h2, fun w hw p2 hp2 => ?_, fun hf => ?_⟩
      · rcases List.mem_cons.mp hw with rfl | hw
        · rw [hvh] at hp2
          simp only [Option.some.injEq] at hp2
          rw [← hp2]
          exact not_lt.mp hd
        · exact h3 w hw p2 hp2
      · obtain ⟨w, hw, r⟩ := h4 hf
        exact ⟨w, List.mem_cons_of_mem _ hw, r⟩

/-- One iteration of the traversal loop. -/
theorem bvh_traverse_loop_step (sqrtf : ℚ → ℚ) (bvh : TerraBVH) (scene : TerraScene)
    (ray : TerraRay) (fuel node : Nat) (queue : List Nat) (c : BVHClosest) (nd : TerraBVHNode)
    (st0 st1 : List Nat × BVHClosest) (hnd : bvh.nodes[node]? = some nd)
    (h0 : bvh_visit_slot sqrtf scene ray nd.type0 nd.index0 nd.aabb0 (queue, c) = some st0)
    (h1 : bvh_visit_slot sqrtf scene ray nd.type1 nd.index1 nd.aabb1 st0 = some st1) :
    bvh_traverse_loop sqrtf bvh scene ray (fuel + 1) (node :: queue) c =
      bvh_traverse_loop sqrtf bvh scene ray fuel st1.1 st1.2 := by
  simp only [bvh_traverse_loop, hnd, h0, h1]

/-- An internal slot uses at least its own node. -/
theorem SlotTree.us_pos {nodes : List TerraBVHNode} {ty : Int} {ix : Nat} {bb : TerraAABB}
    {us : List Nat} {l : List TerraBVHVolume} (T : SlotTree nodes ty ix bb us l)
    (hty : ty = -1) : 1 ≤ us.length := by
  cases T with
  | leaf => exact absurd hty (by decide)
  | inner => simp

/-- Visiting a child slot that roots a finished subtree: either the slot is settled (a
leaf is tested, or the ray misses the box and no leaf below is hit), or it is an
internal slot whose node is pushed. -/
theorem visit_slot_cases (sqrtf : ℚ → ℚ) (scene : TerraScene) (ray : TerraRay)
    (hray : ray_well_formed ray) {nodes : List TerraBVHNode} {ty : Int} {ix : Nat}
    {bb : TerraAABB} {us : List Nat} {l : List TerraBVHVolume}
    (T : SlotTree nodes ty ix bb us l) (hg : ∀ v ∈ l, good_leaf scene v)
    (q : List Nat) (c : BVHClosest) (S : List TerraBVHVolume)
    (h : closest_inv sqrtf scene ray c S) (hq : q.length < 64) :
    ∃ q2 c2, bvh_visit_slot sqrtf scene ray ty ix bb (q, c) = some (q2, c2) ∧
      ((q2 = q ∧ closest_inv sqrtf scene ray c2 (l ++ S)) ∨
       (ty = -1 ∧ q2 = ix :: q ∧ c2 = c)) := by
  cases T with
  | leaf =>
    obtain ⟨c2, e1, e2⟩ := visit_leaf sqrtf scene ray ⟨bb, ix, 1⟩
      (hg _ (List.mem_singleton.mpr rfl)) q c S h
    exact ⟨q, c2, e1, Or.inl ⟨rfl, e2⟩⟩
  | inner _ _ nd us0 us1 l0 l1 hnd T0 T1 hbox =>
    cases hi : terra_ray_aabb_intersection ray bb with
    | none =>
      refine ⟨q, c, ?_, Or.inl ⟨rfl, ?_⟩⟩
      · simp only [bvh_visit_slot, hi, if_true]
      · exact closest_inv_skip sqrtf scene ray c _ S h
          (fun v hv => no_hit_of_box_miss scene ray hray v bb (hg v hv) (hbox v hv) hi)
    | some r =>
      refine ⟨ix :: q, c, ?_, Or.inr ⟨rfl, rfl, rfl⟩⟩
      simp only [bvh_visit_slot, hi, if_true, if_pos hq]

/-- The traversal loop, started with the node of a finished subtree on top of the queue,
pops the subtree's nodes and comes back to the rest of the queue within as many
iterations as the subtree has nodes; the closest-hit record is then right for the
leaves of the subtree as well.  The queue never grows beyond the rest plus the number of
nodes of the subtree. -/
theorem traverse_subtree (sqrtf : ℚ → ℚ) (bvh : TerraBVH) (scene : TerraScene)
    (ray : TerraRay) (hray : ray_well_formed ray) {ty : Int} {ix : Nat} {bb : TerraAABB}
    {us : List Nat} {l : List TerraBVHVolume} (T : SlotTree bvh.nodes ty ix bb us l) :
    (∀ v ∈ l, good_leaf scene v) → ty = -1 →
    ∀ (rest : List Nat) (c : BVHClosest) (S : List TerraBVHVolume),
      closest_inv sqrtf scene ray c S → rest.length + us.length ≤ 64 →
      ∃ k c2, k ≤ us.length ∧ closest_inv sqrtf scene ray c2 (l ++ S) ∧
        ∀ fuel, bvh_traverse_loop sqrtf bvh scene ray (fuel + k) (ix :: rest) c =
          bvh_traverse_loop sqrtf bvh scene ray fuel rest c2 := by
  induction T with
  | leaf index aabb => intro _ hty; exact absurd hty (by decide)
  | inner index aabb nd us0 us1 l0 l1 hnd T0 T1 hbox ih0 ih1 =>
    intro hg _ rest c S hinv hlen
    have hg0 : ∀ v ∈ l0, good_leaf scene v := fun v hv => hg v (List.mem_append_left _ hv)
    have hg1 : ∀ v ∈ l1, good_leaf scene v := fun v hv => hg v (List.mem_append_right _ hv)
    simp only [List.length_cons, List.length_append] at hlen
    obtain ⟨q0, c0, e0, r0⟩ :=
      visit_slot_cases sqrtf scene ray hray T0 hg0 rest c S hinv (by omega)
    rcases r0 with ⟨rfl, inv0⟩ | ⟨ty0, rfl, rfl⟩
    · obtain ⟨q1, c1, e1, r1⟩ :=
        visit_slot_cases sqrtf scene ray hray T1 hg1 q0 c0 (l0 ++ S) inv0 (by omega)
      rcases r1 with ⟨rfl, inv1⟩ | ⟨ty1, rfl, rfl⟩
      · refine ⟨1, c1, by simp, ?_, fun fuel => ?_⟩
        · refine closest_inv_congr sqrtf scene ray c1 _ _ inv1 (fun v => ?_)
          simp only [List.mem_append]
          tauto
        · exact bvh_traverse_loop_step sqrtf bvh scene ray fuel index q1 c nd _ _ hnd e0 e1
      · obtain ⟨k1, c2, hk1, inv2, hrun⟩ := ih1 hg1 ty1 q0 c1 (l0 ++ S) inv0 (by omega)
        refine ⟨k1 + 1, c2, by simp only [List.length_cons, List.length_append]; omega, ?_,
          fun fuel => ?_⟩
        · refine closest_inv_congr sqrtf scene ray c2 _ _ inv2 (fun v => ?_)
          simp only [List.mem_append]
          tauto
        · rw [show fuel + (k1 + 1) = (fuel + k1) + 1 by omega,
            bvh_traverse_loop_step sqrtf bvh scene ray _ index q0 c nd _ _ hnd e0 e1]
          exact hrun fuel
    · have hp0 := T0.us_pos ty0
      obtain ⟨q1, c1, e1, r1⟩ :=
        visit_slot_cases sqrtf scene ray hray T1 hg1 (nd.index0 :: rest) c0 S hinv
          (by simp only [List.length_cons]; omega)
      rcases r1 with ⟨rfl, inv1⟩ | ⟨ty1, rfl, rfl⟩
      · obtain ⟨k0, c2, hk0, inv2, hrun⟩ := ih0 hg0 ty0 rest c1 (l1 ++ S) inv1 (by omega)
        refine ⟨k0 + 1, c2, by simp only [List.length_cons, List.length_append]; omega, ?_,
          fun fuel => ?_⟩
        · rw [List.append_assoc]; exact inv2
        · rw [show fuel + (k0 + 1) = (fuel + k0) + 1 by omega,
            bvh_traverse_loop_step sqrtf bvh scene ray _ index rest c0 nd _ _ hnd e0 e1]
          exact hrun fuel
      · obtain ⟨k1, c2, hk1, inv2, hrun1⟩ := ih1 hg1 ty1 (nd.index0 :: rest) c1 S hinv
          (by simp only [List.length_cons]; omega)
        obtain ⟨k0, c3, hk0, inv3, hrun0⟩ := ih0 hg0 ty0 rest c2 (l1 ++ S) inv2 (by omega)
        refine ⟨k0 + k1 + 1, c3, by simp only [List.length_cons, List.length_append]; omega,
          ?_, fun fuel => ?_⟩
        · rw [List.append_assoc]; exact inv3
        · rw [show fuel + (k0 + k1 + 1) = ((fuel + k0) + k1) + 1 by omega,
            bvh_traverse_loop_step sqrtf bvh scene ray _ index rest c1 nd _ _ hnd e0 e1]
          exact (hrun1 (fuel + k0)).trans (hrun0 fuel)

theorem object_volumes_lookup (j i : Nat) (ts : List TerraTriangle) (v : TerraBVHVolume)
    (hv : v ∈ object_volumes j i ts) :
    ∃ k tri, ts[k]? = some tri ∧
      v = ⟨terra_aabb_fit_triangle empty_aabb tri, pack_index j (i + k), 1⟩ := by
  induction ts generalizing i with
  | nil => simp [object_volumes] at hv
  | cons t ts ih =>
    simp only [object_volumes, List.mem_cons] at hv
    rcases hv with rfl | hv
    · exact ⟨0, t, by simp, rfl⟩
    · obtain ⟨k, tri, h1, h2⟩ := ih (i + 1) hv
      refine ⟨k + 1, tri, by simpa using h1, ?_⟩
      rw [h2, show i + 1 + k = i + (k + 1) by omega]

theorem scene_volumes_from_lookup (j : Nat) (os : List TerraObject) (v : TerraBVHVolume)
    (hv : v ∈ scene_volumes_from j os) :
    ∃ m o k tri, os[m]? = some o ∧ o.triangles[k]? = some tri ∧
      v = ⟨terra_aabb_fit_triangle empty_aabb tri, pack_index (j + m) k, 1⟩ := by
  induction os generalizing j with
  | nil => simp [scene_volumes_from] at hv
  | cons o os ih =>
    simp only [scene_volumes_from, List.mem_append] at hv
    rcases hv with hv | hv
    · obtain ⟨k, tri, h1, h2⟩ := object_volumes_lookup j 0 o.triangles v hv
      refine ⟨0, o, k, tri, by simp, h1, ?_⟩
      rw [h2, Nat.zero_add, Nat.add_zero]
    · obtain ⟨m, o2, k, tri, h1, h2, h3⟩ := ih (j + 1) hv
      refine ⟨m + 1, o2, k, tri, by simpa using h1, h2, ?_⟩
      rw [h3, show j + 1 + m = j + (m + 1) by omega]

/-- Every volume made for the scene refers to the triangle whose box it holds. -/
theorem scene_volumes_good (scene : TerraScene) (hobj : scene.objects.length ≤ 256)
    (htri : ∀ o ∈ scene.objects, o.triangles.length < 2 ^ 24) :
    ∀ v ∈ scene_volumes scene, good_leaf scene v := by
  intro v hv
  obtain ⟨m, o, k, tri, h1, h2, h3⟩ := scene_volumes_from_lookup 0 scene.objects v hv
  have hm : m < scene.objects.length := (List.getElem?_eq_some_iff.mp h1).1
  have hk : k < o.triangles.length := (List.getElem?_eq_some_iff.mp h2).1
  have ho : o ∈ scene.objects := by
    rw [← (List.getElem?_eq_some_iff.mp h1).2]
    exact List.getElem_mem _
  have hr := slot_ref_pack (terra_aabb_fit_triangle empty_aabb tri) m k 1 (by omega)
    (by have := htri o ho; omega)
  rw [Nat.zero_add] at h3
  rw [← h3] at hr
  simp only [slot_ref, Prod.mk.injEq] at hr
  refine ⟨o, tri, ?_, ?_, ?_⟩
  · rw [hr.1]; exact h1
  · rw [hr.2]; exact h2
  · rw [h3]

theorem object_triangles_le (os : List TerraObject) (o : TerraObject) (ho : o ∈ os) :
    o.triangles.length ≤ (os.flatMap (fun o => o.triangles)).length := by
  induction os with
  | nil => simp at ho
  | cons a os ih =>
    simp only [List.flatMap_cons, List.length_append]
    rcases List.mem_cons.mp ho with rfl | h
    · omega
    · have := ih h
      omega

/-- The brute-force hits are the hits of the scene's volumes. -/
theorem mem_brute_force_hits (scene : TerraScene) (ray : TerraRay)
    (hobj : scene.objects.length ≤ 256)
    (htri : ∀ o ∈ scene.objects, o.triangles.length < 2 ^ 24) (r : Nat × Nat)
    (p : TerraFloat3) :
    (r, p) ∈ brute_force_hits scene ray ↔
      ∃ v ∈ scene_volumes scene, slot_ref v = r ∧ vol_hit scene ray v = some p := by
  have hrefs : (scene_volumes scene).map slot_ref = scene_pairs scene :=
    scene_volumes_from_refs 0 scene.objects (by omega) htri
  simp only [brute_force_hits, List.mem_filterMap, ← hrefs, List.mem_map]
  constructor
  · rintro ⟨r2, ⟨v, hv, rfl⟩, h⟩
    refine ⟨v, hv, ?_⟩
    simp only [vol_hit, slot_ref] at h ⊢
    cases ho : scene.objects[v.index &&& 0xff]? with
    | none => simp [ho] at h
    | some o =>
      cases ht : o.triangles[v.index >>> 8]? with
      | none => simp [ho, ht] at h
      | some tri =>
        cases hi : terra_ray_triangle_intersection ray tri with
        | none => simp [ho, ht, hi] at h
        | some pt =>
          simp only [ho, ht, hi, Option.some.injEq, Prod.mk.injEq] at h
          simp only [ho, ht, hi, Option.map_some', Option.some.injEq]
          exact ⟨h.1, h.2⟩
  · rintro ⟨v, hv, rfl, h⟩
    refine ⟨slot_ref v, ⟨v, hv, rfl⟩, ?_⟩
    simp only [vol_hit, slot_ref] at h ⊢
    cases ho : scene.objects[v.index &&& 0xff]? with
    | none => simp [ho] at h
    | some o =>
      cases ht : o.triangles[v.index >>> 8]? with
      | none => simp [ho, ht] at h
      | some tri =>
        cases hi : terra_ray_triangle_intersection ray tri with
        | none => simp [ho, ht, hi] at h
        | some pt =>
          simp only [ho, ht, hi, Option.map_some', Option.some.injEq] at h
          simp only [ho, ht, hi, Option.some.injEq, Prod.mk.injEq, true_and]
          exact h

/-- The traversal of the BVH built for a scene of `2 ≤ N ≤ 65` triangles, each volume of
which decodes to a triangle of the scene with the volume's box, ends, and its
closest-hit record is right for all the volumes of the scene. -/
theorem bvh_traverse_spec_of_leaves (sqrtf : ℚ → ℚ)
    (qsort : (TerraBVHVolume → TerraBVHVolume → Int) → List TerraBVHVolume → List TerraBVHVolume)
    (hq : ∀ cmp l, (qsort cmp l).Perm l) (scene : TerraScene) (ray : TerraRay)
    (primitive : Nat × Nat) (fuel1 fuel2 : Nat)
    (hN : 2 ≤ (scene_triangles scene).length) (hN65 : (scene_triangles scene).length ≤ 65)
    (hleaves : ∀ v ∈ scene_volumes scene, good_leaf scene v) (hray : ray_well_formed ray)
    (hf1 : (scene_triangles scene).length - 1 ≤ fuel1)
    (hf2 : (scene_triangles scene).length - 1 ≤ fuel2) :
    ∃ bvh c, terra_bvh_create qsort scene fuel1 = some bvh ∧
      bvh_traverse_loop sqrtf bvh scene ray fuel2 [0]
        { min_d := FLT_MAX, min_p := terra_f3_set1 FLT_MAX, primitive := primitive,
          found := false } = some c ∧
      closest_inv sqrtf scene ray c (scene_volumes scene) := by
  have hbig : (scene_volumes scene).length ≤ 2 ^ 32 := by
    rw [show (scene_volumes scene).length = (scene_triangles scene).length from
      scene_volumes_from_length 0 scene.objects]
    omega
  obtain ⟨bvh, us, l, h1, h2, h3, _, h5, _, _⟩ :=
    bvh_create_tree_of_count qsort hq scene fuel1 hN hbig hf1
  have hgood : ∀ v ∈ l, good_leaf scene v :=
    fun v hv => hleaves v (h3.mem_iff.mp hv)
  have hinit : closest_inv sqrtf scene ray
      { min_d := FLT_MAX, min_p := terra_f3_set1 FLT_MAX, primitive := primitive,
        found := false } [] :=
    ⟨fun _ => rfl, le_refl _, fun v hv => absurd hv (List.not_mem_nil v),
      fun hf => absurd hf (by simp)⟩
  obtain ⟨k, c, hk, hinv, hrun⟩ := traverse_subtree sqrtf bvh scene ray hray h2 hgood rfl []
    _ [] hinit (by simp only [List.length_nil]; omega)
  refine ⟨bvh, c, h1, ?_, ?_⟩
  · have := hrun (fuel2 - k)
    rw [show fuel2 - k + k = fuel2 by omega] at this
    rw [this]
    cases (fuel2 - k) <;> rfl
  · exact closest_inv_congr sqrtf scene ray c _ _ hinv
      (fun v => by rw [List.append_nil]; exact h3.mem_iff.symm)

/-- The traversal of the BVH built for a scene of `2 ≤ N ≤ 65` triangles ends, and its
closest-hit record is right for all the volumes of the scene. -/
theorem bvh_traverse_spec (sqrtf : ℚ → ℚ)
    (qsort : (TerraBVHVolume → TerraBVHVolume → Int) → List TerraBVHVolume → List TerraBVHVolume)
    (hq : ∀ cmp l, (qsort cmp l).Perm l) (scene : TerraScene) (ray : TerraRay)
    (primitive : Nat × Nat) (fuel1 fuel2 : Nat)
    (hN : 2 ≤ (scene_triangles scene).length) (hN65 : (scene_triangles scene).length ≤ 65)
    (hobj : scene.objects.length ≤ 256) (hray : ray_well_formed ray)
    (hf1 : (scene_triangles scene).length - 1 ≤ fuel1)
    (hf2 : (scene_triangles scene).length - 1 ≤ fuel2) :
    ∃ bvh c, terra_bvh_create qsort scene fuel1 = some bvh ∧
      bvh_traverse_loop sqrtf bvh scene ray fuel2 [0]
        { min_d := FLT_MAX, min_p := terra_f3_set1 FLT_MAX, primitive := primitive,
          found := false } = some c ∧
      closest_inv sqrtf scene ray c (scene_volumes scene) := by
  have htri : ∀ o ∈ scene.objects, o.triangles.length < 2 ^ 24 := by
    intro o ho
    have := object_triangles_le scene.objects o ho
    simp only [scene_triangles] at hN65
    omega
  exact bvh_traverse_spec_of_leaves sqrtf qsort hq scene ray primitive fuel1 fuel2 hN hN65
    (scene_volumes_good scene hobj htri) hray hf1 hf2

/-- C9 (amended): in exact arithmetic, for every scene with `2 ≤ N ≤ 65` triangles (at
most 256 objects), the BVH built from it by `terra_bvh_create`, and every ray with
non-zero direction components and reciprocal `inv_direction`: `terra_bvh_traverse`
returns, it returns true iff `terra_ray_triangle_intersection` reports a hit at distance below `FLT_MAX` for at
least one scene triangle, and then the returned point and primitive are those of a scene
triangle whose hit point has minimum distance from the ray origin among all hits (the
brute-force search). -/
theorem bvh_traverse_is_brute_force (sqrtf : ℚ → ℚ)
    (qsort : (TerraBVHVolume → TerraBVHVolume → Int) → List TerraBVHVolume → List TerraBVHVolume)
    (hq : ∀ cmp l, (qsort cmp l).Perm l) (scene : TerraScene) (ray : TerraRay)
    (primitive : Nat × Nat) (fuel1 fuel2 : Nat)
    (hN : 2 ≤ (scene_triangles scene).length) (hN65 : (scene_triangles scene).length ≤ 65)
    (hobj : scene.objects.length ≤ 256) (hray : ray_well_formed ray)
    (hf1 : (scene_triangles scene).length - 1 ≤ fuel1)
    (hf2 : (scene_triangles scene).length - 1 ≤ fuel2) :
    ∃ bvh found p prim, terra_bvh_create qsort scene fuel1 = some bvh ∧
      terra_bvh_traverse sqrtf bvh ray scene primitive fuel2 = some (found, p, prim) ∧
      (found = true ↔ ∃ h ∈ brute_force_hits scene ray,
        terra_lenf3 sqrtf (terra_subf3 h.2 ray.origin) < FLT_MAX) ∧
      (found = true → (prim, p) ∈ brute_force_hits scene ray ∧
        ∀ h ∈ brute_force_hits scene ray,
          terra_lenf3 sqrtf (terra_subf3 p ray.origin) ≤
            terra_lenf3 sqrtf (terra_subf3 h.2 ray.origin)) := by
  have htri : ∀ o ∈ scene.objects, o.triangles.length < 2 ^ 24 := by
    intro o ho
    have := object_triangles_le scene.objects o ho
    simp only [scene_triangles] at hN65
    omega
  obtain ⟨bvh, c, h1, h2, i1, i2, i3, i4⟩ :=
    bvh_traverse_spec sqrtf qsort hq scene ray primitive fuel1 fuel2 hN hN65 hobj hray hf1 hf2
  refine ⟨bvh, c.found, c.min_p, c.primitive, h1, ?_, ⟨fun hf => ?_, fun hex => ?_⟩,
    fun hf => ?_⟩
  · simp only [terra_bvh_traverse, h2, Option.map_some']
  · obtain ⟨v, hv, e1, e2, e3, e4⟩ := i4 hf
    refine ⟨(slot_ref v, c.min_p),
      (mem_brute_force_hits scene ray hobj htri _ _).mpr ⟨v, hv, rfl, e1⟩, ?_⟩
    rw [← e2]; exact e3
  · obtain ⟨⟨r, p⟩, hmem, hd⟩ := hex
    obtain ⟨v, hv, _, e⟩ := (mem_brute_force_hits scene ray hobj htri r p).mp hmem
    have := i3 v hv p e
    cases hfnd : c.found with
    | true => rfl
    | false =>
      have := i1 hfnd
      simp only [] at hd
      linarith
  · obtain ⟨v, hv, e1, e2, e3, e4⟩ := i4 hf
    refine ⟨(mem_brute_force_hits scene ray hobj htri _ _).mpr ⟨v, hv, e4.symm, e1⟩, ?_⟩
    rintro ⟨r, p⟩ hmem
    obtain ⟨w, hw, _, e⟩ := (mem_brute_force_hits scene ray hobj htri r p).mp hmem
    rw [← e2]
    exact i3 w hw p e

/-- On `far_scene` the brute-force search finds exactly the large triangle, hit at
`(-2^126, -2^127, -2^127)`. -/
theorem far_scene_hits :
    brute_force_hits far_scene far_ray = [((0, 0), ⟨-2 ^ 126, -2 ^ 127, -2 ^ 127⟩)] := by
  have h0 : terra_ray_triangle_intersection far_ray
      ⟨⟨-2 ^ 126 - 2 ^ 120, -2 ^ 127 - 2 ^ 120, -2 ^ 127⟩,
        ⟨-2 ^ 126 + 2 ^ 121, -2 ^ 127 - 2 ^ 120, -2 ^ 127⟩,
        ⟨-2 ^ 126 - 2 ^ 120, -2 ^ 127 + 2 ^ 121, -2 ^ 127⟩⟩ =
      some (⟨-2 ^ 126, -2 ^ 127, -2 ^ 127⟩, 2 ^ 127) := by
    norm_num [terra_ray_triangle_intersection, far_ray, rti_a, rti_u, rti_v, rti_t,
      terra_subf3, terra_crossf3, terra_dotf3, terra_f3_set, terra_Epsilon, terra_addf3,
      terra_mulf3]
  have h1 : terra_ray_triangle_intersection far_ray ⟨⟨5, 0, 0⟩, ⟨6, 0, 0⟩, ⟨5, 1, 0⟩⟩ = none := by
    norm_num [terra_ray_triangle_intersection, far_ray, rti_a, rti_u, rti_v, rti_t,
      terra_subf3, terra_crossf3, terra_dotf3, terra_f3_set, terra_Epsilon, terra_addf3,
      terra_mulf3]
  simp only [brute_force_hits, scene_pairs, scene_pairs_from, far_scene, List.length_cons,
    List.length_nil, List.range', List.map_cons, List.map_nil, List.append_nil,
    List.filterMap_cons, List.filterMap_nil, List.getElem?_cons_zero,
    List.getElem?_cons_succ, h0, h1]

/-- On `far_scene` the traversal of the built BVH reports no hit for `far_ray`: the only
hit lies at distance `3 · 2^127`, not below the initial `min_d = FLT_MAX`. -/
theorem far_scene_bvh_miss :
    ∃ bvh p prim, terra_bvh_create (fun _ l => l) far_scene 1 = some bvh ∧
      terra_bvh_traverse far_sqrtf bvh far_ray far_scene (0, 0) 1 = some (false, p, prim) := by
  have hlen : (scene_triangles far_scene).length = 2 := by
    simp [scene_triangles, far_scene]
  have hobj : far_scene.objects.length ≤ 256 := by simp [far_scene]
  have htri : ∀ o ∈ far_scene.objects, o.triangles.length < 2 ^ 24 := by
    simp [far_scene]
  have hray : ray_well_formed far_ray :=
    ⟨by norm_num [far_ray], by norm_num [far_ray], by norm_num [far_ray], rfl⟩
  obtain ⟨bvh, c, h1, h2, i1, i2, i3, i4⟩ :=
    bvh_traverse_spec far_sqrtf (fun _ l => l) (fun _ l => List.Perm.refl l) far_scene far_ray
      (0, 0) 1 1 (by omega) (by omega) hobj hray (by omega) (by omega)
  have hfound : c.found = false := by
    cases hf : c.found with
    | false => rfl
    | true =>
      exfalso
      obtain ⟨v, hv, e1, e2, e3, _⟩ := i4 hf
      have hmem := (mem_brute_force_hits far_scene far_ray hobj htri (slot_ref v) c.min_p).mpr
        ⟨v, hv, rfl, e1⟩
      rw [far_scene_hits, List.mem_singleton, Prod.mk.injEq] at hmem
      rw [e2, hmem.2] at e3
      norm_num [terra_lenf3, terra_subf3, terra_f3_set, far_sqrtf, far_ray, FLT_MAX] at e3
  refine ⟨bvh, c.min_p, c.primitive, h1, ?_⟩
  simp only [terra_bvh_traverse, h2, Option.map_some', hfound]

/-- In exact arithmetic a hit at distance `FLT_MAX` or more is dropped: on `far_scene`
the ray `far_ray` hits the large triangle at distance `3 · 2^127 ≥ FLT_MAX`; the test
`d < min_d` against the initial `min_d = FLT_MAX` fails, and `terra_bvh_traverse`
returns false although the brute-force search has a hit.  (In binary32 the determinant
of this triangle overflows; the run exists only in exact arithmetic.) -/
theorem bvh_traverse_drops_far_hit :
    ∃ bvh p prim, terra_bvh_create (fun _ l => l) far_scene 1 = some bvh ∧
      terra_bvh_traverse far_sqrtf bvh far_ray far_scene (0, 0) 1 = some (false, p, prim) ∧
      brute_force_hits far_scene far_ray = [((0, 0), ⟨-2 ^ 126, -2 ^ 127, -2 ^ 127⟩)] := by
  obtain ⟨bvh, p, prim, h1, h2⟩ := far_scene_bvh_miss
  exact ⟨bvh, p, prim, h1, h2, far_scene_hits⟩

/-- The volumes of `packed_scene`: the triangle of object 256 gets the packed reference
`256 | (0 << 8) = 256`, the one the second triangle of object 0 has (`0 | (1 << 8)`). -/
theorem packed_scene_volumes :
    scene_volumes packed_scene =
      [⟨terra_aabb_fit_triangle empty_aabb ⟨⟨5, 0, 0⟩, ⟨6, 0, 0⟩, ⟨5, 1, 0⟩⟩, 0, 1⟩,
       ⟨terra_aabb_fit_triangle empty_aabb ⟨⟨0, 0, 0⟩, ⟨1, 0, 0⟩, ⟨0, 1, 0⟩⟩, 256, 1⟩,
       ⟨terra_aabb_fit_triangle empty_aabb ⟨⟨1, 1, 0⟩, ⟨1, 0, 0⟩, ⟨0, 1, 0⟩⟩, 256, 1⟩] := by
  decide!

/-- On `packed_scene` the brute-force search finds exactly the triangle of object 256,
hit at `(3/4, 3/4, 0)`. -/
theorem packed_scene_hits :
    brute_force_hits packed_scene packed_ray = [((256, 0), ⟨3 / 4, 3 / 4, 0⟩)] := by
  decide!

/-- Every volume of `packed_scene` decodes to a triangle of object 0 with the volume's
box, and `packed_ray` hits none of the decoded triangles. -/
theorem packed_scene_leaves :
    ∀ v ∈ scene_volumes packed_scene,
      good_leaf packed_scene v ∧ vol_hit packed_scene packed_ray v = none := by
  rw [packed_scene_volumes]
  intro v hv
  simp only [List.mem_cons, List.mem_singleton, List.not_mem_nil, or_false] at hv
  rcases hv with rfl | rfl | rfl
  · exact ⟨⟨⟨[⟨⟨5, 0, 0⟩, ⟨6, 0, 0⟩, ⟨5, 1, 0⟩⟩, ⟨⟨0, 0, 0⟩, ⟨1, 0, 0⟩, ⟨0, 1, 0⟩⟩]⟩,
      ⟨⟨5, 0, 0⟩, ⟨6, 0, 0⟩, ⟨5, 1, 0⟩⟩, by decide!, by decide!, by decide!⟩, by decide!⟩
  · exact ⟨⟨⟨[⟨⟨5, 0, 0⟩, ⟨6, 0, 0⟩, ⟨5, 1, 0⟩⟩, ⟨⟨0, 0, 0⟩, ⟨1, 0, 0⟩, ⟨0, 1, 0⟩⟩]⟩,
      ⟨⟨0, 0, 0⟩, ⟨1, 0, 0⟩, ⟨0, 1, 0⟩⟩, by decide!, by decide!, by decide!⟩, by decide!⟩
  · exact ⟨⟨⟨[⟨⟨5, 0, 0⟩, ⟨6, 0, 0⟩, ⟨5, 1, 0⟩⟩, ⟨⟨0, 0, 0⟩, ⟨1, 0, 0⟩, ⟨0, 1, 0⟩⟩]⟩,
      ⟨⟨0, 0, 0⟩, ⟨1, 0, 0⟩, ⟨0, 1, 0⟩⟩, by decide!, by decide!, by decide!⟩, by decide!⟩

/-- C9 (counterexample): `packed_scene` has three triangles, in 257 objects, and
`packed_ray` (non-zero direction components, reciprocal `inv_direction`) hits the
triangle of object 256 at `(3/4, 3/4, 0)`, at distance below `FLT_MAX`.  The leaf slot
of that triangle holds `256 | (0 << 8)`, which `terra_bvh_traverse` decodes as object
`256 & 0xff = 0`, triangle `256 >> 8 = 1`: the routine tests the second triangle of
object 0 instead, and returns false, whatever `sqrtf` and whatever permuting `qsort`
the build uses. -/
theorem bvh_traverse_misses_object_256 :
    (scene_triangles packed_scene).length = 3 ∧ packed_scene.objects.length = 257 ∧
    ray_well_formed packed_ray ∧
    brute_force_hits packed_scene packed_ray = [((256, 0), ⟨3 / 4, 3 / 4, 0⟩)] ∧
    ∀ (sqrtf : ℚ → ℚ)
      (qsort : (TerraBVHVolume → TerraBVHVolume → Int) → List TerraBVHVolume →
        List TerraBVHVolume),
      (∀ cmp l, (qsort cmp l).Perm l) →
      ∃ bvh p prim, terra_bvh_create qsort packed_scene 2 = some bvh ∧
        terra_bvh_traverse sqrtf bvh packed_ray packed_scene (0, 0) 2 =
          some (false, p, prim) := by
  have hlen : (scene_triangles packed_scene).length = 3 := by decide!
  have hray : ray_well_formed packed_ray :=
    ⟨by norm_num [packed_ray], by norm_num [packed_ray], by norm_num [packed_ray], rfl⟩
  refine ⟨hlen, by decide!, hray, packed_scene_hits, ?_⟩
  intro sqrtf qsort hq
  obtain ⟨bvh, c, h1, h2, _, _, _, i4⟩ :=
    bvh_traverse_spec_of_leaves sqrtf qsort hq packed_scene packed_ray (0, 0) 2 2
      (by omega) (by omega) (fun v hv => (packed_scene_leaves v hv).1) hray
      (by omega) (by omega)
  have hfound : c.found = false := by
    cases hf : c.found with
    | false => rfl
    | true =>
      exfalso
      obtain ⟨v, hv, e1, _⟩ := i4 hf
      rw [(packed_scene_leaves v hv).2] at e1
      exact Option.noConfusion e1
  refine ⟨bvh, c.min_p, c.primitive, h1, ?_⟩
  simp only [terra_bvh_traverse, h2, Option.map_some', hfound]

/-- Two triangles in one object and a ray towards the first of them. -/
theorem bvh_traverse_is_brute_force_witness :
    ∃ bvh found p prim,
      terra_bvh_create (fun _ l => l)
        ⟨[⟨[⟨⟨0, 0, 0⟩, ⟨1, 0, 0⟩, ⟨0, 1, 0⟩⟩, ⟨⟨5, 0, 0⟩, ⟨6, 0, 0⟩, ⟨5, 1, 0⟩⟩]⟩]⟩ 1 =
        some bvh ∧
      terra_bvh_traverse (fun x => x) bvh
        ⟨⟨5 / 4, 9 / 4, 2⟩, ⟨-1, -2, -2⟩, ⟨1 / (-1), 1 / (-2), 1 / (-2)⟩⟩
        ⟨[⟨[⟨⟨0, 0, 0⟩, ⟨1, 0, 0⟩, ⟨0, 1, 0⟩⟩, ⟨⟨5, 0, 0⟩, ⟨6, 0, 0⟩, ⟨5, 1, 0⟩⟩]⟩]⟩
        (0, 0) 1 = some (found, p, prim) ∧
      (found = true ↔ ∃ h ∈ brute_force_hits
          ⟨[⟨[⟨⟨0, 0, 0⟩, ⟨1, 0, 0⟩, ⟨0, 1, 0⟩⟩, ⟨⟨5, 0, 0⟩, ⟨6, 0, 0⟩, ⟨5, 1, 0⟩⟩]⟩]⟩
          ⟨⟨5 / 4, 9 / 4, 2⟩, ⟨-1, -2, -2⟩, ⟨1 / (-1), 1 / (-2), 1 / (-2)⟩⟩,
        terra_lenf3 (fun x => x) (terra_subf3 h.2
          (⟨⟨5 / 4, 9 / 4, 2⟩, ⟨-1, -2, -2⟩, ⟨1 / (-1), 1 / (-2), 1 / (-2)⟩⟩ :
            TerraRay).origin) < FLT_MAX) ∧
      (found = true → (prim, p) ∈ brute_force_hits
          ⟨[⟨[⟨⟨0, 0, 0⟩, ⟨1, 0, 0⟩, ⟨0, 1, 0⟩⟩, ⟨⟨5, 0, 0⟩, ⟨6, 0, 0⟩, ⟨5, 1, 0⟩⟩]⟩]⟩
          ⟨⟨5 / 4, 9 / 4, 2⟩, ⟨-1, -2, -2⟩, ⟨1 / (-1), 1 / (-2), 1 / (-2)⟩⟩ ∧
        ∀ h ∈ brute_force_hits
          ⟨[⟨[⟨⟨0, 0, 0⟩, ⟨1, 0, 0⟩, ⟨0, 1, 0⟩⟩, ⟨⟨5, 0, 0⟩, ⟨6, 0, 0⟩, ⟨5, 1, 0⟩⟩]⟩]⟩
          ⟨⟨5 / 4, 9 / 4, 2⟩, ⟨-1, -2, -2⟩, ⟨1 / (-1), 1 / (-2), 1 / (-2)⟩⟩,
          terra_lenf3 (fun x => x) (terra_subf3 p
            (⟨⟨5 / 4, 9 / 4, 2⟩, ⟨-1, -2, -2⟩, ⟨1 / (-1), 1 / (-2), 1 / (-2)⟩⟩ :
              TerraRay).origin) ≤
          terra_lenf3 (fun x => x) (terra_subf3 h.2
            (⟨⟨5 / 4, 9 / 4, 2⟩, ⟨-1, -2, -2⟩, ⟨1 / (-1), 1 / (-2), 1 / (-2)⟩⟩ :
              TerraRay).origin)) :=
  bvh_traverse_is_brute_force (fun x => x) (fun _ l => l) (fun _ l => List.Perm.refl l)
    ⟨[⟨[⟨⟨0, 0, 0⟩, ⟨1, 0, 0⟩, ⟨0, 1, 0⟩⟩, ⟨⟨5, 0, 0⟩, ⟨6, 0, 0⟩, ⟨5, 1, 0⟩⟩]⟩]⟩
    ⟨⟨5 / 4, 9 / 4, 2⟩, ⟨-1, -2, -2⟩, ⟨1 / (-1), 1 / (-2), 1 / (-2)⟩⟩ (0, 0) 1 1
    (by simp [scene_triangles]) (by simp [scene_triangles]) (by simp)
    ⟨by norm_num, by norm_num, by norm_num, rfl⟩
    (by simp [scene_triangles]) (by simp [scene_triangles])

theorem touching_scene_aabb :
    scene_aabb touching_scene =
      ⟨⟨-2 / 10000, -2 / 10000, -2 / 10000⟩, ⟨20003 / 10000, 10002 / 10000, 2 / 10000⟩⟩ := by
  norm_num [scene_aabb, scene_triangles, touching_scene, terra_aabb_fit_triangle, empty_aabb,
    terra_f3_set1, terra_minf, terra_maxf, terra_Epsilon, FLT_MAX]

theorem touching_scene_cache :
    kd_aabb_cache touching_scene (kd_scene_refs 0 touching_scene.objects) =
      some [⟨⟨-1 / 10000, -1 / 10000, -1 / 10000⟩, ⟨10001 / 10000, 10001 / 10000, 1 / 10000⟩⟩,
        ⟨⟨10001 / 10000, -1 / 10000, -1 / 10000⟩, ⟨20003 / 10000, 10001 / 10000, 1 / 10000⟩⟩] := by
  norm_num [kd_aabb_cache, kd_scene_refs, kd_object_refs, scene_triangle, touching_scene,
    terra_aabb_fit_triangle, empty_aabb, terra_f3_set1, terra_minf, terra_maxf, terra_Epsilon,
    FLT_MAX]

/-- C8 (failing input): on `touching_scene` the entry for offset `1 + ε` is created by
the first box's maximum (type 1) and only gets its `t0c` incremented by the second box's
minimum, which the counting loop never adds, so every split is recorded with
`left_count = 1`; the chosen split `2 + 3ε` has both triangles on its left, the
partition writes two references to a left buffer allocated for one, and
`assert(lbc == left_buffer->objects_count)` fails.  The split buffer is already in
ascending order, so `qsort` leaves it as it is. -/
theorem kdtree_create_touching_boxes_fails :
    kd_count_splits (kd_collect_splits 0
        [⟨⟨-1 / 10000, -1 / 10000, -1 / 10000⟩, ⟨10001 / 10000, 10001 / 10000, 1 / 10000⟩⟩,
         ⟨⟨10001 / 10000, -1 / 10000, -1 / 10000⟩, ⟨20003 / 10000, 10001 / 10000, 1 / 10000⟩⟩]
        []) 2 0 =
      [⟨-1 / 10000, 1, 2, 0, 1, 1⟩, ⟨10001 / 10000, 1, 2, 1, 2, 1⟩,
       ⟨20003 / 10000, 1, 1, 1, 1, 1⟩] ∧
    terra_kdtree_create (fun _ l => l) touching_scene = none := by
  refine ⟨by norm_num [kd_collect_splits, terra_kdtree_add_splitbuffer, kd_count_splits,
    terra__comp], ?_⟩
  unfold terra_kdtree_create
  rw [touching_scene_aabb]
  unfold terra_kdtree_create_rec
  simp only [List.getElem?_cons_zero, touching_scene_cache]
  norm_num [kd_collect_splits, terra_kdtree_add_splitbuffer, kd_count_splits, kd_cost_loop,
    kd_partition, terra__comp, terra__comp_set, FLT_MAX, kd_scene_refs, kd_object_refs,
    touching_scene]

/-- The volumes of `touching_scene`. -/
theorem touching_scene_volumes :
    scene_volumes touching_scene =
      [⟨terra_aabb_fit_triangle empty_aabb ⟨⟨0, 0, 0⟩, ⟨1, 0, 0⟩, ⟨0, 1, 0⟩⟩, 0, 1⟩,
       ⟨terra_aabb_fit_triangle empty_aabb
         ⟨⟨1 + 2 / 10000, 0, 0⟩, ⟨2 + 2 / 10000, 0, 0⟩, ⟨1 + 2 / 10000, 1, 0⟩⟩, 256, 1⟩] := by
  decide!

/-- On `touching_scene` the BVH is built and its traversal reports for `touching_ray`
the hit of the first triangle at `(1/4, 1/4, 0)`, whatever permuting `qsort` the build
uses and whatever `sqrtf` that gives the distance `3/4` a value below `FLT_MAX`. -/
theorem touching_scene_bvh_hit (sqrtf : ℚ → ℚ)
    (qsort : (TerraBVHVolume → TerraBVHVolume → Int) → List TerraBVHVolume → List TerraBVHVolume)
    (hq : ∀ cmp l, (qsort cmp l).Perm l) (hsq : sqrtf (9 / 16) < FLT_MAX) :
    ∃ bvh, terra_bvh_create qsort touching_scene 1 = some bvh ∧
      terra_bvh_traverse sqrtf bvh touching_ray touching_scene (0, 0) 1 =
        some (true, ⟨1 / 4, 1 / 4, 0⟩, (0, 0)) := by
  have hlen : (scene_triangles touching_scene).length = 2 := by decide!
  have hray : ray_well_formed touching_ray :=
    ⟨by norm_num [touching_ray], by norm_num [touching_ray], by norm_num [touching_ray], rfl⟩
  obtain ⟨bvh, c, h1, h2, i1, _, i3, i4⟩ :=
    bvh_traverse_spec sqrtf qsort hq touching_scene touching_ray (0, 0) 1 1
      (by omega) (by omega) (by decide!) hray (by omega) (by omega)
  rw [touching_scene_volumes] at i3 i4
  have hv0 : vol_hit touching_scene touching_ray
      ⟨terra_aabb_fit_triangle empty_aabb ⟨⟨0, 0, 0⟩, ⟨1, 0, 0⟩, ⟨0, 1, 0⟩⟩, 0, 1⟩ =
      some ⟨1 / 4, 1 / 4, 0⟩ := by decide!
  have hv1 : vol_hit touching_scene touching_ray
      ⟨terra_aabb_fit_triangle empty_aabb
        ⟨⟨1 + 2 / 10000, 0, 0⟩, ⟨2 + 2 / 10000, 0, 0⟩, ⟨1 + 2 / 10000, 1, 0⟩⟩, 256, 1⟩ =
      none := by decide!
  have hd : terra_lenf3 sqrtf (terra_subf3 ⟨1 / 4, 1 / 4, 0⟩ touching_ray.origin) =
      sqrtf (9 / 16) := by
    norm_num [terra_lenf3, terra_subf3, terra_f3_set, touching_ray]
  have hfound : c.found = true := by
    cases hf : c.found with
    | true => rfl
    | false =>
      exfalso
      have h3 := i3 _ (List.mem_cons_self _ _) _ hv0
      rw [i1 hf, hd] at h3
      linarith
  obtain ⟨v, hv, e1, _, _, e4⟩ := i4 hfound
  simp only [List.mem_cons, List.mem_singleton, List.not_mem_nil, or_false] at hv
  refine ⟨bvh, h1, ?_⟩
  rcases hv with rfl | rfl
  · rw [hv0] at e1
    have hp : c.min_p = ⟨1 / 4, 1 / 4, 0⟩ := (Option.some.inj e1).symm
    have hr : c.primitive = (0, 0) := by rw [e4]; decide!
    simp only [terra_bvh_traverse, h2, Option.map_some', hfound, hp, hr]
  · rw [hv1] at e1
    exact Option.noConfusion e1

/-- C10 (failing input): on `touching_scene` the KD-tree build fails its assertion (the
left buffer is allocated for one reference and receives two), so there is no KD-tree
whose traversal could be compared, while the BVH is built and `terra_bvh_traverse`
reports for `touching_ray` the hit of the primitive `(0, 0)` at `(1/4, 1/4, 0)`.  The
split buffer of the KD-tree build is already in ascending order, so `qsort` leaves it as
it is; the BVH result is the same for every `qsort` that permutes its input. -/
theorem bvh_hits_where_kdtree_build_fails :
    terra_kdtree_create (fun _ l => l) touching_scene = none ∧
    ∀ (qsort : (TerraBVHVolume → TerraBVHVolume → Int) → List TerraBVHVolume →
        List TerraBVHVolume),
      (∀ cmp l, (qsort cmp l).Perm l) →
      ∃ bvh, terra_bvh_create qsort touching_scene 1 = some bvh ∧
        terra_bvh_traverse touching_sqrtf bvh touching_ray touching_scene (0, 0) 1 =
          some (true, ⟨1 / 4, 1 / 4, 0⟩, (0, 0)) := by
  refine ⟨by decide!, fun qsort hq => ?_⟩
  exact touching_scene_bvh_hit touching_sqrtf qsort hq (by norm_num [touching_sqrtf, FLT_MAX])

/-- C27 (failing input): one pixel whose exposed mean radiance is `(1, 1/2, 1/4)`,
rendered with the Filmic operator: the x channel of the output is the curve applied to
the z channel of the input (`color.x` is assigned twice), and the z channel of the
output is the exposed input `1/4`, not the curve value. -/
theorem filmic_channels_not_independent :
    (terra_render (fun a _ => a) (fun (rng : Nat) _ _ => (⟨1, 1 / 2, 1 / 4⟩, rng))
        (options_with .kTerraTonemappingOperatorFilmic 1) (fresh_framebuffer 1 1) 0
        0 0 1 1).1.pixels =
      [⟨filmic_curve (terra_maxf 0 (1 / 4 - 4 / 1000)),
        filmic_curve (terra_maxf 0 (1 / 2 - 4 / 1000)), 1 / 4⟩] ∧
    filmic_curve (terra_maxf 0 (1 / 4 - 4 / 1000)) ≠ filmic_curve (terra_maxf 0 (1 - 4 / 1000)) ∧
    (1 / 4 : ℚ) ≠ filmic_curve (terra_maxf 0 (1 / 4 - 4 / 1000)) := by
  refine ⟨?_, ?_, ?_⟩
  · norm_num [terra_render, tile_pixels, render_pixels, render_pixel, sample_loop,
      accumulate_pixel, pixel_index, fresh_framebuffer, terra_framebuffer_create, options_with,
      terra_addf3, terra_mulf3, terra_divf3, terra_f3_set, terra_f3_zero, terra_f3_set1,
      terra_tonemap, terra_maxf, filmic_curve, List.range', Int.toNat]
  · norm_num [filmic_curve, terra_maxf]
  · norm_num [filmic_curve, terra_maxf]

/-- C30 (failing input): the two boxes of `touching_scene` on the x axis, `[-ε, 1 + ε]`
and `[1 + ε, 2 + 3ε]`.  The sweep records the chosen split `2 + 3ε` with
`left_count = 1` and `right_count = 1`; the partition loop for that split writes both
references to the left buffer and one to the right buffer. -/
theorem kd_split_counts_mismatch :
    kd_cost_loop
        ⟨⟨-2 / 10000, -2 / 10000, -2 / 10000⟩, ⟨20003 / 10000, 10002 / 10000, 2 / 10000⟩⟩ 0
        ((1 / 2) / ((20005 / 10000) * (4 / 10000) + (20005 / 10000) * (10004 / 10000) +
          (4 / 10000) * (10004 / 10000)))
        (kd_count_splits (kd_collect_splits 0
          [⟨⟨-1 / 10000, -1 / 10000, -1 / 10000⟩, ⟨10001 / 10000, 10001 / 10000, 1 / 10000⟩⟩,
           ⟨⟨10001 / 10000, -1 / 10000, -1 / 10000⟩,
            ⟨20003 / 10000, 10001 / 10000, 1 / 10000⟩⟩] []) 2 0)
        ⟨FLT_MAX, 0, 0, 0⟩ =
      ⟨826156531 / 625781425, 20003 / 10000, 1, 1⟩ ∧
    ((kd_partition 0 (-2 / 10000) (20003 / 10000) (20003 / 10000) (20003 / 10000)
        (kd_scene_refs 0 touching_scene.objects)
        [⟨⟨-1 / 10000, -1 / 10000, -1 / 10000⟩, ⟨10001 / 10000, 10001 / 10000, 1 / 10000⟩⟩,
         ⟨⟨10001 / 10000, -1 / 10000, -1 / 10000⟩,
          ⟨20003 / 10000, 10001 / 10000, 1 / 10000⟩⟩]).1.length = 2 ∧
     (kd_partition 0 (-2 / 10000) (20003 / 10000) (20003 / 10000) (20003 / 10000)
        (kd_scene_refs 0 touching_scene.objects)
        [⟨⟨-1 / 10000, -1 / 10000, -1 / 10000⟩, ⟨10001 / 10000, 10001 / 10000, 1 / 10000⟩⟩,
         ⟨⟨10001 / 10000, -1 / 10000, -1 / 10000⟩,
          ⟨20003 / 10000, 10001 / 10000, 1 / 10000⟩⟩]).2.length = 1) := by
  refine ⟨?_, ?_, ?_⟩
  · norm_num [kd_collect_splits, terra_kdtree_add_splitbuffer, kd_count_splits, kd_cost_loop,
      terra__comp, terra__comp_set, FLT_MAX]
  · norm_num [kd_partition, kd_scene_refs, kd_object_refs, touching_scene, terra__comp]
  · norm_num [kd_partition, kd_scene_refs, kd_object_refs, touching_scene, terra__comp]

theorem foldl_emissive_eq_sum (lights : List TerraLight) (a : ℚ) :
    lights.foldl (fun acc light => acc + light.emissive) a =
      a + (lights.map (fun l => l.emissive)).sum := by
  induction lights generalizing a with
  | nil => simp
  | cons l ls ih => simp only [List.foldl_cons, ih, List.map_cons, List.sum_cons]; ring

/-- The pick loop started with `alpha_acc = acc` on lights of positive weight whose
weights add up to at least `acc`: it picks the first light whose running weight sum
reaches `acc` and rescales the remainder by the weight of that light. -/
theorem light_pick_loop_spec (T : ℚ) (ls : List TerraLight) (acc : ℚ)
    (hpos : ∀ l ∈ ls, 0 < l.emissive / T) (hne : ls ≠ [])
    (hacc : acc ≤ (ls.map (fun l => l.emissive / T)).sum) :
    ∃ i light, ls[i]? = some light ∧
      light_pick_loop T ls acc =
        some (light, (acc - ((ls.take i).map (fun l => l.emissive / T)).sum) /
          (light.emissive / T)) ∧
      (i = 0 ∨ ((ls.take i).map (fun l => l.emissive / T)).sum < acc) ∧
      acc ≤ ((ls.take (i + 1)).map (fun l => l.emissive / T)).sum := by
  induction ls generalizing acc with
  | nil => exact absurd rfl hne
  | cons l rest ih =>
    have hl := hpos l (List.mem_cons_self _ _)
    by_cases h : acc - l.emissive / T ≤ 0
    · refine ⟨0, l, by simp, ?_, Or.inl rfl, ?_⟩
      · simp only [light_pick_loop, if_pos h, List.take_zero, List.map_nil, List.sum_nil,
          sub_zero, sub_add_cancel]
      · simp only [Nat.zero_add, List.take_succ_cons, List.take_zero, List.map_cons,
          List.map_nil, List.sum_cons, List.sum_nil, add_zero]
        linarith
    · have hgt : 0 < acc - l.emissive / T := not_le.mp h
      simp only [List.map_cons, List.sum_cons] at hacc
      have hrest : rest ≠ [] := by
        intro he
        rw [he] at hacc
        simp only [List.map_nil, List.sum_nil, add_zero] at hacc
        linarith
      obtain ⟨i, light, h1, h2, h3, h4⟩ := ih (acc - l.emissive / T)
        (fun x hx => hpos x (List.mem_cons_of_mem _ hx)) hrest (by linarith)
      refine ⟨i + 1, light, by simpa using h1, ?_, Or.inr ?_, ?_⟩
      · simp only [light_pick_loop, if_neg h, h2, List.take_succ_cons, List.map_cons,
          List.sum_cons]
        congr 3
        ring
      · simp only [List.take_succ_cons, List.map_cons, List.sum_cons]
        rcases h3 with rfl | h3
        · simp only [List.take_zero, List.map_nil, List.sum_nil, add_zero]
          linarith
        · linarith
      · simp only [List.take_succ_cons, List.map_cons, List.sum_cons] at h4 ⊢
        linarith

/-- C28: for at least one light, all emissive values positive and `e1 ∈ [0, 1]`,
`terra_light_pick_power_proportional` passes its assertion and picks the light `i` with
`Σ_{j<i} α_j < e1 ≤ Σ_{j≤i} α_j` (light 0 when `e1 ≤ α_0`), where
`α_j = emissive_j / Σ emissive`; the rewritten `e1` is `(e1 - Σ_{j<i} α_j) / α_i` and
lies in `[0, 1]`. -/
theorem light_pick_power_proportional_spec (lights : List TerraLight) (e1 : ℚ)
    (hne : lights ≠ []) (hpos : ∀ l ∈ lights, 0 < l.emissive) (h0 : 0 ≤ e1) (h1 : e1 ≤ 1) :
    ∃ i light e,
      terra_light_pick_power_proportional lights e1 = some (light, e) ∧
      lights[i]? = some light ∧
      (i = 0 ∨ ((lights.take i).map
        (fun l => l.emissive / (lights.map (fun l => l.emissive)).sum)).sum < e1) ∧
      e1 ≤ ((lights.take (i + 1)).map
        (fun l => l.emissive / (lights.map (fun l => l.emissive)).sum)).sum ∧
      e = (e1 - ((lights.take i).map
          (fun l => l.emissive / (lights.map (fun l => l.emissive)).sum)).sum) /
        (light.emissive / (lights.map (fun l => l.emissive)).sum) ∧
      0 ≤ e ∧ e ≤ 1 := by
  have hT : 0 < (lights.map (fun l => l.emissive)).sum := by
    cases lights with
    | nil => exact absurd rfl hne
    | cons l ls =>
      simp only [List.map_cons, List.sum_cons]
      have h1 := hpos l (List.mem_cons_self _ _)
      have h2 : 0 ≤ (ls.map (fun l => l.emissive)).sum :=
        List.sum_nonneg (fun x hx => by
          obtain ⟨y, hy, rfl⟩ := List.mem_map.mp hx
          exact (hpos y (List.mem_cons_of_mem _ hy)).le)
      linarith
  have hsum : (lights.map (fun l => l.emissive / (lights.map (fun l => l.emissive)).sum)).sum
      = 1 := by
    have : ∀ (ls : List TerraLight) (T : ℚ),
        (ls.map (fun l => l.emissive / T)).sum = (ls.map (fun l => l.emissive)).sum / T := by
      intro ls T
      induction ls with
      | nil => simp
      | cons a as ih => simp only [List.map_cons, List.sum_cons, ih]; ring
    rw [this, div_self hT.ne']
  obtain ⟨i, light, a1, a2, a3, a4⟩ := light_pick_loop_spec
    (lights.map (fun l => l.emissive)).sum lights e1
    (fun l hl => div_pos (hpos l hl) hT) hne (by rw [hsum]; exact h1)
  have hlm : light ∈ lights := by
    obtain ⟨hi, he⟩ := List.getElem?_eq_some_iff.mp a1
    rw [← he]; exact List.getElem_mem _
  have hα := div_pos (hpos light hlm) hT
  have htake : ((lights.take (i + 1)).map
      (fun l => l.emissive / (lights.map (fun l => l.emissive)).sum)).sum =
      ((lights.take i).map
        (fun l => l.emissive / (lights.map (fun l => l.emissive)).sum)).sum +
      light.emissive / (lights.map (fun l => l.emissive)).sum := by
    rw [List.take_succ, a1]
    simp
  refine ⟨i, light, _, ?_, a1, a3, a4, rfl, ?_, ?_⟩
  · simp only [terra_light_pick_power_proportional, foldl_emissive_eq_sum, zero_add]
    exact a2
  · apply div_nonneg _ hα.le
    rcases a3 with rfl | a3
    · simpa using h0
    · linarith
  · rw [div_le_one hα]
    linarith

/-- Two lights of emissive values 1 and 3 and `e1 = 1/2`. -/
theorem light_pick_power_proportional_spec_witness :
    ∃ i light e,
      terra_light_pick_power_proportional [unit_light 1, unit_light 3] (1 / 2) =
        some (light, e) ∧
      [unit_light 1, unit_light 3][i]? = some light ∧
      (i = 0 ∨ (([unit_light 1, unit_light 3].take i).map
        (fun l => l.emissive /
          ([unit_light 1, unit_light 3].map (fun l => l.emissive)).sum)).sum < 1 / 2) ∧
      1 / 2 ≤ (([unit_light 1, unit_light 3].take (i + 1)).map
        (fun l => l.emissive /
          ([unit_light 1, unit_light 3].map (fun l => l.emissive)).sum)).sum ∧
      e = (1 / 2 - (([unit_light 1, unit_light 3].take i).map
          (fun l => l.emissive /
            ([unit_light 1, unit_light 3].map (fun l => l.emissive)).sum)).sum) /
        (light.emissive / ([unit_light 1, unit_light 3].map (fun l => l.emissive)).sum) ∧
      0 ≤ e ∧ e ≤ 1 :=
  light_pick_power_proportional_spec [unit_light 1, unit_light 3] (1 / 2) (by simp)
    (by simp [unit_light]) (by norm_num) (by norm_num)

/-- The multiplier is `albedo` scaled by a factor in `[0, 1]`, and the factor is 1 when
`(n · L) / π ≥ ε`. -/
theorem lambert_multiplier_factor (albedo : TerraFloat3) (NoL : ℚ) :
    ∃ r : ℚ, 0 ≤ r ∧ r ≤ 1 ∧ (NoL / terra_PI ≥ terra_Epsilon → r = 1) ∧
      lambert_multiplier albedo NoL = ⟨albedo.x * r, albedo.y * r, albedo.z * r⟩ := by
  have hpi : (0 : ℚ) < terra_PI := by norm_num [terra_PI]
  have he : (0 : ℚ) < terra_Epsilon := by norm_num [terra_Epsilon]
  have hp : 0 < terra_maxf (NoL / terra_PI) terra_Epsilon := by
    rw [terra_maxf_eq]; exact lt_of_lt_of_le he (le_max_right _ _)
  have hn : 0 ≤ terra_maxf 0 NoL / terra_PI := by
    rw [terra_maxf_eq]; exact div_nonneg (le_max_left _ _) hpi.le
  have hle : terra_maxf 0 NoL / terra_PI ≤ terra_maxf (NoL / terra_PI) terra_Epsilon := by
    rw [terra_maxf_eq, terra_maxf_eq]
    rcases le_total NoL 0 with h | h
    · rw [max_eq_left h, zero_div]; exact le_trans he.le (le_max_right _ _)
    · rw [max_eq_right h]; exact le_max_left _ _
  refine ⟨terra_maxf 0 NoL / terra_PI / terra_maxf (NoL / terra_PI) terra_Epsilon,
    div_nonneg hn hp.le, (div_le_one hp).mpr hle, fun hge => ?_, ?_⟩
  · have h1 : terra_maxf (NoL / terra_PI) terra_Epsilon = NoL / terra_PI := by
      rw [terra_maxf_eq]; exact max_eq_left hge
    have h2 : terra_maxf 0 NoL = NoL := by
      rw [terra_maxf_eq]
      apply max_eq_right
      have : 0 < NoL / terra_PI := lt_of_lt_of_le he hge
      exact (div_pos_iff_of_pos_right hpi).mp this |>.le
    rw [h1, h2]
    exact div_self (ne_of_gt (lt_of_lt_of_le he hge))
  · simp only [lambert_multiplier, terra_mulf3, terra_f3_set, TerraFloat3.mk.injEq]
    have hne := hp.ne'
    refine ⟨?_, ?_, ?_⟩ <;> field_simp

/-- C29: for a hit on a diffuse material with constant albedo `≥ 0`, with direct light
sampling disabled, one bounce of `terra_trace` multiplies the throughput by
`shade(L) · w_B / p_B` for the sampled direction `L`; this factor is componentwise
between 0 and the albedo for every `n · L`, and equals the albedo whenever
`(n · L) / π ≥ ε`; hence with albedo `≤ 1` and a non-negative throughput the throughput
does not increase. -/
theorem diffuse_throughput_bounded {σ : Type} (sqrtf cosf sinf : ℚ → ℚ)
    (rand : σ → Nat × σ) (RAND_MAX : Nat)
    (find_closest : TerraRay → Option (TerraMaterial × TerraShadingContext × TerraFloat3))
    (env : TerraFloat3 → TerraFloat3) (lights : List TerraLight) (opts : TerraSceneOptions)
    (s : TraceState σ) (material : TerraMaterial) (ctx : TerraShadingContext)
    (point : TerraFloat3)
    (hd : opts.enable_direct_light_sampling = false)
    (hhit : find_closest s.ray = some (material, ctx, point))
    (hbsdf : material.bsdf = terra_bsdf_init_diffuse sqrtf cosf sinf material.bsdf)
    (halb : material.attributes.albedo.map.pixels = none)
    (hem : material.attributes.emissive.map.pixels = none)
    (hx : 0 ≤ material.attributes.albedo.value.x)
    (hy : 0 ≤ material.attributes.albedo.value.y)
    (hz : 0 ≤ material.attributes.albedo.value.z) :
    (∃ s2 L, trace_bounce sqrtf cosf sinf rand RAND_MAX find_closest env lights opts s =
        some (false, s2) ∧
      s2.throughput = terra_pointf3 s.throughput
        (lambert_multiplier material.attributes.albedo.value (terra_dotf3 ctx.normal L)) ∧
      (material.attributes.albedo.value.x ≤ 1 → material.attributes.albedo.value.y ≤ 1 →
        material.attributes.albedo.value.z ≤ 1 →
        0 ≤ s.throughput.x → 0 ≤ s.throughput.y → 0 ≤ s.throughput.z →
        s2.throughput.x ≤ s.throughput.x ∧ s2.throughput.y ≤ s.throughput.y ∧
          s2.throughput.z ≤ s.throughput.z)) ∧
    (∀ NoL : ℚ,
      0 ≤ (lambert_multiplier material.attributes.albedo.value NoL).x ∧
      (lambert_multiplier material.attributes.albedo.value NoL).x ≤
        material.attributes.albedo.value.x ∧
      0 ≤ (lambert_multiplier material.attributes.albedo.value NoL).y ∧
      (lambert_multiplier material.attributes.albedo.value NoL).y ≤
        material.attributes.albedo.value.y ∧
      0 ≤ (lambert_multiplier material.attributes.albedo.value NoL).z ∧
      (lambert_multiplier material.attributes.albedo.value NoL).z ≤
        material.attributes.albedo.value.z ∧
      (NoL / terra_PI ≥ terra_Epsilon →
        lambert_multiplier material.attributes.albedo.value NoL =
          material.attributes.albedo.value)) := by
  have hbound : ∀ NoL : ℚ,
      0 ≤ (lambert_multiplier material.attributes.albedo.value NoL).x ∧
      (lambert_multiplier material.attributes.albedo.value NoL).x ≤
        material.attributes.albedo.value.x ∧
      0 ≤ (lambert_multiplier material.attributes.albedo.value NoL).y ∧
      (lambert_multiplier material.attributes.albedo.value NoL).y ≤
        material.attributes.albedo.value.y ∧
      0 ≤ (lambert_multiplier material.attributes.albedo.value NoL).z ∧
      (lambert_multiplier material.attributes.albedo.value NoL).z ≤
        material.attributes.albedo.value.z ∧
      (NoL / terra_PI ≥ terra_Epsilon →
        lambert_multiplier material.attributes.albedo.value NoL =
          material.attributes.albedo.value) := by
    intro NoL
    obtain ⟨r, r0, r1, r2, r3⟩ := lambert_multiplier_factor material.attributes.albedo.value NoL
    rw [r3]
    refine ⟨mul_nonneg hx r0, mul_le_of_le_one_right hx r1, mul_nonneg hy r0,
      mul_le_of_le_one_right hy r1, mul_nonneg hz r0, mul_le_of_le_one_right hz r1,
      fun hge => ?_⟩
    rw [r2 hge, mul_one, mul_one, mul_one]
  refine ⟨?_, hbound⟩
  have h1 : material.bsdf.sample = terra_bsdf_diffuse_sample sqrtf cosf sinf := by
    rw [hbsdf]; rfl
  have h2 : material.bsdf.weight = terra_bsdf_diffuse_weight := by rw [hbsdf]; rfl
  have h3 : material.bsdf.shade = terra_bsdf_diffuse_shade := by rw [hbsdf]; rfl
  obtain ⟨L, hL⟩ : ∃ L, L = terra_transformf3
      (terra_build_rotation_around_normal sqrtf ctx).rot
      (terra_f3_set
        (sqrtf (((rand s.rng).1 : ℚ) / (RAND_MAX : ℚ)) *
          cosf (2 * terra_PI * (((rand (rand s.rng).2).1 : ℚ) / (RAND_MAX : ℚ))))
        (sqrtf (terra_maxf 0 (1 - ((rand s.rng).1 : ℚ) / (RAND_MAX : ℚ))))
        (sqrtf (((rand s.rng).1 : ℚ) / (RAND_MAX : ℚ)) *
          sinf (2 * terra_PI * (((rand (rand s.rng).2).1 : ℚ) / (RAND_MAX : ℚ))))) :=
    ⟨_, rfl⟩
  have hstep : trace_bounce sqrtf cosf sinf rand RAND_MAX find_closest env lights opts s =
      some (false,
        { Lo := terra_addf3 s.Lo (terra_pointf3
            (terra_mulf3 s.throughput material.attributes.emissive.value.x)
            material.attributes.albedo.value),
          throughput := terra_pointf3 s.throughput
            (lambert_multiplier material.attributes.albedo.value (terra_dotf3 ctx.normal L)),
          ray := terra_ray_create point L ctx.normal
            (if terra_dotf3 ctx.normal L < 0 then -1 else 1),
          rng := (rand (rand (rand s.rng).2).2).2 }) := by
    rw [hL]
    simp only [trace_bounce, hhit, terra_eval_attribute, hem, halb, hd, h1, h2, h3,
      terra_bsdf_diffuse_sample, terra_bsdf_diffuse_weight, terra_bsdf_diffuse_shade,
      ne_eq, not_true_eq_false, if_false, Bool.false_eq_true]
    rfl
  refine ⟨_, L, hstep, rfl, ?_⟩
  intro ax ay az tx ty tz
  obtain ⟨b1, b2, b3, b4, b5, b6, _⟩ := hbound (terra_dotf3 ctx.normal L)
  simp only [terra_pointf3, terra_f3_set]
  exact ⟨by nlinarith, by nlinarith, by nlinarith⟩

/-- The first bounce on the single red triangle of the example. -/
theorem diffuse_throughput_bounded_witness :
    (∃ s2 L, trace_bounce (fun x => x) (fun _ => 1) (fun _ => 0) (fun (k : Nat) => (0, k + 1)) 32767
      (single_triangle_closest (fun x => x) ⟨⟨0, 0, 0⟩, ⟨1, 0, 0⟩, ⟨0, 1, 0⟩⟩
        ⟨⟨0, 0, 1⟩, ⟨0, 0, 1⟩, ⟨0, 0, 1⟩, ⟨0, 0⟩, ⟨0, 0⟩, ⟨0, 0⟩⟩
        (diffuse_material (fun x => x) (fun _ => 1) (fun _ => 0) ⟨1, 0, 0⟩ ⟨0, 0, 0⟩))
      (fun _ => ⟨1 / 2, 1 / 2, 1 / 2⟩) [] (options_with .kTerraTonemappingOperatorNone 1)
      first_bounce_state =
        some (false, s2) ∧
      s2.throughput = terra_pointf3 first_bounce_state.throughput
        (lambert_multiplier (diffuse_material (fun x => x) (fun _ => 1) (fun _ => 0) ⟨1, 0, 0⟩ ⟨0, 0, 0⟩).attributes.albedo.value (terra_dotf3
          ({ texcoord := ⟨0, 0⟩, normal := ⟨0, 0, 1⟩ } : TerraShadingContext).normal L)) ∧
      ((diffuse_material (fun x => x) (fun _ => 1) (fun _ => 0) ⟨1, 0, 0⟩ ⟨0, 0, 0⟩).attributes.albedo.value.x ≤ 1 → (diffuse_material (fun x => x) (fun _ => 1) (fun _ => 0) ⟨1, 0, 0⟩ ⟨0, 0, 0⟩).attributes.albedo.value.y ≤ 1 →
        (diffuse_material (fun x => x) (fun _ => 1) (fun _ => 0) ⟨1, 0, 0⟩ ⟨0, 0, 0⟩).attributes.albedo.value.z ≤ 1 →
        0 ≤ first_bounce_state.throughput.x → 0 ≤ first_bounce_state.throughput.y → 0 ≤ first_bounce_state.throughput.z →
        s2.throughput.x ≤ first_bounce_state.throughput.x ∧ s2.throughput.y ≤ first_bounce_state.throughput.y ∧
          s2.throughput.z ≤ first_bounce_state.throughput.z)) ∧
    (∀ NoL : ℚ,
      0 ≤ (lambert_multiplier (diffuse_material (fun x => x) (fun _ => 1) (fun _ => 0) ⟨1, 0, 0⟩ ⟨0, 0, 0⟩).attributes.albedo.value NoL).x ∧
      (lambert_multiplier (diffuse_material (fun x => x) (fun _ => 1) (fun _ => 0) ⟨1, 0, 0⟩ ⟨0, 0, 0⟩).attributes.albedo.value NoL).x ≤
        (diffuse_material (fun x => x) (fun _ => 1) (fun _ => 0) ⟨1, 0, 0⟩ ⟨0, 0, 0⟩).attributes.albedo.value.x ∧
      0 ≤ (lambert_multiplier (diffuse_material (fun x => x) (fun _ => 1) (fun _ => 0) ⟨1, 0, 0⟩ ⟨0, 0, 0⟩).attributes.albedo.value NoL).y ∧
      (lambert_multiplier (diffuse_material (fun x => x) (fun _ => 1) (fun _ => 0) ⟨1, 0, 0⟩ ⟨0, 0, 0⟩).attributes.albedo.value NoL).y ≤
        (diffuse_material (fun x => x) (fun _ => 1) (fun _ => 0) ⟨1, 0, 0⟩ ⟨0, 0, 0⟩).attributes.albedo.value.y ∧
      0 ≤ (lambert_multiplier (diffuse_material (fun x => x) (fun _ => 1) (fun _ => 0) ⟨1, 0, 0⟩ ⟨0, 0, 0⟩).attributes.albedo.value NoL).z ∧
      (lambert_multiplier (diffuse_material (fun x => x) (fun _ => 1) (fun _ => 0) ⟨1, 0, 0⟩ ⟨0, 0, 0⟩).attributes.albedo.value NoL).z ≤
        (diffuse_material (fun x => x) (fun _ => 1) (fun _ => 0) ⟨1, 0, 0⟩ ⟨0, 0, 0⟩).attributes.albedo.value.z ∧
      (NoL / terra_PI ≥ terra_Epsilon →
        lambert_multiplier (diffuse_material (fun x => x) (fun _ => 1) (fun _ => 0) ⟨1, 0, 0⟩ ⟨0, 0, 0⟩).attributes.albedo.value NoL =
          (diffuse_material (fun x => x) (fun _ => 1) (fun _ => 0) ⟨1, 0, 0⟩ ⟨0, 0, 0⟩).attributes.albedo.value)) :=
  diffuse_throughput_bounded (fun x => x) (fun _ => 1) (fun _ => 0)
    (fun (k : Nat) => (0, k + 1)) 32767 _ (fun _ => ⟨1 / 2, 1 / 2, 1 / 2⟩) []
    (options_with .kTerraTonemappingOperatorNone 1) first_bounce_state _ _ _
    rfl example_closest_hit rfl rfl rfl (by norm_num [diffuse_material])
    (by norm_num [diffuse_material]) (by norm_num [diffuse_material])

/-- The rotation built around the normal maps the local vector `(x, s, z)` to a
direction whose component along a unit normal is `s`. -/
theorem rotation_keeps_normal_component (sqrtf : ℚ → ℚ) (ctx : TerraShadingContext)
    (hunit : terra_dotf3 ctx.normal ctx.normal = 1) (x s z : ℚ) :
    terra_dotf3 ctx.normal
      (terra_transformf3 (terra_build_rotation_around_normal sqrtf ctx).rot
        (terra_f3_set x s z)) = s := by
  simp only [terra_dotf3] at hunit
  simp only [terra_build_rotation_around_normal, terra_transformf3, terra_dotf3, terra_f3_set,
    terra_f4, terra_crossf3, terra_mulf3]
  split_ifs <;> linear_combination s * hunit

/-- C24: for every unit shading normal, with `ctx.rot` built by
`terra_build_rotation_around_normal`, and `e1 ∈ [0, 1]`, the direction `L` returned by
`terra_bsdf_diffuse_sample` satisfies `n · L = sqrtf (1 - e1) ≥ 0`, and
`terra_bsdf_diffuse_weight` of `L` is `(n · L) / terra_PI ≥ 0` (for a `sqrtf` that is
non-negative on non-negative arguments). -/
theorem diffuse_sample_cosine (sqrtf cosf sinf : ℚ → ℚ) (material : TerraMaterialAttributes)
    (state : TerraShadingState) (ctx : TerraShadingContext) (e1 e2 e3 : ℚ)
    (hsq : ∀ x, 0 ≤ x → 0 ≤ sqrtf x)
    (hunit : terra_dotf3 ctx.normal ctx.normal = 1) (_h0 : 0 ≤ e1) (h1 : e1 ≤ 1) :
    ∃ L st w,
      terra_bsdf_diffuse_sample sqrtf cosf sinf material state
        (terra_build_rotation_around_normal sqrtf ctx) e1 e2 e3 = some (L, st) ∧
      terra_dotf3 ctx.normal L = sqrtf (1 - e1) ∧ 0 ≤ terra_dotf3 ctx.normal L ∧
      terra_bsdf_diffuse_weight material st L (terra_build_rotation_around_normal sqrtf ctx) =
        some w ∧
      w = terra_dotf3 ctx.normal L / terra_PI ∧ 0 ≤ w := by
  have hmax : terra_maxf 0 (1 - e1) = 1 - e1 := by
    rw [terra_maxf_eq]; exact max_eq_right (by linarith)
  have hdot := rotation_keeps_normal_component sqrtf ctx hunit
    (sqrtf e1 * cosf (2 * terra_PI * e2)) (sqrtf (1 - e1)) (sqrtf e1 * sinf (2 * terra_PI * e2))
  have hnn : 0 ≤ sqrtf (1 - e1) := hsq _ (by linarith)
  have hpi : (0 : ℚ) < terra_PI := by norm_num [terra_PI]
  refine ⟨terra_transformf3 (terra_build_rotation_around_normal sqrtf ctx).rot
      (terra_f3_set (sqrtf e1 * cosf (2 * terra_PI * e2)) (sqrtf (1 - e1))
        (sqrtf e1 * sinf (2 * terra_PI * e2))), state, sqrtf (1 - e1) / terra_PI,
    ?_, hdot, ?_, ?_, ?_, ?_⟩
  · simp only [terra_bsdf_diffuse_sample, hmax]
  · rw [hdot]; exact hnn
  · simp only [terra_bsdf_diffuse_weight]
    rw [show (terra_build_rotation_around_normal sqrtf ctx).normal = ctx.normal from rfl, hdot]
  · rw [hdot]
  · exact div_nonneg hnn hpi.le

/-- The normal `(0, 0, 1)`, `e1 = 1/4`, with the identity standing in for `sqrtf`. -/
theorem diffuse_sample_cosine_witness :
    ∃ L st w,
      terra_bsdf_diffuse_sample (fun x => x) (fun _ => 1) (fun _ => 0)
        (diffuse_material (fun x => x) (fun _ => 1) (fun _ => 0) ⟨1, 0, 0⟩
          ⟨0, 0, 0⟩).attributes
        ⟨⟨0, 0, 0⟩, ⟨0, 0, 0⟩, 0, 0, 0, 0⟩
        (terra_build_rotation_around_normal (fun x => x)
          { texcoord := ⟨0, 0⟩, normal := ⟨0, 0, 1⟩ }) (1 / 4) 0 0 = some (L, st) ∧
      terra_dotf3 ({ texcoord := ⟨0, 0⟩, normal := ⟨0, 0, 1⟩ } : TerraShadingContext).normal L =
        (fun x => x) (1 - 1 / 4) ∧
      0 ≤ terra_dotf3
        ({ texcoord := ⟨0, 0⟩, normal := ⟨0, 0, 1⟩ } : TerraShadingContext).normal L ∧
      terra_bsdf_diffuse_weight
        (diffuse_material (fun x => x) (fun _ => 1) (fun _ => 0) ⟨1, 0, 0⟩
          ⟨0, 0, 0⟩).attributes st L
        (terra_build_rotation_around_normal (fun x => x)
          { texcoord := ⟨0, 0⟩, normal := ⟨0, 0, 1⟩ }) = some w ∧
      w = terra_dotf3
        ({ texcoord := ⟨0, 0⟩, normal := ⟨0, 0, 1⟩ } : TerraShadingContext).normal L /
          terra_PI ∧
      0 ≤ w :=
  diffuse_sample_cosine (fun x => x) (fun _ => 1) (fun _ => 0) _ _
    { texcoord := ⟨0, 0⟩, normal := ⟨0, 0, 1⟩ } (1 / 4) 0 0 (fun _ h => h)
    (by norm_num [terra_dotf3]) (by norm_num) (by norm_num)

/-- Cauchy-Schwarz for unit vectors. -/
theorem dot_unit_bounds (a b : TerraFloat3) (ha : terra_dotf3 a a = 1)
    (hb : terra_dotf3 b b = 1) : -1 ≤ terra_dotf3 a b ∧ terra_dotf3 a b ≤ 1 := by
  simp only [terra_dotf3] at ha hb ⊢
  have h : (a.x * b.x + a.y * b.y + a.z * b.z) ^ 2 ≤ 1 := by
    nlinarith [sq_nonneg (a.x * b.y - a.y * b.x), sq_nonneg (a.x * b.z - a.z * b.x),
      sq_nonneg (a.y * b.z - a.z * b.y)]
  constructor <;> nlinarith

theorem glass_cos_i_bounds (ctx : TerraShadingContext)
    (hn : terra_dotf3 ctx.normal ctx.normal = 1) (hv : terra_dotf3 ctx.view ctx.view = 1) :
    0 ≤ glass_cos_i ctx ∧ glass_cos_i ctx ≤ 1 := by
  have hneg : terra_dotf3 (terra_negf3 ctx.view) (terra_negf3 ctx.view) = 1 := by
    simp only [terra_dotf3, terra_negf3, terra_f3_set] at hv ⊢
    linarith
  obtain ⟨h1, h2⟩ := dot_unit_bounds ctx.normal (terra_negf3 ctx.view) hn hneg
  unfold glass_cos_i glass_cos_i0
  split_ifs with h
  · exact ⟨h.le, h2⟩
  · exact ⟨by linarith [not_lt.mp h], by linarith⟩

theorem glass_R0_bounds (material : TerraMaterialAttributes) (ctx : TerraShadingContext)
    (hior : 1 ≤ material.ior) :
    0 ≤ glass_R0 material ctx ∧ glass_R0 material ctx ≤ 1 := by
  have h1 : 1 ≤ glass_n1 material ctx := by
    unfold glass_n1 terra_ior_air; split_ifs <;> linarith
  have h2 : 1 ≤ glass_n2 material ctx := by
    unfold glass_n2 terra_ior_air; split_ifs <;> linarith
  have hs : 0 < glass_n1 material ctx + glass_n2 material ctx := by linarith
  have ha : (glass_n1 material ctx - glass_n2 material ctx) /
      (glass_n1 material ctx + glass_n2 material ctx) ≤ 1 := by
    rw [div_le_one hs]; linarith
  have hb : -1 ≤ (glass_n1 material ctx - glass_n2 material ctx) /
      (glass_n1 material ctx + glass_n2 material ctx) := by
    rw [le_div_iff₀ hs]; linarith
  unfold glass_R0
  constructor <;> nlinarith

theorem glass_R_bounds (sqrtf : ℚ → ℚ) (material : TerraMaterialAttributes)
    (ctx : TerraShadingContext)
    (hsq : ∀ x, 0 ≤ x → x ≤ 1 → 0 ≤ sqrtf x ∧ sqrtf x ≤ 1) (hior : 1 ≤ material.ior)
    (hn : terra_dotf3 ctx.normal ctx.normal = 1) (hv : terra_dotf3 ctx.view ctx.view = 1)
    (ht : ¬ glass_cos_t2 material ctx < 0) :
    glass_R0 material ctx ≤ glass_R sqrtf material ctx ∧ glass_R sqrtf material ctx ≤ 1 := by
  obtain ⟨c0, c1⟩ := glass_cos_i_bounds ctx hn hv
  obtain ⟨r0, r1⟩ := glass_R0_bounds material ctx hior
  have ht1 : glass_cos_t2 material ctx ≤ 1 := by
    unfold glass_cos_t2
    have : 0 ≤ glass_n1 material ctx / glass_n2 material ctx *
        (glass_n1 material ctx / glass_n2 material ctx) *
        (1 - glass_cos_i ctx * glass_cos_i ctx) :=
      mul_nonneg (mul_self_nonneg _) (by nlinarith)
    simp only []
    linarith
  obtain ⟨s0, s1⟩ := hsq _ (not_lt.mp ht) ht1
  have hc : ∀ c : ℚ, 0 ≤ c → c ≤ 1 →
      glass_R0 material ctx ≤ glass_R0 material ctx +
        (1 - glass_R0 material ctx) * ((1 - c) * (1 - c) * (1 - c) * (1 - c) * (1 - c)) ∧
      glass_R0 material ctx + (1 - glass_R0 material ctx) *
        ((1 - c) * (1 - c) * (1 - c) * (1 - c) * (1 - c)) ≤ 1 := by
    intro c hc0 hc1
    have t0 : 0 ≤ 1 - c := by linarith
    have t1 : 1 - c ≤ 1 := by linarith
    have p0 : 0 ≤ (1 - c) * (1 - c) * (1 - c) * (1 - c) * (1 - c) := by positivity
    have p1 : (1 - c) * (1 - c) * (1 - c) * (1 - c) * (1 - c) ≤ 1 := by
      have := pow_le_one₀ t0 t1 (n := 5)
      calc (1 - c) * (1 - c) * (1 - c) * (1 - c) * (1 - c) = (1 - c) ^ 5 := by ring
        _ ≤ 1 := this
    constructor <;> nlinarith
  unfold glass_R
  simp only []
  split_ifs
  · exact hc _ c0 c1
  · exact hc _ s0 s1

/-- C26: for `ior ≥ 1`, unit normal and unit view vector, after
`terra_bsdf_glass_sample` the stored `fresnel`, which `terra_bsdf_glass_weight` returns,
lies in `[0, 1]`: it is 1 on total internal reflection, `R` when `e3 < R` and `1 - R`
otherwise, where `R = R0 + (1 - R0) (1 - cos)^5` satisfies `R0 ≤ R ≤ 1` and
`R0 = ((n1 - n2) / (n1 + n2))²` (for a `sqrtf` that maps `[0, 1]` into `[0, 1]`). -/
theorem glass_fresnel_in_unit_interval (sqrtf : ℚ → ℚ) (material : TerraMaterialAttributes)
    (state : TerraShadingState) (ctx : TerraShadingContext) (e1 e2 e3 : ℚ)
    (hsq : ∀ x, 0 ≤ x → x ≤ 1 → 0 ≤ sqrtf x ∧ sqrtf x ≤ 1) (hior : 1 ≤ material.ior)
    (hn : terra_dotf3 ctx.normal ctx.normal = 1) (hv : terra_dotf3 ctx.view ctx.view = 1) :
    ∃ L st, terra_bsdf_glass_sample sqrtf material state ctx e1 e2 e3 = some (L, st) ∧
      terra_bsdf_glass_weight material st L ctx = some st.fresnel ∧
      0 ≤ st.fresnel ∧ st.fresnel ≤ 1 ∧
      (glass_cos_t2 material ctx < 0 → st.fresnel = 1) ∧
      (¬ glass_cos_t2 material ctx < 0 → e3 < glass_R sqrtf material ctx →
        st.fresnel = glass_R sqrtf material ctx) ∧
      (¬ glass_cos_t2 material ctx < 0 → ¬ e3 < glass_R sqrtf material ctx →
        st.fresnel = 1 - glass_R sqrtf material ctx) ∧
      (¬ glass_cos_t2 material ctx < 0 →
        glass_R0 material ctx ≤ glass_R sqrtf material ctx ∧
        glass_R sqrtf material ctx ≤ 1) ∧
      glass_R0 material ctx =
        ((glass_n1 material ctx - glass_n2 material ctx) /
          (glass_n1 material ctx + glass_n2 material ctx)) ^ 2 := by
  have hR0 : glass_R0 material ctx =
      ((glass_n1 material ctx - glass_n2 material ctx) /
        (glass_n1 material ctx + glass_n2 material ctx)) ^ 2 := by
    unfold glass_R0; simp only []; ring
  obtain ⟨r0, r1⟩ := glass_R0_bounds material ctx hior
  by_cases ht : glass_cos_t2 material ctx < 0
  · refine ⟨(terra_subf3 (terra_negf3 ctx.view) (terra_mulf3 (glass_normal ctx)
        (2 * terra_dotf3 (glass_normal ctx) (terra_negf3 ctx.view)))),
      { state with fresnel := 1 }, ?_, rfl, by norm_num, by norm_num, fun _ => rfl,
      fun h => absurd ht h, fun h => absurd ht h, fun h => absurd ht h, hR0⟩
    simp only [terra_bsdf_glass_sample, if_pos ht]
  · obtain ⟨b0, b1⟩ := glass_R_bounds sqrtf material ctx hsq hior hn hv ht
    by_cases he : e3 < glass_R sqrtf material ctx
    · refine ⟨(terra_subf3 (terra_negf3 ctx.view) (terra_mulf3 (glass_normal ctx)
        (2 * terra_dotf3 (glass_normal ctx) (terra_negf3 ctx.view)))),
        { state with fresnel := glass_R sqrtf material ctx }, ?_, rfl,
        by simp only []; linarith, b1, fun h => absurd h ht, fun _ _ => rfl,
        fun _ h => absurd he h, fun _ => ⟨b0, b1⟩, hR0⟩
      simp only [terra_bsdf_glass_sample, if_neg ht, if_pos he]
    · refine ⟨(terra_normf3 sqrtf (terra_addf3
        (terra_mulf3 (glass_normal ctx)
          ((glass_n1 material ctx / glass_n2 material ctx) * glass_cos_i ctx -
            sqrtf (glass_cos_t2 material ctx)))
        (terra_mulf3 (terra_negf3 ctx.view) (glass_n1 material ctx / glass_n2 material ctx)))),
        { state with fresnel := 1 - glass_R sqrtf material ctx }, ?_, rfl,
        by simp only []; linarith, by simp only []; linarith, fun h => absurd h ht,
        fun _ h => absurd h he, fun _ _ => rfl, fun _ => ⟨b0, b1⟩, hR0⟩
      simp only [terra_bsdf_glass_sample, if_neg ht, if_neg he]

/-- Glass of index 3/2 seen along the normal `(0, 0, 1)`, with the identity standing in
for `sqrtf`. -/
theorem glass_fresnel_in_unit_interval_witness :
    ∃ L st, terra_bsdf_glass_sample (fun x => x) glass_example ⟨⟨0, 0, 0⟩, ⟨0, 0, 0⟩, 0, 0, 0, 0⟩
        { texcoord := ⟨0, 0⟩, normal := ⟨0, 0, 1⟩, view := ⟨0, 0, 1⟩ } 0 0 (1 / 2) =
        some (L, st) ∧
      terra_bsdf_glass_weight glass_example st L
        { texcoord := ⟨0, 0⟩, normal := ⟨0, 0, 1⟩, view := ⟨0, 0, 1⟩ } = some st.fresnel ∧
      0 ≤ st.fresnel ∧ st.fresnel ≤ 1 ∧
      (glass_cos_t2 glass_example
        { texcoord := ⟨0, 0⟩, normal := ⟨0, 0, 1⟩, view := ⟨0, 0, 1⟩ } < 0 → st.fresnel = 1) ∧
      (¬ glass_cos_t2 glass_example
          { texcoord := ⟨0, 0⟩, normal := ⟨0, 0, 1⟩, view := ⟨0, 0, 1⟩ } < 0 →
        1 / 2 < glass_R (fun x => x) glass_example
          { texcoord := ⟨0, 0⟩, normal := ⟨0, 0, 1⟩, view := ⟨0, 0, 1⟩ } →
        st.fresnel = glass_R (fun x => x) glass_example
          { texcoord := ⟨0, 0⟩, normal := ⟨0, 0, 1⟩, view := ⟨0, 0, 1⟩ }) ∧
      (¬ glass_cos_t2 glass_example
          { texcoord := ⟨0, 0⟩, normal := ⟨0, 0, 1⟩, view := ⟨0, 0, 1⟩ } < 0 →
        ¬ 1 / 2 < glass_R (fun x => x) glass_example
          { texcoord := ⟨0, 0⟩, normal := ⟨0, 0, 1⟩, view := ⟨0, 0, 1⟩ } →
        st.fresnel = 1 - glass_R (fun x => x) glass_example
          { texcoord := ⟨0, 0⟩, normal := ⟨0, 0, 1⟩, view := ⟨0, 0, 1⟩ }) ∧
      (¬ glass_cos_t2 glass_example
          { texcoord := ⟨0, 0⟩, normal := ⟨0, 0, 1⟩, view := ⟨0, 0, 1⟩ } < 0 →
        glass_R0 glass_example
          { texcoord := ⟨0, 0⟩, normal := ⟨0, 0, 1⟩, view := ⟨0, 0, 1⟩ } ≤
          glass_R (fun x => x) glass_example
            { texcoord := ⟨0, 0⟩, normal := ⟨0, 0, 1⟩, view := ⟨0, 0, 1⟩ } ∧
        glass_R (fun x => x) glass_example
          { texcoord := ⟨0, 0⟩, normal := ⟨0, 0, 1⟩, view := ⟨0, 0, 1⟩ } ≤ 1) ∧
      glass_R0 glass_example
          { texcoord := ⟨0, 0⟩, normal := ⟨0, 0, 1⟩, view := ⟨0, 0, 1⟩ } =
        ((glass_n1 glass_example
            { texcoord := ⟨0, 0⟩, normal := ⟨0, 0, 1⟩, view := ⟨0, 0, 1⟩ } -
          glass_n2 glass_example
            { texcoord := ⟨0, 0⟩, normal := ⟨0, 0, 1⟩, view := ⟨0, 0, 1⟩ }) /
          (glass_n1 glass_example
            { texcoord := ⟨0, 0⟩, normal := ⟨0, 0, 1⟩, view := ⟨0, 0, 1⟩ } +
          glass_n2 glass_example
            { texcoord := ⟨0, 0⟩, normal := ⟨0, 0, 1⟩, view := ⟨0, 0, 1⟩ })) ^ 2 :=
  glass_fresnel_in_unit_interval (fun x => x) glass_example ⟨⟨0, 0, 0⟩, ⟨0, 0, 0⟩, 0, 0, 0, 0⟩
    { texcoord := ⟨0, 0⟩, normal := ⟨0, 0, 1⟩, view := ⟨0, 0, 1⟩ } 0 0 (1 / 2)
    (fun _ h0 h1 => ⟨h0, h1⟩) (by norm_num [glass_example]) (by norm_num [terra_dotf3])
    (by norm_num [terra_dotf3])

/-- C25 (failing input): roughness 1, metalness 1/2, normal `(0, 1, 0)`, unit view
vector `(0, 4/5, -3/5)` (so `n · V = 4/5 > 0`), `e1 = 16/25`, `e2 = 0`, `e3 = 1`.  The
specular branch samples the half vector `(0, 3/5, 4/5)`, perpendicular to the view
vector, and returns `L = -V` below the surface; the weight is
`(n · L)/π · 1/2 + D · (n · h) · 1/2 = (-4/5 + 3/5) / (2π) < 0`. -/
theorem rough_dielectric_weight_negative :
    ∃ st, terra_bsdf_rough_dielectric_sample rough_sqrtf rough_cosf rough_sinf rough_atanf
        rough_example ⟨⟨0, 0, 0⟩, ⟨0, 0, 0⟩, 0, 0, 0, 0⟩
        (terra_build_rotation_around_normal rough_sqrtf
          { texcoord := ⟨0, 0⟩, normal := ⟨0, 1, 0⟩, view := ⟨0, 4 / 5, -3 / 5⟩ })
        (16 / 25) 0 1 = some (⟨0, -4 / 5, 3 / 5⟩, st) ∧
      st.half_vector = ⟨0, 3 / 5, 4 / 5⟩ ∧
      terra_bsdf_rough_dielectric_weight rough_example st ⟨0, -4 / 5, 3 / 5⟩
        (terra_build_rotation_around_normal rough_sqrtf
          { texcoord := ⟨0, 0⟩, normal := ⟨0, 1, 0⟩, view := ⟨0, 4 / 5, -3 / 5⟩ }) =
        some (-(1 / 10) / terra_PI) ∧
      -(1 / 10) / terra_PI < 0 := by
  have hs : terra_bsdf_rough_dielectric_sample rough_sqrtf rough_cosf rough_sinf rough_atanf
      rough_example ⟨⟨0, 0, 0⟩, ⟨0, 0, 0⟩, 0, 0, 0, 0⟩
      (terra_build_rotation_around_normal rough_sqrtf
        { texcoord := ⟨0, 0⟩, normal := ⟨0, 1, 0⟩, view := ⟨0, 4 / 5, -3 / 5⟩ })
      (16 / 25) 0 1 =
      some (⟨0, -4 / 5, 3 / 5⟩, ⟨⟨0, 3 / 5, 4 / 5⟩, ⟨0, 0, 0⟩, 1, 1 / 2, 0, 0⟩) := by
    norm_num [terra_bsdf_rough_dielectric_sample, terra_eval_attribute, rough_example,
      no_texture, terra_build_rotation_around_normal, rough_sqrtf, rough_cosf, rough_sinf,
      rough_atanf, terra_transformf3, terra_dotf3, terra_crossf3, terra_mulf3, terra_subf3,
      terra_normf3, terra_lenf3, terra_f3_set, terra_f4, terra_maxf, terra_PI]
  refine ⟨_, hs, rfl, ?_, ?_⟩
  · norm_num [terra_bsdf_rough_dielectric_weight, terra_bsdf_diffuse_weight,
      terra_brdf_ctggx_D, terra_brdf_ctggx_chi, terra_build_rotation_around_normal,
      rough_example, terra_dotf3, terra_PI]
  · norm_num [terra_PI]

/-- C23 (failing input): for the empty environment map (`pixels == NULL`,
`width = height = 0`) and every direction, `terra_sample_hdr_cubemap` does not yield a
colour: `terra_read_hdr_texture` has no check for `NULL` and the first read, at index
`(0 * 0 + 0) * 3`, goes through the null pointer. -/
theorem sample_empty_cubemap_reads_null (sqrtf acosf : ℚ → ℚ) (atan2f : ℚ → ℚ → ℚ)
    (dir : TerraFloat3) :
    (∀ x y : Int, terra_read_hdr_texture ⟨none, 0, 0⟩ x y = none) ∧
    terra_sample_hdr_cubemap sqrtf acosf atan2f ⟨none, 0, 0⟩ dir = none := by
  constructor
  · intro x y; rfl
  · simp only [terra_sample_hdr_cubemap, terra_read_hdr_texture]

/-- The KD-tree of `lamp_scene` is a single leaf. -/
theorem lamp_scene_kdtree :
    terra_kdtree_create (fun _ l => l) (scene_geometry lamp_scene) =
      some { nodes := [⟨0, true, 0, 0, 0⟩],
             object_buffers := [kd_scene_refs 0 (scene_geometry lamp_scene).objects],
             scene_aabb := scene_aabb (scene_geometry lamp_scene) } := by
  have hgeo : scene_geometry lamp_scene = ⟨[⟨[⟨⟨0, 0, 0⟩, ⟨1, 0, 0⟩, ⟨0, 1, 0⟩⟩]⟩]⟩ := rfl
  rw [hgeo]
  have hbox : scene_aabb ⟨[⟨[⟨⟨0, 0, 0⟩, ⟨1, 0, 0⟩, ⟨0, 1, 0⟩⟩]⟩]⟩ =
      ⟨⟨-1 / 10000, -1 / 10000, -1 / 10000⟩,
        ⟨1 + 1 / 10000, 1 + 1 / 10000, 1 / 10000⟩⟩ := by
    norm_num [scene_aabb, scene_triangles, terra_aabb_fit_triangle, empty_aabb,
      terra_f3_set1, terra_minf, terra_maxf, terra_Epsilon, FLT_MAX]
  have hcache : kd_aabb_cache ⟨[⟨[⟨⟨0, 0, 0⟩, ⟨1, 0, 0⟩, ⟨0, 1, 0⟩⟩]⟩]⟩
      (kd_scene_refs 0 [⟨[⟨⟨0, 0, 0⟩, ⟨1, 0, 0⟩, ⟨0, 1, 0⟩⟩]⟩]) =
      some [⟨⟨-1 / 10000, -1 / 10000, -1 / 10000⟩,
        ⟨1 + 1 / 10000, 1 + 1 / 10000, 1 / 10000⟩⟩] := by
    norm_num [kd_aabb_cache, kd_scene_refs, kd_object_refs, scene_triangle,
      terra_aabb_fit_triangle, empty_aabb, terra_f3_set1, terra_minf, terra_maxf,
      terra_Epsilon, FLT_MAX]
  unfold terra_kdtree_create
  unfold terra_kdtree_create_rec
  simp only [List.getElem?_cons_zero, hcache]
  rw [hbox]
  norm_num [kd_collect_splits, terra_kdtree_add_splitbuffer, kd_count_splits, kd_cost_loop,
    kd_partition, terra__comp, terra__comp_set, FLT_MAX, kd_scene_refs, kd_object_refs]

/-- Whenever `terra_scene_end` returns, the light array and its count are those it was
given: nothing in it writes either of them. -/
theorem terra_scene_end_keeps_lights
    (qsort_bvh : (TerraBVHVolume → TerraBVHVolume → Int) → List TerraBVHVolume →
      List TerraBVHVolume)
    (qsort_kd : (TerraKDSplit → TerraKDSplit → Int) → List TerraKDSplit → List TerraKDSplit)
    (powf : ℚ → ℚ → ℚ) (fuel : Nat) (scene result : TerraSceneData)
    (h : terra_scene_end qsort_bvh qsort_kd powf fuel scene = some result) :
    result.lights = scene.lights ∧ result.lights_count = scene.lights_count := by
  unfold terra_scene_end at h
  cases hacc : scene.opts.accelerator <;> simp only [hacc] at h
  · cases hb : terra_bvh_create qsort_bvh (scene_geometry scene) fuel <;>
      simp only [hb, Option.map_none', Option.map_some'] at h
    · exact absurd h (by simp)
    · cases hp : prepare_objects powf scene.objects <;> simp only [hp] at h
      · exact absurd h (by simp)
      · cases h; exact ⟨rfl, rfl⟩
  · cases hb : terra_kdtree_create qsort_kd (scene_geometry scene) <;>
      simp only [hb, Option.map_none', Option.map_some'] at h
    · exact absurd h (by simp)
    · cases hp : prepare_objects powf scene.objects <;> simp only [hp] at h
      · exact absurd h (by simp)
      · cases h; exact ⟨rfl, rfl⟩

/-- C21 (code diverges): `terra_scene_end` builds no lights.  On `lamp_scene`, whose only
object has emission `(5, 5, 5)`, it returns a scene in which that object is still the one
emissive object while `lights` is empty and `lights_count` is `0`. -/
theorem scene_end_builds_no_lights :
    ∃ scene : TerraSceneData,
      terra_scene_end (fun _ l => l) (fun _ l => l) (fun x _ => x) 1 lamp_scene = some scene ∧
      (emissive_objects scene).length = 1 ∧
      scene.lights = [] ∧ scene.lights_count = 0 := by
  have hprep : prepare_objects (fun x _ => x) lamp_scene.objects = some [lamp_object] := rfl
  have hstep : terra_scene_end (fun _ l => l) (fun _ l => l) (fun x _ => x) 1 lamp_scene =
      some ⟨lamp_scene.opts, [lamp_object], [], 0, none,
        some ⟨[⟨0, true, 0, 0, 0⟩], [kd_scene_refs 0 (scene_geometry lamp_scene).objects],
          scene_aabb (scene_geometry lamp_scene)⟩⟩ := by
    have hacc : lamp_scene.opts.accelerator = .kTerraAcceleratorKDTree := rfl
    unfold terra_scene_end
    simp only [hacc, lamp_scene_kdtree, Option.map_some', hprep]
    rfl
  refine ⟨_, hstep, ?_, rfl, rfl⟩
  simp [emissive_objects, lamp_object, diffuse_material]

/-- The conversion `(uint8_t)q` of a float in `[0, 256)` is its floor. -/
theorem c_uint8_eq_floor (q : ℚ) (h0 : 0 ≤ q) (h1 : q < 256) : c_uint8 q = Nat.floor q := by
  have hfl : c_int q = Int.floor q := by
    apply c_int_eq_of_nonneg q _ h0 (Int.floor_le q)
    exact_mod_cast Int.lt_floor_add_one q
  have hnn : 0 ≤ Int.floor q := Int.floor_nonneg.mpr h0
  have hlt : Int.floor q < 256 := Int.floor_lt.mpr (by exact_mod_cast h1)
  unfold c_uint8
  rw [hfl, Int.emod_eq_of_lt hnn hlt]
  rfl

/-- A prepared texture that has pixels has its sRGB flag clear. -/
theorem prepare_texture_clears_flag (powf : ℚ → ℚ → ℚ) (t u : TerraTexture)
    (h : terra_prepare_texture powf t = some u) (hp : u.pixels ≠ none) : u.srgb = false := by
  unfold terra_prepare_texture at h
  cases hpx : t.pixels with
  | none =>
    simp only [hpx] at h
    cases h
    exact absurd hpx hp
  | some px =>
    simp only [hpx] at h
    cases hs : t.srgb with
    | false =>
      simp only [hs] at h
      cases h
      exact hs
    | true =>
      simp only [hs, if_true] at h
      split at h
      · cases h; rfl
      · exact absurd h (by simp)

/-- The maps of a prepared object that have pixels have their sRGB flag clear. -/
theorem prepare_material_clears_flags (powf : ℚ → ℚ → ℚ) (o o2 : TerraSceneObject)
    (h : prepare_material powf o = some o2) :
    ∀ m ∈ material_maps o2, m.pixels ≠ none → m.srgb = false := by
  unfold prepare_material at h
  cases ha : terra_prepare_texture powf o.material.attributes.albedo.map with
  | none => simp [ha] at h
  | some a =>
    cases he : terra_prepare_texture powf o.material.attributes.emissive.map with
    | none => simp [ha, he] at h
    | some e =>
      cases hm : terra_prepare_texture powf o.material.attributes.metalness.map with
      | none => simp [ha, he, hm] at h
      | some mt =>
        cases hr : terra_prepare_texture powf o.material.attributes.roughness.map with
        | none => simp [ha, he, hm, hr] at h
        | some r =>
          simp only [ha, he, hm, hr, Option.some.injEq] at h
          subst h
          intro m hmem hp
          simp only [material_maps, List.mem_cons, List.mem_singleton, List.not_mem_nil,
            or_false] at hmem
          rcases hmem with rfl | rfl | rfl | rfl
          · exact prepare_texture_clears_flag powf _ _ ha hp
          · exact prepare_texture_clears_flag powf _ _ he hp
          · exact prepare_texture_clears_flag powf _ _ hm hp
          · exact prepare_texture_clears_flag powf _ _ hr hp

/-- The same for the whole object array. -/
theorem prepare_objects_clears_flags (powf : ℚ → ℚ → ℚ) :
    ∀ (os os2 : List TerraSceneObject), prepare_objects powf os = some os2 →
      ∀ o ∈ os2, ∀ m ∈ material_maps o, m.pixels ≠ none → m.srgb = false := by
  intro os
  induction os with
  | nil =>
    intro os2 h o ho
    simp only [prepare_objects, Option.some.injEq] at h
    subst h
    simp at ho
  | cons a as ih =>
    intro os2 h o ho
    unfold prepare_objects at h
    cases h1 : prepare_material powf a with
    | none => simp [h1] at h
    | some a2 =>
      cases h2 : prepare_objects powf as with
      | none => simp [h1, h2] at h
      | some as2 =>
        simp only [h1, h2, Option.some.injEq] at h
        subst h
        rcases List.mem_cons.mp ho with rfl | hmem
        · exact prepare_material_clears_flags powf a _ h1
        · exact ih as2 h2 o hmem

/-- The objects `terra_scene_end` returns are the prepared objects of its argument. -/
theorem terra_scene_end_objects
    (qsort_bvh : (TerraBVHVolume → TerraBVHVolume → Int) → List TerraBVHVolume →
      List TerraBVHVolume)
    (qsort_kd : (TerraKDSplit → TerraKDSplit → Int) → List TerraKDSplit → List TerraKDSplit)
    (powf : ℚ → ℚ → ℚ) (fuel : Nat) (scene result : TerraSceneData)
    (h : terra_scene_end qsort_bvh qsort_kd powf fuel scene = some result) :
    prepare_objects powf scene.objects = some result.objects := by
  unfold terra_scene_end at h
  cases hacc : scene.opts.accelerator <;> simp only [hacc] at h
  · cases hb : terra_bvh_create qsort_bvh (scene_geometry scene) fuel <;>
      simp only [hb, Option.map_none', Option.map_some'] at h
    · exact absurd h (by simp)
    · cases hp : prepare_objects powf scene.objects <;> simp only [hp] at h
      · exact absurd h (by simp)
      · cases h; rfl
  · cases hb : terra_kdtree_create qsort_kd (scene_geometry scene) <;>
      simp only [hb, Option.map_none', Option.map_some'] at h
    · exact absurd h (by simp)
    · cases hp : prepare_objects powf scene.objects <;> simp only [hp] at h
      · exact absurd h (by simp)
      · cases h; rfl

/-- With the KD-tree selected, `terra_scene_end` stores the tree and the prepared
objects and leaves every other member as it was. -/
theorem terra_scene_end_kdtree
    (qsort_bvh : (TerraBVHVolume → TerraBVHVolume → Int) → List TerraBVHVolume →
      List TerraBVHVolume)
    (qsort_kd : (TerraKDSplit → TerraKDSplit → Int) → List TerraKDSplit → List TerraKDSplit)
    (powf : ℚ → ℚ → ℚ) (fuel : Nat) (scene : TerraSceneData) (kdtree : TerraKDTree)
    (objects : List TerraSceneObject)
    (hacc : scene.opts.accelerator = .kTerraAcceleratorKDTree)
    (hk : terra_kdtree_create qsort_kd (scene_geometry scene) = some kdtree)
    (hp : prepare_objects powf scene.objects = some objects) :
    terra_scene_end qsort_bvh qsort_kd powf fuel scene =
      some ⟨scene.opts, objects, scene.lights, scene.lights_count, scene.bvh, some kdtree⟩ := by
  unfold terra_scene_end
  simp only [hacc, hk, Option.map_some', hp]

/-- Preparing the object of `albedo_map_scene map` prepares its albedo map: the other
three maps have no pixels. -/
theorem albedo_map_object_prepare (powf : ℚ → ℚ → ℚ) (map map2 : TerraTexture)
    (h : terra_prepare_texture powf map = some map2) :
    prepare_objects powf [albedo_map_object map] = some [albedo_map_object map2] := by
  have hno : terra_prepare_texture powf no_texture = some no_texture := rfl
  have ha : (albedo_map_object map).material.attributes.albedo.map = map := rfl
  have he : (albedo_map_object map).material.attributes.emissive.map = no_texture := rfl
  have hm : (albedo_map_object map).material.attributes.metalness.map = no_texture := rfl
  have hr : (albedo_map_object map).material.attributes.roughness.map = no_texture := rfl
  simp only [prepare_objects, prepare_material, ha, he, hm, hr, h, hno]
  rfl

/-- On `albedo_map_scene map`, `terra_scene_end` builds the single-leaf KD-tree and
replaces the albedo map by the prepared one. -/
theorem albedo_map_scene_end (powf : ℚ → ℚ → ℚ) (map map2 : TerraTexture)
    (h : terra_prepare_texture powf map = some map2) :
    terra_scene_end (fun _ l => l) (fun _ l => l) powf 1 (albedo_map_scene map) =
      some ⟨(albedo_map_scene map).opts, [albedo_map_object map2], [], 0, none,
        some ⟨[⟨0, true, 0, 0, 0⟩], [kd_scene_refs 0 (scene_geometry lamp_scene).objects],
          scene_aabb (scene_geometry lamp_scene)⟩⟩ := by
  have hgeo : scene_geometry (albedo_map_scene map) = scene_geometry lamp_scene := rfl
  have hk := lamp_scene_kdtree
  rw [← hgeo] at hk
  rw [← hgeo]
  exact terra_scene_end_kdtree _ _ powf 1 (albedo_map_scene map) _ _ rfl hk
    (albedo_map_object_prepare powf map map2 h)

/-- C22 (counterexample): a map without pixels keeps its sRGB flag.  On the scene whose
albedo map is `flagged_texture`, `terra_scene_end` returns a scene whose albedo map still
has `srgb` set. -/
theorem scene_end_keeps_flag_without_pixels :
    ∃ scene : TerraSceneData,
      terra_scene_end (fun _ l => l) (fun _ l => l) square_powf 1
        (albedo_map_scene flagged_texture) = some scene ∧
      scene.objects.map (fun o => o.material.attributes.albedo.map.srgb) = [true] :=
  ⟨_, albedo_map_scene_end square_powf flagged_texture flagged_texture rfl, rfl⟩

/-- C22 (amended): for a `powf` that maps `[0, 1]` into `[0, 1]` at exponent 2.2,
`terra_prepare_texture` on a texture flagged sRGB whose `width · height · comps` bytes
are `px` rewrites each byte `p` to `⌊powf(p / 255, 2.2) · 255⌋` and clears the flag, and
a second call returns that texture unchanged; a texture with the flag clear or without
pixels is returned unchanged; and in the scene `terra_scene_end` returns, every albedo,
emissive, metalness or roughness map that has pixels has the flag clear. -/
theorem prepare_texture_linearizes_once (powf : ℚ → ℚ → ℚ)
    (hpow : ∀ x : ℚ, 0 ≤ x → x ≤ 1 → 0 ≤ powf x (22 / 10) ∧ powf x (22 / 10) ≤ 1) :
    (∀ (t : TerraTexture) (px : List Nat), t.pixels = some px →
        px.length = t.width * t.height * t.comps → (∀ p ∈ px, p ≤ 255) → t.srgb = true →
        terra_prepare_texture powf t =
          some ⟨some (px.map (linearized_byte powf)), t.width, t.height, t.comps, t.offset,
            t.filter, t.address_mode, false⟩ ∧
        terra_prepare_texture powf
            ⟨some (px.map (linearized_byte powf)), t.width, t.height, t.comps, t.offset,
              t.filter, t.address_mode, false⟩ =
          some ⟨some (px.map (linearized_byte powf)), t.width, t.height, t.comps, t.offset,
            t.filter, t.address_mode, false⟩) ∧
    (∀ t : TerraTexture, t.srgb = false ∨ t.pixels = none →
        terra_prepare_texture powf t = some t) ∧
    (∀ (qsort_bvh : (TerraBVHVolume → TerraBVHVolume → Int) → List TerraBVHVolume →
          List TerraBVHVolume)
        (qsort_kd : (TerraKDSplit → TerraKDSplit → Int) → List TerraKDSplit →
          List TerraKDSplit)
        (fuel : Nat) (scene result : TerraSceneData),
        terra_scene_end qsort_bvh qsort_kd powf fuel scene = some result →
        ∀ o ∈ result.objects, ∀ m ∈ material_maps o, m.pixels ≠ none → m.srgb = false) := by
  refine ⟨?_, ?_, ?_⟩
  · intro t px hpx hlen hbyte hs
    constructor
    · have hmap : px.map (fun (p : Nat) => c_uint8 (powf ((p : ℚ) / 255) (22 / 10) * 255)) =
          px.map (linearized_byte powf) := by
        apply List.map_congr_left
        intro p hp
        have hp255 : p ≤ 255 := hbyte p hp
        have hx0 : (0 : ℚ) ≤ (p : ℚ) / 255 := by positivity
        have hx1 : (p : ℚ) / 255 ≤ 1 := by
          rw [div_le_one (by norm_num)]
          exact_mod_cast hp255
        obtain ⟨h0, h1⟩ := hpow _ hx0 hx1
        exact c_uint8_eq_floor _ (by positivity) (by linarith)
      unfold terra_prepare_texture
      simp only [hpx, hs, if_true, ← hlen, le_refl, List.take_length, List.drop_length,
        List.append_nil, hmap]
    · rfl
  · intro t ht
    unfold terra_prepare_texture
    rcases ht with hs | hp
    · cases hpx : t.pixels with
      | none => rfl
      | some px => simp [hs]
    · simp [hp]
  · intro qsort_bvh qsort_kd fuel scene result h
    exact prepare_objects_clears_flags powf _ _
      (terra_scene_end_objects qsort_bvh qsort_kd powf fuel scene result h)

/-- The stand-in `square_powf` sends the byte `128` to `⌊(128/255)² · 255⌋ = 64`. -/
theorem grey_byte : linearized_byte square_powf 128 = 64 := by
  unfold linearized_byte square_powf
  rw [Nat.floor_eq_iff (by positivity)]
  norm_num

/-- Witness for C22 (amended): with `square_powf`, the 1×1 texture holding `128` becomes
the texture holding `64` with the flag clear, and `terra_scene_end` on the scene with
that albedo map returns a scene with the rewritten map and no flagged map with
pixels. -/
theorem prepare_texture_linearizes_once_witness :
    terra_prepare_texture square_powf grey_texture =
      some ⟨some [64], 1, 1, 1, 0, .kTerraFilterPoint, .kTerraTextureAddressWrap, false⟩ ∧
    ∃ scene : TerraSceneData,
      terra_scene_end (fun _ l => l) (fun _ l => l) square_powf 1
        (albedo_map_scene grey_texture) = some scene ∧
      scene.objects.map (fun o => o.material.attributes.albedo.map) =
        [⟨some [64], 1, 1, 1, 0, .kTerraFilterPoint, .kTerraTextureAddressWrap, false⟩] ∧
      ∀ o ∈ scene.objects, ∀ m ∈ material_maps o, m.pixels ≠ none → m.srgb = false := by
  have hsq : ∀ x : ℚ, 0 ≤ x → x ≤ 1 →
      0 ≤ square_powf x (22 / 10) ∧ square_powf x (22 / 10) ≤ 1 := by
    intro x h0 h1
    unfold square_powf
    constructor <;> nlinarith
  have H := prepare_texture_linearizes_once square_powf hsq
  have h1 := (H.1 grey_texture [128] rfl rfl (by simp) rfl).1
  simp only [List.map, grey_byte] at h1
  have h2 : terra_prepare_texture square_powf grey_texture =
      some ⟨some [64], 1, 1, 1, 0, .kTerraFilterPoint, .kTerraTextureAddressWrap, false⟩ := h1
  exact ⟨h2, _, albedo_map_scene_end square_powf _ _ h2, rfl,
    H.2.2 _ _ _ _ _ (albedo_map_scene_end square_powf _ _ h2)⟩

/-- C39 (code diverges): `terra_PI` is `3.1416926535`, which exceeds π by more than
`9.9 · 10⁻⁵`, so `|terra_PI − π| > 10⁻⁶`; and `terra_PI2 = 6.283185307` differs from
`2 · terra_PI` by `2 · 10⁻⁴ > 10⁻⁶`. -/
theorem terra_PI_off_in_fourth_decimal :
    (99 : ℝ) / 10 ^ 6 < ((terra_PI : ℚ) : ℝ) - Real.pi ∧
    (1 : ℝ) / 10 ^ 6 < |((terra_PI : ℚ) : ℝ) - Real.pi| ∧
    |terra_PI2 - 2 * terra_PI| = 2 / 10 ^ 4 ∧
    (1 : ℚ) / 10 ^ 6 < |terra_PI2 - 2 * terra_PI| := by
  have hpi : Real.pi < 3.141593 := Real.pi_lt_d6
  have hval : ((terra_PI : ℚ) : ℝ) = 31416926535 / 10000000000 := by
    norm_num [terra_PI]
  have h1 : (99 : ℝ) / 10 ^ 6 < ((terra_PI : ℚ) : ℝ) - Real.pi := by
    rw [hval]
    norm_num at hpi ⊢
    linarith
  have h2 : |terra_PI2 - 2 * terra_PI| = 2 / 10 ^ 4 := by
    have : terra_PI2 - 2 * terra_PI = -(2 / 10 ^ 4) := by norm_num [terra_PI, terra_PI2]
    rw [this, abs_neg, abs_of_pos (by norm_num)]
  refine ⟨h1, ?_, h2, ?_⟩
  · rw [abs_of_pos (by linarith)]
    linarith
  · rw [h2]
    norm_num

/-- C37 (failing input): the 2×2 texture in Mirror mode read at `(x, y) = (2, 0)`.
`(x / W) % 2 = 1`, so `x' = W − x % W = 2` and `y' = H − y % H = 2`: both equal the size,
the byte index is `(2 · 2 + 2) · 3 = 18` in an array of 12 bytes, and the read is outside
the pixel array. -/
theorem mirror_reads_outside_image :
    terra_read_texture_coords mirror_texture 2 0 = (2, 2) ∧
    texel_index mirror_texture 2 2 = 18 ∧
    terra_read_texture mirror_texture 2 0 = none := by
  refine ⟨by decide, by decide, by decide⟩

/-- C35 (failing input): the unit normal `(16/25, 3/5, 12/25)`, with a `sqrtf` that is
exact at the one argument that occurs (`x² + z² = 16/25`).  The tangent
`(z, 0, -x)` is multiplied by `sqrtf(x² + z²) = 4/5` instead of being divided by it, so
the tangent column is `(48/125, 0, -64/125)` of squared length `256/625`, and
`terra_transformf3` maps the unit vector `(1, 0, 0)` to that column: lengths are not
preserved. -/
theorem rotation_columns_not_unit :
    terra_dotf3 ⟨16 / 25, 3 / 5, 12 / 25⟩ ⟨16 / 25, 3 / 5, 12 / 25⟩ = 1 ∧
    (terra_build_rotation_around_normal (fun _ => 4 / 5)
      { texcoord := ⟨0, 0⟩, normal := ⟨16 / 25, 3 / 5, 12 / 25⟩ }).rot =
      ⟨⟨48 / 125, 16 / 25, -192 / 625, 0⟩, ⟨0, 3 / 5, 64 / 125, 0⟩,
        ⟨-64 / 125, 12 / 25, -144 / 625, 0⟩, ⟨0, 0, 0, 1⟩⟩ ∧
    terra_dotf3 ⟨48 / 125, 0, -64 / 125⟩ ⟨48 / 125, 0, -64 / 125⟩ = 256 / 625 ∧
    terra_dotf3 ⟨-192 / 625, 64 / 125, -144 / 625⟩ ⟨-192 / 625, 64 / 125, -144 / 625⟩ =
      256 / 625 ∧
    terra_transformf3
      (terra_build_rotation_around_normal (fun _ => 4 / 5)
        { texcoord := ⟨0, 0⟩, normal := ⟨16 / 25, 3 / 5, 12 / 25⟩ }).rot ⟨1, 0, 0⟩ =
      ⟨48 / 125, 0, -64 / 125⟩ ∧
    terra_dotf3 ⟨1, 0, 0⟩ ⟨1, 0, 0⟩ = 1 := by
  have hrot : (terra_build_rotation_around_normal (fun _ => 4 / 5)
      { texcoord := ⟨0, 0⟩, normal := ⟨16 / 25, 3 / 5, 12 / 25⟩ }).rot =
      ⟨⟨48 / 125, 16 / 25, -192 / 625, 0⟩, ⟨0, 3 / 5, 64 / 125, 0⟩,
        ⟨-64 / 125, 12 / 25, -144 / 625, 0⟩, ⟨0, 0, 0, 1⟩⟩ := by
    norm_num [terra_build_rotation_around_normal, terra_mulf3, terra_f3_set, terra_crossf3,
      terra_f4, abs_of_pos]
  refine ⟨?_, hrot, ?_, ?_, ?_, ?_⟩
  · norm_num [terra_dotf3]
  · norm_num [terra_dotf3]
  · norm_num [terra_dotf3]
  · rw [hrot]
    norm_num [terra_transformf3, terra_dotf3, terra_f3_set]
  · norm_num [terra_dotf3]

/-- C34 (code diverges): with an empty light array the block guarded by
`enable_direct_light_sampling` fails the assertion of
`terra_light_pick_power_proportional` whatever its other inputs are: the code has no
test of `lights_count`.  On the single red triangle seen along its normal, with direct
light sampling enabled and no lights, `terra_trace` does not complete. -/
theorem direct_light_without_lights_asserts {σ : Type} (sqrtf cosf sinf : ℚ → ℚ)
    (rand : σ → Nat × σ) (RAND_MAX : Nat)
    (find_closest : TerraRay → Option (TerraMaterial × TerraShadingContext × TerraFloat3))
    (material : TerraMaterial) (state : TerraShadingState) (ctx : TerraShadingContext)
    (intersection_point : TerraFloat3) (bsdf_pdf : ℚ) (Lo throughput : TerraFloat3) (rng : σ) :
    trace_direct_light sqrtf cosf sinf rand RAND_MAX find_closest [] material state ctx
      intersection_point bsdf_pdf Lo throughput rng = none ∧
    terra_trace (fun x => x) (fun _ => 1) (fun _ => 0) (fun (k : Nat) => (0, k + 1)) 32767
      (single_triangle_closest (fun x => x) ⟨⟨0, 0, 0⟩, ⟨1, 0, 0⟩, ⟨0, 1, 0⟩⟩
        ⟨⟨0, 0, 1⟩, ⟨0, 0, 1⟩, ⟨0, 0, 1⟩, ⟨0, 0⟩, ⟨0, 0⟩, ⟨0, 0⟩⟩
        (diffuse_material (fun x => x) (fun _ => 1) (fun _ => 0) ⟨1, 0, 0⟩ ⟨0, 0, 0⟩))
      (fun _ => ⟨1 / 2, 1 / 2, 1 / 2⟩) []
      { options_with .kTerraTonemappingOperatorNone 1 with
        enable_direct_light_sampling := true }
      ⟨⟨1 / 4, 1 / 4, 1⟩, ⟨0, 0, -1⟩, ⟨0, 0, -1⟩⟩ 0 = none := by
  have hgen : ∀ {τ : Type} (rand : τ → Nat × τ) (RAND_MAX : Nat)
      (sqrtf cosf sinf : ℚ → ℚ)
      (find_closest : TerraRay → Option (TerraMaterial × TerraShadingContext × TerraFloat3))
      (material : TerraMaterial) (state : TerraShadingState) (ctx : TerraShadingContext)
      (intersection_point : TerraFloat3) (bsdf_pdf : ℚ) (Lo throughput : TerraFloat3) (rng : τ),
      trace_direct_light sqrtf cosf sinf rand RAND_MAX find_closest [] material state ctx
        intersection_point bsdf_pdf Lo throughput rng = none := by
    intros
    simp [trace_direct_light, terra_light_pick_power_proportional, light_pick_loop]
  refine ⟨hgen _ _ _ _ _ _ _ _ _ _ _ _ _ _, ?_⟩
  unfold terra_trace
  rw [show ({ options_with .kTerraTonemappingOperatorNone 1 with
      enable_direct_light_sampling := true } : TerraSceneOptions).bounces.toNat = 1 from rfl,
    trace_loop]
  simp only [trace_bounce]
  rw [example_closest_hit]
  simp only [hgen]
  norm_num [diffuse_material, terra_bsdf_init_diffuse, terra_eval_attribute, no_texture,
    terra_bsdf_diffuse_sample, terra_bsdf_diffuse_weight, options_with]

/-- C32 (failing input): a light of radius 1 (so `terra_light_pdf` is `1/terra_PI`) at
`(1/4, 1/4, 5)` above the surface point `(1/4, 1/4, 0)`, with the shadow ray hitting
nothing.  The assignment `light_pdf = (terra_light_pdf(light, sample_dist),
terra_Epsilon)` is a comma expression: the `light_pdf` the block leaves for the MIS
weights is `terra_Epsilon = 10⁻⁴`, not `1/(π r²)`.  The stand-ins for `sqrtf`, `cosf`,
`sinf` are exact at the arguments that occur. -/
theorem light_pdf_is_epsilon :
    trace_direct_light five_sqrtf (fun _ => 1) (fun _ => 0) (fun (k : Nat) => (0, k + 1)) 32767
      (fun _ => none) [lamp_light 5]
      (diffuse_material five_sqrtf (fun _ => 1) (fun _ => 0) ⟨1, 0, 0⟩ ⟨0, 0, 0⟩)
      ⟨⟨0, 0, 0⟩, ⟨0, 0, 0⟩, 0, 0, 0, 0⟩ { texcoord := ⟨0, 0⟩, normal := ⟨0, 0, 1⟩ }
      ⟨1 / 4, 1 / 4, 0⟩ (1 / terra_PI) ⟨0, 0, 0⟩ ⟨1, 1, 1⟩ 0 =
      some (⟨0, 0, 0⟩, terra_Epsilon, 2) ∧
    terra_light_pdf (lamp_light 5) 5 = 1 / terra_PI ∧
    terra_Epsilon < 1 / terra_PI := by
  refine ⟨?_, ?_, ?_⟩
  · norm_num [trace_direct_light, terra_light_pick_power_proportional, light_pick_loop,
      lamp_light, terra_light_sample_disk, five_sqrtf, terra_subf3, terra_normf3, terra_lenf3,
      terra_dotf3, terra_mulf3, terra_lookatf4x4, terra_transformf3, terra_f3_set, terra_f4,
      terra_crossf3, terra_addf3, diffuse_material, terra_bsdf_init_diffuse,
      terra_bsdf_diffuse_shade, terra_eval_attribute, no_texture]
  · norm_num [terra_light_pdf, lamp_light]
  · norm_num [terra_Epsilon, terra_PI]

/-- C36 (failing input): the light of `lamp_light (-5)` lies below the surface point
`(1/4, 1/4, 0)` with normal `(0, 0, 1)`, so the shadow direction is `(0, 0, -1)` and
`n · dir = -1 < 0`.  Whatever `terra_find_closest` is, the block consults it at the ray
from `(1/4, 1/4, 10⁻⁴)`, the point offset along `+n`, not from `(1/4, 1/4, -10⁻⁴)`: the
shadow ray is created with the constant sign `1.f`. -/
theorem shadow_ray_offset_ignores_sign
    (find_closest : TerraRay → Option (TerraMaterial × TerraShadingContext × TerraFloat3)) :
    trace_direct_light five_sqrtf (fun _ => 1) (fun _ => 0) (fun (k : Nat) => (0, k + 1)) 32767
      find_closest [lamp_light (-5)]
      (diffuse_material five_sqrtf (fun _ => 1) (fun _ => 0) ⟨1, 0, 0⟩ ⟨0, 0, 0⟩)
      ⟨⟨0, 0, 0⟩, ⟨0, 0, 0⟩, 0, 0, 0, 0⟩ { texcoord := ⟨0, 0⟩, normal := ⟨0, 0, 1⟩ }
      ⟨1 / 4, 1 / 4, 0⟩ (1 / terra_PI) ⟨0, 0, 0⟩ ⟨1, 1, 1⟩ 0 =
      (match find_closest ⟨⟨1 / 4, 1 / 4, 1 / 10000⟩, ⟨0, 0, -1⟩, ⟨0, 0, -1⟩⟩ with
       | none => some (⟨0, 0, 0⟩, terra_Epsilon, 2)
       | some (light_material, light_ctx, _) =>
         match terra_eval_attribute light_material.attributes.emissive light_ctx.texcoord with
         | none => none
         | some _ => some (⟨0, 0, 0⟩, terra_Epsilon, 2)) ∧
    terra_dotf3 ⟨0, 0, 1⟩ ⟨0, 0, -1⟩ = -1 ∧
    terra_ray_create ⟨1 / 4, 1 / 4, 0⟩ ⟨0, 0, -1⟩ ⟨0, 0, 1⟩ 1 =
      ⟨⟨1 / 4, 1 / 4, 1 / 10000⟩, ⟨0, 0, -1⟩, ⟨0, 0, -1⟩⟩ ∧
    terra_ray_create ⟨1 / 4, 1 / 4, 0⟩ ⟨0, 0, -1⟩ ⟨0, 0, 1⟩ (-1) =
      ⟨⟨1 / 4, 1 / 4, -(1 / 10000)⟩, ⟨0, 0, -1⟩, ⟨0, 0, -1⟩⟩ := by
  refine ⟨?_, ?_, ?_, ?_⟩
  · have hray : terra_ray_create ⟨1 / 4, 1 / 4, 0⟩ ⟨0, 0, -1⟩ ⟨0, 0, 1⟩ 1 =
        ⟨⟨1 / 4, 1 / 4, 1 / 10000⟩, ⟨0, 0, -1⟩, ⟨0, 0, -1⟩⟩ := by
      norm_num [terra_ray_create, terra_mulf3, terra_addf3, terra_f3_set]
    have hsample : terra_normf3 five_sqrtf (terra_subf3
        (terra_light_sample_disk five_sqrtf (fun _ => 1) (fun _ => 0) (lamp_light (-5))
          ⟨1 / 4, 1 / 4, 0⟩ 0 0) ⟨1 / 4, 1 / 4, 0⟩) = ⟨0, 0, -1⟩ := by
      norm_num [lamp_light, terra_light_sample_disk, five_sqrtf, terra_subf3, terra_normf3,
        terra_lenf3, terra_dotf3, terra_mulf3, terra_lookatf4x4, terra_transformf3,
        terra_f3_set, terra_f4, terra_crossf3, terra_addf3]
    have hpick : terra_light_pick_power_proportional [lamp_light (-5)] 0 =
        some (lamp_light (-5), 0) := by
      norm_num [terra_light_pick_power_proportional, light_pick_loop, lamp_light]
    have hshade : (diffuse_material five_sqrtf (fun _ => 1) (fun _ => 0) ⟨1, 0, 0⟩
          ⟨0, 0, 0⟩).bsdf.shade
        (diffuse_material five_sqrtf (fun _ => 1) (fun _ => 0) ⟨1, 0, 0⟩ ⟨0, 0, 0⟩).attributes
        ⟨⟨0, 0, 0⟩, ⟨0, 0, 0⟩, 0, 0, 0, 0⟩ ⟨0, 0, -1⟩
        { texcoord := ⟨0, 0⟩, normal := ⟨0, 0, 1⟩ } = some ⟨0, 0, 0⟩ := by
      norm_num [diffuse_material, terra_bsdf_init_diffuse, terra_bsdf_diffuse_shade,
        terra_eval_attribute, no_texture, terra_dotf3, terra_maxf, terra_mulf3, terra_f3_set]
    simp only [trace_direct_light, Nat.cast_zero, zero_div, hpick, hsample, hray, hshade]
    cases hfc : find_closest ⟨⟨1 / 4, 1 / 4, 1 / 10000⟩, ⟨0, 0, -1⟩, ⟨0, 0, -1⟩⟩ with
    | none => rfl
    | some r =>
      obtain ⟨lm, lc, lp⟩ := r
      simp only []
      cases he : terra_eval_attribute lm.attributes.emissive lc.texcoord with
      | none => rfl
      | some e =>
        simp only [terra_mulf3, terra_pointf3, terra_addf3, terra_f3_set, zero_mul, mul_zero,
          add_zero]
  · norm_num [terra_dotf3]
  · norm_num [terra_ray_create, terra_mulf3, terra_addf3, terra_f3_set]
  · norm_num [terra_ray_create, terra_mulf3, terra_addf3, terra_f3_set]

/-- For a positive `bsdf_pdf` the two MIS weights have a non-zero denominator, add up to
1 and lie in `[0, 1]`. -/
theorem mis_weights_sum (light_pdf bsdf_pdf : ℚ) (hB : 0 < bsdf_pdf) :
    light_pdf * light_pdf + bsdf_pdf * bsdf_pdf ≠ 0 ∧
    mis_light_weight light_pdf bsdf_pdf + mis_bsdf_weight light_pdf bsdf_pdf = 1 ∧
    0 ≤ mis_light_weight light_pdf bsdf_pdf ∧ mis_light_weight light_pdf bsdf_pdf ≤ 1 ∧
    0 ≤ mis_bsdf_weight light_pdf bsdf_pdf ∧ mis_bsdf_weight light_pdf bsdf_pdf ≤ 1 := by
  have hd : 0 < light_pdf * light_pdf + bsdf_pdf * bsdf_pdf := by
    have h1 : 0 ≤ light_pdf * light_pdf := mul_self_nonneg _
    have h2 : 0 < bsdf_pdf * bsdf_pdf := mul_pos hB hB
    linarith
  have hl : 0 ≤ light_pdf * light_pdf := mul_self_nonneg _
  have hb : 0 ≤ bsdf_pdf * bsdf_pdf := mul_self_nonneg _
  unfold mis_light_weight mis_bsdf_weight
  refine ⟨ne_of_gt hd, ?_, div_nonneg hl hd.le, ?_, div_nonneg hb hd.le, ?_⟩
  · rw [← add_div, div_self (ne_of_gt hd)]
  · rw [div_le_one hd]; linarith
  · rw [div_le_one hd]; linarith

/-- With `light_pdf = 0` the BSDF weight is 1. -/
theorem mis_bsdf_weight_zero (bsdf_pdf : ℚ) (hB : 0 < bsdf_pdf) :
    mis_bsdf_weight 0 bsdf_pdf = 1 := by
  unfold mis_bsdf_weight
  rw [mul_zero, zero_add, div_self (ne_of_gt (mul_pos hB hB))]

/-- The clamped pdf `terra_maxf(weight, terra_Epsilon)` is at least `terra_Epsilon`. -/
theorem eps_le_bsdf_pdf (weight : ℚ) : terra_Epsilon ≤ terra_maxf weight terra_Epsilon := by
  unfold terra_maxf
  split
  · next h => exact le_of_lt h
  · exact le_refl _

/-- What the direct-light block returns: `light_pdf` is `terra_Epsilon`, and the radiance
is either unchanged (the shadow ray hit nothing) or increased by the light contribution
formed with the light weight of line 826. -/
theorem trace_direct_light_weight {σ : Type} (sqrtf cosf sinf : ℚ → ℚ) (rand : σ → Nat × σ)
    (RAND_MAX : Nat)
    (find_closest : TerraRay → Option (TerraMaterial × TerraShadingContext × TerraFloat3))
    (lights : List TerraLight) (material : TerraMaterial) (state : TerraShadingState)
    (ctx : TerraShadingContext) (intersection_point : TerraFloat3) (bsdf_pdf : ℚ)
    (Lo throughput : TerraFloat3) (rng : σ) (Lo2 : TerraFloat3) (light_pdf : ℚ) (rng2 : σ)
    (h : trace_direct_light sqrtf cosf sinf rand RAND_MAX find_closest lights material state
      ctx intersection_point bsdf_pdf Lo throughput rng = some (Lo2, light_pdf, rng2)) :
    light_pdf = terra_Epsilon ∧
    (Lo2 = Lo ∨ ∃ light_radiance light_emissive : TerraFloat3,
      Lo2 = terra_addf3 Lo (terra_pointf3 (terra_mulf3 throughput light_emissive.x)
        (terra_mulf3 light_radiance
          (mis_light_weight terra_Epsilon bsdf_pdf / terra_Epsilon)))) := by
  unfold trace_direct_light at h
  simp only [] at h
  split at h
  · exact absurd h (by simp)
  · split at h
    · exact absurd h (by simp)
    · next light_radiance _ =>
      split at h
      · simp only [Option.some.injEq, Prod.mk.injEq] at h
        exact ⟨h.2.1.symm, Or.inl h.1.symm⟩
      · split at h
        · exact absurd h (by simp)
        · next light_emissive _ =>
          simp only [Option.some.injEq, Prod.mk.injEq] at h
          exact ⟨h.2.1.symm, Or.inr ⟨light_radiance, light_emissive, h.1.symm⟩⟩

/-- C33: at a bounce of `terra_trace` that hits a surface and completes, the throughput is
multiplied by `shade · w_B / p_B` with `w_B = p_B² / (p_L² + p_B²)`, where
`p_B = max(weight, ε)` and `p_L` is the light pdf left by the direct-light block (`ε`
when it is enabled, `0` otherwise), and the radiance added by the direct-light block uses
`w_L = p_L² / (p_L² + p_B²)` with the same pair; `p_B ≥ ε > 0`, the denominator is not
zero, `w_L + w_B = 1` with both in `[0, 1]`, and with direct light sampling disabled
`p_L = 0` and `w_B = 1`. -/
theorem mis_weights_partition_of_unity {σ : Type} (sqrtf cosf sinf : ℚ → ℚ)
    (rand : σ → Nat × σ) (RAND_MAX : Nat)
    (find_closest : TerraRay → Option (TerraMaterial × TerraShadingContext × TerraFloat3))
    (env : TerraFloat3 → TerraFloat3) (lights : List TerraLight) (opts : TerraSceneOptions)
    (s s2 : TraceState σ) (material : TerraMaterial) (ctx : TerraShadingContext)
    (point : TerraFloat3)
    (hhit : find_closest s.ray = some (material, ctx, point))
    (hres : trace_bounce sqrtf cosf sinf rand RAND_MAX find_closest env lights opts s =
      some (false, s2)) :
    ∃ (L : TerraFloat3) (st : TerraShadingState) (weight light_pdf : ℚ)
      (radiance emissive albedo : TerraFloat3),
      material.bsdf.weight material.attributes st L
        { terra_build_rotation_around_normal sqrtf ctx with
          view := terra_negf3 s.ray.direction } = some weight ∧
      material.bsdf.shade material.attributes st L
        { terra_build_rotation_around_normal sqrtf ctx with
          view := terra_negf3 s.ray.direction } = some radiance ∧
      light_pdf = (if opts.enable_direct_light_sampling then terra_Epsilon else 0) ∧
      s2.throughput = terra_pointf3 s.throughput (terra_mulf3 radiance
        (mis_bsdf_weight light_pdf (terra_maxf weight terra_Epsilon) /
          terra_maxf weight terra_Epsilon)) ∧
      (s2.Lo = terra_addf3 s.Lo (terra_pointf3 (terra_mulf3 s.throughput emissive.x) albedo) ∨
        ∃ light_radiance light_emissive : TerraFloat3,
          s2.Lo = terra_addf3
            (terra_addf3 s.Lo (terra_pointf3 (terra_mulf3 s.throughput emissive.x) albedo))
            (terra_pointf3 (terra_mulf3 s.throughput light_emissive.x)
              (terra_mulf3 light_radiance
                (mis_light_weight light_pdf (terra_maxf weight terra_Epsilon) / light_pdf)))) ∧
      terra_Epsilon ≤ terra_maxf weight terra_Epsilon ∧
      light_pdf * light_pdf +
        terra_maxf weight terra_Epsilon * terra_maxf weight terra_Epsilon ≠ 0 ∧
      mis_light_weight light_pdf (terra_maxf weight terra_Epsilon) +
        mis_bsdf_weight light_pdf (terra_maxf weight terra_Epsilon) = 1 ∧
      0 ≤ mis_light_weight light_pdf (terra_maxf weight terra_Epsilon) ∧
      mis_light_weight light_pdf (terra_maxf weight terra_Epsilon) ≤ 1 ∧
      0 ≤ mis_bsdf_weight light_pdf (terra_maxf weight terra_Epsilon) ∧
      mis_bsdf_weight light_pdf (terra_maxf weight terra_Epsilon) ≤ 1 ∧
      (opts.enable_direct_light_sampling = false →
        light_pdf = 0 ∧ mis_bsdf_weight light_pdf (terra_maxf weight terra_Epsilon) = 1) := by
  unfold trace_bounce at hres
  rw [hhit] at hres
  simp only [] at hres
  split at hres
  · next mat_emissive mat_albedo hem halb =>
    split at hres
    · exact absurd hres (by simp)
    · next L st hsample =>
      split at hres
      · exact absurd hres (by simp)
      · next weight hweight =>
        have hB : 0 < terra_maxf weight terra_Epsilon :=
          lt_of_lt_of_le eps_pos (eps_le_bsdf_pdf weight)
        split at hres
        · exact absurd hres (by simp)
        · next Lo2 light_pdf rng2 hdirect =>
          split at hres
          · exact absurd hres (by simp)
          · next radiance hshade =>
            simp only [Option.some.injEq, Prod.mk.injEq, true_and] at hres
            subst hres
            obtain ⟨hne, hsum, h0, h1, h2, h3⟩ :=
              mis_weights_sum light_pdf (terra_maxf weight terra_Epsilon) hB
            refine ⟨L, st, weight, light_pdf, radiance, mat_emissive, mat_albedo, hweight,
              hshade, ?_, rfl, ?_, eps_le_bsdf_pdf weight, hne, hsum, h0, h1, h2, h3, ?_⟩
            · cases hen : opts.enable_direct_light_sampling
              · rw [hen] at hdirect
                simp only [Bool.false_eq_true, if_false, Option.some.injEq,
                  Prod.mk.injEq] at hdirect
                simp [hdirect.2.1.symm]
              · rw [hen] at hdirect
                simp only [if_true] at hdirect
                simp [(trace_direct_light_weight _ _ _ _ _ _ _ _ _ _ _ _ _ _ _ _ _ _
                  hdirect).1]
            · cases hen : opts.enable_direct_light_sampling
              · rw [hen] at hdirect
                simp only [Bool.false_eq_true, if_false, Option.some.injEq,
                  Prod.mk.injEq] at hdirect
                exact Or.inl hdirect.1.symm
              · rw [hen] at hdirect
                simp only [if_true] at hdirect
                obtain ⟨hp, hLo⟩ := trace_direct_light_weight _ _ _ _ _ _ _ _ _ _ _ _ _ _ _
                  _ _ _ hdirect
                rcases hLo with hLo | ⟨lr, le, hLo⟩
                · exact Or.inl hLo
                · exact Or.inr ⟨lr, le, by rw [hLo, hp]⟩
            · intro hen
              rw [hen] at hdirect
              simp only [Bool.false_eq_true, if_false, Option.some.injEq,
                Prod.mk.injEq] at hdirect
              have hz : light_pdf = 0 := hdirect.2.1.symm
              exact ⟨hz, by rw [hz]; exact mis_bsdf_weight_zero _ hB⟩
  · exact absurd hres (by simp)

/-- The first bounce of the example with direct light sampling enabled and one light
straight above the hit point: the shadow ray misses the triangle, so no radiance is
added, and the throughput is the albedo times the BSDF weight for
`light_pdf = terra_Epsilon`. -/
theorem example_first_bounce_direct :
    trace_bounce (fun x => x) (fun _ => 1) (fun _ => 0) (fun (k : Nat) => (0, k + 1)) 32767
      (single_triangle_closest (fun x => x) ⟨⟨0, 0, 0⟩, ⟨1, 0, 0⟩, ⟨0, 1, 0⟩⟩
        ⟨⟨0, 0, 1⟩, ⟨0, 0, 1⟩, ⟨0, 0, 1⟩, ⟨0, 0⟩, ⟨0, 0⟩, ⟨0, 0⟩⟩
        (diffuse_material (fun x => x) (fun _ => 1) (fun _ => 0) ⟨1, 0, 0⟩ ⟨0, 0, 0⟩))
      (fun _ => ⟨1 / 2, 1 / 2, 1 / 2⟩) [lamp_light 1]
      { options_with .kTerraTonemappingOperatorNone 1 with
        enable_direct_light_sampling := true }
      { Lo := terra_f3_zero, throughput := terra_f3_one,
        ray := ⟨⟨1 / 4, 1 / 4, 1⟩, ⟨0, 0, -1⟩, ⟨0, 0, -1⟩⟩, rng := 0 } =
    some (false,
      { Lo := ⟨0, 0, 0⟩,
        throughput := ⟨mis_bsdf_weight terra_Epsilon (1 / terra_PI), 0, 0⟩,
        ray := terra_ray_create ⟨1 / 4, 1 / 4, 0⟩ ⟨0, 0, 1⟩ ⟨0, 0, 1⟩ 1, rng := 5 }) := by
  simp only [trace_bounce]
  rw [example_closest_hit]
  norm_num [diffuse_material, terra_bsdf_init_diffuse, terra_eval_attribute, no_texture,
    terra_bsdf_diffuse_sample, terra_bsdf_diffuse_weight, terra_bsdf_diffuse_shade,
    terra_build_rotation_around_normal, terra_addf3, terra_mulf3, terra_pointf3, terra_f3_set,
    terra_f3_zero, terra_f3_one, terra_f3_set1, terra_transformf3, terra_crossf3, terra_dotf3,
    terra_f4, terra_maxf, terra_PI, terra_Epsilon, terra_ray_create, terra_negf3,
    trace_direct_light, terra_light_pick_power_proportional, light_pick_loop, lamp_light,
    terra_light_sample_disk, terra_subf3, terra_normf3, terra_lenf3, terra_lookatf4x4,
    single_triangle_closest, terra_ray_triangle_intersection, rti_a, rti_u, rti_v, rti_t,
    mis_bsdf_weight, options_with]

/-- Witness for C33: the single red triangle seen along its normal, with direct light
sampling enabled and one light straight above the hit point. -/
theorem mis_weights_partition_of_unity_witness :
    ∃ (weight light_pdf : ℚ) (radiance : TerraFloat3),
      light_pdf = terra_Epsilon ∧
      (⟨mis_bsdf_weight terra_Epsilon (1 / terra_PI), 0, 0⟩ : TerraFloat3) =
        terra_pointf3 terra_f3_one (terra_mulf3 radiance
          (mis_bsdf_weight light_pdf (terra_maxf weight terra_Epsilon) /
            terra_maxf weight terra_Epsilon)) ∧
      terra_Epsilon ≤ terra_maxf weight terra_Epsilon ∧
      mis_light_weight light_pdf (terra_maxf weight terra_Epsilon) +
        mis_bsdf_weight light_pdf (terra_maxf weight terra_Epsilon) = 1 := by
  obtain ⟨_, _, weight, light_pdf, radiance, _, _, _, _, hp, hT, _, h1, _, h3, _⟩ :=
    mis_weights_partition_of_unity _ _ _ _ _ _ _ _ _ _ _ _ _ _ example_closest_hit
      example_first_bounce_direct
  exact ⟨weight, light_pdf, radiance, hp, hT, h1, h3⟩

/-- The spine nodes sit at the even indices. -/
theorem comb_nodes_spine (n : Nat) : ∀ (k j : Nat), j < n →
    (comb_nodes k n)[2 * j]? = some (comb_spine (k + j)) := by
  induction n with
  | zero => intro k j hj; omega
  | succ n ih =>
    intro k j hj
    cases j with
    | zero => simp [comb_nodes]
    | succ j =>
      have h2 : 2 * (j + 1) = 2 * j + 1 + 1 := by ring
      rw [h2, comb_nodes, List.getElem?_cons_succ, List.getElem?_cons_succ,
        ih (k + 1) j (by omega)]
      congr 2
      omega

/-- The ray `comb_ray` passes the box test of `comb_box`. -/
theorem comb_ray_hits_box : terra_ray_aabb_intersection comb_ray comb_box = some (-1, 1) := by
  norm_num [terra_ray_aabb_intersection, comb_ray, comb_box, terra_minf, terra_maxf]

/-- Visiting an internal slot of the comb pushes its index when there is room. -/
theorem comb_visit_push (sqrtf : ℚ → ℚ) (scene : TerraScene) (ix : Nat) (q : List Nat)
    (c : BVHClosest) (hq : q.length < 64) :
    bvh_visit_slot sqrtf scene comb_ray (-1) ix comb_box (q, c) = some (ix :: q, c) := by
  simp [bvh_visit_slot, comb_ray_hits_box, hq]

/-- Visiting an internal slot of the comb with 64 entries pending has no room. -/
theorem comb_visit_full (sqrtf : ℚ → ℚ) (scene : TerraScene) (ix : Nat) (q : List Nat)
    (c : BVHClosest) (hq : q.length = 64) :
    bvh_visit_slot sqrtf scene comb_ray (-1) ix comb_box (q, c) = none := by
  simp [bvh_visit_slot, comb_ray_hits_box, hq]

theorem comb_pending_length (k : Nat) : (comb_pending k).length = k := by
  induction k with
  | zero => rfl
  | succ k ih => simp [comb_pending, ih]

/-- After `k ≤ 63` iterations on a comb with `n ≥ k` spine nodes the traversal is at
spine node `2k` with the `k` side nodes above it pending. -/
theorem comb_traverse_reach (sqrtf : ℚ → ℚ) (scene : TerraScene) (n : Nat) (c : BVHClosest)
    (fuel : Nat) : ∀ k : Nat, k ≤ n → k ≤ 63 →
    bvh_traverse_loop sqrtf (comb_bvh n) scene comb_ray (fuel + k) [0] c =
      bvh_traverse_loop sqrtf (comb_bvh n) scene comb_ray fuel
        (2 * k :: comb_pending k) c := by
  intro k
  induction k generalizing fuel with
  | zero => intro _ _; rfl
  | succ k ih =>
    intro hn h63
    have hnode : (comb_bvh n).nodes[2 * k]? = some (comb_spine k) := by
      have := comb_nodes_spine n 0 k (by omega)
      simpa [comb_bvh] using this
    have hlen := comb_pending_length k
    rw [show fuel + (k + 1) = (fuel + 1) + k by ring, ih (fuel + 1) (by omega) (by omega)]
    rw [bvh_traverse_loop_step sqrtf (comb_bvh n) scene comb_ray fuel (2 * k) (comb_pending k)
      c (comb_spine k) ((2 * k + 1) :: comb_pending k, c)
      ((2 * k + 2) :: (2 * k + 1) :: comb_pending k, c) hnode
      (comb_visit_push sqrtf scene (2 * k + 1) (comb_pending k) c (by omega))
      (comb_visit_push sqrtf scene (2 * k + 2) ((2 * k + 1) :: comb_pending k) c
        (by simp only [List.length_cons]; omega))]
    rw [show 2 * (k + 1) = 2 * k + 2 by ring]
    rfl

/-- On the comb with 64 spine nodes the traversal loop does not complete: it runs out of
`fuel` on the way down, or reaches spine node 126 with 63 nodes pending and fails on the
second push of that node. -/
theorem comb_traverse_fails (sqrtf : ℚ → ℚ) (scene : TerraScene) (c : BVHClosest)
    (fuel : Nat) :
    bvh_traverse_loop sqrtf (comb_bvh 64) scene comb_ray fuel [0] c = none := by
  by_cases hf : fuel ≤ 63
  · have h := comb_traverse_reach sqrtf scene 64 c 0 fuel (by omega) hf
    rw [Nat.zero_add] at h
    rw [h]
    rfl
  · obtain ⟨f, rfl⟩ : ∃ f, fuel = (f + 1) + 63 := ⟨fuel - 64, by omega⟩
    rw [comb_traverse_reach sqrtf scene 64 c (f + 1) 63 (by omega) (by omega)]
    have hnode : (comb_bvh 64).nodes[2 * 63]? = some (comb_spine 63) := by
      have := comb_nodes_spine 64 0 63 (by omega)
      simpa [comb_bvh] using this
    have hlen := comb_pending_length 63
    have h0 : bvh_visit_slot sqrtf scene comb_ray (comb_spine 63).type0 (comb_spine 63).index0
        (comb_spine 63).aabb0 (comb_pending 63, c) = some (127 :: comb_pending 63, c) :=
      comb_visit_push sqrtf scene 127 (comb_pending 63) c (by omega)
    have h1 : bvh_visit_slot sqrtf scene comb_ray (comb_spine 63).type1 (comb_spine 63).index1
        (comb_spine 63).aabb1 (127 :: comb_pending 63, c) = none :=
      comb_visit_full sqrtf scene 128 (127 :: comb_pending 63) c
        (by simp only [List.length_cons]; omega)
    simp only [bvh_traverse_loop, hnode, h0, h1]

/-- C40 (failing input): the comb of 129 nodes, a binary tree rooted at node 0 in which
every spine node `2k` (`k < 64`) has the side node `2k + 1` in slot 0 and the next spine
node `2k + 2` in slot 1, all with the box `[-1, 1]³`, and a ray from the centre of that
box.  Every internal index is inside the node array and every node but the root is the
child of exactly one slot.  Each iteration pops one node and pushes two, so the
traversal reaches node 126 with 63 nodes pending; its first push brings `queue_count` to
64 and its second push writes `queue[64]`: the traversal does not complete, whatever the
scene and the iteration budget. -/
theorem bvh_traverse_overflows_queue (sqrtf : ℚ → ℚ) (scene : TerraScene)
    (primitive : Nat × Nat) (c : BVHClosest) (fuel : Nat) :
    terra_bvh_traverse sqrtf (comb_bvh 64) comb_ray scene primitive fuel = none ∧
    bvh_traverse_loop sqrtf (comb_bvh 64) scene comb_ray (fuel + 63) [0] c =
      bvh_traverse_loop sqrtf (comb_bvh 64) scene comb_ray fuel (126 :: comb_pending 63) c ∧
    (comb_pending 63).length = 63 ∧
    (comb_bvh 64).nodes[126]? = some (comb_spine 63) ∧
    bvh_visit_slot sqrtf scene comb_ray (comb_spine 63).type0 (comb_spine 63).index0
      (comb_spine 63).aabb0 (comb_pending 63, c) = some (127 :: comb_pending 63, c) ∧
    bvh_visit_slot sqrtf scene comb_ray (comb_spine 63).type1 (comb_spine 63).index1
      (comb_spine 63).aabb1 (127 :: comb_pending 63, c) = none ∧
    (comb_bvh 64).nodes.length = 129 ∧
    internal_children (comb_bvh 64).nodes = List.range' 1 128 := by
  have hlen := comb_pending_length 63
  refine ⟨?_, comb_traverse_reach sqrtf scene 64 c fuel 63 (by omega) (by omega), hlen, ?_,
    comb_visit_push sqrtf scene 127 (comb_pending 63) c (by omega),
    comb_visit_full sqrtf scene 128 (127 :: comb_pending 63) c
      (by simp only [List.length_cons]; omega), ?_, ?_⟩
  · unfold terra_bvh_traverse
    rw [comb_traverse_fails]
    rfl
  · have := comb_nodes_spine 64 0 63 (by omega)
    simpa [comb_bvh] using this
  · rfl
  · decide

/-- One step of the cost loop, with the cost written as `kd_split_cost`. -/
theorem kd_cost_loop_cons (aabb : TerraAABB) (axis : Nat) (SAV : ℚ) (split : TerraKDSplit)
    (rest : List TerraKDSplit) (best : KDBest) :
    kd_cost_loop aabb axis SAV (split :: rest) best =
      if kd_split_cost aabb axis SAV split < best.lowest_cost then
        kd_cost_loop aabb axis SAV rest
          ⟨kd_split_cost aabb axis SAV split, split.offset, split.left_count,
            split.right_count⟩
      else kd_cost_loop aabb axis SAV rest best := rfl

/-- A node whose lowest cost exceeds its triangle count is left as it is. -/
theorem kd_rec_leaf
    (qsort : (TerraKDSplit → TerraKDSplit → Int) → List TerraKDSplit → List TerraKDSplit)
    (scene : TerraScene) (depth : Nat) (tree : TerraKDTree) (node_idx : Nat) (aabb : TerraAABB)
    (node : TerraKDNode) (buffer : List TerraKDObjectRef) (cache : List TerraAABB)
    (hnode : tree.nodes[node_idx]? = some node)
    (hbuf : tree.object_buffers[node.objects]? = some buffer)
    (hcache : kd_aabb_cache scene buffer = some cache)
    (h : (kd_best qsort aabb cache buffer.length).lowest_cost > (buffer.length : ℚ)) :
    terra_kdtree_create_rec qsort scene (depth + 1) tree node_idx aabb = some tree := by
  simp only [terra_kdtree_create_rec, hnode, hbuf, hcache]
  rw [if_pos]
  exact h

/-- A node that is split and whose partition does not match the swept counts fails its
assertion. -/
theorem kd_rec_assert
    (qsort : (TerraKDSplit → TerraKDSplit → Int) → List TerraKDSplit → List TerraKDSplit)
    (scene : TerraScene) (depth : Nat) (tree : TerraKDTree) (node_idx : Nat) (aabb : TerraAABB)
    (node : TerraKDNode) (buffer : List TerraKDObjectRef) (cache : List TerraAABB)
    (hnode : tree.nodes[node_idx]? = some node)
    (hbuf : tree.object_buffers[node.objects]? = some buffer)
    (hcache : kd_aabb_cache scene buffer = some cache)
    (h : ¬ (kd_best qsort aabb cache buffer.length).lowest_cost > (buffer.length : ℚ))
    (hc : ¬ (((kd_parts aabb (kd_best qsort aabb cache buffer.length).best_split buffer
          cache).1.length : Int) = (kd_best qsort aabb cache buffer.length).left_count ∧
        ((kd_parts aabb (kd_best qsort aabb cache buffer.length).best_split buffer
          cache).2.length : Int) = (kd_best qsort aabb cache buffer.length).right_count)) :
    terra_kdtree_create_rec qsort scene (depth + 1) tree node_idx aabb = none := by
  simp only [terra_kdtree_create_rec, hnode, hbuf, hcache]
  rw [if_neg, if_neg]
  · exact hc
  · exact h

/-- A node that is split and passes its assertions: the two children are built on the
tree `kd_split_tree`, the left one first. -/
theorem kd_rec_split
    (qsort : (TerraKDSplit → TerraKDSplit → Int) → List TerraKDSplit → List TerraKDSplit)
    (scene : TerraScene) (depth : Nat) (tree : TerraKDTree) (node_idx : Nat) (aabb : TerraAABB)
    (node : TerraKDNode) (buffer : List TerraKDObjectRef) (cache : List TerraAABB)
    (hnode : tree.nodes[node_idx]? = some node)
    (hbuf : tree.object_buffers[node.objects]? = some buffer)
    (hcache : kd_aabb_cache scene buffer = some cache)
    (h : ¬ (kd_best qsort aabb cache buffer.length).lowest_cost > (buffer.length : ℚ))
    (hc : ((kd_parts aabb (kd_best qsort aabb cache buffer.length).best_split buffer
          cache).1.length : Int) = (kd_best qsort aabb cache buffer.length).left_count ∧
        ((kd_parts aabb (kd_best qsort aabb cache buffer.length).best_split buffer
          cache).2.length : Int) = (kd_best qsort aabb cache buffer.length).right_count) :
    terra_kdtree_create_rec qsort scene (depth + 1) tree node_idx aabb =
      match (if (kd_best qsort aabb cache buffer.length).left_count > 3 then
          terra_kdtree_create_rec qsort scene depth
            (kd_split_tree tree node_idx node (kd_axis aabb)
              (kd_best qsort aabb cache buffer.length).best_split
              (kd_parts aabb (kd_best qsort aabb cache buffer.length).best_split buffer cache))
            tree.nodes.length
            (kd_left_aabb aabb (kd_axis aabb)
              (kd_best qsort aabb cache buffer.length).best_split)
        else some (kd_split_tree tree node_idx node (kd_axis aabb)
              (kd_best qsort aabb cache buffer.length).best_split
              (kd_parts aabb (kd_best qsort aabb cache buffer.length).best_split buffer
                cache))) with
      | none => none
      | some t =>
        if (kd_best qsort aabb cache buffer.length).right_count > 3 then
          terra_kdtree_create_rec qsort scene depth t (tree.nodes.length + 1)
            (kd_right_aabb aabb (kd_axis aabb)
              (kd_best qsort aabb cache buffer.length).best_split)
        else some t := by
  simp only [terra_kdtree_create_rec, hnode, hbuf, hcache]
  rw [if_neg, if_pos]
  · rfl
  · exact hc
  · exact h

theorem kd_frame_refl (t : TerraKDTree) (idx b : Nat) : kd_frame t t idx b :=
  ⟨le_refl _, fun _ _ _ => rfl, le_refl _, fun _ _ _ => rfl, rfl⟩

/-- Frames compose when the later step rewrites only a node and a buffer that the first
tree did not have. -/
theorem kd_frame_trans {t1 t2 t3 : TerraKDTree} {idx b idx2 b2 : Nat}
    (h12 : kd_frame t1 t2 idx b) (h23 : kd_frame t2 t3 idx2 b2)
    (hi : t1.nodes.length ≤ idx2) (hb : t1.object_buffers.length ≤ b2) :
    kd_frame t1 t3 idx b := by
  obtain ⟨a1, a2, a3, a4, a5⟩ := h12
  obtain ⟨c1, c2, c3, c4, c5⟩ := h23
  refine ⟨le_trans a1 c1, ?_, le_trans a3 c3, ?_, c5.trans a5⟩
  · intro i hlt hne
    rw [c2 i (by omega) (by omega), a2 i hlt hne]
  · intro j hlt hne
    rw [c4 j (by omega) (by omega), a4 j hlt hne]

/-- The split step itself rewrites node `node_idx` and the node's buffer only. -/
theorem kd_split_tree_frame (tree : TerraKDTree) (node_idx : Nat) (node : TerraKDNode)
    (axis : Nat) (best_split : ℚ) (parts : List TerraKDObjectRef × List TerraKDObjectRef) :
    kd_frame tree (kd_split_tree tree node_idx node axis best_split parts) node_idx
      node.objects := by
  refine ⟨?_, ?_, ?_, ?_, rfl⟩
  · simp [kd_split_tree]
  · intro i hlt hne
    simp only [kd_split_tree]
    rw [List.getElem?_append_left (by simpa using hlt), List.getElem?_set_ne (Ne.symm hne)]
  · simp [kd_split_tree]
  · intro j hlt hne
    simp only [kd_split_tree]
    rw [List.getElem?_append_left (by simpa using hlt), List.getElem?_set_ne (Ne.symm hne)]

/-- The nodes and buffers that `kd_split_tree` writes. -/
theorem kd_split_tree_nodes (tree : TerraKDTree) (node_idx : Nat) (node : TerraKDNode)
    (axis : Nat) (best_split : ℚ) (parts : List TerraKDObjectRef × List TerraKDObjectRef)
    (hlt : node_idx < tree.nodes.length) :
    (kd_split_tree tree node_idx node axis best_split parts).nodes.length =
      tree.nodes.length + 2 ∧
    (kd_split_tree tree node_idx node axis best_split parts).object_buffers.length =
      tree.object_buffers.length + 2 ∧
    (kd_split_tree tree node_idx node axis best_split parts).nodes[node_idx]? =
      some { node with children := tree.nodes.length, is_leaf := false, axis := axis,
                       split := best_split } ∧
    (kd_split_tree tree node_idx node axis best_split parts).nodes[tree.nodes.length]? =
      some ⟨0, true, 0, 0, tree.object_buffers.length⟩ ∧
    (kd_split_tree tree node_idx node axis best_split parts).nodes[tree.nodes.length + 1]? =
      some ⟨0, true, 0, 0, tree.object_buffers.length + 1⟩ ∧
    (kd_split_tree tree node_idx node axis best_split
      parts).object_buffers[tree.object_buffers.length]? = some parts.1 ∧
    (kd_split_tree tree node_idx node axis best_split
      parts).object_buffers[tree.object_buffers.length + 1]? = some parts.2 := by
  refine ⟨by simp [kd_split_tree], by simp [kd_split_tree], ?_, ?_, ?_, ?_, ?_⟩
  · simp only [kd_split_tree]
    rw [List.getElem?_append_left (by simpa using hlt), List.getElem?_set_eq_of_lt _ hlt]
  · simp only [kd_split_tree]
    rw [List.getElem?_append_right (by simp)]
    simp
  · simp only [kd_split_tree]
    rw [List.getElem?_append_right (by simp)]
    simp
  · simp only [kd_split_tree]
    rw [List.getElem?_append_right (by simp)]
    simp
  · simp only [kd_split_tree]
    rw [List.getElem?_append_right (by simp)]
    simp

/-- What a completed call of `terra_kdtree_create_rec` with depth left did at its node:
it left the tree as it was because the lowest cost exceeds the triangle count, or it
passed both assertions, split the node and completed the (conditional) calls for the left
and then the right child. -/
theorem kd_rec_cases
    (qsort : (TerraKDSplit → TerraKDSplit → Int) → List TerraKDSplit → List TerraKDSplit)
    (scene : TerraScene) (depth : Nat) (tree result : TerraKDTree) (node_idx : Nat)
    (aabb : TerraAABB) (node : TerraKDNode)
    (hnode : tree.nodes[node_idx]? = some node)
    (h : terra_kdtree_create_rec qsort scene (depth + 1) tree node_idx aabb = some result) :
    ∃ buffer cache, tree.object_buffers[node.objects]? = some buffer ∧
      kd_aabb_cache scene buffer = some cache ∧
      (((kd_best qsort aabb cache buffer.length).lowest_cost > (buffer.length : ℚ) ∧
          result = tree) ∨
       (¬ (kd_best qsort aabb cache buffer.length).lowest_cost > (buffer.length : ℚ) ∧
        ((kd_parts aabb (kd_best qsort aabb cache buffer.length).best_split buffer
            cache).1.length : Int) = (kd_best qsort aabb cache buffer.length).left_count ∧
        ((kd_parts aabb (kd_best qsort aabb cache buffer.length).best_split buffer
            cache).2.length : Int) = (kd_best qsort aabb cache buffer.length).right_count ∧
        ∃ t : TerraKDTree,
          (if (kd_best qsort aabb cache buffer.length).left_count > 3 then
            terra_kdtree_create_rec qsort scene depth
              (kd_split_tree tree node_idx node (kd_axis aabb)
                (kd_best qsort aabb cache buffer.length).best_split
                (kd_parts aabb (kd_best qsort aabb cache buffer.length).best_split buffer
                  cache))
              tree.nodes.length
              (kd_left_aabb aabb (kd_axis aabb)
                (kd_best qsort aabb cache buffer.length).best_split)
          else some (kd_split_tree tree node_idx node (kd_axis aabb)
                (kd_best qsort aabb cache buffer.length).best_split
                (kd_parts aabb (kd_best qsort aabb cache buffer.length).best_split buffer
                  cache))) = some t ∧
          (if (kd_best qsort aabb cache buffer.length).right_count > 3 then
            terra_kdtree_create_rec qsort scene depth t (tree.nodes.length + 1)
              (kd_right_aabb aabb (kd_axis aabb)
                (kd_best qsort aabb cache buffer.length).best_split)
          else some t) = some result)) := by
  cases hbuf : tree.object_buffers[node.objects]? with
  | none => simp [terra_kdtree_create_rec, hnode, hbuf] at h
  | some buffer =>
    cases hcache : kd_aabb_cache scene buffer with
    | none => simp [terra_kdtree_create_rec, hnode, hbuf, hcache] at h
    | some cache =>
      refine ⟨buffer, cache, rfl, hcache, ?_⟩
      by_cases hleaf : (kd_best qsort aabb cache buffer.length).lowest_cost >
          (buffer.length : ℚ)
      · rw [kd_rec_leaf qsort scene depth tree node_idx aabb node buffer cache hnode hbuf
          hcache hleaf] at h
        exact Or.inl ⟨hleaf, (Option.some.inj h).symm⟩
      · by_cases hc : ((kd_parts aabb (kd_best qsort aabb cache buffer.length).best_split
              buffer cache).1.length : Int) =
              (kd_best qsort aabb cache buffer.length).left_count ∧
            ((kd_parts aabb (kd_best qsort aabb cache buffer.length).best_split buffer
              cache).2.length : Int) = (kd_best qsort aabb cache buffer.length).right_count
        · rw [kd_rec_split qsort scene depth tree node_idx aabb node buffer cache hnode hbuf
            hcache hleaf hc] at h
          refine Or.inr ⟨hleaf, hc.1, hc.2, ?_⟩
          split at h
          · exact absurd h (by simp)
          · next t ht => exact ⟨t, ht, h⟩
        · rw [kd_rec_assert qsort scene depth tree node_idx aabb node buffer cache hnode hbuf
            hcache hleaf hc] at h
          exact absurd h (by simp)

/-- A completed call of `terra_kdtree_create_rec` rewrites only its own node and that
node's buffer among the nodes and buffers it was given. -/
theorem kd_rec_frame
    (qsort : (TerraKDSplit → TerraKDSplit → Int) → List TerraKDSplit → List TerraKDSplit)
    (scene : TerraScene) : ∀ (depth : Nat) (tree result : TerraKDTree) (node_idx : Nat)
    (aabb : TerraAABB) (node : TerraKDNode), tree.nodes[node_idx]? = some node →
    terra_kdtree_create_rec qsort scene depth tree node_idx aabb = some result →
    kd_frame tree result node_idx node.objects := by
  intro depth
  induction depth with
  | zero =>
    intro tree result node_idx aabb node _ h
    simp only [terra_kdtree_create_rec, Option.some.injEq] at h
    subst h
    exact kd_frame_refl _ _ _
  | succ depth ih =>
    intro tree result node_idx aabb node hnode h
    obtain ⟨buffer, cache, hbuf, hcache, hcase⟩ :=
      kd_rec_cases qsort scene depth tree result node_idx aabb node hnode h
    rcases hcase with ⟨_, rfl⟩ | ⟨_, _, _, t, hl, hr⟩
    · exact kd_frame_refl _ _ _
    · have hlt : node_idx < tree.nodes.length := by
        rcases List.getElem?_eq_some_iff.mp hnode with ⟨hlt, _⟩
        exact hlt
      obtain ⟨n1, n2, n3, n4, n5, n6, n7⟩ := kd_split_tree_nodes tree node_idx node
        (kd_axis aabb) (kd_best qsort aabb cache buffer.length).best_split
        (kd_parts aabb (kd_best qsort aabb cache buffer.length).best_split buffer cache) hlt
      have f01 := kd_split_tree_frame tree node_idx node (kd_axis aabb)
        (kd_best qsort aabb cache buffer.length).best_split
        (kd_parts aabb (kd_best qsort aabb cache buffer.length).best_split buffer cache)
      have f12 : kd_frame (kd_split_tree tree node_idx node (kd_axis aabb)
          (kd_best qsort aabb cache buffer.length).best_split
          (kd_parts aabb (kd_best qsort aabb cache buffer.length).best_split buffer cache))
          t tree.nodes.length tree.object_buffers.length := by
        split at hl
        · exact ih _ _ _ _ _ n4 hl
        · rw [← Option.some.inj hl]
          exact kd_frame_refl _ _ _
      have hR : t.nodes[tree.nodes.length + 1]? =
          some ⟨0, true, 0, 0, tree.object_buffers.length + 1⟩ := by
        rw [f12.2.1 _ (by omega) (by omega), n5]
      have f23 : kd_frame t result (tree.nodes.length + 1)
          (tree.object_buffers.length + 1) := by
        split at hr
        · exact ih _ _ _ _ _ hR hr
        · rw [← Option.some.inj hr]
          exact kd_frame_refl _ _ _
      exact kd_frame_trans (kd_frame_trans f01 f12 (le_refl _) (le_refl _)) f23
        (by omega) (by omega)

/-- The cost of a split at or beyond the far face of the box, when every triangle counts
on the near side, exceeds the triangle count.  `a`, `b` are the extents of the two
sub-boxes along the axis, `P` the sum and `Q` the product of the other two extents. -/
theorem sah_cost_outside (a b P Q L R n : ℚ) (hP : 0 < P) (hQ : 0 < Q) (hX : 0 < a + b)
    (hb : b ≤ 0) (hL : L = n) (hR0 : 0 ≤ R) (hRn : R ≤ n) :
    n < 32 / 100 + (2 * (a * P + Q) * ((1 / 2) / ((a + b) * P + Q)) * L +
      2 * (b * P + Q) * ((1 / 2) / ((a + b) * P + Q)) * R) := by
  have hH : 0 < (a + b) * P + Q := by positivity
  have hn : 0 ≤ n := le_trans hR0 hRn
  have key : n * ((a + b) * P + Q) ≤ (a * P + Q) * L + (b * P + Q) * R := by
    subst hL
    have h1 : 0 ≤ -(L * b * P) := by
      have : L * b * P ≤ 0 := by
        have := mul_nonpos_of_nonneg_of_nonpos hn hb
        exact mul_nonpos_of_nonpos_of_nonneg this hP.le
      linarith
    by_cases hc : 0 ≤ b * P + Q
    · have := mul_nonneg hc hR0
      nlinarith
    · have hc2 : b * P + Q ≤ 0 := le_of_lt (not_le.mp hc)
      have h2 : (b * P + Q) * L ≤ (b * P + Q) * R :=
        mul_le_mul_of_nonpos_left hRn hc2
      have h3 : 0 ≤ L * Q := mul_nonneg hn hQ.le
      nlinarith
  have e : 2 * (a * P + Q) * ((1 / 2) / ((a + b) * P + Q)) * L +
      2 * (b * P + Q) * ((1 / 2) / ((a + b) * P + Q)) * R =
      ((a * P + Q) * L + (b * P + Q) * R) / ((a + b) * P + Q) := by
    field_simp
    ring
  rw [e]
  have h4 : n ≤ ((a * P + Q) * L + (b * P + Q) * R) / ((a + b) * P + Q) := by
    rw [le_div_iff₀ hH]
    exact key
  linarith

/-- The local `axis` is 0, 1 or 2. -/
theorem kd_axis_cases (aabb : TerraAABB) :
    kd_axis aabb = 0 ∨ kd_axis aabb = 1 ∨ kd_axis aabb = 2 := by
  unfold kd_axis
  split_ifs <;> simp

/-- A split at or beyond the maximum of a box with positive extents, with all `n`
triangles counted on the left, costs more than `n`. -/
theorem kd_cost_beyond_max (box : TerraAABB) (hpos : box_positive box) (split : TerraKDSplit)
    (n : ℚ) (hs : terra__comp box.max (kd_axis box) ≤ split.offset)
    (hL : (split.left_count : ℚ) = n) (hR0 : 0 ≤ (split.right_count : ℚ))
    (hRn : (split.right_count : ℚ) ≤ n) :
    n < kd_split_cost box (kd_axis box) (kd_SAV box) split := by
  have hx := hpos 0
  have hy := hpos 1
  have hz := hpos 2
  simp only [terra__comp] at hx hy hz
  rcases kd_axis_cases box with h | h | h
  · rw [h] at hs ⊢
    simp only [terra__comp] at hs
    have := sah_cost_outside (split.offset - box.min.x) (box.max.x - split.offset)
      ((box.max.z - box.min.z) + (box.max.y - box.min.y))
      ((box.max.z - box.min.z) * (box.max.y - box.min.y)) split.left_count split.right_count n
      (by linarith) (mul_pos (by linarith) (by linarith)) (by linarith) (by linarith) hL hR0
      hRn
    simp only [kd_split_cost, kd_SAV, terra__comp_set]
    convert this using 2
    ring_nf
  · rw [h] at hs ⊢
    simp only [terra__comp] at hs
    have := sah_cost_outside (split.offset - box.min.y) (box.max.y - split.offset)
      ((box.max.x - box.min.x) + (box.max.z - box.min.z))
      ((box.max.x - box.min.x) * (box.max.z - box.min.z)) split.left_count split.right_count n
      (by linarith) (mul_pos (by linarith) (by linarith)) (by linarith) (by linarith) hL hR0
      hRn
    simp only [kd_split_cost, kd_SAV, terra__comp_set]
    convert this using 2
    ring_nf
  · rw [h] at hs ⊢
    simp only [terra__comp] at hs
    have := sah_cost_outside (split.offset - box.min.z) (box.max.z - split.offset)
      ((box.max.x - box.min.x) + (box.max.y - box.min.y))
      ((box.max.x - box.min.x) * (box.max.y - box.min.y)) split.left_count split.right_count n
      (by linarith) (mul_pos (by linarith) (by linarith)) (by linarith) (by linarith) hL hR0
      hRn
    simp only [kd_split_cost, kd_SAV, terra__comp_set]
    convert this using 2
    ring_nf

/-- A split at or before the minimum of a box with positive extents, with all `n`
triangles counted on the right, costs more than `n`. -/
theorem kd_cost_before_min (box : TerraAABB) (hpos : box_positive box) (split : TerraKDSplit)
    (n : ℚ) (hs : split.offset ≤ terra__comp box.min (kd_axis box))
    (hR : (split.right_count : ℚ) = n) (hL0 : 0 ≤ (split.left_count : ℚ))
    (hLn : (split.left_count : ℚ) ≤ n) :
    n < kd_split_cost box (kd_axis box) (kd_SAV box) split := by
  have hx := hpos 0
  have hy := hpos 1
  have hz := hpos 2
  simp only [terra__comp] at hx hy hz
  rcases kd_axis_cases box with h | h | h
  · rw [h] at hs ⊢
    simp only [terra__comp] at hs
    have := sah_cost_outside (box.max.x - split.offset) (split.offset - box.min.x)
      ((box.max.z - box.min.z) + (box.max.y - box.min.y))
      ((box.max.z - box.min.z) * (box.max.y - box.min.y)) split.right_count split.left_count n
      (by linarith) (mul_pos (by linarith) (by linarith)) (by linarith) (by linarith) hR hL0
      hLn
    simp only [kd_split_cost, kd_SAV, terra__comp_set]
    convert this using 2
    ring_nf
  · rw [h] at hs ⊢
    simp only [terra__comp] at hs
    have := sah_cost_outside (box.max.y - split.offset) (split.offset - box.min.y)
      ((box.max.x - box.min.x) + (box.max.z - box.min.z))
      ((box.max.x - box.min.x) * (box.max.z - box.min.z)) split.right_count split.left_count n
      (by linarith) (mul_pos (by linarith) (by linarith)) (by linarith) (by linarith) hR hL0
      hLn
    simp only [kd_split_cost, kd_SAV, terra__comp_set]
    convert this using 2
    ring_nf
  · rw [h] at hs ⊢
    simp only [terra__comp] at hs
    have := sah_cost_outside (box.max.z - split.offset) (split.offset - box.min.z)
      ((box.max.x - box.min.x) + (box.max.y - box.min.y))
      ((box.max.x - box.min.x) * (box.max.y - box.min.y)) split.right_count split.left_count n
      (by linarith) (mul_pos (by linarith) (by linarith)) (by linarith) (by linarith) hR hL0
      hLn
    simp only [kd_split_cost, kd_SAV, terra__comp_set]
    convert this using 2
    ring_nf

/-- The result of the cost loop is its start value or the entry of one of the splits,
with the cost of that split. -/
theorem kd_cost_loop_mem (aabb : TerraAABB) (axis : Nat) (SAV : ℚ) :
    ∀ (splits : List TerraKDSplit) (best : KDBest),
      kd_cost_loop aabb axis SAV splits best = best ∨
      ∃ split ∈ splits, kd_cost_loop aabb axis SAV splits best =
        ⟨kd_split_cost aabb axis SAV split, split.offset, split.left_count,
          split.right_count⟩ := by
  intro splits
  induction splits with
  | nil => intro best; exact Or.inl rfl
  | cons s rest ih =>
    intro best
    rw [kd_cost_loop_cons]
    split_ifs with h
    · rcases ih ⟨kd_split_cost aabb axis SAV s, s.offset, s.left_count, s.right_count⟩ with
        e | ⟨t, ht, e⟩
      · exact Or.inr ⟨s, List.mem_cons_self _ _, e⟩
      · exact Or.inr ⟨t, List.mem_cons_of_mem _ ht, e⟩
    · rcases ih best with e | ⟨t, ht, e⟩
      · exact Or.inl e
      · exact Or.inr ⟨t, List.mem_cons_of_mem _ ht, e⟩

/-- The cached boxes are the boxes of the references, in order. -/
theorem kd_aabb_cache_forall (scene : TerraScene) :
    ∀ (buffer : List TerraKDObjectRef) (cache : List TerraAABB),
      kd_aabb_cache scene buffer = some cache →
      List.Forall₂ (fun ref c => ref_box scene ref = some c) buffer cache := by
  intro buffer
  induction buffer with
  | nil =>
    intro cache h
    simp only [kd_aabb_cache, Option.some.injEq] at h
    subst h
    exact List.Forall₂.nil
  | cons ref rest ih =>
    intro cache h
    unfold kd_aabb_cache at h
    cases ht : scene_triangle scene ref.primitive with
    | none => simp [ht] at h
    | some tri =>
      cases hr : kd_aabb_cache scene rest with
      | none => simp [ht, hr] at h
      | some boxes =>
        simp only [ht, hr, Option.some.injEq] at h
        subst h
        exact List.Forall₂.cons (by simp [ref_box, ht]) (ih boxes hr)

/-- The partition loop writes at most the buffer to either side; to the left it writes
all of it when every box passes the left test, to the right when every box passes the
right test; and every reference it writes passed the test of its side. -/
theorem kd_partition_spec (scene : TerraScene) (axis : Nat)
    (left_min left_max right_min right_max : ℚ) :
    ∀ (buffer : List TerraKDObjectRef) (cache : List TerraAABB),
      List.Forall₂ (fun ref c => ref_box scene ref = some c) buffer cache →
      (kd_partition axis left_min left_max right_min right_max buffer cache).1.length ≤
        buffer.length ∧
      (kd_partition axis left_min left_max right_min right_max buffer cache).2.length ≤
        buffer.length ∧
      ((∀ c ∈ cache, terra__comp c.min axis ≤ left_max ∧ terra__comp c.max axis ≥ left_min) →
        (kd_partition axis left_min left_max right_min right_max buffer cache).1.length =
          buffer.length) ∧
      ((∀ c ∈ cache, terra__comp c.min axis ≤ right_max ∧
          terra__comp c.max axis ≥ right_min) →
        (kd_partition axis left_min left_max right_min right_max buffer cache).2.length =
          buffer.length) ∧
      (∀ ref ∈ (kd_partition axis left_min left_max right_min right_max buffer cache).1,
        ref ∈ buffer ∧ ∃ c, ref_box scene ref = some c ∧
          terra__comp c.min axis ≤ left_max ∧ terra__comp c.max axis ≥ left_min) ∧
      (∀ ref ∈ (kd_partition axis left_min left_max right_min right_max buffer cache).2,
        ref ∈ buffer ∧ ∃ c, ref_box scene ref = some c ∧
          terra__comp c.min axis ≤ right_max ∧ terra__comp c.max axis ≥ right_min) := by
  intro buffer cache hf
  induction hf with
  | nil => simp [kd_partition]
  | @cons ref c refs boxes hrc _ ih =>
    obtain ⟨i1, i2, i3, i4, i5, i6⟩ := ih
    simp only [kd_partition]
    refine ⟨?_, ?_, ?_, ?_, ?_, ?_⟩
    · split_ifs <;> simp only [List.length_cons] <;> omega
    · split_ifs <;> simp only [List.length_cons] <;> omega
    · intro hall
      have h1 := hall c (List.mem_cons_self _ _)
      have h2 := i3 (fun d hd => hall d (List.mem_cons_of_mem _ hd))
      rw [if_pos h1]
      simp only [List.length_cons, h2]
    · intro hall
      have h1 := hall c (List.mem_cons_self _ _)
      have h2 := i4 (fun d hd => hall d (List.mem_cons_of_mem _ hd))
      rw [if_pos h1]
      simp only [List.length_cons, h2]
    · intro r hr
      split_ifs at hr with hc
      · rcases List.mem_cons.mp hr with rfl | hm
        · exact ⟨List.mem_cons_self _ _, c, hrc, hc⟩
        · obtain ⟨m1, m2⟩ := i5 r hm
          exact ⟨List.mem_cons_of_mem _ m1, m2⟩
      · obtain ⟨m1, m2⟩ := i5 r hr
        exact ⟨List.mem_cons_of_mem _ m1, m2⟩
    · intro r hr
      split_ifs at hr with hc
      · rcases List.mem_cons.mp hr with rfl | hm
        · exact ⟨List.mem_cons_self _ _, c, hrc, hc⟩
        · obtain ⟨m1, m2⟩ := i6 r hm
          exact ⟨List.mem_cons_of_mem _ m1, m2⟩
      · obtain ⟨m1, m2⟩ := i6 r hr
        exact ⟨List.mem_cons_of_mem _ m1, m2⟩

/-- Reading a component after an assignment through `terra__comp`: either the component
read is the one assigned, or the assignment does not show. -/
theorem comp_set_cases (v : TerraFloat3) (ax : Nat) (hax : ax = 0 ∨ ax = 1 ∨ ax = 2) (x : ℚ)
    (k : Nat) :
    (terra__comp (terra__comp_set v ax x) k = x ∧
      ∀ w : TerraFloat3, terra__comp w k = terra__comp w ax) ∨
    terra__comp (terra__comp_set v ax x) k = terra__comp v k := by
  rcases hax with rfl | rfl | rfl <;> rcases k with _ | _ | k <;>
    simp [terra__comp, terra__comp_set]

/-- Every cached box belongs to a reference of the buffer. -/
theorem forall₂_mem_right {α β : Type} {R : α → β → Prop} {l1 : List α} {l2 : List β}
    (h : List.Forall₂ R l1 l2) : ∀ c ∈ l2, ∃ r ∈ l1, R r c := by
  induction h with
  | nil => intro c hc; cases hc
  | @cons a b as bs hab _ ih =>
    intro c hc
    rcases List.mem_cons.mp hc with rfl | hm
    · exact ⟨a, List.mem_cons_self _ _, hab⟩
    · obtain ⟨r, hr, hR⟩ := ih c hm
      exact ⟨r, List.mem_cons_of_mem _ hr, hR⟩

/-- A node that is split and passes both assertions has a non-empty buffer, and the
chosen split lies strictly inside the node's box along the split axis: a split at or
outside a face would put every triangle on one side and cost more than leaving the node
a leaf. -/
theorem kd_split_strictly_inside
    (qsort : (TerraKDSplit → TerraKDSplit → Int) → List TerraKDSplit → List TerraKDSplit)
    (scene : TerraScene) (N : Nat) (hN : (N : ℚ) < FLT_MAX) (box : TerraAABB)
    (buffer : List TerraKDObjectRef) (cache : List TerraAABB)
    (hinv : kd_buffer_inv scene N buffer box)
    (hcache : kd_aabb_cache scene buffer = some cache)
    (hsplit : ¬ (kd_best qsort box cache buffer.length).lowest_cost > (buffer.length : ℚ))
    (hc1 : ((kd_parts box (kd_best qsort box cache buffer.length).best_split buffer
      cache).1.length : Int) = (kd_best qsort box cache buffer.length).left_count)
    (hc2 : ((kd_parts box (kd_best qsort box cache buffer.length).best_split buffer
      cache).2.length : Int) = (kd_best qsort box cache buffer.length).right_count) :
    buffer ≠ [] ∧
    terra__comp box.min (kd_axis box) < (kd_best qsort box cache buffer.length).best_split ∧
    (kd_best qsort box cache buffer.length).best_split < terra__comp box.max (kd_axis box) := by
  obtain ⟨hlen, hov, hpos⟩ := hinv
  have hf := kd_aabb_cache_forall scene buffer cache hcache
  have hnN : (buffer.length : ℚ) < FLT_MAX :=
    lt_of_le_of_lt (by exact_mod_cast hlen) hN
  rcases kd_cost_loop_mem box (kd_axis box) (kd_SAV box)
      (kd_candidates qsort (kd_axis box) cache buffer.length) ⟨FLT_MAX, 0, 0, 0⟩ with
    e | ⟨σ, _, e⟩
  · exfalso
    apply hsplit
    unfold kd_best
    rw [e]
    exact hnN
  · have hbest : kd_best qsort box cache buffer.length =
        ⟨kd_split_cost box (kd_axis box) (kd_SAV box) σ, σ.offset, σ.left_count,
          σ.right_count⟩ := e
    rw [hbest] at hsplit hc1 hc2 ⊢
    simp only [] at hsplit hc1 hc2 ⊢
    have hcost : kd_split_cost box (kd_axis box) (kd_SAV box) σ ≤ (buffer.length : ℚ) :=
      not_lt.mp hsplit
    obtain ⟨p1, p2, p3, p4, _, _⟩ := kd_partition_spec scene (kd_axis box)
      (terra__comp box.min (kd_axis box)) σ.offset σ.offset
      (terra__comp box.max (kd_axis box)) buffer cache hf
    have hL : (σ.left_count : ℚ) = ((kd_parts box σ.offset buffer cache).1.length : ℚ) := by
      rw [← hc1]; push_cast; rfl
    have hR : (σ.right_count : ℚ) = ((kd_parts box σ.offset buffer cache).2.length : ℚ) := by
      rw [← hc2]; push_cast; rfl
    have hL0 : (0 : ℚ) ≤ σ.left_count := by rw [hL]; exact Nat.cast_nonneg _
    have hR0 : (0 : ℚ) ≤ σ.right_count := by rw [hR]; exact Nat.cast_nonneg _
    have hLn : (σ.left_count : ℚ) ≤ (buffer.length : ℚ) := by
      rw [hL]; exact_mod_cast p1
    have hRn : (σ.right_count : ℚ) ≤ (buffer.length : ℚ) := by
      rw [hR]; exact_mod_cast p2
    have hne : buffer ≠ [] := by
      intro hb
      subst hb
      have hLz : (σ.left_count : ℚ) = 0 := le_antisymm (by simpa using hLn) hL0
      have hRz : (σ.right_count : ℚ) = 0 := le_antisymm (by simpa using hRn) hR0
      simp only [kd_split_cost, hLz, hRz, mul_zero, add_zero, List.length_nil,
        Nat.cast_zero] at hcost
      norm_num at hcost
    have hbox := hpos hne
    have hall : ∀ c ∈ cache, box_overlaps c box := by
      intro c hc
      obtain ⟨r, hr, hR⟩ := forall₂_mem_right hf c hc
      exact hov r hr c hR
    refine ⟨hne, ?_, ?_⟩
    · by_contra hcon
      have hs : σ.offset ≤ terra__comp box.min (kd_axis box) := not_lt.mp hcon
      have hfull := p4 (fun c hc => ⟨(hall c hc (kd_axis box)).1,
        le_trans hs (hall c hc (kd_axis box)).2⟩)
      have hRe : (σ.right_count : ℚ) = (buffer.length : ℚ) := by
        rw [hR]
        exact_mod_cast hfull
      exact absurd hcost (not_le.mpr (kd_cost_before_min box hbox σ _ hs hRe hL0 hLn))
    · by_contra hcon
      have hs : terra__comp box.max (kd_axis box) ≤ σ.offset := not_lt.mp hcon
      have hfull := p3 (fun c hc => ⟨le_trans (hall c hc (kd_axis box)).1 hs,
        (hall c hc (kd_axis box)).2⟩)
      have hLe : (σ.left_count : ℚ) = (buffer.length : ℚ) := by
        rw [hL]
        exact_mod_cast hfull
      exact absurd hcost (not_le.mpr (kd_cost_beyond_max box hbox σ _ hs hLe hR0 hRn))

/-- For a split strictly inside the box, both child boxes have positive extents and the
two buffers written by the partition loop satisfy the invariant for their boxes. -/
theorem kd_child_inv (scene : TerraScene) (N : Nat) (box : TerraAABB)
    (buffer : List TerraKDObjectRef) (cache : List TerraAABB)
    (hinv : kd_buffer_inv scene N buffer box)
    (hcache : kd_aabb_cache scene buffer = some cache) (hne : buffer ≠ []) (s : ℚ)
    (hlo : terra__comp box.min (kd_axis box) < s)
    (hhi : s < terra__comp box.max (kd_axis box)) :
    box_positive (kd_left_aabb box (kd_axis box) s) ∧
    box_positive (kd_right_aabb box (kd_axis box) s) ∧
    kd_buffer_inv scene N (kd_parts box s buffer cache).1 (kd_left_aabb box (kd_axis box) s) ∧
    kd_buffer_inv scene N (kd_parts box s buffer cache).2
      (kd_right_aabb box (kd_axis box) s) := by
  obtain ⟨hlen, hov, hpos⟩ := hinv
  have hbox := hpos hne
  have hf := kd_aabb_cache_forall scene buffer cache hcache
  obtain ⟨p1, p2, _, _, p5, p6⟩ := kd_partition_spec scene (kd_axis box)
    (terra__comp box.min (kd_axis box)) s s (terra__comp box.max (kd_axis box)) buffer cache hf
  have hax := kd_axis_cases box
  have pl : box_positive (kd_left_aabb box (kd_axis box) s) := by
    intro k
    simp only [kd_left_aabb]
    rcases comp_set_cases box.max (kd_axis box) hax s k with ⟨e, same⟩ | e
    · rw [e, same box.min]; exact hlo
    · rw [e]; exact hbox k
  have pr : box_positive (kd_right_aabb box (kd_axis box) s) := by
    intro k
    simp only [kd_right_aabb]
    rcases comp_set_cases box.min (kd_axis box) hax s k with ⟨e, same⟩ | e
    · rw [e, same box.max]; exact hhi
    · rw [e]; exact hbox k
  refine ⟨pl, pr, ⟨le_trans p1 hlen, ?_, fun _ => pl⟩, ⟨le_trans p2 hlen, ?_, fun _ => pr⟩⟩
  · intro ref href c hc k
    obtain ⟨hmem, c2, hc2, t1, _⟩ := p5 ref href
    have hcc : c2 = c := Option.some.inj (hc2.symm.trans hc)
    subst hcc
    have hpar := hov ref hmem c2 hc k
    simp only [kd_left_aabb]
    refine ⟨?_, hpar.2⟩
    rcases comp_set_cases box.max (kd_axis box) hax s k with ⟨e, same⟩ | e
    · rw [e, same c2.min]; exact t1
    · rw [e]; exact hpar.1
  · intro ref href c hc k
    obtain ⟨hmem, c2, hc2, _, t2⟩ := p6 ref href
    have hcc : c2 = c := Option.some.inj (hc2.symm.trans hc)
    subst hcc
    have hpar := hov ref hmem c2 hc k
    simp only [kd_right_aabb]
    refine ⟨hpar.1, ?_⟩
    rcases comp_set_cases box.min (kd_axis box) hax s k with ⟨e, same⟩ | e
    · rw [e, same c2.max]; exact t2
    · rw [e]; exact hpar.2

/-- The subtree property only looks at the nodes of the subtree. -/
theorem kd_inside_frame {nodes nodes2 : List TerraKDNode} {idx : Nat} {box : TerraAABB}
    {us : List Nat} (T : KDInside nodes idx box us)
    (h : ∀ i ∈ us, nodes2[i]? = nodes[i]?) : KDInside nodes2 idx box us := by
  induction T with
  | leaf idx box nd hnd hl =>
    exact KDInside.leaf idx box nd ((h idx (List.mem_singleton.mpr rfl)).trans hnd) hl
  | inner idx box nd us0 us1 hnd hl hlo hhi p0 p1 _ _ ih0 ih1 =>
    refine KDInside.inner idx box nd us0 us1 ((h idx (List.mem_cons_self _ _)).trans hnd) hl
      hlo hhi p0 p1 (ih0 ?_) (ih1 ?_)
    · intro i hi
      exact h i (List.mem_cons_of_mem _ (List.mem_append_left _ hi))
    · intro i hi
      exact h i (List.mem_cons_of_mem _ (List.mem_append_right _ hi))

/-- A completed call of `terra_kdtree_create_rec` on a leaf whose buffer satisfies the
invariant leaves a subtree in which every split lies inside its node's box; the
subtree's nodes are the node itself and nodes allocated by the call. -/
theorem kd_rec_inside
    (qsort : (TerraKDSplit → TerraKDSplit → Int) → List TerraKDSplit → List TerraKDSplit)
    (scene : TerraScene) (N : Nat) (hN : (N : ℚ) < FLT_MAX) :
    ∀ (depth : Nat) (tree result : TerraKDTree) (idx : Nat) (box : TerraAABB)
      (node : TerraKDNode), tree.nodes[idx]? = some node → node.is_leaf = true →
      (∀ buffer, tree.object_buffers[node.objects]? = some buffer →
        kd_buffer_inv scene N buffer box) →
      terra_kdtree_create_rec qsort scene depth tree idx box = some result →
      ∃ us, KDInside result.nodes idx box us ∧
        (∀ i ∈ us, i = idx ∨ tree.nodes.length ≤ i) ∧
        (∀ i ∈ us, i < result.nodes.length) := by
  intro depth
  induction depth with
  | zero =>
    intro tree result idx box node hnode hleaf _ h
    simp only [terra_kdtree_create_rec, Option.some.injEq] at h
    subst h
    have hlt : idx < tree.nodes.length := (List.getElem?_eq_some_iff.mp hnode).1
    refine ⟨[idx], KDInside.leaf idx box node hnode hleaf, ?_, ?_⟩
    · intro i hi; exact Or.inl (List.mem_singleton.mp hi)
    · intro i hi; rw [List.mem_singleton.mp hi]; exact hlt
  | succ depth ih =>
    intro tree result idx box node hnode hleaf hinv h
    have hlt : idx < tree.nodes.length := (List.getElem?_eq_some_iff.mp hnode).1
    obtain ⟨buffer, cache, hbuf, hcache, hcase⟩ :=
      kd_rec_cases qsort scene depth tree result idx box node hnode h
    rcases hcase with ⟨_, rfl⟩ | ⟨hs, hc1, hc2, t, hl, hr⟩
    · refine ⟨[idx], KDInside.leaf idx box node hnode hleaf, ?_, ?_⟩
      · intro i hi; exact Or.inl (List.mem_singleton.mp hi)
      · intro i hi; rw [List.mem_singleton.mp hi]; exact hlt
    · have hbinv := hinv buffer hbuf
      obtain ⟨hne, hlo, hhi⟩ := kd_split_strictly_inside qsort scene N hN box buffer cache
        hbinv hcache hs hc1 hc2
      obtain ⟨pl, pr, invL, invR⟩ := kd_child_inv scene N box buffer cache hbinv hcache hne
        (kd_best qsort box cache buffer.length).best_split hlo hhi
      generalize (kd_best qsort box cache buffer.length).best_split = s at *
      generalize kd_parts box s buffer cache = parts at *
      obtain ⟨n1, n2, n3, n4, n5, n6, n7⟩ := kd_split_tree_nodes tree idx node
        (kd_axis box) s parts hlt
      have f01 := kd_split_tree_frame tree idx node (kd_axis box) s parts
      generalize kd_split_tree tree idx node (kd_axis box) s parts = T1 at *
      -- the left child
      have hleft : (∃ us0, KDInside t.nodes tree.nodes.length
            (kd_left_aabb box (kd_axis box) s) us0 ∧
          (∀ i ∈ us0, i = tree.nodes.length ∨ T1.nodes.length ≤ i) ∧
          (∀ i ∈ us0, i < t.nodes.length)) ∧
          kd_frame T1 t tree.nodes.length tree.object_buffers.length := by
        split at hl
        · refine ⟨ih T1 t tree.nodes.length _ _ n4 rfl ?_ hl,
            kd_rec_frame qsort scene depth T1 t tree.nodes.length _ _ n4 hl⟩
          intro b hb
          rw [n6] at hb
          rw [← Option.some.inj hb]
          exact invL
        · have ht : T1 = t := Option.some.inj hl
          subst ht
          refine ⟨⟨[tree.nodes.length], KDInside.leaf _ _ _ n4 rfl, ?_, ?_⟩,
            kd_frame_refl _ _ _⟩
          · intro i hi; exact Or.inl (List.mem_singleton.mp hi)
          · intro i hi; rw [List.mem_singleton.mp hi, n1]; omega
      obtain ⟨⟨us0, T0, b0, c0⟩, f12⟩ := hleft
      have hR : t.nodes[tree.nodes.length + 1]? =
          some ⟨0, true, 0, 0, tree.object_buffers.length + 1⟩ := by
        rw [f12.2.1 _ (by omega) (by omega), n5]
      have hRb : t.object_buffers[tree.object_buffers.length + 1]? = some parts.2 := by
        rw [f12.2.2.2.1 _ (by omega) (by omega), n7]
      -- the right child
      have hright : (∃ us1, KDInside result.nodes (tree.nodes.length + 1)
            (kd_right_aabb box (kd_axis box) s) us1 ∧
          (∀ i ∈ us1, i = tree.nodes.length + 1 ∨ t.nodes.length ≤ i) ∧
          (∀ i ∈ us1, i < result.nodes.length)) ∧
          kd_frame t result (tree.nodes.length + 1) (tree.object_buffers.length + 1) := by
        split at hr
        · refine ⟨ih t result (tree.nodes.length + 1) _ _ hR rfl ?_ hr,
            kd_rec_frame qsort scene depth t result (tree.nodes.length + 1) _ _ hR hr⟩
          intro b hb
          rw [hRb] at hb
          rw [← Option.some.inj hb]
          exact invR
        · have ht : t = result := Option.some.inj hr
          subst ht
          refine ⟨⟨[tree.nodes.length + 1], KDInside.leaf _ _ _ hR rfl, ?_, ?_⟩,
            kd_frame_refl _ _ _⟩
          · intro i hi; exact Or.inl (List.mem_singleton.mp hi)
          · intro i hi
            rw [List.mem_singleton.mp hi]
            have := f12.1
            omega
      obtain ⟨⟨us1, T1r, b1, c1⟩, f23⟩ := hright
      have hlen12 := f12.1
      have hlen23 := f23.1
      have hidx : result.nodes[idx]? =
          some { node with children := tree.nodes.length, is_leaf := false,
                           axis := kd_axis box, split := s } := by
        rw [f23.2.1 _ (by omega) (by omega), f12.2.1 _ (by omega) (by omega), n3]
      have T0r : KDInside result.nodes tree.nodes.length
          (kd_left_aabb box (kd_axis box) s) us0 := by
        apply kd_inside_frame T0
        intro i hi
        have hb := b0 i hi
        have hc := c0 i hi
        exact f23.2.1 i hc (by omega)
      refine ⟨idx :: (us0 ++ us1),
        KDInside.inner idx box _ us0 us1 hidx rfl (le_of_lt hlo) (le_of_lt hhi) pl pr T0r T1r,
        ?_, ?_⟩
      · intro i hi
        rcases List.mem_cons.mp hi with rfl | hm
        · exact Or.inl rfl
        · rcases List.mem_append.mp hm with h0 | h1
          · have := b0 i h0; omega
          · have := b1 i h1; omega
      · intro i hi
        rcases List.mem_cons.mp hi with rfl | hm
        · omega
        · rcases List.mem_append.mp hm with h0 | h1
          · have := c0 i h0; omega
          · exact c1 i h1

theorem three_scene_aabb : scene_aabb three_scene = three_box := by
  norm_num [scene_aabb, scene_triangles, three_scene, three_box, terra_aabb_fit_triangle,
    empty_aabb, terra_f3_set1, terra_minf, terra_maxf, terra_Epsilon, FLT_MAX]

theorem three_scene_cache :
    kd_aabb_cache three_scene (kd_scene_refs 0 three_scene.objects) = some three_cache := by
  norm_num [kd_aabb_cache, kd_scene_refs, kd_object_refs, scene_triangle, three_scene,
    three_cache, terra_aabb_fit_triangle, empty_aabb, terra_f3_set1, terra_minf, terra_maxf,
    terra_Epsilon, FLT_MAX]

theorem three_scene_axis : kd_axis three_box = 0 := by
  norm_num [kd_axis, three_box]

theorem three_scene_best :
    kd_best (fun _ l => l) three_box three_cache 3 =
      ⟨5323780556 / 2294625175, 19999 / 10000, 2, 2⟩ := by
  unfold kd_best
  rw [three_scene_axis]
  norm_num [kd_candidates, kd_collect_splits, terra_kdtree_add_splitbuffer, kd_count_splits,
    kd_cost_loop, kd_SAV, three_box, three_cache, terra__comp, terra__comp_set, FLT_MAX]

theorem three_scene_parts :
    kd_parts three_box (19999 / 10000) (kd_scene_refs 0 three_scene.objects) three_cache =
      ([⟨⟨⟨0, 0, 0⟩, ⟨1, 0, 0⟩, ⟨0, 1, 0⟩⟩, (0, 0)⟩,
        ⟨⟨⟨2, 0, 0⟩, ⟨3, 0, 0⟩, ⟨2, 1, 0⟩⟩, (0, 1)⟩],
       [⟨⟨⟨2, 0, 0⟩, ⟨3, 0, 0⟩, ⟨2, 1, 0⟩⟩, (0, 1)⟩,
        ⟨⟨⟨10, 0, 0⟩, ⟨11, 0, 0⟩, ⟨10, 1, 0⟩⟩, (0, 2)⟩]) := by
  unfold kd_parts
  rw [three_scene_axis]
  norm_num [kd_partition, kd_scene_refs, kd_object_refs, three_scene, three_box, three_cache,
    terra__comp]

/-- On `three_scene` the root is split once, at the start of the second triangle, and
both children stay leaves. -/
theorem three_scene_kdtree :
    terra_kdtree_create (fun _ l => l) three_scene =
      some ⟨[⟨19999 / 10000, false, 0, 1, 0⟩, ⟨0, true, 0, 0, 1⟩, ⟨0, true, 0, 0, 2⟩],
        [[], [⟨⟨⟨0, 0, 0⟩, ⟨1, 0, 0⟩, ⟨0, 1, 0⟩⟩, (0, 0)⟩,
              ⟨⟨⟨2, 0, 0⟩, ⟨3, 0, 0⟩, ⟨2, 1, 0⟩⟩, (0, 1)⟩],
         [⟨⟨⟨2, 0, 0⟩, ⟨3, 0, 0⟩, ⟨2, 1, 0⟩⟩, (0, 1)⟩,
          ⟨⟨⟨10, 0, 0⟩, ⟨11, 0, 0⟩, ⟨10, 1, 0⟩⟩, (0, 2)⟩]],
        three_box⟩ := by
  have hlen : (kd_scene_refs 0 three_scene.objects).length = 3 := rfl
  unfold terra_kdtree_create
  rw [three_scene_aabb]
  rw [kd_rec_split (fun _ l => l) three_scene 19
    ⟨[⟨0, true, 0, 0, 0⟩], [kd_scene_refs 0 three_scene.objects], three_box⟩ 0 three_box
    ⟨0, true, 0, 0, 0⟩ (kd_scene_refs 0 three_scene.objects) three_cache rfl rfl
    three_scene_cache
    (by rw [hlen, three_scene_best]; norm_num)
    (by rw [hlen, three_scene_best, three_scene_parts]; exact ⟨rfl, rfl⟩)]
  rw [hlen, three_scene_best, three_scene_parts, three_scene_axis]
  rfl

theorem kd_object_refs_length (j : Nat) : ∀ (i : Nat) (ts : List TerraTriangle),
    (kd_object_refs j i ts).length = ts.length := by
  intro i ts
  induction ts generalizing i with
  | nil => rfl
  | cons t ts ih => simp [kd_object_refs, ih]

theorem kd_scene_refs_length : ∀ (j : Nat) (objects : List TerraObject),
    (kd_scene_refs j objects).length = (objects.flatMap (fun o => o.triangles)).length := by
  intro j objects
  induction objects generalizing j with
  | nil => rfl
  | cons o os ih => simp [kd_scene_refs, kd_object_refs_length, ih]

/-- A triangle a reference names is a triangle of the scene. -/
theorem scene_triangle_mem (scene : TerraScene) (primitive : Nat × Nat) (tri : TerraTriangle)
    (h : scene_triangle scene primitive = some tri) : tri ∈ scene_triangles scene := by
  unfold scene_triangle at h
  cases ho : scene.objects[primitive.1]? with
  | none => simp [ho] at h
  | some object =>
    simp only [ho] at h
    obtain ⟨h1, e1⟩ := List.getElem?_eq_some_iff.mp ho
    obtain ⟨h2, e2⟩ := List.getElem?_eq_some_iff.mp h
    unfold scene_triangles
    rw [List.mem_flatMap]
    exact ⟨object, e1 ▸ List.getElem_mem h1, e2 ▸ List.getElem_mem h2⟩

/-- The box of a scene triangle lies in the scene box and is at least `2 ε` wide. -/
theorem triangle_box_in_scene_box (scene : TerraScene) (tri : TerraTriangle)
    (h : tri ∈ scene_triangles scene) (k : Nat) :
    terra__comp (scene_aabb scene).min k ≤
      terra__comp (terra_aabb_fit_triangle empty_aabb tri).min k ∧
    terra__comp (terra_aabb_fit_triangle empty_aabb tri).min k <
      terra__comp (terra_aabb_fit_triangle empty_aabb tri).max k ∧
    terra__comp (terra_aabb_fit_triangle empty_aabb tri).max k ≤
      terra__comp (scene_aabb scene).max k := by
  have hc := foldl_fit_triangle_contains (scene_triangles scene) empty_aabb
    (fun k => by rw [comp_empty_min, comp_empty_max]; exact ⟨le_refl _, le_refl _⟩) tri h k
  have hv := (vol_ok_fit_triangle tri 0).2 k
  have e := eps_pos
  refine ⟨hc.1, ?_, hc.2⟩
  have := hv.1
  simp only [] at this
  linarith

/-- C38: in every KD-tree that `terra_kdtree_create` builds (for a scene of fewer than
`2³¹` triangles, the range of the C counters), the node array is a tree rooted at node 0
in which the split position of every internal node lies within the node's box along its
split axis, and both child boxes have `min < max` on every axis. -/
theorem kdtree_splits_inside_boxes
    (qsort : (TerraKDSplit → TerraKDSplit → Int) → List TerraKDSplit → List TerraKDSplit)
    (scene : TerraScene) (tree : TerraKDTree)
    (hcount : (scene_triangles scene).length < 2 ^ 31)
    (h : terra_kdtree_create qsort scene = some tree) :
    ∃ us, KDInside tree.nodes 0 tree.scene_aabb us := by
  unfold terra_kdtree_create at h
  have hN : (((scene_triangles scene).length : Nat) : ℚ) < FLT_MAX := by
    have h1 : (((scene_triangles scene).length : Nat) : ℚ) < ((2 ^ 31 : Nat) : ℚ) := by
      exact_mod_cast hcount
    have h2 : ((2 ^ 31 : Nat) : ℚ) < FLT_MAX := by norm_num [FLT_MAX]
    exact lt_trans h1 h2
  have hroot : ∀ buffer,
      ([kd_scene_refs 0 scene.objects] : List (List TerraKDObjectRef))[0]? = some buffer →
      kd_buffer_inv scene (scene_triangles scene).length buffer (scene_aabb scene) := by
    intro buffer hb
    simp only [List.getElem?_cons_zero, Option.some.injEq] at hb
    subst hb
    refine ⟨?_, ?_, ?_⟩
    · rw [kd_scene_refs_length]
      exact le_refl _
    · intro ref _ c hc k
      unfold ref_box at hc
      cases ht : scene_triangle scene ref.primitive with
      | none => simp [ht] at hc
      | some tri =>
        simp only [ht, Option.map_some', Option.some.injEq] at hc
        subst hc
        obtain ⟨a1, a2, a3⟩ := triangle_box_in_scene_box scene tri
          (scene_triangle_mem scene _ tri ht) k
        exact ⟨le_trans (le_of_lt a2) a3, le_trans a1 (le_of_lt a2)⟩
    · intro hne k
      have hlen : 0 < (scene_triangles scene).length := by
        have := kd_scene_refs_length 0 scene.objects
        have h0 : 0 < (kd_scene_refs 0 scene.objects).length :=
          List.length_pos.mpr hne
        unfold scene_triangles
        omega
      obtain ⟨tri, htri⟩ := List.exists_mem_of_length_pos hlen
      obtain ⟨a1, a2, a3⟩ := triangle_box_in_scene_box scene tri htri k
      exact lt_of_le_of_lt a1 (lt_of_lt_of_le a2 a3)
  obtain ⟨us, hus, _, _⟩ := kd_rec_inside qsort scene (scene_triangles scene).length hN 20
    ⟨[⟨0, true, 0, 0, 0⟩], [kd_scene_refs 0 scene.objects], scene_aabb scene⟩ tree 0
    (scene_aabb scene) ⟨0, true, 0, 0, 0⟩ rfl rfl hroot h
  have hf := kd_rec_frame qsort scene 20
    ⟨[⟨0, true, 0, 0, 0⟩], [kd_scene_refs 0 scene.objects], scene_aabb scene⟩ tree 0
    (scene_aabb scene) ⟨0, true, 0, 0, 0⟩ rfl h
  have hbox : tree.scene_aabb = scene_aabb scene := hf.2.2.2.2
  rw [hbox]
  exact ⟨us, hus⟩

/-- Witness for C38: the tree built for `three_scene` has its root split at `1.9999`,
inside the root box `[-0.0003, 11.0001]` on the x axis. -/
theorem kdtree_splits_inside_boxes_witness :
    ∃ (tree : TerraKDTree) (us : List Nat),
      terra_kdtree_create (fun _ l => l) three_scene = some tree ∧
      tree.nodes[0]? = some ⟨19999 / 10000, false, 0, 1, 0⟩ ∧
      tree.scene_aabb = three_box ∧
      KDInside tree.nodes 0 tree.scene_aabb us := by
  obtain ⟨us, hus⟩ := kdtree_splits_inside_boxes (fun _ l => l) three_scene _ (by decide)
    three_scene_kdtree
  exact ⟨_, us, three_scene_kdtree, rfl, rfl, hus⟩

/-- The local `SAV` is the reciprocal of the surface area of the node's box. -/
theorem kd_SAV_eq (aabb : TerraAABB) : kd_SAV aabb = 1 / terra_aabb_surface_area aabb := by
  unfold kd_SAV terra_aabb_surface_area
  simp only []
  rw [div_div]

/-- The cost of a split in terms of the surface areas of the two sub-boxes. -/
theorem kd_split_cost_eq (aabb : TerraAABB) (axis : Nat) (SAV : ℚ) (split : TerraKDSplit) :
    kd_split_cost aabb axis SAV split =
      32 / 100 + SAV *
        (terra_aabb_surface_area (kd_left_aabb aabb axis split.offset) *
            (split.left_count : ℚ) +
          terra_aabb_surface_area (kd_right_aabb aabb axis split.offset) *
            (split.right_count : ℚ)) := by
  unfold kd_split_cost terra_aabb_surface_area kd_left_aabb kd_right_aabb
  simp only []
  ring

/-- The lowest cost after the loop is the minimum of the start value and the costs of
the splits. -/
theorem kd_cost_loop_lowest (aabb : TerraAABB) (axis : Nat) (SAV : ℚ) :
    ∀ (splits : List TerraKDSplit) (best : KDBest),
      (kd_cost_loop aabb axis SAV splits best).lowest_cost =
        (splits.map (kd_split_cost aabb axis SAV)).foldl min best.lowest_cost := by
  intro splits
  induction splits with
  | nil => intro best; rfl
  | cons s rest ih =>
    intro best
    rw [kd_cost_loop_cons]
    simp only [List.map_cons, List.foldl_cons]
    split_ifs with h
    · rw [ih, min_eq_right (le_of_lt h)]
    · rw [ih, min_eq_left (not_lt.mp h)]

/-- A node that is split and completes has two children allocated and is marked
internal with the chosen axis and split. -/
theorem kd_rec_split_node
    (qsort : (TerraKDSplit → TerraKDSplit → Int) → List TerraKDSplit → List TerraKDSplit)
    (scene : TerraScene) (depth : Nat) (tree result : TerraKDTree) (node_idx : Nat)
    (aabb : TerraAABB) (node : TerraKDNode) (buffer : List TerraKDObjectRef)
    (cache : List TerraAABB)
    (hnode : tree.nodes[node_idx]? = some node)
    (hbuf : tree.object_buffers[node.objects]? = some buffer)
    (hcache : kd_aabb_cache scene buffer = some cache)
    (hs : ¬ (kd_best qsort aabb cache buffer.length).lowest_cost > (buffer.length : ℚ))
    (h : terra_kdtree_create_rec qsort scene (depth + 1) tree node_idx aabb = some result) :
    tree.nodes.length + 2 ≤ result.nodes.length ∧
    result.nodes[node_idx]? =
      some { node with children := tree.nodes.length, is_leaf := false,
                       axis := kd_axis aabb,
                       split := (kd_best qsort aabb cache buffer.length).best_split } := by
  have hlt : node_idx < tree.nodes.length := (List.getElem?_eq_some_iff.mp hnode).1
  obtain ⟨buffer2, cache2, hbuf2, hcache2, hcase⟩ :=
    kd_rec_cases qsort scene depth tree result node_idx aabb node hnode h
  have eb : buffer2 = buffer := Option.some.inj (hbuf2.symm.trans hbuf)
  subst eb
  have ec : cache2 = cache := Option.some.inj (hcache2.symm.trans hcache)
  subst ec
  rcases hcase with ⟨hleaf, _⟩ | ⟨_, _, _, t, hl, hr⟩
  · exact absurd hleaf hs
  · generalize (kd_best qsort aabb cache2 buffer2.length).best_split = s at *
    generalize kd_parts aabb s buffer2 cache2 = parts at *
    obtain ⟨n1, n2, n3, n4, n5, n6, n7⟩ := kd_split_tree_nodes tree node_idx node
      (kd_axis aabb) s parts hlt
    generalize kd_split_tree tree node_idx node (kd_axis aabb) s parts = T1 at *
    have f12 : kd_frame T1 t tree.nodes.length tree.object_buffers.length := by
      split at hl
      · exact kd_rec_frame qsort scene depth T1 t tree.nodes.length _ _ n4 hl
      · rw [← Option.some.inj hl]
        exact kd_frame_refl _ _ _
    have hR : t.nodes[tree.nodes.length + 1]? =
        some ⟨0, true, 0, 0, tree.object_buffers.length + 1⟩ := by
      rw [f12.2.1 _ (by omega) (by omega), n5]
    have f23 : kd_frame t result (tree.nodes.length + 1)
        (tree.object_buffers.length + 1) := by
      split at hr
      · exact kd_rec_frame qsort scene depth t result (tree.nodes.length + 1) _ _ hR hr
      · rw [← Option.some.inj hr]
        exact kd_frame_refl _ _ _
    have hlen12 := f12.1
    have hlen23 := f23.1
    refine ⟨by omega, ?_⟩
    rw [f23.2.1 _ (by omega) (by omega), f12.2.1 _ (by omega) (by omega), n3]

/-- The one-triangle scene `lamp_scene`: its box and its candidate splits. -/
theorem lamp_scene_candidates :
    scene_aabb (scene_geometry lamp_scene) = lamp_box ∧
    kd_aabb_cache (scene_geometry lamp_scene)
      (kd_scene_refs 0 (scene_geometry lamp_scene).objects) = some [lamp_box] ∧
    kd_axis lamp_box = 0 ∧
    kd_candidates (fun _ l => l) 0 [lamp_box] 1 =
      [⟨-1 / 10000, 1, 1, 0, 1, 1⟩, ⟨1 + 1 / 10000, 1, 1, 1, 1, 1⟩] := by
  have hgeo : scene_geometry lamp_scene = ⟨[⟨[⟨⟨0, 0, 0⟩, ⟨1, 0, 0⟩, ⟨0, 1, 0⟩⟩]⟩]⟩ := rfl
  rw [hgeo]
  refine ⟨?_, ?_, ?_, ?_⟩
  · norm_num [scene_aabb, scene_triangles, lamp_box, terra_aabb_fit_triangle, empty_aabb,
      terra_f3_set1, terra_minf, terra_maxf, terra_Epsilon, FLT_MAX]
  · norm_num [kd_aabb_cache, kd_scene_refs, kd_object_refs, scene_triangle, lamp_box,
      terra_aabb_fit_triangle, empty_aabb, terra_f3_set1, terra_minf, terra_maxf,
      terra_Epsilon, FLT_MAX]
  · norm_num [kd_axis, lamp_box]
  · norm_num [kd_candidates, kd_collect_splits, terra_kdtree_add_splitbuffer,
      kd_count_splits, lamp_box, terra__comp]

/-- C31 (counterexample): the one-triangle scene `lamp_scene`.  `SAV` is
`0.5 / (x·z + x·y + z·y)`, the reciprocal of the surface area of the box, twice the
value `0.5 / area` of the statement.  With the stated `SAV` the candidate at the start of
the triangle would cost at most the triangle count 1, so the node would be split; the
code computes more than 1 for both candidates and leaves the root a leaf. -/
theorem kd_sav_is_reciprocal_area :
    kd_SAV lamp_box = 1 / terra_aabb_surface_area lamp_box ∧
    kd_SAV lamp_box ≠ (1 / 2) / terra_aabb_surface_area lamp_box ∧
    claimed_split_cost lamp_box 0 ⟨-1 / 10000, 1, 1, 0, 1, 1⟩ ≤ 1 ∧
    1 < kd_split_cost lamp_box 0 (kd_SAV lamp_box) ⟨-1 / 10000, 1, 1, 0, 1, 1⟩ ∧
    1 < kd_split_cost lamp_box 0 (kd_SAV lamp_box) ⟨1 + 1 / 10000, 1, 1, 1, 1, 1⟩ ∧
    terra_kdtree_create (fun _ l => l) (scene_geometry lamp_scene) =
      some { nodes := [⟨0, true, 0, 0, 0⟩],
             object_buffers := [kd_scene_refs 0 (scene_geometry lamp_scene).objects],
             scene_aabb := scene_aabb (scene_geometry lamp_scene) } := by
  refine ⟨kd_SAV_eq lamp_box, ?_, ?_, ?_, ?_, lamp_scene_kdtree⟩
  · norm_num [kd_SAV, terra_aabb_surface_area, lamp_box]
  · norm_num [claimed_split_cost, terra_aabb_surface_area, kd_left_aabb, kd_right_aabb,
      lamp_box, terra__comp_set]
  · norm_num [kd_split_cost, kd_SAV, lamp_box, terra__comp_set]
  · norm_num [kd_split_cost, kd_SAV, lamp_box, terra__comp_set]

/-- C31 (amended): in `terra_kdtree_create_rec`, for a node with its buffer and cached
boxes, `SAV` is `0.5 / (x·z + x·y + z·y) = 1 / (surface area of the node's box)`; the
cost of a candidate split is `0.32 + SAV · (A_left · L + A_right · R)` with the surface
areas of the two sub-boxes and the swept counts; the lowest cost is the minimum of
`FLT_MAX` and the costs of the candidates; when it exceeds the triangle count a call
with depth left returns the tree unchanged; otherwise a call that completes has
allocated two children and made the node internal with the chosen axis and split. -/
theorem kd_split_cost_and_leaf_rule
    (qsort : (TerraKDSplit → TerraKDSplit → Int) → List TerraKDSplit → List TerraKDSplit)
    (scene : TerraScene) (depth : Nat) (tree : TerraKDTree) (node_idx : Nat)
    (aabb : TerraAABB) (node : TerraKDNode) (buffer : List TerraKDObjectRef)
    (cache : List TerraAABB)
    (hnode : tree.nodes[node_idx]? = some node)
    (hbuf : tree.object_buffers[node.objects]? = some buffer)
    (hcache : kd_aabb_cache scene buffer = some cache) :
    kd_SAV aabb = 1 / terra_aabb_surface_area aabb ∧
    (∀ split : TerraKDSplit,
      kd_split_cost aabb (kd_axis aabb) (kd_SAV aabb) split =
        32 / 100 + kd_SAV aabb *
          (terra_aabb_surface_area (kd_left_aabb aabb (kd_axis aabb) split.offset) *
              (split.left_count : ℚ) +
            terra_aabb_surface_area (kd_right_aabb aabb (kd_axis aabb) split.offset) *
              (split.right_count : ℚ))) ∧
    (kd_best qsort aabb cache buffer.length).lowest_cost =
      ((kd_candidates qsort (kd_axis aabb) cache buffer.length).map
        (kd_split_cost aabb (kd_axis aabb) (kd_SAV aabb))).foldl min FLT_MAX ∧
    ((kd_best qsort aabb cache buffer.length).lowest_cost > (buffer.length : ℚ) →
      terra_kdtree_create_rec qsort scene (depth + 1) tree node_idx aabb = some tree) ∧
    (¬ (kd_best qsort aabb cache buffer.length).lowest_cost > (buffer.length : ℚ) →
      ∀ result : TerraKDTree,
        terra_kdtree_create_rec qsort scene (depth + 1) tree node_idx aabb = some result →
        tree.nodes.length + 2 ≤ result.nodes.length ∧
        result.nodes[node_idx]? =
          some { node with children := tree.nodes.length, is_leaf := false,
                           axis := kd_axis aabb,
                           split := (kd_best qsort aabb cache buffer.length).best_split }) :=
  ⟨kd_SAV_eq aabb, fun split => kd_split_cost_eq aabb _ _ split,
    kd_cost_loop_lowest aabb _ _ _ _,
    kd_rec_leaf qsort scene depth tree node_idx aabb node buffer cache hnode hbuf hcache,
    fun hs result h => kd_rec_split_node qsort scene depth tree result node_idx aabb node
      buffer cache hnode hbuf hcache hs h⟩

/-- Witness for C31 (amended): the root of `three_scene`, whose lowest cost is below its
triangle count 3, is split and gets the children 1 and 2. -/
theorem kd_split_cost_and_leaf_rule_witness :
    kd_SAV three_box = 1 / terra_aabb_surface_area three_box ∧
    (kd_best (fun _ l => l) three_box three_cache 3).lowest_cost =
      5323780556 / 2294625175 ∧
    ∃ result : TerraKDTree,
      terra_kdtree_create_rec (fun _ l => l) three_scene 20
        ⟨[⟨0, true, 0, 0, 0⟩], [kd_scene_refs 0 three_scene.objects], three_box⟩ 0
        three_box = some result ∧
      1 + 2 ≤ result.nodes.length ∧
      result.nodes[0]? = some ⟨19999 / 10000, false, 0, 1, 0⟩ := by
  have hrec := three_scene_kdtree
  unfold terra_kdtree_create at hrec
  rw [three_scene_aabb] at hrec
  obtain ⟨h1, _, _, _, h5⟩ := kd_split_cost_and_leaf_rule (fun _ l => l) three_scene 19
    ⟨[⟨0, true, 0, 0, 0⟩], [kd_scene_refs 0 three_scene.objects], three_box⟩ 0 three_box
    ⟨0, true, 0, 0, 0⟩ (kd_scene_refs 0 three_scene.objects) three_cache rfl rfl
    three_scene_cache
  have hlen : (kd_scene_refs 0 three_scene.objects).length = 3 := rfl
  rw [hlen] at h5
  have hs : ¬ (kd_best (fun _ l => l) three_box three_cache 3).lowest_cost > ((3 : Nat) : ℚ) := by
    rw [three_scene_best]; norm_num
  obtain ⟨a, b⟩ := h5 hs _ hrec
  refine ⟨h1, by rw [three_scene_best], _, hrec, a, ?_⟩
  rw [b, three_scene_best, three_scene_axis]
  rfl

/-! ## Runs in binary32 -/

/-- The constants of the binary32 model: `0.0001f` is `13743895 · 2^-37`, `FLT_MAX` is
itself a binary32 value, values from `2^128 - 2^103` on round to infinity, and the
`double` constant `0.00001` is `5902958103587057 · 2^-69`. -/
theorem binary32_constants :
    Binary32.terra_Epsilon = F32.fin false (13743895 / 2 ^ 37) ∧
    F32.ofRat FLT_MAX = F32.fin false FLT_MAX ∧
    F32.ofRat (2 ^ 128 - 2 ^ 103) = F32.inf false ∧
    F32.ofRat (1 / 2 ^ 150) = F32.fin false 0 ∧
    double_const (1 / 100000) = 5902958103587057 / 2 ^ 69 := by
  decide!

/-- C1 (counterexample): in binary32, the ray from the origin with direction
`(2^127, 1, 1)` and `inv_direction = (2^-127, 1, 1)`, the reciprocals, starts strictly
inside the box `[-2^-30, 2^-30] × [-1, 1] × [-1, 1]`; both products
`(∓2^-30 - 0) · 2^-127` underflow to zero, the x slab gives `tmin = tmax = 0`, the test
`tmax > max(tmin, 0)` fails and `terra_ray_aabb_intersection` returns false. -/
theorem ray_aabb_underflow_miss :
    Binary32.underflow_ray.origin = ⟨F32.fin false 0, F32.fin false 0, F32.fin false 0⟩ ∧
    Binary32.underflow_ray.direction =
      ⟨F32.fin false (2 ^ 127), F32.fin false 1, F32.fin false 1⟩ ∧
    Binary32.underflow_ray.inv_direction =
      ⟨F32.div (F32.ofRat 1) Binary32.underflow_ray.direction.x,
       F32.div (F32.ofRat 1) Binary32.underflow_ray.direction.y,
       F32.div (F32.ofRat 1) Binary32.underflow_ray.direction.z⟩ ∧
    Binary32.underflow_box =
      ⟨⟨F32.fin true (1 / 2 ^ 30), F32.fin true 1, F32.fin true 1⟩,
       ⟨F32.fin false (1 / 2 ^ 30), F32.fin false 1, F32.fin false 1⟩⟩ ∧
    F32.mul (F32.sub Binary32.underflow_box.min.x Binary32.underflow_ray.origin.x)
      Binary32.underflow_ray.inv_direction.x = F32.fin true 0 ∧
    F32.mul (F32.sub Binary32.underflow_box.max.x Binary32.underflow_ray.origin.x)
      Binary32.underflow_ray.inv_direction.x = F32.fin false 0 ∧
    Binary32.terra_ray_aabb_intersection Binary32.underflow_ray Binary32.underflow_box =
      none := by
  decide!

/-- C5 (counterexample): in binary32, for the zero-area triangle `A = 0`,
`B = (1234567, 2345678, 3456789)`, `C = 2 B` (all exactly representable, the exact
cross product of the edges is zero) and the ray from `(-2, -1, 0)` with direction
`(3, 3, 3)`, the rounded products leave the determinant `a = -2097152`, outside
`(-ε, ε)`; the guard does not reject, and `terra_ray_triangle_intersection` returns
true with `t = 1` and the point `(1, 2, 3)`. -/
theorem ray_triangle_collinear_hit :
    Binary32.collinear_triangle =
      ⟨⟨F32.fin false 0, F32.fin false 0, F32.fin false 0⟩,
       ⟨F32.fin false 1234567, F32.fin false 2345678, F32.fin false 3456789⟩,
       ⟨F32.fin false 2469134, F32.fin false 4691356, F32.fin false 6913578⟩⟩ ∧
    terra_crossf3 (terra_subf3 ⟨1234567, 2345678, 3456789⟩ ⟨0, 0, 0⟩)
      (terra_subf3 ⟨2469134, 4691356, 6913578⟩ ⟨0, 0, 0⟩) = ⟨0, 0, 0⟩ ∧
    Binary32.collinear_ray.origin = ⟨F32.fin true 2, F32.fin true 1, F32.fin false 0⟩ ∧
    Binary32.collinear_ray.direction = ⟨F32.fin false 3, F32.fin false 3, F32.fin false 3⟩ ∧
    Binary32.terra_dotf3
      (Binary32.terra_subf3 Binary32.collinear_triangle.b Binary32.collinear_triangle.a)
      (Binary32.terra_crossf3 Binary32.collinear_ray.direction
        (Binary32.terra_subf3 Binary32.collinear_triangle.c Binary32.collinear_triangle.a)) =
      F32.fin true 2097152 ∧
    Binary32.terra_ray_triangle_intersection Binary32.collinear_ray
        Binary32.collinear_triangle =
      some (⟨F32.fin false 1, F32.fin false 2, F32.fin false 3⟩, F32.fin false 1) := by
  decide!

/-- C6 (counterexample): in binary32, fitting the empty box to the triangle
`(4096, 0, 0) (4097, 0, 0) (4096, 1, 0)` leaves `min.x = 4096` and `max.x = 4097`:
`4096 - 0.0001f` and `4097 + 0.0001f` round back to `4096` and `4097`, so the box
does not strictly contain the vertices `A` and `B` on the x axis. -/
theorem fit_triangle_padding_lost :
    Binary32.far_flat_triangle =
      ⟨⟨F32.fin false 4096, F32.fin false 0, F32.fin false 0⟩,
       ⟨F32.fin false 4097, F32.fin false 0, F32.fin false 0⟩,
       ⟨F32.fin false 4096, F32.fin false 1, F32.fin false 0⟩⟩ ∧
    (Binary32.terra_aabb_fit_triangle Binary32.empty_aabb Binary32.far_flat_triangle).min.x =
      F32.fin false 4096 ∧
    (Binary32.terra_aabb_fit_triangle Binary32.empty_aabb Binary32.far_flat_triangle).max.x =
      F32.fin false 4097 ∧
    F32.lt
      (Binary32.terra_aabb_fit_triangle Binary32.empty_aabb Binary32.far_flat_triangle).min.x
      Binary32.far_flat_triangle.a.x = false ∧
    F32.lt Binary32.far_flat_triangle.b.x
      (Binary32.terra_aabb_fit_triangle Binary32.empty_aabb Binary32.far_flat_triangle).max.x =
      false := by
  decide!

end Terra
